import Mathlib

/-!
The virtio device back-end of vmd (usr.sbin/vmd/virtio.c).

A shallow embedding of the device paths of `virtio.c` and theorems about them.

Modelling conventions.

* Machine integers are natural numbers; a wrap is written `% 2 ^ w` at the
  place where the C type forces it (`uint16_t` ring indices, `size_t`
  subtraction, `off_t` offsets, `uint32_t` used lengths).
* Guest memory reached through `read_mem` / `write_mem` is a byte map indexed
  by guest-physical address, with a range predicate `mapped` that says when a
  copy succeeds.
* A vring is reached through the pinned host pointer `q_hva`.  The model keeps
  the typed view of the ring (descriptor table, avail ring, used ring) stored
  at each host pointer next to the byte map: payload buffers are taken not to
  overlap a ring, and the guest does not run while a device call is running.
* Host allocations (`malloc`, `calloc`) succeed.
* `fatalx` ends the process: outcome `fatal`.  Loops are written with a fuel
  argument; a loop that is still running when the fuel is used up gives
  outcome `diverge`.
* Constants and structure layouts that come from headers outside this file
  (`virtio.h`, `virtioreg.h`, `vioblkreg.h`) carry the values of the legacy
  virtio interface.
-/

namespace Vmd

/-! ## Constants -/

/-- Descriptor flag: the chain continues through `next`. -/
def VRING_DESC_F_NEXT : Nat := 1

/-- Descriptor flag: the buffer is written by the device. -/
def VRING_DESC_F_WRITE : Nat := 2

def VIORND_QUEUE_SIZE : Nat := 64
def VIORND_QUEUE_MASK : Nat := VIORND_QUEUE_SIZE - 1
def VIOBLK_QUEUE_SIZE : Nat := 128
def VIOBLK_QUEUE_MASK : Nat := VIOBLK_QUEUE_SIZE - 1
def VIONET_QUEUE_SIZE : Nat := 256
def VIONET_QUEUE_MASK : Nat := VIONET_QUEUE_SIZE - 1

/-- Largest raw transfer of the entropy device, `64 * 1024`. -/
def MAXPHYS : Nat := 64 * 1024

def VIRTIO_BLK_T_IN : Nat := 0
def VIRTIO_BLK_T_OUT : Nat := 1
def VIRTIO_BLK_T_FLUSH : Nat := 4
def VIRTIO_BLK_T_FLUSH_OUT : Nat := 5
def VIRTIO_BLK_T_GET_ID : Nat := 8

def VIRTIO_BLK_S_OK : Nat := 0
def VIRTIO_BLK_S_IOERR : Nat := 1
def VIRTIO_BLK_S_UNSUPP : Nat := 2

def VIRTIO_BLK_SECTOR_SIZE : Nat := 512

def VIRTIO_CONFIG_DEVICE_STATUS_DRIVER_OK : Nat := 4

def ETHER_HDR_LEN : Nat := 14

def RXQ : Nat := 0
def TXQ : Nat := 1

/-! ## Data model -/

/-- One entry of the descriptor table. -/
structure vring_desc where
  addr : Nat
  len : Nat
  flags : Nat
  next : Nat

/-- The available ring, written by the driver. -/
structure vring_avail where
  flags : Nat
  idx : Nat
  ring : Nat → Nat

/-- One entry of the used ring. -/
structure vring_used_elem where
  id : Nat
  len : Nat

/-- The used ring, written by the device. -/
structure vring_used where
  flags : Nat
  idx : Nat
  ring : Nat → vring_used_elem

/-- Typed view of the vring stored at a pinned host pointer. -/
structure Vring where
  desc : Nat → vring_desc
  avail : vring_avail
  used : vring_used

/-- Guest memory: payload bytes by guest-physical address, the ranges a copy
may touch, and the vring stored at each pinned host pointer.  The rings are
kept apart from `bytes`: a store into `bytes` never changes a ring, so the
model describes the code for device writes whose guest range does not meet the
ring of the queue. -/
structure GuestMem where
  bytes : Nat → Nat
  mapped : Nat → Nat → Bool
  vring : Nat → Vring

/-- The common register file of a legacy virtio device. -/
structure virtio_io_cfg where
  device_feature : Nat
  guest_feature : Nat
  queue_pfn : Nat
  queue_size : Nat
  queue_select : Nat
  queue_notify : Nat
  device_status : Nat
  isr_status : Nat

/-- Per-queue bookkeeping; `q_hva = 0` is the null pointer. -/
structure virtio_vq_info where
  q_gpa : Nat
  q_hva : Nat
  qs : Nat
  vq_availoffset : Nat
  vq_usedoffset : Nat
  last_avail : Nat
  notified_avail : Nat

/-- How a device call ends. -/
inductive Outcome (α : Type) where
  | ret : α → Outcome α
  | fatal : Outcome α
  | diverge : Outcome α

/-! ## Guest-memory gateway -/

/-- The bytes of the guest range `[src, src + len)`, or `none` when the range
is not mapped (`read_mem` returned an error). -/
def read_mem (g : GuestMem) (src len : Nat) : Option (List Nat) :=
  if g.mapped src len then some ((List.range len).map (fun i => g.bytes (src + i)))
  else none

/-- Copy `len` bytes of the host buffer `buf` to the guest range
`[dst, dst + len)`, or `none` when the range is not mapped.  Only `bytes`
changes: the range is taken to lie outside the rings. -/
def write_mem (g : GuestMem) (dst : Nat) (buf : List Nat) (len : Nat) : Option GuestMem :=
  if g.mapped dst len then
    some { g with bytes := fun a => if dst ≤ a ∧ a < dst + len then buf.getD (a - dst) 0 else g.bytes a }
  else none

/-- Store the ring `r` at host pointer `vr`. -/
def GuestMem.setVring (g : GuestMem) (vr : Nat) (r : Vring) : GuestMem :=
  { g with vring := fun p => if p = vr then r else g.vring p }

/-- The three stores that publish a used element: `used->ring[slot].id`,
`used->ring[slot].len` (a `uint32_t`), then `used->idx++` (a `uint16_t`). -/
def Vring.pushUsed (r : Vring) (slot id len : Nat) : Vring :=
  { r with used :=
      { r.used with
        ring := fun i => if i = slot then { id := id, len := len % 2 ^ 32 } else r.used.ring i
        idx := (r.used.idx + 1) % 2 ^ 16 } }

/-! ## Entropy device -/

/-- The entropy device. -/
structure viornd_dev where
  cfg : virtio_io_cfg
  vq : Nat → virtio_vq_info
  irq : Nat
  vm_id : Nat

/-- Queue notify of the entropy device; `rnd sz` stands for the `sz` bytes
that `arc4random_buf` produces.  The result is the return value, the device
and guest memory. -/
def viornd_notifyq (rnd : Nat → List Nat) (dev : viornd_dev) (g : GuestMem) :
    Outcome (Nat × viornd_dev × GuestMem) :=
  if dev.cfg.queue_notify > 0 then .ret (0, dev, g)
  else
    let vq_info := dev.vq dev.cfg.queue_notify
    let vr := vq_info.q_hva
    if vr = 0 then .fatal
    else
      let ring := g.vring vr
      let aidx := ring.avail.idx &&& VIORND_QUEUE_MASK
      let uidx := ring.used.idx &&& VIORND_QUEUE_MASK
      let dxx := ring.avail.ring aidx &&& VIORND_QUEUE_MASK
      let sz := (ring.desc dxx).len
      if sz > MAXPHYS then .fatal
      else
        let rnd_data := rnd sz
        match write_mem g (ring.desc dxx).addr rnd_data sz with
        | none => .ret (0, dev, g)
        | some g1 =>
          let dev1 := { dev with cfg := { dev.cfg with isr_status := 1 } }
          .ret (1, dev1, g1.setVring vr ((g1.vring vr).pushUsed uidx dxx sz))

/-! ## Block device -/

/-- Header of a block request, as laid out in guest memory: `type` (32 bit),
`ioprio` (32 bit), `sector` (64 bit), little-endian. -/
structure virtio_blk_req_hdr where
  type : Nat
  ioprio : Nat
  sector : Nat

/-- Little-endian value of a list of bytes. -/
def le_val : List Nat → Nat
  | [] => 0
  | b :: bs => b % 256 + 256 * le_val bs

/-- The request header held in the 16 bytes `bs`. -/
def decode_blk_req_hdr (bs : List Nat) : virtio_blk_req_hdr :=
  { type := le_val (bs.take 4)
    ioprio := le_val ((bs.drop 4).take 4)
    sector := le_val ((bs.drop 8).take 8) }

/-- Modelled from the spec: the storage back-end behind the `pread` / `pwrite`
function pointers (the format drivers are not part of this file).  `disk` is
the byte stored at each offset; `pread_ok len off` and `pwrite_ok len off` say
whether the call transfers all `len` bytes, anything else being an error in
this layer.  An offset is the 64-bit pattern of an `off_t`. -/
structure virtio_backing where
  disk : Nat → Nat
  pread_ok : Nat → Nat → Bool
  pwrite_ok : Nat → Nat → Bool

/-- A call `file->pread(p, buf, len, off)` that returns `len`: the bytes read. -/
def virtio_backing.pread (f : virtio_backing) (len off : Nat) : Option (List Nat) :=
  if f.pread_ok len off then some ((List.range len).map (fun i => f.disk (off + i)))
  else none

/-- A call `file->pwrite(p, buf, len, off)` that returns `len`: the new
back-end. -/
def virtio_backing.pwrite (f : virtio_backing) (buf : List Nat) (len off : Nat) :
    Option virtio_backing :=
  if f.pwrite_ok len off then
    some { f with disk := fun a => if off ≤ a ∧ a < off + len then buf.getD (a - off) 0 else f.disk a }
  else none

/-- A block device. -/
structure vioblk_dev where
  cfg : virtio_io_cfg
  vq : Nat → virtio_vq_info
  file : virtio_backing
  sz : Nat
  max_xfer : Nat
  irq : Nat
  vm_id : Nat

/-- Staging record of one transfer. -/
structure ioinfo where
  buf : List Nat
  len : Nat
  offset : Nat

/-- Set up a read of `sz` bytes at `sector`; `none` is the null return. -/
def vioblk_start_read (sector sz : Nat) : Option ioinfo :=
  if sz > 2 ^ 26 then none
  else some { buf := [], len := sz, offset := (sector * VIRTIO_BLK_SECTOR_SIZE) % 2 ^ 64 }

/-- Read the staged range from the back-end; `none` is the null return. -/
def vioblk_finish_read (file : virtio_backing) (info : ioinfo) : Option (List Nat) :=
  file.pread info.len info.offset

/-- Set up a write of the `len` guest bytes at `addr` to `sector`; `none` is
the null return. -/
def vioblk_start_write (g : GuestMem) (sector addr len : Nat) : Option ioinfo :=
  if len > 2 ^ 26 then none
  else
    match read_mem g addr len with
    | none => none
    | some buf => some { buf := buf, len := len, offset := (sector * VIRTIO_BLK_SECTOR_SIZE) % 2 ^ 64 }

/-- Write the staged bytes to the back-end; `none` is the return value `EIO`. -/
def vioblk_finish_write (file : virtio_backing) (info : ioinfo) : Option virtio_backing :=
  file.pwrite info.buf info.len info.offset

/-- The `do ... while` loop of a `VIRTIO_BLK_T_IN` request, entered at the data
descriptor `secdata_desc_idx`.  The result is the index of the descriptor the
loop stops at, or `none` for `goto out`, with guest memory. -/
def vioblk_notifyq_in_loop (dev : vioblk_dev) (vr sector : Nat) :
    Nat → GuestMem → Nat → Nat → Nat → Outcome (Option Nat × GuestMem)
  | 0, _, _, _, _ => .diverge
  | fuel + 1, g, secdata_desc_idx, cnt, secbias =>
    let secdata_desc := (g.vring vr).desc secdata_desc_idx
    if secdata_desc.flags &&& VRING_DESC_F_WRITE = 0 then .ret (none, g)
    else
      match vioblk_start_read ((sector + secbias) % 2 ^ 64) secdata_desc.len with
      | none => .ret (none, g)
      | some info =>
        match vioblk_finish_read dev.file info with
        | none => .ret (none, g)
        | some secdata =>
          match write_mem g secdata_desc.addr secdata secdata_desc.len with
          | none => .ret (none, g)
          | some g1 =>
            let secbias1 := secbias + secdata_desc.len / VIRTIO_BLK_SECTOR_SIZE
            let idx1 := secdata_desc.next &&& VIOBLK_QUEUE_MASK
            if cnt + 1 ≥ VIOBLK_QUEUE_SIZE then .ret (none, g1)
            else if ((g1.vring vr).desc idx1).flags &&& VRING_DESC_F_NEXT ≠ 0 then
              vioblk_notifyq_in_loop dev vr sector fuel g1 idx1 (cnt + 1) secbias1
            else .ret (some idx1, g1)

/-- The `do ... while` loop of a `VIRTIO_BLK_T_OUT` request.  The result is the
index of the descriptor the loop stops at, or `none` for `goto out`, with the
device (its back-end has changed). -/
def vioblk_notifyq_out_loop (g : GuestMem) (vr sector : Nat) :
    Nat → vioblk_dev → Nat → Nat → Nat → Outcome (Option Nat × vioblk_dev)
  | 0, _, _, _, _ => .diverge
  | fuel + 1, dev, secdata_desc_idx, cnt, secbias =>
    let secdata_desc := (g.vring vr).desc secdata_desc_idx
    if secdata_desc.flags &&& VRING_DESC_F_WRITE ≠ 0 then .ret (none, dev)
    else
      match vioblk_start_write g ((sector + secbias) % 2 ^ 64) secdata_desc.addr secdata_desc.len with
      | none => .ret (none, dev)
      | some info =>
        match vioblk_finish_write dev.file info with
        | none => .ret (none, dev)
        | some file1 =>
          let dev1 := { dev with file := file1 }
          let secbias1 := secbias + secdata_desc.len / VIRTIO_BLK_SECTOR_SIZE
          let idx1 := secdata_desc.next &&& VIOBLK_QUEUE_MASK
          if cnt + 1 ≥ VIOBLK_QUEUE_SIZE then .ret (none, dev1)
          else if ((g.vring vr).desc idx1).flags &&& VRING_DESC_F_NEXT ≠ 0 then
            vioblk_notifyq_out_loop g vr sector fuel dev1 idx1 (cnt + 1) secbias1
          else .ret (some idx1, dev1)

/-- The `switch (cmd.type)` of one request: the status descriptor index and
the status `ds` to report, or `none` for `goto out`, with the device and guest
memory. -/
def vioblk_notifyq_switch (fuel : Nat) (dev : vioblk_dev) (g : GuestMem) (vr : Nat)
    (cmd_desc : vring_desc) (cmd : virtio_blk_req_hdr) :
    Outcome (Option (Nat × Nat) × vioblk_dev × GuestMem) :=
  let desc := (g.vring vr).desc
  if cmd.type = VIRTIO_BLK_T_IN then
    let secdata_desc_idx := cmd_desc.next &&& VIOBLK_QUEUE_MASK
    if (desc secdata_desc_idx).flags &&& VRING_DESC_F_NEXT = 0 then .ret (none, dev, g)
    else
      match vioblk_notifyq_in_loop dev vr cmd.sector fuel g secdata_desc_idx 0 0 with
      | .ret (none, g1) => .ret (none, dev, g1)
      | .ret (some ds_desc_idx, g1) => .ret (some (ds_desc_idx, VIRTIO_BLK_S_OK), dev, g1)
      | .fatal => .fatal
      | .diverge => .diverge
  else if cmd.type = VIRTIO_BLK_T_OUT then
    let secdata_desc_idx := cmd_desc.next &&& VIOBLK_QUEUE_MASK
    if (desc secdata_desc_idx).flags &&& VRING_DESC_F_NEXT = 0 then .ret (none, dev, g)
    else if (desc secdata_desc_idx).len > dev.max_xfer then .ret (none, dev, g)
    else
      match vioblk_notifyq_out_loop g vr cmd.sector fuel dev secdata_desc_idx 0 0 with
      | .ret (none, dev1) => .ret (none, dev1, g)
      | .ret (some ds_desc_idx, dev1) => .ret (some (ds_desc_idx, VIRTIO_BLK_S_OK), dev1, g)
      | .fatal => .fatal
      | .diverge => .diverge
  else if cmd.type = VIRTIO_BLK_T_FLUSH ∨ cmd.type = VIRTIO_BLK_T_FLUSH_OUT then
    .ret (some (cmd_desc.next &&& VIOBLK_QUEUE_MASK, VIRTIO_BLK_S_UNSUPP), dev, g)
  else if cmd.type = VIRTIO_BLK_T_GET_ID then
    let secdata_desc_idx := cmd_desc.next &&& VIOBLK_QUEUE_MASK
    if (desc secdata_desc_idx).flags &&& VRING_DESC_F_NEXT = 0 then .ret (none, dev, g)
    else .ret (some ((desc secdata_desc_idx).next &&& VIOBLK_QUEUE_MASK, VIRTIO_BLK_S_UNSUPP), dev, g)
  else
    .ret (some (cmd_desc.next &&& VIOBLK_QUEUE_MASK, VIRTIO_BLK_S_UNSUPP), dev, g)

/-- One pass through the body of the `while` loop of `vioblk_notifyq`, for
the avail slot `idx`.  The flag of the result is `false` for `goto out` and
`true` when the body ran to its end. -/
def vioblk_notifyq_body (fuel : Nat) (dev : vioblk_dev) (g : GuestMem) (vr idx : Nat) :
    Outcome (Bool × vioblk_dev × GuestMem) :=
  let ring := g.vring vr
  let cmd_desc_idx := ring.avail.ring idx &&& VIOBLK_QUEUE_MASK
  let cmd_desc := ring.desc cmd_desc_idx
  if cmd_desc.flags &&& VRING_DESC_F_NEXT = 0 then .ret (false, dev, g)
  else if cmd_desc.flags &&& VRING_DESC_F_WRITE ≠ 0 then .ret (false, dev, g)
  else
    match read_mem g cmd_desc.addr 16 with
    | none => .ret (false, dev, g)
    | some bs =>
      match vioblk_notifyq_switch fuel dev g vr cmd_desc (decode_blk_req_hdr bs) with
      | .fatal => .fatal
      | .diverge => .diverge
      | .ret (none, dev1, g1) => .ret (false, dev1, g1)
      | .ret (some (ds_desc_idx, ds), dev1, g1) =>
        let ds_desc := (g1.vring vr).desc ds_desc_idx
        if ds_desc.flags &&& VRING_DESC_F_WRITE = 0 then .ret (false, dev1, g1)
        else
          match write_mem g1 ds_desc.addr [ds] 1 with
          | none => .ret (false, dev1, g1)
          | some g2 =>
            let ring2 := g2.vring vr
            let g3 := g2.setVring vr
              (ring2.pushUsed (ring2.used.idx &&& VIOBLK_QUEUE_MASK) cmd_desc_idx
                (ring2.desc cmd_desc_idx).len)
            let q := dev1.cfg.queue_notify
            let dev2 := { dev1 with
              cfg := { dev1.cfg with isr_status := 1 }
              vq := fun i => if i = q then
                  { dev1.vq q with last_avail := (g3.vring vr).avail.idx &&& VIOBLK_QUEUE_MASK }
                else dev1.vq i }
            .ret (true, dev2, g3)

/-- The `while (idx != (avail->idx & VIOBLK_QUEUE_MASK))` loop; every way out
of it returns 1. -/
def vioblk_notifyq_loop (bodyFuel : Nat) (vr : Nat) :
    Nat → vioblk_dev → GuestMem → Nat → Outcome (Nat × vioblk_dev × GuestMem)
  | 0, _, _, _ => .diverge
  | fuel + 1, dev, g, idx =>
    if idx ≠ (g.vring vr).avail.idx &&& VIOBLK_QUEUE_MASK then
      match vioblk_notifyq_body bodyFuel dev g vr idx with
      | .fatal => .fatal
      | .diverge => .diverge
      | .ret (false, dev1, g1) => .ret (1, dev1, g1)
      | .ret (true, dev1, g1) =>
        vioblk_notifyq_loop bodyFuel vr fuel dev1 g1 ((idx + 1) &&& VIOBLK_QUEUE_MASK)
    else .ret (1, dev, g)

/-- Queue notify of a block device.  The result is the return value, the
device and guest memory. -/
def vioblk_notifyq (fuel : Nat) (dev : vioblk_dev) (g : GuestMem) :
    Outcome (Nat × vioblk_dev × GuestMem) :=
  if dev.cfg.queue_notify > 0 then .ret (0, dev, g)
  else
    let vq_info := dev.vq dev.cfg.queue_notify
    let vr := vq_info.q_hva
    if vr = 0 then .fatal
    else
      let idx := vq_info.last_avail &&& VIOBLK_QUEUE_MASK
      if (g.vring vr).avail.idx &&& VIOBLK_QUEUE_MASK = idx then .ret (0, dev, g)
      else vioblk_notifyq_loop fuel vr fuel dev g idx

/-! ## Network device -/

/-- Size of `struct virtio_net_hdr`. -/
def sizeof_virtio_net_hdr : Nat := 12

/-- The bytes of a zeroed `struct virtio_net_hdr` whose 16-bit field `hdr_len`
(at byte 2) holds `hdr_sz`. -/
def virtio_net_hdr_bytes (hdr_sz : Nat) : List Nat :=
  [0, 0, hdr_sz % 256, hdr_sz / 256 % 256, 0, 0, 0, 0, 0, 0, 0, 0]

/-- Subtraction of two `size_t` values. -/
def size_sub (a b : Nat) : Nat := (a + (2 ^ 64 - b % 2 ^ 64)) % 2 ^ 64

/-- The value of an `int` given by its 32-bit pattern, converted to `size_t`. -/
def int_to_size (n : Nat) : Nat :=
  if n % 2 ^ 32 < 2 ^ 31 then n % 2 ^ 32 else n % 2 ^ 32 + (2 ^ 64 - 2 ^ 32)

/-- The value of `(int)n` for a `size_t` value `n`. -/
def size_to_int (n : Nat) : Int :=
  if n % 2 ^ 32 < 2 ^ 31 then ((n % 2 ^ 32 : Nat) : Int) else ((n % 2 ^ 32 : Nat) : Int) - 2 ^ 32

/-- Modelled from the spec: the host tap behind `dev->fd`.  `sent` lists the
buffers handed to `write`, oldest first; `write_ret buf` is the value `write`
returns for `buf`. -/
structure TapDev where
  sent : List (List Nat)
  write_ret : List Nat → Int

/-- A network device. -/
structure vionet_dev where
  cfg : virtio_io_cfg
  vq : Nat → virtio_vq_info
  fd : Nat
  mac : List Nat
  lockedmac : Nat
  islocal : Nat
  irq : Nat
  vm_id : Nat

/-- The `do ... while` chain walk of `vionet_enq_rx`.  The result is
`chain_len`, or `none` when the walk returns 0 from the function, with guest
memory. -/
def vionet_enq_rx_walk (vr : Nat) (pkt : List Nat) (sz hdr_sz : Nat) :
    Nat → GuestMem → Nat → Nat → Nat → Nat → Outcome (Option Nat × GuestMem)
  | 0, _, _, _, _, _ => .diverge
  | fuel + 1, g, dxx, bufsz, pkt_offset, chain_len =>
    let pkt_desc := (g.vring vr).desc dxx
    if pkt_desc.flags &&& VRING_DESC_F_WRITE = 0 then .ret (none, g)
    else
      let chunk0 := if size_sub sz bufsz > pkt_desc.len then pkt_desc.len else size_sub sz bufsz
      let off := if chain_len = 0 then hdr_sz else 0
      let chunk_size :=
        if chain_len = 0 ∧ chunk0 = pkt_desc.len then size_sub chunk0 off else chunk0
      let written :=
        if chunk_size ≠ 0 then
          write_mem g ((pkt_desc.addr + off) % 2 ^ 64) (pkt.drop pkt_offset) chunk_size
        else some g
      match written with
      | none => .ret (none, g)
      | some g1 =>
        let chain_len1 := (chain_len + chunk_size + off) % 2 ^ 64
        let bufsz1 := (bufsz + chunk_size) % 2 ^ 64
        let pkt_offset1 := (pkt_offset + chunk_size) % 2 ^ 64
        let dxx1 := pkt_desc.next &&& VIONET_QUEUE_MASK
        if bufsz1 < sz ∧ pkt_desc.flags &&& VRING_DESC_F_NEXT ≠ 0 then
          vionet_enq_rx_walk vr pkt sz hdr_sz fuel g1 dxx1 bufsz1 pkt_offset1 chain_len1
        else .ret (some chain_len1, g1)

/-- Enqueue the `sz` bytes at `pkt` on the receive queue.  `MIN_TXLEN` and
`MAX_TXLEN` stand for `VIONET_MIN_TXLEN` and `VIONET_MAX_TXLEN`.  The result is
the return value, `*spc`, the device and guest memory. -/
def vionet_enq_rx (MIN_TXLEN MAX_TXLEN : Nat) (fuel : Nat) (dev : vionet_dev) (g : GuestMem)
    (pkt : List Nat) (sz : Nat) (spc : Nat) : Outcome (Nat × Nat × vionet_dev × GuestMem) :=
  if sz < MIN_TXLEN ∨ sz > MAX_TXLEN then .ret (0, spc, dev, g)
  else
    let hdr_sz := sizeof_virtio_net_hdr
    if dev.cfg.device_status &&& VIRTIO_CONFIG_DEVICE_STATUS_DRIVER_OK = 0 then
      .ret (0, spc, dev, g)
    else
      let vq_info := dev.vq RXQ
      let vr := vq_info.q_hva
      if vr = 0 then .fatal
      else
        let idx := vq_info.last_avail &&& VIONET_QUEUE_MASK
        if vq_info.notified_avail &&& VIONET_QUEUE_MASK = idx then .ret (0, spc, dev, g)
        else
          let hdr_desc_idx := (g.vring vr).avail.ring idx &&& VIONET_QUEUE_MASK
          match vionet_enq_rx_walk vr pkt sz hdr_sz fuel g hdr_desc_idx 0 0 0 with
          | .fatal => .fatal
          | .diverge => .diverge
          | .ret (none, g1) => .ret (0, spc, dev, g1)
          | .ret (some chain_len, g1) =>
            let last_avail1 := (vq_info.last_avail + 1) &&& VIONET_QUEUE_MASK
            let dev1 := { dev with
              vq := fun i => if i = RXQ then { vq_info with last_avail := last_avail1 }
                else dev.vq i }
            match write_mem g1 ((g1.vring vr).desc hdr_desc_idx).addr
                (virtio_net_hdr_bytes hdr_sz) hdr_sz with
            | none => .ret (0, spc, dev1, g1)
            | some g2 =>
              let dev2 := { dev1 with cfg := { dev1.cfg with isr_status := 1 } }
              let spc1 := (vq_info.notified_avail + (2 ^ 32 - last_avail1)) % 2 ^ 32
                &&& VIONET_QUEUE_MASK
              let ring2 := g2.vring vr
              .ret (1, spc1, dev2, g2.setVring vr
                (ring2.pushUsed (ring2.used.idx &&& VIONET_QUEUE_MASK) hdr_desc_idx chain_len))

/-- The first `do ... while` loop of `vionet_notify_tx`, which adds up the
descriptor lengths of a chain.  The result is `pktsz` and the index `dxx` the
loop stops at, or `none` for `goto out`. -/
def vionet_notify_tx_sum (desc : Nat → vring_desc) :
    Nat → Nat → Nat → Nat → Outcome (Option (Nat × Nat))
  | 0, _, _, _ => .diverge
  | fuel + 1, dxx, pktsz, cnt =>
    let pktsz1 := (pktsz + (desc dxx).len) % 2 ^ 64
    let dxx1 := (desc dxx).next &&& VIONET_QUEUE_MASK
    if (cnt + 1) % 2 ^ 16 ≥ VIONET_QUEUE_SIZE then .ret none
    else if (desc dxx1).flags &&& VRING_DESC_F_NEXT ≠ 0 then
      vionet_notify_tx_sum desc fuel dxx1 pktsz1 ((cnt + 1) % 2 ^ 16)
    else .ret (some (pktsz1, dxx1))

/-- Store the first `n` bytes of `data` at offset `ofs` of a host buffer. -/
def host_store (buf : Nat → Nat) (ofs : Nat) (data : List Nat) (n : Nat) : Nat → Nat :=
  fun i => if ofs ≤ i ∧ i < ofs + n then data.getD (i - ofs) 0 else buf i

/-- The `while (pkt_desc->flags & VRING_DESC_F_NEXT)` loop of
`vionet_notify_tx`, which copies every descriptor but the last into the packet
buffer.  `ofs` is the 32-bit pattern of the `int`.  The result is the index of
the tail descriptor, `ofs` and the buffer, or `none` for `goto out`. -/
def vionet_notify_tx_copy (g : GuestMem) (desc : Nat → vring_desc) (pktsz : Nat) :
    Nat → Nat → Nat → (Nat → Nat) → Outcome (Option (Nat × Nat × (Nat → Nat)))
  | 0, _, _, _ => .diverge
  | fuel + 1, pkt_desc_idx, ofs, pkt =>
    let pkt_desc := desc pkt_desc_idx
    if pkt_desc.flags &&& VRING_DESC_F_NEXT ≠ 0 then
      if pkt_desc.flags &&& VRING_DESC_F_WRITE ≠ 0 then .ret none
      else
        let chunk_size :=
          if pkt_desc.len > size_sub pktsz (int_to_size ofs) then size_sub pktsz (int_to_size ofs)
          else pkt_desc.len
        match read_mem g pkt_desc.addr chunk_size with
        | none => .ret none
        | some data =>
          vionet_notify_tx_copy g desc pktsz fuel (pkt_desc.next &&& VIONET_QUEUE_MASK)
            ((ofs + pkt_desc.len) % 2 ^ 32) (host_store pkt (int_to_size ofs) data chunk_size)
    else .ret (some (pkt_desc_idx, ofs, pkt))

/-- What the transmit loop carries from one chain to the next. -/
structure TxState where
  dev : vionet_dev
  g : GuestMem
  tap : TapDev
  dhcpsz : Int
  dhcppkt : List Nat

/-- The statements at the label `drop_packet`: publish the used element for
the chain headed by `hdr_desc_idx` and move `last_avail`. -/
def vionet_notify_tx_drop_packet (s : TxState) (vr hdr_desc_idx : Nat) : TxState :=
  let ring := s.g.vring vr
  let g1 := s.g.setVring vr
    (ring.pushUsed (ring.used.idx &&& VIONET_QUEUE_MASK) hdr_desc_idx (ring.desc hdr_desc_idx).len)
  { s with
    g := g1
    dev := { s.dev with
      cfg := { s.dev.cfg with isr_status := 1 }
      vq := fun i => if i = TXQ then
          { s.dev.vq TXQ with last_avail := (g1.vring vr).avail.idx &&& VIONET_QUEUE_MASK }
        else s.dev.vq i } }

/-- One pass through the body of the `while` loop of `vionet_notify_tx`, for
the avail slot `idx`.  `dhcp_request pkt pktsz` stands for the local DHCP
responder: its return value and the reply it builds.  The flag of the result
is `false` for `goto out` and `true` when the body ran to its end. -/
def vionet_notify_tx_body (MIN_TXLEN MAX_TXLEN : Nat)
    (dhcp_request : List Nat → Nat → Int × List Nat) (fuel : Nat) (s : TxState) (vr idx : Nat) :
    Outcome (Bool × TxState) :=
  let desc := (s.g.vring vr).desc
  let hdr_desc_idx := (s.g.vring vr).avail.ring idx &&& VIONET_QUEUE_MASK
  let hdr_desc := desc hdr_desc_idx
  match vionet_notify_tx_sum desc fuel hdr_desc_idx 0 0 with
  | .fatal => .fatal
  | .diverge => .diverge
  | .ret none => .ret (false, s)
  | .ret (some (pktsz0, dxx)) =>
    let pktsz := size_sub ((pktsz0 + (desc dxx).len) % 2 ^ 64) hdr_desc.len
    if pktsz < MIN_TXLEN ∨ pktsz > MAX_TXLEN then
      .ret (true, vionet_notify_tx_drop_packet s vr hdr_desc_idx)
    else
      match vionet_notify_tx_copy s.g desc pktsz fuel (hdr_desc.next &&& VIONET_QUEUE_MASK) 0
          (fun _ => 0) with
      | .fatal => .fatal
      | .diverge => .diverge
      | .ret none => .ret (false, s)
      | .ret (some (pkt_desc_idx, ofs, pkt0)) =>
        let pkt_desc := desc pkt_desc_idx
        if pkt_desc.flags &&& VRING_DESC_F_WRITE ≠ 0 then .ret (false, s)
        else
          let room := size_sub pktsz (int_to_size ofs)
          let chunk_size := if pkt_desc.len > room then size_sub room pkt_desc.len else pkt_desc.len
          match read_mem s.g pkt_desc.addr chunk_size with
          | none => .ret (false, s)
          | some data =>
            let pkt1 := host_store pkt0 (int_to_size ofs) data chunk_size
            let pkt := (List.range pktsz).map pkt1
            if s.dev.lockedmac ≠ 0 ∧ pktsz ≥ ETHER_HDR_LEN ∧ (pkt.drop 6).take 6 ≠ s.dev.mac then
              .ret (true, vionet_notify_tx_drop_packet s vr hdr_desc_idx)
            else if s.dev.islocal ≠ 0 then
              let r := dhcp_request pkt pktsz
              let s1 := { s with dhcpsz := r.1, dhcppkt := r.2 }
              if r.1 ≠ -1 then .ret (true, vionet_notify_tx_drop_packet s1 vr hdr_desc_idx)
              else
                let s2 := { s1 with tap := { s1.tap with sent := s1.tap.sent ++ [pkt] } }
                if s1.tap.write_ret pkt ≠ size_to_int pktsz then .ret (false, s2)
                else .ret (true, vionet_notify_tx_drop_packet s2 vr hdr_desc_idx)
            else
              let s2 := { s with tap := { s.tap with sent := s.tap.sent ++ [pkt] } }
              if s.tap.write_ret pkt ≠ size_to_int pktsz then .ret (false, s2)
              else .ret (true, vionet_notify_tx_drop_packet s2 vr hdr_desc_idx)

/-- The `while ((avail->idx & VIONET_QUEUE_MASK) != idx)` loop of
`vionet_notify_tx`.  The flag of the result is `false` when the loop was left
through `goto out`. -/
def vionet_notify_tx_loop (MIN_TXLEN MAX_TXLEN : Nat)
    (dhcp_request : List Nat → Nat → Int × List Nat) (bodyFuel vr : Nat) :
    Nat → TxState → Nat → Outcome (Bool × TxState)
  | 0, _, _ => .diverge
  | fuel + 1, s, idx =>
    if (s.g.vring vr).avail.idx &&& VIONET_QUEUE_MASK ≠ idx then
      match vionet_notify_tx_body MIN_TXLEN MAX_TXLEN dhcp_request bodyFuel s vr idx with
      | .fatal => .fatal
      | .diverge => .diverge
      | .ret (false, s1) => .ret (false, s1)
      | .ret (true, s1) =>
        vionet_notify_tx_loop MIN_TXLEN MAX_TXLEN dhcp_request bodyFuel vr fuel s1
          ((idx + 1) &&& VIONET_QUEUE_MASK)
    else .ret (true, s)

/-- Queue notify of the transmit queue.  The result is the return value, the
device, guest memory and the tap. -/
def vionet_notify_tx (MIN_TXLEN MAX_TXLEN : Nat)
    (dhcp_request : List Nat → Nat → Int × List Nat) (fuel : Nat)
    (dev : vionet_dev) (g : GuestMem) (tap : TapDev) :
    Outcome (Nat × vionet_dev × GuestMem × TapDev) :=
  let vq_info := dev.vq TXQ
  let vr := vq_info.q_hva
  if vr = 0 then .fatal
  else
    let idx := vq_info.last_avail &&& VIONET_QUEUE_MASK
    if (g.vring vr).avail.idx &&& VIONET_QUEUE_MASK = idx then .ret (0, dev, g, tap)
    else
      let s0 : TxState := { dev := dev, g := g, tap := tap, dhcpsz := 0, dhcppkt := [] }
      match vionet_notify_tx_loop MIN_TXLEN MAX_TXLEN dhcp_request fuel vr fuel s0 idx with
      | .fatal => .fatal
      | .diverge => .diverge
      | .ret (false, s1) => .ret (1, s1.dev, s1.g, s1.tap)
      | .ret (true, s1) =>
        if s1.dhcpsz > 0 then
          match vionet_enq_rx MIN_TXLEN MAX_TXLEN fuel s1.dev s1.g s1.dhcppkt s1.dhcpsz.toNat 0 with
          | .fatal => .fatal
          | .diverge => .diverge
          | .ret (_, _, dev2, g2) => .ret (1, dev2, g2, s1.tap)
        else .ret (1, s1.dev, s1.g, s1.tap)


/-! ## Register file

Register offsets are those of the legacy virtio PCI header (`virtioreg.h`).
Modelled from the spec: the fields of `struct virtio_io_cfg` (declared in
`virtio.h`) are 32 bits wide, `isr_status` is one byte; a store of `*data`
keeps the low 32 bits. -/

def VIRTIO_CONFIG_DEVICE_FEATURES : Nat := 0
def VIRTIO_CONFIG_GUEST_FEATURES : Nat := 4
def VIRTIO_CONFIG_QUEUE_PFN : Nat := 8
def VIRTIO_CONFIG_QUEUE_SIZE : Nat := 12
def VIRTIO_CONFIG_QUEUE_SELECT : Nat := 14
def VIRTIO_CONFIG_QUEUE_NOTIFY : Nat := 16
def VIRTIO_CONFIG_DEVICE_STATUS : Nat := 18
def VIRTIO_CONFIG_ISR_STATUS : Nat := 19
def VIRTIO_CONFIG_DEVICE_CONFIG_NOMSI : Nat := 20

def VIRTIO_CONFIG_ISR_CONFIG_CHANGE : Nat := 2

def VIRTIO_PAGE_SIZE : Nat := 4096

def VIRTIO_BLK_F_SIZE_MAX : Nat := 2
def VIRTIO_NET_F_MAC : Nat := 32

/-- The macro `VIRTQUEUE_ALIGN`: round up to a multiple of the page size. -/
def VIRTQUEUE_ALIGN (n : Nat) : Nat :=
  (n + (VIRTIO_PAGE_SIZE - 1)) / VIRTIO_PAGE_SIZE * VIRTIO_PAGE_SIZE

/-- Size in bytes of a vring with `vq_size` entries; the three values are
`uint32_t`. -/
def vring_size (vq_size : Nat) : Nat :=
  let allocsize1 := VIRTQUEUE_ALIGN (16 * vq_size + 2 * (2 + vq_size)) % 2 ^ 32
  let allocsize2 := VIRTQUEUE_ALIGN (2 * 2 + 8 * vq_size) % 2 ^ 32
  (allocsize1 + allocsize2) % 2 ^ 32

/-- Modelled from the spec: `vcpu_assert_pic_irq` raises the interrupt line
`irq` of the VM (the interrupt controller is not part of this file); `pic i`
says whether line `i` is asserted. -/
def vcpu_assert_pic_irq (pic : Nat → Bool) (irq : Nat) : Nat → Bool :=
  fun i => if i = irq then true else pic i

/-- Modelled from the spec: `vcpu_deassert_pic_irq` lowers the interrupt line
`irq` of the VM. -/
def vcpu_deassert_pic_irq (pic : Nat → Bool) (irq : Nat) : Nat → Bool :=
  fun i => if i = irq then false else pic i

/-- What a register handler leaves behind: `*data`, `*intr`, the device, guest
memory and the interrupt lines. -/
structure io_result (δ : Type) where
  data : Nat
  intr : Nat
  dev : δ
  g : GuestMem
  pic : Nat → Bool

/-! ### Entropy device registers -/

/-- Update queue select. -/
def viornd_update_qs (dev : viornd_dev) : viornd_dev :=
  if dev.cfg.queue_select > 0 then { dev with cfg := { dev.cfg with queue_size := 0 } }
  else
    let vq_info := dev.vq dev.cfg.queue_select
    { dev with cfg := { dev.cfg with
        queue_pfn := (vq_info.q_gpa / 2 ^ 12) % 2 ^ 32
        queue_size := vq_info.qs % 2 ^ 32 } }

/-- Update queue address.  `hvaddr_mem gpa len` stands for the host pointer of
a guest range, 0 for the null pointer; `none` is the call of `fatal`. -/
def viornd_update_qa (hvaddr_mem : Nat → Nat → Nat) (dev : viornd_dev) : Option viornd_dev :=
  if dev.cfg.queue_select > 0 then some dev
  else
    let q := dev.cfg.queue_select
    let q_gpa := dev.cfg.queue_pfn * VIRTIO_PAGE_SIZE
    let hva := hvaddr_mem q_gpa (vring_size VIORND_QUEUE_SIZE)
    if hva = 0 then none
    else some { dev with
      vq := fun i => if i = q then { dev.vq q with q_gpa := q_gpa, q_hva := hva } else dev.vq i }

/-- Register handler of the entropy device; `dir = 0` is a write. -/
def virtio_rnd_io (rnd : Nat → List Nat) (hvaddr_mem : Nat → Nat → Nat)
    (dir reg data : Nat) (dev : viornd_dev) (g : GuestMem) (pic : Nat → Bool) :
    Outcome (io_result viornd_dev) :=
  let intr := 0xFF
  if dir = 0 then
    if reg = VIRTIO_CONFIG_DEVICE_FEATURES ∨ reg = VIRTIO_CONFIG_QUEUE_SIZE
        ∨ reg = VIRTIO_CONFIG_ISR_STATUS then
      .ret { data := data, intr := intr, dev := dev, g := g, pic := pic }
    else if reg = VIRTIO_CONFIG_GUEST_FEATURES then
      .ret { data := data, intr := intr, g := g, pic := pic
             dev := { dev with cfg := { dev.cfg with guest_feature := data % 2 ^ 32 } } }
    else if reg = VIRTIO_CONFIG_QUEUE_PFN then
      match viornd_update_qa hvaddr_mem
          { dev with cfg := { dev.cfg with queue_pfn := data % 2 ^ 32 } } with
      | none => .fatal
      | some dev1 => .ret { data := data, intr := intr, dev := dev1, g := g, pic := pic }
    else if reg = VIRTIO_CONFIG_QUEUE_SELECT then
      .ret { data := data, intr := intr, g := g, pic := pic
             dev := viornd_update_qs
               { dev with cfg := { dev.cfg with queue_select := data % 2 ^ 32 } } }
    else if reg = VIRTIO_CONFIG_QUEUE_NOTIFY then
      match viornd_notifyq rnd
          { dev with cfg := { dev.cfg with queue_notify := data % 2 ^ 32 } } g with
      | .fatal => .fatal
      | .diverge => .diverge
      | .ret (r, dev1, g1) =>
        .ret { data := data, intr := (if r ≠ 0 then 1 else intr), dev := dev1, g := g1, pic := pic }
    else if reg = VIRTIO_CONFIG_DEVICE_STATUS then
      .ret { data := data, intr := intr, g := g, pic := pic
             dev := { dev with cfg := { dev.cfg with device_status := data % 2 ^ 32 } } }
    else .ret { data := data, intr := intr, dev := dev, g := g, pic := pic }
  else
    if reg = VIRTIO_CONFIG_DEVICE_FEATURES then
      .ret { data := dev.cfg.device_feature, intr := intr, dev := dev, g := g, pic := pic }
    else if reg = VIRTIO_CONFIG_GUEST_FEATURES then
      .ret { data := dev.cfg.guest_feature, intr := intr, dev := dev, g := g, pic := pic }
    else if reg = VIRTIO_CONFIG_QUEUE_PFN then
      .ret { data := dev.cfg.queue_pfn, intr := intr, dev := dev, g := g, pic := pic }
    else if reg = VIRTIO_CONFIG_QUEUE_SIZE then
      .ret { data := dev.cfg.queue_size, intr := intr, dev := dev, g := g, pic := pic }
    else if reg = VIRTIO_CONFIG_QUEUE_SELECT then
      .ret { data := dev.cfg.queue_select, intr := intr, dev := dev, g := g, pic := pic }
    else if reg = VIRTIO_CONFIG_QUEUE_NOTIFY then
      .ret { data := dev.cfg.queue_notify, intr := intr, dev := dev, g := g, pic := pic }
    else if reg = VIRTIO_CONFIG_DEVICE_STATUS then
      .ret { data := dev.cfg.device_status, intr := intr, dev := dev, g := g, pic := pic }
    else if reg = VIRTIO_CONFIG_ISR_STATUS then
      .ret { data := dev.cfg.isr_status, intr := intr, g := g
             dev := { dev with cfg := { dev.cfg with isr_status := 0 } }
             pic := vcpu_deassert_pic_irq pic dev.irq }
    else .ret { data := data, intr := intr, dev := dev, g := g, pic := pic }

/-! ### Block device registers -/

/-- The two statements `*data &= 0xFFFFFF00; *data |= v & 0xFF`. -/
def store_low8 (data v : Nat) : Nat := (data &&& 0xFFFFFF00) ||| (v % 2 ^ 32 &&& 0xFF)

/-- The two statements `*data &= 0xFFFF0000; *data |= v & 0xFFFF`. -/
def store_low16 (data v : Nat) : Nat := (data &&& 0xFFFF0000) ||| (v % 2 ^ 32 &&& 0xFFFF)

/-- Update queue address of a block device; `none` is the call of `fatal`. -/
def vioblk_update_qa (hvaddr_mem : Nat → Nat → Nat) (dev : vioblk_dev) : Option vioblk_dev :=
  if dev.cfg.queue_select > 0 then some dev
  else
    let q := dev.cfg.queue_select
    let q_gpa := dev.cfg.queue_pfn * VIRTIO_PAGE_SIZE
    let hva := hvaddr_mem q_gpa (vring_size VIOBLK_QUEUE_SIZE)
    if hva = 0 then none
    else some { dev with
      vq := fun i => if i = q then { dev.vq q with q_gpa := q_gpa, q_hva := hva } else dev.vq i }

/-- Update queue select of a block device. -/
def vioblk_update_qs (dev : vioblk_dev) : vioblk_dev :=
  if dev.cfg.queue_select > 0 then { dev with cfg := { dev.cfg with queue_size := 0 } }
  else
    let vq_info := dev.vq dev.cfg.queue_select
    { dev with cfg := { dev.cfg with
        queue_pfn := (vq_info.q_gpa / 2 ^ 12) % 2 ^ 32
        queue_size := vq_info.qs % 2 ^ 32 } }

/-- The read half of `virtio_blk_io`: the new value of `*data`.  `dev.sz` is
the capacity in sectors. -/
def virtio_blk_io_read (reg data sz : Nat) (dev : vioblk_dev) : Nat :=
  if reg = VIRTIO_CONFIG_DEVICE_CONFIG_NOMSI then
    if sz = 4 then dev.sz % 2 ^ 32
    else if sz = 2 then store_low16 data dev.sz
    else if sz = 1 then store_low8 data dev.sz
    else data
  else if reg = VIRTIO_CONFIG_DEVICE_CONFIG_NOMSI + 1 then
    if sz = 1 then store_low8 data (dev.sz / 2 ^ 8) else data
  else if reg = VIRTIO_CONFIG_DEVICE_CONFIG_NOMSI + 2 then
    if sz = 1 then store_low8 data (dev.sz / 2 ^ 16)
    else if sz = 2 then store_low16 data (dev.sz / 2 ^ 16)
    else data
  else if reg = VIRTIO_CONFIG_DEVICE_CONFIG_NOMSI + 3 then
    if sz = 1 then store_low8 data (dev.sz / 2 ^ 24) else data
  else if reg = VIRTIO_CONFIG_DEVICE_CONFIG_NOMSI + 4 then
    if sz = 4 then (dev.sz / 2 ^ 32) % 2 ^ 32
    else if sz = 2 then store_low16 data (dev.sz / 2 ^ 32)
    else if sz = 1 then store_low8 data (dev.sz / 2 ^ 32)
    else data
  else if reg = VIRTIO_CONFIG_DEVICE_CONFIG_NOMSI + 5 then
    if sz = 1 then store_low8 data (dev.sz / 2 ^ 40) else data
  else if reg = VIRTIO_CONFIG_DEVICE_CONFIG_NOMSI + 6 then
    if sz = 1 then store_low8 data (dev.sz / 2 ^ 48)
    else if sz = 2 then store_low16 data (dev.sz / 2 ^ 48)
    else data
  else if reg = VIRTIO_CONFIG_DEVICE_CONFIG_NOMSI + 7 then
    if sz = 1 then store_low8 data (dev.sz / 2 ^ 56) else data
  else if reg = VIRTIO_CONFIG_DEVICE_CONFIG_NOMSI + 8 then
    if sz = 4 then dev.max_xfer % 2 ^ 32
    else if sz = 2 then store_low16 data dev.max_xfer
    else if sz = 1 then store_low8 data dev.max_xfer
    else data
  else if reg = VIRTIO_CONFIG_DEVICE_CONFIG_NOMSI + 9 then
    if sz = 1 then store_low8 data (dev.max_xfer % 2 ^ 32 / 2 ^ 8) else data
  else if reg = VIRTIO_CONFIG_DEVICE_CONFIG_NOMSI + 10 then
    if sz = 1 then store_low8 data (dev.max_xfer % 2 ^ 32 / 2 ^ 16)
    else if sz = 2 then store_low16 data (dev.max_xfer % 2 ^ 32 / 2 ^ 16)
    else data
  else if reg = VIRTIO_CONFIG_DEVICE_CONFIG_NOMSI + 11 then
    if sz = 1 then store_low8 data (dev.max_xfer % 2 ^ 32 / 2 ^ 24) else data
  else if reg = VIRTIO_CONFIG_DEVICE_FEATURES then dev.cfg.device_feature
  else if reg = VIRTIO_CONFIG_GUEST_FEATURES then dev.cfg.guest_feature
  else if reg = VIRTIO_CONFIG_QUEUE_PFN then dev.cfg.queue_pfn
  else if reg = VIRTIO_CONFIG_QUEUE_SIZE then
    if sz = 4 then dev.cfg.queue_size
    else if sz = 2 then (data &&& 0xFFFF0000) ||| (dev.cfg.queue_size % 2 ^ 16)
    else if sz = 1 then (data &&& 0xFFFFFF00) ||| (dev.cfg.queue_size % 2 ^ 8)
    else data
  else if reg = VIRTIO_CONFIG_QUEUE_SELECT then dev.cfg.queue_select
  else if reg = VIRTIO_CONFIG_QUEUE_NOTIFY then dev.cfg.queue_notify
  else if reg = VIRTIO_CONFIG_DEVICE_STATUS then
    if sz = 4 then dev.cfg.device_status
    else if sz = 2 then (data &&& 0xFFFF0000) ||| (dev.cfg.device_status % 2 ^ 16)
    else if sz = 1 then (data &&& 0xFFFFFF00) ||| (dev.cfg.device_status % 2 ^ 8)
    else data
  else if reg = VIRTIO_CONFIG_ISR_STATUS then dev.cfg.isr_status
  else data

/-- The statements of the branch `dev->cfg.device_status == 0` of
`virtio_blk_io` that change the device; `none` is the call of `fatal`. -/
def vioblk_reset (hvaddr_mem : Nat → Nat → Nat) (dev1 : vioblk_dev) : Option vioblk_dev :=
  let dev2 := { dev1 with cfg := { dev1.cfg with guest_feature := 0, queue_pfn := 0 } }
  match vioblk_update_qa hvaddr_mem dev2 with
  | none => none
  | some dev3 =>
    let dev4 := vioblk_update_qs { dev3 with cfg := { dev3.cfg with queue_size := 0 } }
    some { dev4 with
      cfg := { dev4.cfg with queue_select := 0, queue_notify := 0, isr_status := 0 }
      vq := fun i => if i = 0 then { dev4.vq 0 with last_avail := 0 } else dev4.vq i }

/-- Register handler of a block device; `dir = 0` is a write. -/
def virtio_blk_io (hvaddr_mem : Nat → Nat → Nat) (fuel : Nat)
    (dir reg data sz : Nat) (dev : vioblk_dev) (g : GuestMem) (pic : Nat → Bool) :
    Outcome (io_result vioblk_dev) :=
  let intr := 0xFF
  if dir = 0 then
    if reg = VIRTIO_CONFIG_DEVICE_FEATURES ∨ reg = VIRTIO_CONFIG_QUEUE_SIZE
        ∨ reg = VIRTIO_CONFIG_ISR_STATUS then
      .ret { data := data, intr := intr, dev := dev, g := g, pic := pic }
    else if reg = VIRTIO_CONFIG_GUEST_FEATURES then
      .ret { data := data, intr := intr, g := g, pic := pic
             dev := { dev with cfg := { dev.cfg with guest_feature := data % 2 ^ 32 } } }
    else if reg = VIRTIO_CONFIG_QUEUE_PFN then
      match vioblk_update_qa hvaddr_mem
          { dev with cfg := { dev.cfg with queue_pfn := data % 2 ^ 32 } } with
      | none => .fatal
      | some dev1 => .ret { data := data, intr := intr, dev := dev1, g := g, pic := pic }
    else if reg = VIRTIO_CONFIG_QUEUE_SELECT then
      .ret { data := data, intr := intr, g := g, pic := pic
             dev := vioblk_update_qs
               { dev with cfg := { dev.cfg with queue_select := data % 2 ^ 32 } } }
    else if reg = VIRTIO_CONFIG_QUEUE_NOTIFY then
      match vioblk_notifyq fuel
          { dev with cfg := { dev.cfg with queue_notify := data % 2 ^ 32 } } g with
      | .fatal => .fatal
      | .diverge => .diverge
      | .ret (r, dev1, g1) =>
        .ret { data := data, intr := (if r ≠ 0 then 1 else intr), dev := dev1, g := g1, pic := pic }
    else if reg = VIRTIO_CONFIG_DEVICE_STATUS then
      let dev1 := { dev with cfg := { dev.cfg with device_status := data % 2 ^ 32 } }
      if dev1.cfg.device_status = 0 then
        match vioblk_reset hvaddr_mem dev1 with
        | none => .fatal
        | some dev5 =>
          .ret { data := data, intr := intr, dev := dev5, g := g
                 pic := vcpu_deassert_pic_irq pic dev.irq }
      else .ret { data := data, intr := intr, dev := dev1, g := g, pic := pic }
    else .ret { data := data, intr := intr, dev := dev, g := g, pic := pic }
  else
    let data1 := virtio_blk_io_read reg data sz dev
    if reg = VIRTIO_CONFIG_ISR_STATUS then
      .ret { data := data1, intr := intr, g := g
             dev := { dev with cfg := { dev.cfg with isr_status := 0 } }
             pic := vcpu_deassert_pic_irq pic dev.irq }
    else .ret { data := data1, intr := intr, dev := dev, g := g, pic := pic }

/-! ### Network device: receive side and registers -/

/-- Size of the stack buffer of `vionet_rx`. -/
def PAGE_SIZE : Nat := 4096

/-- Notify of the receive queue.  `notified_avail` is a 16-bit field, as the
ring index it is computed from; `none` is the call of `fatalx`. -/
def vionet_notify_rx (dev : vionet_dev) (g : GuestMem) : Option vionet_dev :=
  let vq_info := dev.vq RXQ
  let vr := vq_info.q_hva
  if vr = 0 then none
  else
    some { dev with
      vq := fun i => if i = RXQ then
          { vq_info with
            notified_avail := ((g.vring vr).avail.idx % 2 ^ 16 + (2 ^ 16 - 1)) % 2 ^ 16 }
        else dev.vq i }

/-- Queue notify of a network device.  The result is the return value, the
device, guest memory and the tap. -/
def vionet_notifyq (MIN_TXLEN MAX_TXLEN : Nat)
    (dhcp_request : List Nat → Nat → Int × List Nat) (fuel : Nat)
    (dev : vionet_dev) (g : GuestMem) (tap : TapDev) :
    Outcome (Nat × vionet_dev × GuestMem × TapDev) :=
  if dev.cfg.queue_notify = RXQ then
    match vionet_notify_rx dev g with
    | none => .fatal
    | some dev1 => .ret (0, dev1, g, tap)
  else if dev.cfg.queue_notify = TXQ then
    vionet_notify_tx MIN_TXLEN MAX_TXLEN dhcp_request fuel dev g tap
  else .ret (0, dev, g, tap)

/-- The macro `ETHER_IS_MULTICAST` on the address at the start of `buf`. -/
def ETHER_IS_MULTICAST (buf : List Nat) : Bool := buf.getD 0 0 &&& 1 ≠ 0

/-- The `do ... while (spc > 0 && sz > 0)` loop of `vionet_rx`.  The list holds
what the next calls of `read(dev->fd, buf, sizeof(buf))` deliver: `none` for
the return value -1, `some frame` for a frame, of which `read` stores at most
`PAGE_SIZE` bytes at the start of `buf`; when the list is used up `read`
returns -1 (`EAGAIN`).  The result is `num_enq`, the device, guest memory and
the reads still pending. -/
def vionet_rx_loop (MIN_TXLEN MAX_TXLEN fuel : Nat) :
    List (Option (List Nat)) → vionet_dev → GuestMem → List Nat → Nat → Nat →
      Outcome (Nat × vionet_dev × GuestMem × List (Option (List Nat)))
  | [], dev, g, _, num_enq, _ => .ret (num_enq, dev, g, [])
  | none :: rest, dev, g, _, num_enq, _ => .ret (num_enq, dev, g, rest)
  | some frame :: rest, dev, g, buf, num_enq, spc =>
    let data := frame.take PAGE_SIZE
    let sz := data.length
    if sz > 0 then
      let buf1 := data ++ buf.drop sz
      if dev.lockedmac = 0 ∨ ETHER_IS_MULTICAST buf1 = true ∨ buf1.take 6 = dev.mac then
        match vionet_enq_rx MIN_TXLEN MAX_TXLEN fuel dev g buf1 sz spc with
        | .fatal => .fatal
        | .diverge => .diverge
        | .ret (r, spc1, dev1, g1) =>
          if spc1 > 0 then
            vionet_rx_loop MIN_TXLEN MAX_TXLEN fuel rest dev1 g1 buf1 (num_enq + r) spc1
          else .ret (num_enq + r, dev1, g1, rest)
      else if spc > 0 then
        vionet_rx_loop MIN_TXLEN MAX_TXLEN fuel rest dev g buf1 num_enq spc
      else .ret (num_enq, dev, g, rest)
    else .ret (num_enq, dev, g, rest)

/-- Enqueue data received on the tap; `buf` is the content of the stack buffer
on entry. -/
def vionet_rx (MIN_TXLEN MAX_TXLEN fuel : Nat) (reads : List (Option (List Nat)))
    (buf : List Nat) (dev : vionet_dev) (g : GuestMem) :
    Outcome (Nat × vionet_dev × GuestMem × List (Option (List Nat))) :=
  vionet_rx_loop MIN_TXLEN MAX_TXLEN fuel reads dev g buf 0 0

/-- Event handler of the tap: run `vionet_rx` and raise the interrupt line when
a frame was enqueued. -/
def vionet_rx_event (MIN_TXLEN MAX_TXLEN fuel : Nat) (reads : List (Option (List Nat)))
    (buf : List Nat) (dev : vionet_dev) (g : GuestMem) (pic : Nat → Bool) :
    Outcome (vionet_dev × GuestMem × (Nat → Bool) × List (Option (List Nat))) :=
  match vionet_rx MIN_TXLEN MAX_TXLEN fuel reads buf dev g with
  | .fatal => .fatal
  | .diverge => .diverge
  | .ret (n, dev1, g1, rest) =>
    .ret (dev1, g1, (if n > 0 then vcpu_assert_pic_irq pic dev1.irq else pic), rest)

/-- Update queue address of a network device; `none` is the call of `fatal`. -/
def vionet_update_qa (hvaddr_mem : Nat → Nat → Nat) (dev : vionet_dev) : Option vionet_dev :=
  if dev.cfg.queue_select > 1 then some dev
  else
    let q := dev.cfg.queue_select
    let q_gpa := dev.cfg.queue_pfn * VIRTIO_PAGE_SIZE
    let hva := hvaddr_mem q_gpa (vring_size VIONET_QUEUE_SIZE)
    if hva = 0 then none
    else some { dev with
      vq := fun i => if i = q then { dev.vq q with q_gpa := q_gpa, q_hva := hva } else dev.vq i }

/-- Update queue select of a network device. -/
def vionet_update_qs (dev : vionet_dev) : vionet_dev :=
  if dev.cfg.queue_select > 1 then { dev with cfg := { dev.cfg with queue_size := 0 } }
  else
    let vq_info := dev.vq dev.cfg.queue_select
    { dev with cfg := { dev.cfg with
        queue_pfn := (vq_info.q_gpa / 2 ^ 12) % 2 ^ 32
        queue_size := vq_info.qs % 2 ^ 32 } }

/-- What the register handler of a network device leaves behind. -/
structure net_io_result where
  data : Nat
  intr : Nat
  dev : vionet_dev
  g : GuestMem
  pic : Nat → Bool
  tap : TapDev

/-- The statements of the branch `dev->cfg.device_status == 0` of
`virtio_net_io` that change the device; `none` is the call of `fatal`. -/
def vionet_reset (hvaddr_mem : Nat → Nat → Nat) (dev1 : vionet_dev) : Option vionet_dev :=
  let dev2 := { dev1 with cfg := { dev1.cfg with guest_feature := 0, queue_pfn := 0 } }
  match vionet_update_qa hvaddr_mem dev2 with
  | none => none
  | some dev3 =>
    let dev4 := vionet_update_qs { dev3 with cfg := { dev3.cfg with queue_size := 0 } }
    some { dev4 with
      cfg := { dev4.cfg with queue_select := 0, queue_notify := 0, isr_status := 0 }
      vq := fun i =>
        if i = RXQ ∨ i = TXQ then { dev4.vq i with last_avail := 0, notified_avail := 0 }
        else dev4.vq i }

/-- Register handler of a network device; `dir = 0` is a write. -/
def virtio_net_io (MIN_TXLEN MAX_TXLEN : Nat)
    (dhcp_request : List Nat → Nat → Int × List Nat) (hvaddr_mem : Nat → Nat → Nat)
    (fuel : Nat) (dir reg data : Nat) (dev : vionet_dev) (g : GuestMem) (pic : Nat → Bool)
    (tap : TapDev) : Outcome net_io_result :=
  let intr := 0xFF
  if dir = 0 then
    if reg = VIRTIO_CONFIG_DEVICE_FEATURES ∨ reg = VIRTIO_CONFIG_QUEUE_SIZE
        ∨ reg = VIRTIO_CONFIG_ISR_STATUS then
      .ret { data := data, intr := intr, dev := dev, g := g, pic := pic, tap := tap }
    else if reg = VIRTIO_CONFIG_GUEST_FEATURES then
      .ret { data := data, intr := intr, g := g, pic := pic, tap := tap
             dev := { dev with cfg := { dev.cfg with guest_feature := data % 2 ^ 32 } } }
    else if reg = VIRTIO_CONFIG_QUEUE_PFN then
      match vionet_update_qa hvaddr_mem
          { dev with cfg := { dev.cfg with queue_pfn := data % 2 ^ 32 } } with
      | none => .fatal
      | some dev1 =>
        .ret { data := data, intr := intr, dev := dev1, g := g, pic := pic, tap := tap }
    else if reg = VIRTIO_CONFIG_QUEUE_SELECT then
      .ret { data := data, intr := intr, g := g, pic := pic, tap := tap
             dev := vionet_update_qs
               { dev with cfg := { dev.cfg with queue_select := data % 2 ^ 32 } } }
    else if reg = VIRTIO_CONFIG_QUEUE_NOTIFY then
      match vionet_notifyq MIN_TXLEN MAX_TXLEN dhcp_request fuel
          { dev with cfg := { dev.cfg with queue_notify := data % 2 ^ 32 } } g tap with
      | .fatal => .fatal
      | .diverge => .diverge
      | .ret (r, dev1, g1, tap1) =>
        .ret { data := data, intr := (if r ≠ 0 then 1 else intr), dev := dev1, g := g1
               pic := pic, tap := tap1 }
    else if reg = VIRTIO_CONFIG_DEVICE_STATUS then
      let dev1 := { dev with cfg := { dev.cfg with device_status := data % 2 ^ 32 } }
      if dev1.cfg.device_status = 0 then
        match vionet_reset hvaddr_mem dev1 with
        | none => .fatal
        | some dev5 =>
          .ret { data := data, intr := intr, dev := dev5, g := g
                 pic := vcpu_deassert_pic_irq pic dev.irq, tap := tap }
      else .ret { data := data, intr := intr, dev := dev1, g := g, pic := pic, tap := tap }
    else .ret { data := data, intr := intr, dev := dev, g := g, pic := pic, tap := tap }
  else
    if VIRTIO_CONFIG_DEVICE_CONFIG_NOMSI ≤ reg ∧ reg ≤ VIRTIO_CONFIG_DEVICE_CONFIG_NOMSI + 5 then
      .ret { data := dev.mac.getD (reg - VIRTIO_CONFIG_DEVICE_CONFIG_NOMSI) 0, intr := intr
             dev := dev, g := g, pic := pic, tap := tap }
    else if reg = VIRTIO_CONFIG_DEVICE_FEATURES then
      .ret { data := dev.cfg.device_feature, intr := intr, dev := dev, g := g, pic := pic
             tap := tap }
    else if reg = VIRTIO_CONFIG_GUEST_FEATURES then
      .ret { data := dev.cfg.guest_feature, intr := intr, dev := dev, g := g, pic := pic
             tap := tap }
    else if reg = VIRTIO_CONFIG_QUEUE_PFN then
      .ret { data := dev.cfg.queue_pfn, intr := intr, dev := dev, g := g, pic := pic, tap := tap }
    else if reg = VIRTIO_CONFIG_QUEUE_SIZE then
      .ret { data := dev.cfg.queue_size, intr := intr, dev := dev, g := g, pic := pic, tap := tap }
    else if reg = VIRTIO_CONFIG_QUEUE_SELECT then
      .ret { data := dev.cfg.queue_select, intr := intr, dev := dev, g := g, pic := pic
             tap := tap }
    else if reg = VIRTIO_CONFIG_QUEUE_NOTIFY then
      .ret { data := dev.cfg.queue_notify, intr := intr, dev := dev, g := g, pic := pic
             tap := tap }
    else if reg = VIRTIO_CONFIG_DEVICE_STATUS then
      .ret { data := dev.cfg.device_status, intr := intr, dev := dev, g := g, pic := pic
             tap := tap }
    else if reg = VIRTIO_CONFIG_ISR_STATUS then
      .ret { data := dev.cfg.isr_status, intr := intr, g := g, tap := tap
             dev := { dev with cfg := { dev.cfg with isr_status := 0 } }
             pic := vcpu_deassert_pic_irq pic dev.irq }
    else .ret { data := data, intr := intr, dev := dev, g := g, pic := pic, tap := tap }

/-! ### Control device -/

def VMMCI_NONE : Nat := 0
def VMMCI_SHUTDOWN : Nat := 1
def VMMCI_REBOOT : Nat := 2
def VMMCI_SYNCRTC : Nat := 3

/-- The control device.  `timeout` is the timer `vmmci.timeout`: `none` when it
is not pending, `some s` when it is armed to fire after `s` seconds.  `time` is
`vmmci.time`, the 64-bit patterns of `tv_sec` and `tv_usec`. -/
structure vmmci_dev where
  cfg : virtio_io_cfg
  cmd : Nat
  vm_id : Nat
  irq : Nat
  timeout : Option Nat
  time : Nat × Nat

/-- Acknowledgement of a command by the guest.  `TIMEOUT` and
`SHUTDOWN_TIMEOUT` stand for `VMMCI_TIMEOUT` and `VMMCI_SHUTDOWN_TIMEOUT`. -/
def vmmci_ack (TIMEOUT SHUTDOWN_TIMEOUT : Nat) (cmd : Nat) (dev : vmmci_dev) : vmmci_dev :=
  if cmd = VMMCI_NONE then dev
  else if cmd = VMMCI_SHUTDOWN ∧ dev.cmd = 0 then { dev with timeout := some TIMEOUT }
  else if cmd = VMMCI_SHUTDOWN ∨ cmd = VMMCI_REBOOT then
    if cmd = dev.cmd ∧ dev.timeout.isSome then { dev with timeout := some SHUTDOWN_TIMEOUT }
    else dev
  else if cmd = VMMCI_SYNCRTC then { dev with cmd := VMMCI_NONE }
  else dev

/-- Register handler of the control device; `dir = 0` is a write.  `now` is
what `gettimeofday` delivers. -/
def vmmci_io (TIMEOUT SHUTDOWN_TIMEOUT : Nat) (now : Nat × Nat)
    (dir reg data : Nat) (dev : vmmci_dev) (pic : Nat → Bool) :
    Nat × Nat × vmmci_dev × (Nat → Bool) :=
  let intr := 0xFF
  if dir = 0 then
    if reg = VIRTIO_CONFIG_DEVICE_FEATURES ∨ reg = VIRTIO_CONFIG_QUEUE_SIZE
        ∨ reg = VIRTIO_CONFIG_ISR_STATUS then (data, intr, dev, pic)
    else if reg = VIRTIO_CONFIG_GUEST_FEATURES then
      (data, intr, { dev with cfg := { dev.cfg with guest_feature := data % 2 ^ 32 } }, pic)
    else if reg = VIRTIO_CONFIG_QUEUE_PFN then
      (data, intr, { dev with cfg := { dev.cfg with queue_pfn := data % 2 ^ 32 } }, pic)
    else if reg = VIRTIO_CONFIG_QUEUE_SELECT then
      (data, intr, { dev with cfg := { dev.cfg with queue_select := data % 2 ^ 32 } }, pic)
    else if reg = VIRTIO_CONFIG_QUEUE_NOTIFY then
      (data, intr, { dev with cfg := { dev.cfg with queue_notify := data % 2 ^ 32 } }, pic)
    else if reg = VIRTIO_CONFIG_DEVICE_STATUS then
      (data, intr, { dev with cfg := { dev.cfg with device_status := data % 2 ^ 32 } }, pic)
    else if reg = VIRTIO_CONFIG_DEVICE_CONFIG_NOMSI then
      (data, intr, vmmci_ack TIMEOUT SHUTDOWN_TIMEOUT (data % 2 ^ 32) dev, pic)
    else (data, intr, dev, pic)
  else
    if reg = VIRTIO_CONFIG_DEVICE_CONFIG_NOMSI then (dev.cmd, intr, dev, pic)
    else if reg = VIRTIO_CONFIG_DEVICE_CONFIG_NOMSI + 4 then
      (now.1 % 2 ^ 32, intr, { dev with time := now }, pic)
    else if reg = VIRTIO_CONFIG_DEVICE_CONFIG_NOMSI + 8 then
      ((dev.time.1 * 2 ^ 32 % 2 ^ 64) % 2 ^ 32, intr, dev, pic)
    else if reg = VIRTIO_CONFIG_DEVICE_CONFIG_NOMSI + 12 then
      (dev.time.2 % 2 ^ 32, intr, dev, pic)
    else if reg = VIRTIO_CONFIG_DEVICE_CONFIG_NOMSI + 16 then
      ((dev.time.2 * 2 ^ 32 % 2 ^ 64) % 2 ^ 32, intr, dev, pic)
    else if reg = VIRTIO_CONFIG_DEVICE_FEATURES then (dev.cfg.device_feature, intr, dev, pic)
    else if reg = VIRTIO_CONFIG_GUEST_FEATURES then (dev.cfg.guest_feature, intr, dev, pic)
    else if reg = VIRTIO_CONFIG_QUEUE_PFN then (dev.cfg.queue_pfn, intr, dev, pic)
    else if reg = VIRTIO_CONFIG_QUEUE_SIZE then (dev.cfg.queue_size, intr, dev, pic)
    else if reg = VIRTIO_CONFIG_QUEUE_SELECT then (dev.cfg.queue_select, intr, dev, pic)
    else if reg = VIRTIO_CONFIG_QUEUE_NOTIFY then (dev.cfg.queue_notify, intr, dev, pic)
    else if reg = VIRTIO_CONFIG_DEVICE_STATUS then (dev.cfg.device_status, intr, dev, pic)
    else if reg = VIRTIO_CONFIG_ISR_STATUS then
      (dev.cfg.isr_status, intr, { dev with cfg := { dev.cfg with isr_status := 0 } },
        vcpu_deassert_pic_irq pic dev.irq)
    else (data, intr, dev, pic)

/-! ### Devices as `virtio_init` sets them up -/

/-- A block device right after `virtio_init`: all fields zero but the queue
geometry, the feature bit, `max_xfer`, the identifiers and the back-end. -/
def vioblk_init (file : virtio_backing) (sz irq vm_id : Nat) : vioblk_dev :=
  { cfg := { device_feature := VIRTIO_BLK_F_SIZE_MAX, guest_feature := 0, queue_pfn := 0,
             queue_size := 0, queue_select := 0, queue_notify := 0, device_status := 0,
             isr_status := 0 }
    vq := fun i =>
      if i = 0 then
        { q_gpa := 0, q_hva := 0, qs := VIOBLK_QUEUE_SIZE
          vq_availoffset := 16 * VIOBLK_QUEUE_SIZE
          vq_usedoffset := VIRTQUEUE_ALIGN (16 * VIOBLK_QUEUE_SIZE + 2 * (2 + VIOBLK_QUEUE_SIZE))
          last_avail := 0, notified_avail := 0 }
      else { q_gpa := 0, q_hva := 0, qs := 0, vq_availoffset := 0, vq_usedoffset := 0,
             last_avail := 0, notified_avail := 0 }
    file := file, sz := sz / 512, max_xfer := 1048576, irq := irq, vm_id := vm_id }


/-- The entropy device right after `virtio_init`: `memset` to zero, then the
geometry of queue 0 and the identifiers. -/
def viornd_init (irq vm_id : Nat) : viornd_dev :=
  { cfg := { device_feature := 0, guest_feature := 0, queue_pfn := 0, queue_size := 0,
             queue_select := 0, queue_notify := 0, device_status := 0, isr_status := 0 }
    vq := fun i =>
      if i = 0 then
        { q_gpa := 0, q_hva := 0, qs := VIORND_QUEUE_SIZE
          vq_availoffset := 16 * VIORND_QUEUE_SIZE
          vq_usedoffset := VIRTQUEUE_ALIGN (16 * VIORND_QUEUE_SIZE + 2 * (2 + VIORND_QUEUE_SIZE))
          last_avail := 0, notified_avail := 0 }
      else { q_gpa := 0, q_hva := 0, qs := 0, vq_availoffset := 0, vq_usedoffset := 0,
             last_avail := 0, notified_avail := 0 }
    irq := irq, vm_id := vm_id }

/-- A network device right after `virtio_init`: `calloc`, then the geometry of
the receive and the transmit queue, the feature bit, the address, the flags and
the identifiers. -/
def vionet_init (fd : Nat) (mac : List Nat) (lockedmac islocal irq vm_id : Nat) : vionet_dev :=
  { cfg := { device_feature := VIRTIO_NET_F_MAC, guest_feature := 0, queue_pfn := 0,
             queue_size := 0, queue_select := 0, queue_notify := 0, device_status := 0,
             isr_status := 0 }
    vq := fun i =>
      if i = RXQ ∨ i = TXQ then
        { q_gpa := 0, q_hva := 0, qs := VIONET_QUEUE_SIZE
          vq_availoffset := 16 * VIONET_QUEUE_SIZE
          vq_usedoffset := VIRTQUEUE_ALIGN (16 * VIONET_QUEUE_SIZE + 2 * (2 + VIONET_QUEUE_SIZE))
          last_avail := 0, notified_avail := 0 }
      else { q_gpa := 0, q_hva := 0, qs := 0, vq_availoffset := 0, vq_usedoffset := 0,
             last_avail := 0, notified_avail := 0 }
    fd := fd, mac := mac, lockedmac := lockedmac, islocal := islocal, irq := irq
    vm_id := vm_id }

/-! ### Control device: requests of the host -/

def VMMCI_F_SYNCRTC : Nat := 4

/-- What `vmmci_ctl` leaves behind: the return value, the local variable `cmd`
as it is at the return, the device and the interrupt lines. -/
structure vmmci_ctl_result where
  ret : Int
  cmd : Nat
  dev : vmmci_dev
  pic : Nat → Bool

/-- Request of the host to the guest.  `TIMEOUT` stands for `VMMCI_TIMEOUT`;
`none` is the call of `fatalx`.  In the branch of `VMMCI_SHUTDOWN` and
`VMMCI_REBOOT` the command is stored in the device first and the local
variable `cmd` is changed afterwards. -/
def vmmci_ctl (TIMEOUT : Nat) (cmd : Nat) (dev : vmmci_dev) (pic : Nat → Bool) :
    Option vmmci_ctl_result :=
  if dev.cfg.device_status &&& VIRTIO_CONFIG_DEVICE_STATUS_DRIVER_OK = 0 then
    some { ret := -1, cmd := cmd, dev := dev, pic := pic }
  else if cmd = dev.cmd then some { ret := 0, cmd := cmd, dev := dev, pic := pic }
  else if cmd = VMMCI_NONE then some { ret := 0, cmd := cmd, dev := dev, pic := pic }
  else if cmd = VMMCI_SHUTDOWN ∨ cmd = VMMCI_REBOOT then
    let dev1 := { dev with cmd := cmd }
    let cmd1 := if cmd = VMMCI_SHUTDOWN then VMMCI_REBOOT else cmd
    some { ret := 0, cmd := cmd1
           dev := { dev1 with
             cfg := { dev1.cfg with isr_status := VIRTIO_CONFIG_ISR_CONFIG_CHANGE }
             timeout := some TIMEOUT }
           pic := vcpu_assert_pic_irq pic dev.irq }
  else if cmd = VMMCI_SYNCRTC then
    if dev.cfg.guest_feature &&& VMMCI_F_SYNCRTC ≠ 0 then
      let dev1 := { dev with cmd := cmd }
      some { ret := 0, cmd := cmd
             dev := { dev1 with
               cfg := { dev1.cfg with isr_status := VIRTIO_CONFIG_ISR_CONFIG_CHANGE } }
             pic := vcpu_assert_pic_irq pic dev.irq }
    else some { ret := 0, cmd := cmd, dev := dev, pic := pic }
  else none

/-! ### Restore

`atomicio(read, fd, &dev, sizeof(dev))` fills the device struct with the bytes
of the stream.  The stream is the struct it carries, field by field (`none`
for a short read); `pci_set_bar_fn` succeeds or not; `pci_get_dev_irq` is a
parameter.  The result `none` is the return value -1. -/

/-- Restore of the entropy device. -/
def viornd_restore (blob : Option viornd_dev) (bar_ok : Bool) (pci_get_dev_irq vcp_id : Nat) :
    Option viornd_dev :=
  match blob with
  | none => none
  | some dev =>
    if bar_ok then some { dev with vm_id := vcp_id, irq := pci_get_dev_irq } else none

/-- The `for` loop of `vioblk_restore` from index `i` on.  `init_disk i` is what
`virtio_init_disk` delivers for disk `i`: the back-end and the size, or `none`
for -1; `pci_get_dev_irq i` is the interrupt line of device `i`. -/
def vioblk_restore_loop (bar_ok : Nat → Bool) (init_disk : Nat → Option (virtio_backing × Nat))
    (pci_get_dev_irq : Nat → Nat) (vcp_id : Nat) : Nat → List vioblk_dev → Option (List vioblk_dev)
  | _, [] => some []
  | i, dev :: rest =>
    if bar_ok i then
      match init_disk i with
      | none => none
      | some (file, sz) =>
        match vioblk_restore_loop bar_ok init_disk pci_get_dev_irq vcp_id (i + 1) rest with
        | none => none
        | some rest1 =>
          some ({ dev with file := file, sz := sz, vm_id := vcp_id, irq := pci_get_dev_irq i }
            :: rest1)
    else none

/-- Restore of the block devices. -/
def vioblk_restore (blob : Option (List vioblk_dev)) (bar_ok : Nat → Bool)
    (init_disk : Nat → Option (virtio_backing × Nat)) (pci_get_dev_irq : Nat → Nat)
    (vcp_id : Nat) : Option (List vioblk_dev) :=
  match blob with
  | none => none
  | some devs => vioblk_restore_loop bar_ok init_disk pci_get_dev_irq vcp_id 0 devs

/-- The `for` loop of `vionet_restore` from index `i` on.  `mutex_ok i` says
whether `pthread_mutex_init` returns 0, `child_taps i` is the tap of device
`i`. -/
def vionet_restore_loop (bar_ok mutex_ok : Nat → Bool) (child_taps pci_get_dev_irq : Nat → Nat)
    (vcp_id : Nat) : Nat → List vionet_dev → Option (List vionet_dev)
  | _, [] => some []
  | i, dev :: rest =>
    if bar_ok i then
      if mutex_ok i then
        match vionet_restore_loop bar_ok mutex_ok child_taps pci_get_dev_irq vcp_id (i + 1)
            rest with
        | none => none
        | some rest1 =>
          some ({ dev with fd := child_taps i, vm_id := vcp_id, irq := pci_get_dev_irq i }
            :: rest1)
      else none
    else none

/-- Restore of the network devices. -/
def vionet_restore (blob : Option (List vionet_dev)) (bar_ok mutex_ok : Nat → Bool)
    (child_taps pci_get_dev_irq : Nat → Nat) (vcp_id : Nat) : Option (List vionet_dev) :=
  match blob with
  | none => none
  | some devs => vionet_restore_loop bar_ok mutex_ok child_taps pci_get_dev_irq vcp_id 0 devs
/-! ## Descriptor chains -/

/-- Index of the descriptor reached from `start` by following `next`, masked
with `mask`, `n` times. -/
def chain_at (desc : Nat → vring_desc) (mask start : Nat) : Nat → Nat
  | 0 => start
  | n + 1 => (desc (chain_at desc mask start n)).next &&& mask

/-- The bytes of the guest buffer `[addr, addr + len)` of a descriptor. -/
def desc_buf (g : GuestMem) (d : vring_desc) : List Nat :=
  (List.range d.len).map (fun i => g.bytes (d.addr + i))

/-- Concatenation of the guest buffers of the `n` descriptors of the chain
that starts at index `start`, in chain order. -/
def chain_payload (g : GuestMem) (desc : Nat → vring_desc) (mask : Nat) : Nat → Nat → List Nat
  | _, 0 => []
  | start, n + 1 =>
    desc_buf g (desc start) ++ chain_payload g desc mask ((desc start).next &&& mask) n

/-- Sum of the lengths of the `n` descriptors of the chain that starts at
index `start`. -/
def chain_len_sum (desc : Nat → vring_desc) (mask : Nat) : Nat → Nat → Nat
  | _, 0 => 0
  | start, n + 1 => (desc start).len + chain_len_sum desc mask ((desc start).next &&& mask) n

/-! ## Block transfers as the specification words them -/

/-- The byte map `dst` after `len` bytes of `src`, taken from offset `src_off`
on, have been copied to `dst_off` and the following places. -/
def copy_range (src : Nat → Nat) (src_off dst_off len : Nat) (dst : Nat → Nat) : Nat → Nat :=
  fun a => if dst_off ≤ a ∧ a < dst_off + len then src (src_off + (a - dst_off)) else dst a

/-- The byte map `m` with the byte at `addr` set to `v`. -/
def set_byte (m : Nat → Nat) (addr v : Nat) : Nat → Nat :=
  fun a => if a = addr then v else m a

/-- Number of whole sectors covered by the `n` descriptors of the chain that
starts at index `start`: the sum of `len / 512`. -/
def chain_sectors (desc : Nat → vring_desc) (mask : Nat) : Nat → Nat → Nat
  | _, 0 => 0
  | start, n + 1 =>
    (desc start).len / VIRTIO_BLK_SECTOR_SIZE
      + chain_sectors desc mask ((desc start).next &&& mask) n

/-- Guest bytes after a read request as the specification describes it: for
each of the `n` data descriptors from index `start` on, `len` bytes of the
back-end at `(sector + sec_bias) * 512` are stored at the descriptor's
address, and `sec_bias` advances by `len / 512`. -/
def blk_in_transfer (disk : Nat → Nat) (desc : Nat → vring_desc) (sector : Nat) :
    Nat → Nat → Nat → (Nat → Nat) → Nat → Nat
  | 0, _, _, bytes => bytes
  | n + 1, start, sec_bias, bytes =>
    blk_in_transfer disk desc sector n ((desc start).next &&& VIOBLK_QUEUE_MASK)
      (sec_bias + (desc start).len / VIRTIO_BLK_SECTOR_SIZE)
      (copy_range disk ((sector + sec_bias) * VIRTIO_BLK_SECTOR_SIZE) (desc start).addr
        (desc start).len bytes)

/-- Back-end bytes after a write request as the specification describes it:
for each of the `n` data descriptors from index `start` on, the `len` guest
bytes at the descriptor's address are stored in the back-end at
`(sector + sec_bias) * 512`, and `sec_bias` advances by `len / 512`. -/
def blk_out_transfer (bytes : Nat → Nat) (desc : Nat → vring_desc) (sector : Nat) :
    Nat → Nat → Nat → (Nat → Nat) → Nat → Nat
  | 0, _, _, disk => disk
  | n + 1, start, sec_bias, disk =>
    blk_out_transfer bytes desc sector n ((desc start).next &&& VIOBLK_QUEUE_MASK)
      (sec_bias + (desc start).len / VIRTIO_BLK_SECTOR_SIZE)
      (copy_range bytes (desc start).addr ((sector + sec_bias) * VIRTIO_BLK_SECTOR_SIZE)
        (desc start).len disk)

/-- The request header stored in the 16 guest bytes at `addr`. -/
def blk_hdr_at (g : GuestMem) (addr : Nat) : virtio_blk_req_hdr :=
  decode_blk_req_hdr ((List.range 16).map (fun i => g.bytes (addr + i)))

/-- What a completed `VIRTIO_BLK_T_IN` (`rd = true`) or `VIRTIO_BLK_T_OUT`
(`rd = false`) request with `k` data descriptors at avail slot `idx` leaves
behind, going from device `dev` and guest memory `g` to `dev1` and `g1`:

* the `k` transfers of the specification have been made in chain order, from
  the back-end to the guest buffers for a read and from the guest buffers to
  the back-end for a write, the first at byte offset `sector * 512` and each
  next one `len / 512` sectors further;
* the status byte, at the address of descriptor number `k + 1` of the chain,
  holds `VIRTIO_BLK_S_OK`;
* one used element with the id of the head descriptor has been stored at
  slot `used.idx mod 128` and `used.idx` has been incremented;
* `isr_status` is 1. -/
def blk_request_done (rd : Bool) (dev : vioblk_dev) (g : GuestMem) (vr idx k : Nat)
    (dev1 : vioblk_dev) (g1 : GuestMem) : Prop :=
  let desc := (g.vring vr).desc
  let head := (g.vring vr).avail.ring idx &&& VIOBLK_QUEUE_MASK
  let sector := (blk_hdr_at g (desc head).addr).sector
  let first := chain_at desc VIOBLK_QUEUE_MASK head 1
  let status := desc (chain_at desc VIOBLK_QUEUE_MASK head (k + 1))
  g1.bytes = set_byte
      (if rd then blk_in_transfer dev.file.disk desc sector k first 0 g.bytes else g.bytes)
      status.addr VIRTIO_BLK_S_OK ∧
    dev1.file.disk =
      (if rd then dev.file.disk else blk_out_transfer g.bytes desc sector k first 0 dev.file.disk) ∧
    ((g1.vring vr).used.ring ((g.vring vr).used.idx &&& VIOBLK_QUEUE_MASK)).id = head ∧
    (g1.vring vr).used.idx = ((g.vring vr).used.idx + 1) % 2 ^ 16 ∧
    dev1.cfg.isr_status = 1


/-! ## States reachable from `virtio_init` -/

/-- The states of a block device that register accesses can produce from the
state `virtio_init` leaves: each step is one call of `virtio_blk_io` that
returns, with any guest memory, any interrupt lines and fuel enough for the
notify to run to its end. -/
inductive vioblk_reachable (hvaddr_mem : Nat → Nat → Nat) : vioblk_dev → Prop where
  | init (file : virtio_backing) (sz irq vm_id : Nat) :
      vioblk_reachable hvaddr_mem (vioblk_init file sz irq vm_id)
  | io (fuel dir reg data sz : Nat) (dev : vioblk_dev) (g : GuestMem) (pic : Nat → Bool)
      (r : io_result vioblk_dev) :
      vioblk_reachable hvaddr_mem dev → VIOBLK_QUEUE_SIZE ≤ fuel →
      virtio_blk_io hvaddr_mem fuel dir reg data sz dev g pic = .ret r →
      vioblk_reachable hvaddr_mem r.dev


/-! ## Byte ranges of a ring -/

/-- Modelled from the spec: the descriptor table of a ring is `qs` descriptors
of 16 bytes from offset 0 on; the result is the offset of the first byte after
it. -/
def vring_desc_end (vq : virtio_vq_info) : Nat := 16 * vq.qs

/-- Modelled from the spec: the avail ring is `flags`, `idx` and `qs` slots, 2
bytes each, from `vq_availoffset` on; the result is the offset of the first
byte after it. -/
def vring_avail_end (vq : virtio_vq_info) : Nat := vq.vq_availoffset + 2 * (2 + vq.qs)

/-- Modelled from the spec: the used ring is `flags` and `idx`, 2 bytes each,
and `qs` elements of 8 bytes, from `vq_usedoffset` on; the result is the offset
of the first byte after it. -/
def vring_used_end (vq : virtio_vq_info) : Nat := vq.vq_usedoffset + (2 * 2 + 8 * vq.qs)

/-- The guest range `[addr, addr + len)` lies outside the ring of `qs` entries
recorded at guest address `q_gpa`, which takes up `vring_size qs` bytes. -/
def off_ring (q_gpa qs addr len : Nat) : Prop :=
  addr + len ≤ q_gpa ∨ q_gpa + vring_size qs ≤ addr

instance off_ring_decidable (q_gpa qs addr len : Nat) : Decidable (off_ring q_gpa qs addr len) :=
  inferInstanceAs (Decidable (addr + len ≤ q_gpa ∨ q_gpa + vring_size qs ≤ addr))

/-! ## The data descriptors of a transmit chain -/

/-- Table index of data descriptor number `i` (from 0) of the transmit chain
headed by `h`: the descriptor reached from `desc[h].next` by `i` links. -/
def tx_data_idx (desc : Nat → vring_desc) (h i : Nat) : Nat :=
  chain_at desc VIONET_QUEUE_MASK ((desc h).next &&& VIONET_QUEUE_MASK) i

/-- Sum of the lengths of the first `i` data descriptors of the transmit chain
headed by `h`. -/
def tx_data_ofs (desc : Nat → vring_desc) (h i : Nat) : Nat :=
  chain_len_sum desc VIONET_QUEUE_MASK ((desc h).next &&& VIONET_QUEUE_MASK) i

/-- Concatenation of the guest buffers of the first `i` data descriptors of the
transmit chain headed by `h`. -/
def tx_data_payload (g : GuestMem) (desc : Nat → vring_desc) (h i : Nat) : List Nat :=
  chain_payload g desc VIONET_QUEUE_MASK ((desc h).next &&& VIONET_QUEUE_MASK) i

/-- The device may copy from descriptor `d`: it is not writable and its buffer
is mapped. -/
def tx_desc_ok (g : GuestMem) (d : vring_desc) : Prop :=
  d.flags &&& VRING_DESC_F_WRITE = 0 ∧ g.mapped d.addr d.len = true

instance tx_desc_ok_decidable (g : GuestMem) (d : vring_desc) : Decidable (tx_desc_ok g d) :=
  inferInstanceAs (Decidable (d.flags &&& VRING_DESC_F_WRITE = 0 ∧ g.mapped d.addr d.len = true))
/-! ## Concrete states -/

/-- A descriptor with all fields zero. -/
def zero_desc : vring_desc := { addr := 0, len := 0, flags := 0, next := 0 }

/-- A register file with all fields zero. -/
def zero_cfg : virtio_io_cfg :=
  { device_feature := 0, guest_feature := 0, queue_pfn := 0, queue_size := 0,
    queue_select := 0, queue_notify := 0, device_status := 0, isr_status := 0 }

/-- An empty used ring. -/
def zero_used : vring_used := { flags := 0, idx := 0, ring := fun _ => { id := 0, len := 0 } }

/-- Queue bookkeeping of a queue of size `qs` pinned at host pointer `hva`. -/
def pinned_vq (hva qs : Nat) : virtio_vq_info :=
  { q_gpa := 0x10000, q_hva := hva, qs := qs, vq_availoffset := 16 * qs, vq_usedoffset := 4096,
    last_avail := 0, notified_avail := 0 }

/-- Entropy stand-in: every byte is 7. -/
def rnd_sevens (n : Nat) : List Nat := List.replicate n 7

/-- The entropy device with its queue pinned at host pointer 1. -/
def rng_dev : viornd_dev :=
  { cfg := zero_cfg, vq := fun _ => pinned_vq 1 VIORND_QUEUE_SIZE, irq := 0, vm_id := 0 }

/-- The ring of the entropy scenario: `avail.ring[0] = 5`, `avail.idx = 1`,
`desc[5] = {0x1000, 16, WRITE, 0}`, everything else zero. -/
def rng_ring_scenario : Vring :=
  { desc := fun i => if i = 5 then { addr := 0x1000, len := 16, flags := 2, next := 0 } else zero_desc
    avail := { flags := 0, idx := 1, ring := fun i => if i = 0 then 5 else 0 }
    used := zero_used }

/-- Guest memory of the entropy scenario: all bytes zero, every range mapped. -/
def rng_mem_scenario : GuestMem :=
  { bytes := fun _ => 0, mapped := fun _ _ => true, vring := fun _ => rng_ring_scenario }

/-- A ring whose every avail slot names descriptor 5, a 16-byte buffer at
`0x1000` without the WRITE flag. -/
def rng_ring_readonly : Vring :=
  { desc := fun i => if i = 5 then { addr := 0x1000, len := 16, flags := 0, next := 0 } else zero_desc
    avail := { flags := 0, idx := 1, ring := fun _ => 5 }
    used := zero_used }

/-- Guest memory holding `rng_ring_readonly`. -/
def rng_mem_readonly : GuestMem :=
  { bytes := fun _ => 0, mapped := fun _ _ => true, vring := fun _ => rng_ring_readonly }

/-- A back-end whose byte at offset `a` is `a % 16` and whose calls succeed. -/
def disk_pattern : virtio_backing :=
  { disk := fun a => a % 16, pread_ok := fun _ _ => true, pwrite_ok := fun _ _ => true }

/-- A block device with its queue pinned at host pointer 1 and
`max_xfer = 1048576`. -/
def blk_dev (file : virtio_backing) : vioblk_dev :=
  { cfg := zero_cfg, vq := fun _ => pinned_vq 1 VIOBLK_QUEUE_SIZE, file := file, sz := 2048,
    max_xfer := 1048576, irq := 0, vm_id := 0 }

/-- A three-descriptor request at avail slot 0: header `desc[0]` (16 bytes at
`0x100`), data `desc[1]` (`len` bytes at `0x100000` with flags `dflags`),
status `desc[2]` (one writable byte at `0x2000`). -/
def blk_ring_request (len dflags : Nat) : Vring :=
  { desc := fun i =>
      if i = 0 then { addr := 0x100, len := 16, flags := 1, next := 1 }
      else if i = 1 then { addr := 0x100000, len := len, flags := dflags, next := 2 }
      else if i = 2 then { addr := 0x2000, len := 1, flags := 2, next := 0 }
      else zero_desc
    avail := { flags := 0, idx := 1, ring := fun _ => 0 }
    used := zero_used }

/-- Guest memory for `blk_ring_request`: the header at `0x100` has type `ty`
and sector 0, the data buffer holds `0xAB`, the status byte holds `0xFF`. -/
def blk_mem_request (ty len dflags : Nat) : GuestMem :=
  { bytes := fun a =>
      if a = 0x100 then ty else if a = 0x2000 then 0xFF
      else if 0x100000 ≤ a then 0xAB else 0
    mapped := fun _ _ => true
    vring := fun _ => blk_ring_request len dflags }

/-- Two pending requests: slot 0 holds a flush request (header `desc[0]`,
status `desc[1]`), slot 1 names `desc[3]`, a header without the NEXT flag. -/
def blk_ring_two_requests : Vring :=
  { desc := fun i =>
      if i = 0 then { addr := 0x100, len := 16, flags := 1, next := 1 }
      else if i = 1 then { addr := 0x2000, len := 1, flags := 2, next := 0 }
      else if i = 3 then { addr := 0x100, len := 16, flags := 0, next := 0 }
      else zero_desc
    avail := { flags := 0, idx := 2, ring := fun i => if i = 1 then 3 else 0 }
    used := zero_used }

/-- Guest memory for `blk_ring_two_requests`; the header at `0x100` has type
`VIRTIO_BLK_T_FLUSH`. -/
def blk_mem_two_requests : GuestMem :=
  { bytes := fun a => if a = 0x100 then 4 else if a = 0x2000 then 0xFF else 0
    mapped := fun _ _ => true
    vring := fun _ => blk_ring_two_requests }

/-- A network device in DRIVER_OK: receive queue pinned at host pointer 1 with
one notified chain, transmit queue pinned at host pointer 2. -/
def net_dev (islocal : Nat) : vionet_dev :=
  { cfg := { zero_cfg with device_status := 4 }
    vq := fun i =>
      if i = RXQ then { pinned_vq 1 VIONET_QUEUE_SIZE with notified_avail := 1 }
      else pinned_vq 2 VIONET_QUEUE_SIZE
    fd := 3, mac := [2, 0, 0, 0, 0, 1], lockedmac := 0, islocal := islocal, irq := 0, vm_id := 0 }

/-- A 60-byte frame, every byte `0xAA`. -/
def frame60 : List Nat := List.replicate 60 0xAA

/-- A receive ring whose chain is the single writable 64-byte buffer
`desc[0]` at `0x1000`. -/
def rx_ring_one_buf : Vring :=
  { desc := fun i => if i = 0 then { addr := 0x1000, len := 64, flags := 2, next := 0 } else zero_desc
    avail := { flags := 0, idx := 1, ring := fun _ => 0 }
    used := zero_used }

/-- A receive ring whose chain is two writable 64-byte buffers, `desc[0]` at
`0x1000` and `desc[1]` at `0x3000`. -/
def rx_ring_two_bufs : Vring :=
  { desc := fun i =>
      if i = 0 then { addr := 0x1000, len := 64, flags := 3, next := 1 }
      else if i = 1 then { addr := 0x3000, len := 64, flags := 2, next := 0 }
      else zero_desc
    avail := { flags := 0, idx := 1, ring := fun _ => 0 }
    used := zero_used }

/-- A receive ring whose chain is a writable 12-byte buffer `desc[0]` followed
by the writable zero-length descriptor `desc[1]`, whose `next` is itself. -/
def rx_ring_zero_len_cycle : Vring :=
  { desc := fun i =>
      if i = 0 then { addr := 0x1000, len := 12, flags := 3, next := 1 }
      else if i = 1 then { addr := 0x3000, len := 0, flags := 3, next := 1 }
      else zero_desc
    avail := { flags := 0, idx := 1, ring := fun _ => 0 }
    used := zero_used }

/-- Guest memory with all bytes zero, every range mapped and `r` stored at
every host pointer. -/
def mem_with_ring (r : Vring) : GuestMem :=
  { bytes := fun _ => 0, mapped := fun _ _ => true, vring := fun _ => r }

/-- A transmit ring with one pending chain: header `desc[0]` (12 bytes at
`0x500`), data `desc[1]` (10 bytes at `0x1000`) and data `desc[2]` (6 bytes at
`0x3000`). -/
def tx_ring_frame : Vring :=
  { desc := fun i =>
      if i = 0 then { addr := 0x500, len := 12, flags := 1, next := 1 }
      else if i = 1 then { addr := 0x1000, len := 10, flags := 1, next := 2 }
      else if i = 2 then { addr := 0x3000, len := 6, flags := 0, next := 0 }
      else zero_desc
    avail := { flags := 0, idx := 1, ring := fun _ => 0 }
    used := zero_used }

/-- Guest memory holding `tx_ring_frame`; the byte at address `a` is
`a % 256`. -/
def tx_mem_frame : GuestMem :=
  { bytes := fun a => a % 256, mapped := fun _ _ => true, vring := fun _ => tx_ring_frame }

/-- A tap that has seen no write yet and takes every buffer whole. -/
def tap_accepting : TapDev := { sent := [], write_ret := fun buf => (buf.length : Int) }

/-- A responder that recognises no frame. -/
def dhcp_none : List Nat → Nat → Int × List Nat := fun _ _ => (-1, [])

/-- The loop state at the start of a transmit notify. -/
def tx_start (dev : vionet_dev) (g : GuestMem) (tap : TapDev) : TxState :=
  { dev := dev, g := g, tap := tap, dhcpsz := 0, dhcppkt := [] }

/-- A transmit ring with one pending chain: header `desc[0]` (12 bytes at
`0x500`) and one data descriptor `desc[1]` (60 bytes at `0x1000`). -/
def tx_ring_request : Vring :=
  { desc := fun i =>
      if i = 0 then { addr := 0x500, len := 12, flags := 1, next := 1 }
      else if i = 1 then { addr := 0x1000, len := 60, flags := 0, next := 0 }
      else zero_desc
    avail := { flags := 0, idx := 1, ring := fun _ => 0 }
    used := zero_used }

/-- Guest memory of a local interface: the transmit ring `tx_ring_request` at
host pointer 2, the receive ring `rx_ring_zero_len_cycle` at host pointer 1. -/
def mem_local_reply : GuestMem :=
  { bytes := fun _ => 0, mapped := fun _ _ => true
    vring := fun p => if p = 2 then tx_ring_request else rx_ring_zero_len_cycle }

/-- A responder that answers every frame with the 60-byte reply `frame60`. -/
def dhcp_reply : List Nat → Nat → Int × List Nat := fun _ _ => (60, frame60)

/-- A block ring whose data chain is a cycle: header `desc[0]`, then the
writable data descriptor `desc[1]` whose `next` is itself. -/
def blk_ring_cycle : Vring :=
  { desc := fun i =>
      if i = 0 then { addr := 0x100, len := 16, flags := 1, next := 1 }
      else if i = 1 then { addr := 0x100000, len := 512, flags := 3, next := 1 }
      else zero_desc
    avail := { flags := 0, idx := 1, ring := fun _ => 0 }
    used := zero_used }

/-- A transmit ring whose chain is a cycle: `desc[0]` carries the NEXT flag
and its `next` is itself. -/
def tx_ring_cycle : Vring :=
  { desc := fun i =>
      if i = 0 then { addr := 0x500, len := 12, flags := 1, next := 0 } else zero_desc
    avail := { flags := 0, idx := 1, ring := fun _ => 0 }
    used := zero_used }

/-- The loop state after the transmit pass over `mem_local_reply`: the used
element is published and the reply of `dhcp_reply` is pending. -/
def tx_state_reply_pending : TxState :=
  vionet_notify_tx_drop_packet
    { tx_start (net_dev 1) mem_local_reply tap_accepting with dhcpsz := 60, dhcppkt := frame60 } 2 0

/-! ## Concrete states, continued -/

/-- A four-descriptor read request at avail slot 0: header `desc[0]` (16 bytes
at `0x100`), writable data `desc[1]` (`len1` bytes at `0x100000`), writable data
`desc[2]` (`len2` bytes at `0x4100000`), status `desc[3]` (one writable byte at
`0x2000`). -/
def blk_ring_two_data (len1 len2 : Nat) : Vring :=
  { desc := fun i =>
      if i = 0 then { addr := 0x100, len := 16, flags := 1, next := 1 }
      else if i = 1 then { addr := 0x100000, len := len1, flags := 3, next := 2 }
      else if i = 2 then { addr := 0x4100000, len := len2, flags := 3, next := 3 }
      else if i = 3 then { addr := 0x2000, len := 1, flags := 2, next := 0 }
      else zero_desc
    avail := { flags := 0, idx := 1, ring := fun _ => 0 }
    used := zero_used }

/-- Guest memory for `blk_ring_two_data`: the header at `0x100` has type
`VIRTIO_BLK_T_IN` and sector 0, the data buffers hold `0xAB`, the status byte
holds `0xFF`. -/
def blk_mem_two_data (len1 len2 : Nat) : GuestMem :=
  { bytes := fun a =>
      if a = 0x2000 then 0xFF else if 0x100000 ≤ a then 0xAB else 0
    mapped := fun _ _ => true
    vring := fun _ => blk_ring_two_data len1 len2 }

/-- A flush request at avail slot 0: header `desc[0]` (16 bytes at `0x100`)
directly followed by the status `desc[1]` (one writable byte at `0x2000`). -/
def blk_ring_flush : Vring :=
  { desc := fun i =>
      if i = 0 then { addr := 0x100, len := 16, flags := 1, next := 1 }
      else if i = 1 then { addr := 0x2000, len := 1, flags := 2, next := 0 }
      else zero_desc
    avail := { flags := 0, idx := 1, ring := fun _ => 0 }
    used := zero_used }

/-- A network device in DRIVER_OK as it is before any notify: both queues
pinned (receive at host pointer 1, transmit at 2), `last_avail` and
`notified_avail` zero. -/
def net_dev_fresh (lockedmac : Nat) : vionet_dev :=
  { cfg := { zero_cfg with device_status := 4 }
    vq := fun i => if i = RXQ then pinned_vq 1 VIONET_QUEUE_SIZE else pinned_vq 2 VIONET_QUEUE_SIZE
    fd := 3, mac := [2, 0, 0, 0, 0, 1], lockedmac := lockedmac, islocal := 0, irq := 5
    vm_id := 0 }

/-- A receive ring whose chain is the single writable 32-byte buffer `desc[0]`
at `0x1000`. -/
def rx_ring_small_buf : Vring :=
  { desc := fun i => if i = 0 then { addr := 0x1000, len := 32, flags := 2, next := 0 } else zero_desc
    avail := { flags := 0, idx := 1, ring := fun _ => 0 }
    used := zero_used }

/-- A transmit ring whose pending chain is the single descriptor `desc[0]`
(17 bytes at `0x500`, no NEXT flag, `next = 1`); `desc[1]` (60 bytes at
`0x1000`) is not part of any chain. -/
def tx_ring_single : Vring :=
  { desc := fun i =>
      if i = 0 then { addr := 0x500, len := 17, flags := 0, next := 1 }
      else if i = 1 then { addr := 0x1000, len := 60, flags := 0, next := 0 }
      else zero_desc
    avail := { flags := 0, idx := 1, ring := fun _ => 0 }
    used := zero_used }

/-- A transmit ring whose pending chain is 17 bytes long: header `desc[0]`
(12 bytes at `0x500`) and data `desc[1]` (5 bytes at `0x1000`). -/
def tx_ring_short : Vring :=
  { desc := fun i =>
      if i = 0 then { addr := 0x500, len := 12, flags := 1, next := 1 }
      else if i = 1 then { addr := 0x1000, len := 5, flags := 0, next := 0 }
      else zero_desc
    avail := { flags := 0, idx := 1, ring := fun _ => 0 }
    used := zero_used }

/-- Guest memory whose byte at `a` is `a % 256`, with `r` at every host
pointer. -/
def mem_pattern_with_ring (r : Vring) : GuestMem :=
  { bytes := fun a => a % 256, mapped := fun _ _ => true, vring := fun _ => r }

/-- A network device in DRIVER_OK with MAC `02:00:00:00:00:01`, `lockedmac`
set and one notified receive chain. -/
def net_dev_locked : vionet_dev := { net_dev 0 with lockedmac := 1 }

/-- A 60-byte frame whose destination address is `02:00:00:00:00:02`. -/
def frame_to_other : List Nat := [2, 0, 0, 0, 0, 2] ++ List.replicate 54 0xAA

/-- A 60-byte frame whose destination address is `02:00:00:00:00:01`. -/
def frame_to_self : List Nat := [2, 0, 0, 0, 0, 1] ++ List.replicate 54 0xAA

/-- Interrupt lines, none asserted. -/
def pic_idle : Nat → Bool := fun _ => false

/-- A zeroed buffer of `PAGE_SIZE` bytes. -/
def buf_zero : List Nat := List.replicate PAGE_SIZE 0

/-- A resolver of guest addresses that never fails: the host pointer of `gpa`
is `gpa + 1`. -/
def hvaddr_flat : Nat → Nat → Nat := fun gpa _ => gpa + 1

/-- A block device with `isr_status = 1` on interrupt line 5. -/
def blk_dev_isr : vioblk_dev :=
  { blk_dev disk_pattern with cfg := { zero_cfg with isr_status := 1 }, irq := 5 }

/-- Interrupt lines with line 5 asserted. -/
def pic_line5 : Nat → Bool := vcpu_assert_pic_irq pic_idle 5

/-- The entropy device with `isr_status = 1`; its queue is recorded at guest
address `0x10000`. -/
def rng_dev_isr : viornd_dev := { rng_dev with cfg := { zero_cfg with isr_status := 1 } }

/-- A block device whose `queue_select` holds 1, which names no queue; its
queue is recorded at guest address `0x10000`. -/
def blk_dev_select1 : vioblk_dev :=
  { blk_dev disk_pattern with cfg := { zero_cfg with queue_select := 1, isr_status := 1 } }


/-! ## Scenarios of the register and control claims -/

/-- A block device whose capacity is `0x0123456789ABCDEF` sectors. -/
def blk_dev_capacity : vioblk_dev := { blk_dev disk_pattern with sz := 0x0123456789ABCDEF }

/-- The control device in DRIVER_OK on interrupt line 5: no command recorded,
no timer pending. -/
def vmmci_dev_ok : vmmci_dev :=
  { cfg := { zero_cfg with device_status := 4 }, cmd := VMMCI_NONE, vm_id := 1, irq := 5,
    timeout := none, time := (0, 0) }

/-- Queue bookkeeping as a stream carries it: ring address `0x10000`, host
pointer `hva`. -/
def streamed_vq (hva qs : Nat) : virtio_vq_info :=
  { q_gpa := 0x10000, q_hva := hva, qs := qs, vq_availoffset := 16 * qs
    vq_usedoffset := VIRTQUEUE_ALIGN (16 * qs + 2 * (2 + qs)), last_avail := 0
    notified_avail := 0 }

/-- An entropy device as a stream carries it, with `hva` in the bytes of
`q_hva`. -/
def rng_blob (hva : Nat) : viornd_dev :=
  { cfg := { zero_cfg with device_status := 4 }
    vq := fun _ => streamed_vq hva VIORND_QUEUE_SIZE, irq := 9, vm_id := 7 }

/-- A block device as a stream carries it, with `hva` in the bytes of
`q_hva`. -/
def blk_blob (hva : Nat) : vioblk_dev :=
  { cfg := { zero_cfg with device_status := 4 }
    vq := fun _ => streamed_vq hva VIOBLK_QUEUE_SIZE, file := disk_pattern, sz := 2048
    max_xfer := 1048576, irq := 9, vm_id := 7 }

/-- A network device as a stream carries it, with `hva` in the bytes of `q_hva`
of both queues. -/
def net_blob (hva : Nat) : vionet_dev :=
  { cfg := { zero_cfg with device_status := 4 }
    vq := fun _ => streamed_vq hva VIONET_QUEUE_SIZE, fd := 3, mac := [2, 0, 0, 0, 0, 1]
    lockedmac := 0, islocal := 0, irq := 9, vm_id := 7 }

/-- A transmit ring with one pending chain whose last descriptor is writable:
header `desc[0]` (12 bytes at `0x500`), data `desc[1]` (10 bytes at `0x1000`)
and the writable `desc[2]` (6 bytes at `0x3000`). -/
def tx_ring_writable_tail : Vring :=
  { desc := fun i =>
      if i = 0 then { addr := 0x500, len := 12, flags := 1, next := 1 }
      else if i = 1 then { addr := 0x1000, len := 10, flags := 1, next := 2 }
      else if i = 2 then { addr := 0x3000, len := 6, flags := 2, next := 0 }
      else zero_desc
    avail := { flags := 0, idx := 1, ring := fun _ => 0 }
    used := zero_used }
/-! ## Lemmas on descriptor chains -/

theorem and_vionet_mask (x : Nat) : x &&& VIONET_QUEUE_MASK = x % 256 :=
  Nat.and_pow_two_sub_one_eq_mod x 8

theorem and_vioblk_mask (x : Nat) : x &&& VIOBLK_QUEUE_MASK = x % 128 :=
  Nat.and_pow_two_sub_one_eq_mod x 7

theorem chain_at_succ_start (desc : Nat → vring_desc) (mask start n : Nat) :
    chain_at desc mask start (n + 1) = chain_at desc mask ((desc start).next &&& mask) n := by
  induction n with
  | zero => rfl
  | succ n ih =>
    show (desc (chain_at desc mask start (n + 1))).next &&& mask = _
    rw [ih]
    rfl

theorem chain_at_add (desc : Nat → vring_desc) (mask start a b : Nat) :
    chain_at desc mask start (a + b) = chain_at desc mask (chain_at desc mask start a) b := by
  induction b with
  | zero => rfl
  | succ b ih =>
    show (desc (chain_at desc mask start (a + b))).next &&& mask = _
    rw [ih]
    rfl

theorem chain_at_lt (desc : Nat → vring_desc) (mask start n : Nat) (h : start ≤ mask) :
    chain_at desc mask start n ≤ mask := by
  cases n with
  | zero => exact h
  | succ n => exact Nat.and_le_right

/-- A chain whose first `n` descriptors carry the NEXT flag and whose
descriptor number `n` does not visits `n + 1` different table entries, so it
has at most `mask + 1` of them. -/
theorem chain_length_le (desc : Nat → vring_desc) (mask start n : Nat) (hs : start ≤ mask)
    (hnext : ∀ j, j < n → (desc (chain_at desc mask start j)).flags &&& VRING_DESC_F_NEXT ≠ 0)
    (hlast : (desc (chain_at desc mask start n)).flags &&& VRING_DESC_F_NEXT = 0) :
    n ≤ mask := by
  by_contra hn
  have hn : mask + 1 ≤ n := by omega
  let f : Fin (mask + 2) → Fin (mask + 1) :=
    fun j => ⟨chain_at desc mask start j.val, Nat.lt_succ_of_le (chain_at_lt desc mask start _ hs)⟩
  obtain ⟨a, b, hab, hf⟩ := Fintype.exists_ne_map_eq_of_card_lt f (by simp)
  have hval : chain_at desc mask start a.val = chain_at desc mask start b.val := by
    have := congrArg Fin.val hf
    simpa [f] using this
  have key : ∀ a b : Nat, a < b → b ≤ n →
      chain_at desc mask start a = chain_at desc mask start b → False := by
    intro a b hlt hb heq
    have h1 : chain_at desc mask start (a + (n - b)) = chain_at desc mask start (b + (n - b)) := by
      rw [chain_at_add, chain_at_add, heq]
    have h2 : b + (n - b) = n := by omega
    rw [h2] at h1
    have h3 := hnext (a + (n - b)) (by omega)
    rw [h1] at h3
    exact h3 hlast
  have ha := a.isLt
  have hb := b.isLt
  rcases Nat.lt_or_gt_of_ne (fun h => hab (Fin.ext h)) with h | h
  · exact key a.val b.val h (by omega) hval
  · exact key b.val a.val h (by omega) hval.symm

theorem chain_payload_length (g : GuestMem) (desc : Nat → vring_desc) (mask : Nat) :
    ∀ n start, (chain_payload g desc mask start n).length = chain_len_sum desc mask start n := by
  intro n
  induction n with
  | zero => intro start; rfl
  | succ n ih =>
    intro start
    simp [chain_payload, chain_len_sum, desc_buf, ih]

theorem chain_len_sum_succ (desc : Nat → vring_desc) (mask : Nat) :
    ∀ n start, chain_len_sum desc mask start (n + 1)
      = chain_len_sum desc mask start n + (desc (chain_at desc mask start n)).len := by
  intro n
  induction n with
  | zero => intro start; simp [chain_len_sum, chain_at]
  | succ n ih =>
    intro start
    rw [chain_at_succ_start]
    show (desc start).len + chain_len_sum desc mask ((desc start).next &&& mask) (n + 1) = _
    rw [ih]
    simp only [chain_len_sum]
    omega

theorem chain_payload_succ (g : GuestMem) (desc : Nat → vring_desc) (mask : Nat) :
    ∀ n start, chain_payload g desc mask start (n + 1)
      = chain_payload g desc mask start n ++ desc_buf g (desc (chain_at desc mask start n)) := by
  intro n
  induction n with
  | zero => intro start; simp [chain_payload, chain_at]
  | succ n ih =>
    intro start
    rw [chain_at_succ_start]
    show desc_buf g (desc start) ++ chain_payload g desc mask ((desc start).next &&& mask) (n + 1) = _
    rw [ih]
    simp only [chain_payload, List.append_assoc]

/-! ## Lemmas on the transmit path -/

/-- The size-summing loop on a chain of `r` further links: it returns the sum
of the lengths of the `r` descriptors it went through and the index of the
descriptor it stopped at. -/
theorem vionet_notify_tx_sum_chain (desc : Nat → vring_desc) :
    ∀ (r fuel x pktsz cnt : Nat), 1 ≤ r → r ≤ fuel → cnt + r < VIONET_QUEUE_SIZE →
      (∀ i, 1 ≤ i → i < r →
        (desc (chain_at desc VIONET_QUEUE_MASK x i)).flags &&& VRING_DESC_F_NEXT ≠ 0) →
      (desc (chain_at desc VIONET_QUEUE_MASK x r)).flags &&& VRING_DESC_F_NEXT = 0 →
      vionet_notify_tx_sum desc fuel x pktsz cnt =
        .ret (some ((pktsz + chain_len_sum desc VIONET_QUEUE_MASK x r) % 2 ^ 64,
          chain_at desc VIONET_QUEUE_MASK x r)) := by
  intro r
  induction r with
  | zero => intro fuel x pktsz cnt h; omega
  | succ r ih =>
    intro fuel x pktsz cnt _ hfuel hcnt hnext hlast
    obtain ⟨fuel, rfl⟩ : ∃ f, fuel = f + 1 := ⟨fuel - 1, by omega⟩
    have hq : VIONET_QUEUE_SIZE = 256 := rfl
    have hc : ¬ ((cnt + 1) % 2 ^ 16 ≥ VIONET_QUEUE_SIZE) := by
      rw [hq] at hcnt ⊢; omega
    have hc2 : (cnt + 1) % 2 ^ 16 = cnt + 1 := by rw [hq] at hcnt; omega
    unfold vionet_notify_tx_sum
    simp only [hc, if_false]
    rcases Nat.eq_zero_or_pos r with hr | hr
    · subst hr
      have hl : (desc ((desc x).next &&& VIONET_QUEUE_MASK)).flags &&& VRING_DESC_F_NEXT = 0 := hlast
      simp only [hl, ne_eq, not_true_eq_false, if_false]
      simp [chain_len_sum, chain_at]
    · have hn : (desc ((desc x).next &&& VIONET_QUEUE_MASK)).flags &&& VRING_DESC_F_NEXT ≠ 0 :=
        hnext 1 (le_refl 1) (by omega)
      simp only [hn, ne_eq, not_false_eq_true, if_true]
      rw [hc2, ih fuel _ _ (cnt + 1) hr (by omega) (by omega)
        (fun i h1 h2 => by
          have := hnext (i + 1) (by omega) (by omega)
          rwa [chain_at_succ_start] at this)
        (by rwa [chain_at_succ_start] at hlast)]
      rw [chain_at_succ_start]
      simp only [chain_len_sum]
      congr 3
      omega

theorem int_to_size_of_lt (n : Nat) (h : n < 2 ^ 31) : int_to_size n = n := by
  unfold int_to_size
  have : n % 2 ^ 32 = n := by omega
  rw [this, if_pos h]

theorem size_sub_of_le (a b : Nat) (hb : b ≤ a) (ha : a < 2 ^ 64) : size_sub a b = a - b := by
  unfold size_sub
  omega

theorem read_mem_mapped (g : GuestMem) (d : vring_desc) (h : g.mapped d.addr d.len = true) :
    read_mem g d.addr d.len = some (desc_buf g d) := by
  simp [read_mem, desc_buf, h]

theorem host_store_append (pkt : Nat → Nat) (ofs : Nat) (l1 l2 : List Nat) (n2 : Nat) :
    host_store (host_store pkt ofs l1 l1.length) (ofs + l1.length) l2 n2
      = host_store pkt ofs (l1 ++ l2) (l1.length + n2) := by
  funext i
  unfold host_store
  by_cases h1 : ofs ≤ i ∧ i < ofs + l1.length
  · have h2 : ¬ (ofs + l1.length ≤ i ∧ i < ofs + l1.length + n2) := by omega
    have h3 : ofs ≤ i ∧ i < ofs + (l1.length + n2) := by omega
    rw [if_neg h2, if_pos h1, if_pos h3]
    simp only [List.getD_eq_getElem?_getD]
    rw [List.getElem?_append_left (by omega)]
  · by_cases h2 : ofs + l1.length ≤ i ∧ i < ofs + l1.length + n2
    · have h3 : ofs ≤ i ∧ i < ofs + (l1.length + n2) := by omega
      rw [if_pos h2, if_pos h3]
      simp only [List.getD_eq_getElem?_getD]
      rw [List.getElem?_append_right (by omega)]
      congr 2
      omega
    · have h3 : ¬ (ofs ≤ i ∧ i < ofs + (l1.length + n2)) := by omega
      rw [if_neg h2, if_neg h1, if_neg h3]

theorem host_store_nil (pkt : Nat → Nat) (ofs : Nat) : host_store pkt ofs [] 0 = pkt := by
  funext i
  unfold host_store
  have : ¬ (ofs ≤ i ∧ i < ofs + 0) := by omega
  rw [if_neg this]

theorem map_host_store_zero (pkt : Nat → Nat) (l : List Nat) :
    (List.range l.length).map (host_store pkt 0 l l.length) = l := by
  apply List.ext_getElem
  · simp
  · intro i h1 h2
    simp only [List.getElem_map, List.getElem_range, host_store]
    have : 0 ≤ i ∧ i < 0 + l.length := by omega
    rw [if_pos this]
    simp [List.getD_eq_getElem?_getD, h2]

/-- The copy loop on a chain of `r` descriptors that carry the NEXT flag: it
stores their buffers one after the other from offset `ofs` on and stops at the
first descriptor without the flag. -/
theorem vionet_notify_tx_copy_chain (g : GuestMem) (desc : Nat → vring_desc) (pktsz : Nat)
    (hsz : pktsz < 2 ^ 31) :
    ∀ (r fuel x ofs : Nat) (pkt : Nat → Nat), r + 1 ≤ fuel →
      ofs + chain_len_sum desc VIONET_QUEUE_MASK x r ≤ pktsz →
      (∀ i, i < r →
        (desc (chain_at desc VIONET_QUEUE_MASK x i)).flags &&& VRING_DESC_F_NEXT ≠ 0) →
      (∀ i, i < r →
        (desc (chain_at desc VIONET_QUEUE_MASK x i)).flags &&& VRING_DESC_F_WRITE = 0) →
      (∀ i, i < r → g.mapped (desc (chain_at desc VIONET_QUEUE_MASK x i)).addr
        (desc (chain_at desc VIONET_QUEUE_MASK x i)).len = true) →
      (desc (chain_at desc VIONET_QUEUE_MASK x r)).flags &&& VRING_DESC_F_NEXT = 0 →
      vionet_notify_tx_copy g desc pktsz fuel x ofs pkt =
        .ret (some (chain_at desc VIONET_QUEUE_MASK x r,
          ofs + chain_len_sum desc VIONET_QUEUE_MASK x r,
          host_store pkt ofs (chain_payload g desc VIONET_QUEUE_MASK x r)
            (chain_len_sum desc VIONET_QUEUE_MASK x r))) := by
  intro r
  induction r with
  | zero =>
    intro fuel x ofs pkt hfuel _ _ _ _ hlast
    obtain ⟨fuel, rfl⟩ : ∃ f, fuel = f + 1 := ⟨fuel - 1, by omega⟩
    have hl : (desc x).flags &&& VRING_DESC_F_NEXT = 0 := hlast
    unfold vionet_notify_tx_copy
    simp only [hl, ne_eq, not_true_eq_false, if_false]
    simp [chain_at, chain_len_sum, chain_payload, host_store_nil]
  | succ r ih =>
    intro fuel x ofs pkt hfuel hroom hnext hwr hmap hlast
    obtain ⟨fuel, rfl⟩ : ∃ f, fuel = f + 1 := ⟨fuel - 1, by omega⟩
    have hn : (desc x).flags &&& VRING_DESC_F_NEXT ≠ 0 := hnext 0 (by omega)
    have hw : (desc x).flags &&& VRING_DESC_F_WRITE = 0 := hwr 0 (by omega)
    have hm : g.mapped (desc x).addr (desc x).len = true := hmap 0 (by omega)
    simp only [chain_len_sum] at hroom
    have hofs : int_to_size ofs = ofs := int_to_size_of_lt ofs (by omega)
    have hsub : size_sub pktsz ofs = pktsz - ofs := size_sub_of_le pktsz ofs (by omega) (by omega)
    have hlen : ¬ ((desc x).len > pktsz - ofs) := by omega
    unfold vionet_notify_tx_copy
    simp only [hn, hw, ne_eq, not_false_eq_true, not_true_eq_false, if_true, if_false, hofs, hsub,
      hlen, read_mem_mapped g (desc x) hm]
    have hmod : (ofs + (desc x).len) % 2 ^ 32 = ofs + (desc x).len := by omega
    rw [hmod, ih fuel _ _ _ (by omega) (by omega)
      (fun i hi => by have := hnext (i + 1) (by omega); rwa [chain_at_succ_start] at this)
      (fun i hi => by have := hwr (i + 1) (by omega); rwa [chain_at_succ_start] at this)
      (fun i hi => by have := hmap (i + 1) (by omega); rwa [chain_at_succ_start] at this)
      (by rwa [chain_at_succ_start] at hlast)]
    rw [chain_at_succ_start]
    simp only [chain_len_sum, chain_payload]
    have hbl : (desc_buf g (desc x)).length = (desc x).len := by simp [desc_buf]
    have := host_store_append pkt ofs (desc_buf g (desc x))
      (chain_payload g desc VIONET_QUEUE_MASK ((desc x).next &&& VIONET_QUEUE_MASK) r)
      (chain_len_sum desc VIONET_QUEUE_MASK ((desc x).next &&& VIONET_QUEUE_MASK) r)
    rw [hbl] at this
    rw [this, Nat.add_assoc]

theorem size_to_int_of_lt (n : Nat) (h : n < 2 ^ 31) : size_to_int n = (n : Int) := by
  unfold size_to_int
  have : n % 2 ^ 32 = n := by omega
  rw [this, if_pos h]

/-- One pass of the transmit loop over a chain made of a header and `k ≥ 1`
readable, mapped data descriptors whose buffers hold the frame `B`: the frame
is handed to the tap and the statements at `drop_packet` run. -/
theorem vionet_notify_tx_body_chain (MIN_TXLEN MAX_TXLEN : Nat)
    (dhcp_request : List Nat → Nat → Int × List Nat) (fuel : Nat) (s : TxState) (vr idx k : Nat)
    (B : List Nat)
    (hfuel : VIONET_QUEUE_SIZE ≤ fuel) (hk : 1 ≤ k)
    (hnext : ∀ j, j < k → ((s.g.vring vr).desc (chain_at (s.g.vring vr).desc VIONET_QUEUE_MASK
      ((s.g.vring vr).avail.ring idx &&& VIONET_QUEUE_MASK) j)).flags &&& VRING_DESC_F_NEXT ≠ 0)
    (hlast : ((s.g.vring vr).desc (chain_at (s.g.vring vr).desc VIONET_QUEUE_MASK
      ((s.g.vring vr).avail.ring idx &&& VIONET_QUEUE_MASK) k)).flags &&& VRING_DESC_F_NEXT = 0)
    (hwr : ∀ j, 1 ≤ j → j ≤ k → ((s.g.vring vr).desc (chain_at (s.g.vring vr).desc
      VIONET_QUEUE_MASK ((s.g.vring vr).avail.ring idx &&& VIONET_QUEUE_MASK) j)).flags
        &&& VRING_DESC_F_WRITE = 0)
    (hmap : ∀ j, 1 ≤ j → j ≤ k → s.g.mapped
      ((s.g.vring vr).desc (chain_at (s.g.vring vr).desc VIONET_QUEUE_MASK
        ((s.g.vring vr).avail.ring idx &&& VIONET_QUEUE_MASK) j)).addr
      ((s.g.vring vr).desc (chain_at (s.g.vring vr).desc VIONET_QUEUE_MASK
        ((s.g.vring vr).avail.ring idx &&& VIONET_QUEUE_MASK) j)).len = true)
    (hB : B = chain_payload s.g (s.g.vring vr).desc VIONET_QUEUE_MASK
      (chain_at (s.g.vring vr).desc VIONET_QUEUE_MASK
        ((s.g.vring vr).avail.ring idx &&& VIONET_QUEUE_MASK) 1) k)
    (hmin : MIN_TXLEN ≤ B.length) (hmax : B.length ≤ MAX_TXLEN) (hint : MAX_TXLEN < 2 ^ 31)
    (hlock : s.dev.lockedmac = 0) (hloc : s.dev.islocal = 0)
    (htap : s.tap.write_ret B = (B.length : Int)) :
    vionet_notify_tx_body MIN_TXLEN MAX_TXLEN dhcp_request fuel s vr idx =
      .ret (true, vionet_notify_tx_drop_packet
        { s with tap := { s.tap with sent := s.tap.sent ++ [B] } } vr
        ((s.g.vring vr).avail.ring idx &&& VIONET_QUEUE_MASK)) := by
  generalize hdesc : (s.g.vring vr).desc = desc at *
  generalize hh : (s.g.vring vr).avail.ring idx &&& VIONET_QUEUE_MASK = h at *
  have hq : VIONET_QUEUE_SIZE = 256 := rfl
  have hmask : VIONET_QUEUE_MASK = 255 := rfl
  have hh255 : h ≤ VIONET_QUEUE_MASK := by rw [← hh]; exact Nat.and_le_right
  have hk255 : k ≤ VIONET_QUEUE_MASK := chain_length_le desc VIONET_QUEUE_MASK h k hh255 hnext hlast
  obtain ⟨m, rfl⟩ : ∃ m, k = m + 1 := ⟨k - 1, by omega⟩
  have hlenB : B.length = chain_len_sum desc VIONET_QUEUE_MASK
      (chain_at desc VIONET_QUEUE_MASK h 1) (m + 1) := by
    rw [hB, chain_payload_length]
  have hc1 : chain_at desc VIONET_QUEUE_MASK h 1 = (desc h).next &&& VIONET_QUEUE_MASK := rfl
  -- the size-summing loop
  have hsum := vionet_notify_tx_sum_chain desc (m + 1) fuel h 0 0 (by omega) (by omega)
    (by rw [hq]; rw [hmask] at hk255; omega)
    (fun i _ h2 => hnext i h2) hlast
  -- the packet size
  have htot : chain_len_sum desc VIONET_QUEUE_MASK h (m + 1)
      + (desc (chain_at desc VIONET_QUEUE_MASK h (m + 1))).len = (desc h).len + B.length := by
    rw [← chain_len_sum_succ, hlenB, hc1]
    rfl
  have hpktsz : size_sub (((0 + chain_len_sum desc VIONET_QUEUE_MASK h (m + 1)) % 2 ^ 64
      + (desc (chain_at desc VIONET_QUEUE_MASK h (m + 1))).len) % 2 ^ 64) (desc h).len
      = B.length := by
    unfold size_sub
    omega
  -- the copy loop
  have hcopy := vionet_notify_tx_copy_chain s.g desc B.length (by omega) m fuel
    (chain_at desc VIONET_QUEUE_MASK h 1) 0 (fun _ => 0) (by rw [hq] at hfuel; rw [hmask] at hk255; omega)
    (by rw [hlenB, chain_len_sum_succ]; omega)
    (fun i hi => by rw [← chain_at_add]; exact hnext (1 + i) (by omega))
    (fun i hi => by rw [← chain_at_add]; exact hwr (1 + i) (by omega) (by omega))
    (fun i hi => by rw [← chain_at_add]; exact hmap (1 + i) (by omega) (by omega))
    (by rw [← chain_at_add, Nat.add_comm]; exact hlast)
  have hlastidx : chain_at desc VIONET_QUEUE_MASK (chain_at desc VIONET_QUEUE_MASK h 1) m
      = chain_at desc VIONET_QUEUE_MASK h (m + 1) := by
    rw [← chain_at_add, Nat.add_comm]
  rw [hlastidx] at hcopy
  have hwlast := hwr (m + 1) (by omega) (le_refl _)
  have hmlast := hmap (m + 1) (by omega) (le_refl _)
  have hroom : size_sub B.length (int_to_size
      (0 + chain_len_sum desc VIONET_QUEUE_MASK (chain_at desc VIONET_QUEUE_MASK h 1) m))
      = (desc (chain_at desc VIONET_QUEUE_MASK h (m + 1))).len := by
    have h1 := chain_len_sum_succ desc VIONET_QUEUE_MASK m (chain_at desc VIONET_QUEUE_MASK h 1)
    rw [hlastidx, ← hlenB] at h1
    rw [int_to_size_of_lt _ (by omega), size_sub_of_le _ _ (by omega) (by omega)]
    omega
  have hpkt : (List.range B.length).map
      (host_store (host_store (fun _ => 0) 0
          (chain_payload s.g desc VIONET_QUEUE_MASK (chain_at desc VIONET_QUEUE_MASK h 1) m)
          (chain_len_sum desc VIONET_QUEUE_MASK (chain_at desc VIONET_QUEUE_MASK h 1) m))
        (int_to_size (0 + chain_len_sum desc VIONET_QUEUE_MASK (chain_at desc VIONET_QUEUE_MASK h 1) m))
        (desc_buf s.g (desc (chain_at desc VIONET_QUEUE_MASK h (m + 1))))
        (desc (chain_at desc VIONET_QUEUE_MASK h (m + 1))).len) = B := by
    have h1 := chain_len_sum_succ desc VIONET_QUEUE_MASK m (chain_at desc VIONET_QUEUE_MASK h 1)
    rw [hlastidx, ← hlenB] at h1
    rw [int_to_size_of_lt _ (by omega)]
    have h2 := host_store_append (fun _ => 0) 0
      (chain_payload s.g desc VIONET_QUEUE_MASK (chain_at desc VIONET_QUEUE_MASK h 1) m)
      (desc_buf s.g (desc (chain_at desc VIONET_QUEUE_MASK h (m + 1))))
      (desc (chain_at desc VIONET_QUEUE_MASK h (m + 1))).len
    rw [chain_payload_length] at h2
    rw [h2]
    have h3 : chain_payload s.g desc VIONET_QUEUE_MASK (chain_at desc VIONET_QUEUE_MASK h 1) m ++
        desc_buf s.g (desc (chain_at desc VIONET_QUEUE_MASK h (m + 1))) = B := by
      rw [hB, chain_payload_succ, hlastidx]
    rw [h3, ← h1]
    exact map_host_store_zero _ B
  unfold vionet_notify_tx_body
  simp only [hdesc, hh, hsum, hpktsz]
  have hsize : ¬ (B.length < MIN_TXLEN ∨ B.length > MAX_TXLEN) := by omega
  simp only [hsize, if_false, ← hc1, hcopy, hwlast, ne_eq, not_true_eq_false, hroom, gt_iff_lt,
    lt_self_iff_false, read_mem_mapped s.g _ hmlast, hpkt, hlock, hloc, false_and, htap,
    size_to_int_of_lt B.length (by omega)]

/-! ## Lemmas on the block path -/

theorem getD_map_range (f : Nat → Nat) (n i : Nat) (h : i < n) :
    ((List.range n).map f).getD i 0 = f i := by
  simp [List.getD_eq_getElem?_getD, h]

theorem chain_sectors_succ (desc : Nat → vring_desc) (mask : Nat) :
    ∀ n start, chain_sectors desc mask start (n + 1)
      = chain_sectors desc mask start n
        + (desc (chain_at desc mask start n)).len / VIRTIO_BLK_SECTOR_SIZE := by
  intro n
  induction n with
  | zero => intro start; simp [chain_sectors, chain_at]
  | succ n ih =>
    intro start
    rw [chain_at_succ_start]
    show (desc start).len / VIRTIO_BLK_SECTOR_SIZE
      + chain_sectors desc mask ((desc start).next &&& mask) (n + 1) = _
    rw [ih]
    simp only [chain_sectors]
    omega

theorem chain_sectors_mono (desc : Nat → vring_desc) (mask start : Nat) :
    ∀ n m, n ≤ m → chain_sectors desc mask start n ≤ chain_sectors desc mask start m := by
  intro n m h
  induction m with
  | zero =>
    have : n = 0 := by omega
    subst this
    exact le_refl _
  | succ m ih =>
    rcases Nat.lt_or_ge n (m + 1) with h1 | h1
    · have := ih (by omega)
      rw [chain_sectors_succ]
      exact Nat.le_trans this (Nat.le_add_right _ _)
    · have : n = m + 1 := by omega
      subst this
      exact le_refl _

/-- A successful `write_mem` of back-end bytes is a `copy_range`. -/
theorem write_mem_pread (g : GuestMem) (disk : Nat → Nat) (off addr len : Nat)
    (hm : g.mapped addr len = true) :
    write_mem g addr ((List.range len).map (fun i => disk (off + i))) len
      = some { g with bytes := copy_range disk off addr len g.bytes } := by
  unfold write_mem
  rw [if_pos hm]
  congr 2
  funext a
  unfold copy_range
  by_cases h : addr ≤ a ∧ a < addr + len
  · rw [if_pos h, if_pos h, getD_map_range _ _ _ (by omega)]
  · rw [if_neg h, if_neg h]

/-- The read loop on `r` writable, mapped data descriptors of at most 64 MiB
whose `pread` calls succeed: it performs the transfer the specification
describes and stops at the descriptor after them. -/
theorem vioblk_notifyq_in_loop_chain (dev : vioblk_dev) (vr sector : Nat) :
    ∀ (r fuel : Nat) (g : GuestMem) (x cnt secbias : Nat), 1 ≤ r → r ≤ fuel →
      cnt + r < VIOBLK_QUEUE_SIZE →
      (∀ i, i < r → ((g.vring vr).desc (chain_at (g.vring vr).desc VIOBLK_QUEUE_MASK x i)).flags
        &&& VRING_DESC_F_WRITE ≠ 0) →
      (∀ i, 1 ≤ i → i < r →
        ((g.vring vr).desc (chain_at (g.vring vr).desc VIOBLK_QUEUE_MASK x i)).flags
          &&& VRING_DESC_F_NEXT ≠ 0) →
      ((g.vring vr).desc (chain_at (g.vring vr).desc VIOBLK_QUEUE_MASK x r)).flags
        &&& VRING_DESC_F_NEXT = 0 →
      (∀ i, i < r →
        ((g.vring vr).desc (chain_at (g.vring vr).desc VIOBLK_QUEUE_MASK x i)).len ≤ 2 ^ 26) →
      (∀ i, i < r → g.mapped
        ((g.vring vr).desc (chain_at (g.vring vr).desc VIOBLK_QUEUE_MASK x i)).addr
        ((g.vring vr).desc (chain_at (g.vring vr).desc VIOBLK_QUEUE_MASK x i)).len = true) →
      (∀ i, i < r → dev.file.pread_ok
        ((g.vring vr).desc (chain_at (g.vring vr).desc VIOBLK_QUEUE_MASK x i)).len
        ((sector + (secbias + chain_sectors (g.vring vr).desc VIOBLK_QUEUE_MASK x i))
          * VIRTIO_BLK_SECTOR_SIZE) = true) →
      (sector + (secbias + chain_sectors (g.vring vr).desc VIOBLK_QUEUE_MASK x r))
        * VIRTIO_BLK_SECTOR_SIZE < 2 ^ 64 →
      vioblk_notifyq_in_loop dev vr sector fuel g x cnt secbias =
        .ret (some (chain_at (g.vring vr).desc VIOBLK_QUEUE_MASK x r),
          { g with bytes :=
              blk_in_transfer dev.file.disk (g.vring vr).desc sector r x secbias g.bytes }) := by
  intro r
  induction r with
  | zero => intro fuel g x cnt secbias h; omega
  | succ r ih =>
    intro fuel g x cnt secbias _ hfuel hcnt hwr hnext hlast hcap hmap hio hoff
    obtain ⟨fuel, rfl⟩ : ∃ f, fuel = f + 1 := ⟨fuel - 1, by omega⟩
    have hq : VIOBLK_QUEUE_SIZE = 128 := rfl
    have hss : VIRTIO_BLK_SECTOR_SIZE = 512 := rfl
    have hw0 : ((g.vring vr).desc x).flags &&& VRING_DESC_F_WRITE ≠ 0 := hwr 0 (by omega)
    have hc0 : ¬ (((g.vring vr).desc x).len > 2 ^ 26) := by
      have := hcap 0 (by omega)
      simp only [chain_at] at this
      omega
    have hm0 : g.mapped ((g.vring vr).desc x).addr ((g.vring vr).desc x).len = true :=
      hmap 0 (by omega)
    have hio0 := hio 0 (by omega)
    simp only [chain_at, chain_sectors, Nat.add_zero] at hio0
    have hmono := chain_sectors_mono (g.vring vr).desc VIOBLK_QUEUE_MASK x 0 (r + 1) (by omega)
    simp only [chain_sectors] at hmono
    have hoff0 : ((sector + secbias) % 2 ^ 64 * VIRTIO_BLK_SECTOR_SIZE) % 2 ^ 64
        = (sector + secbias) * VIRTIO_BLK_SECTOR_SIZE := by
      rw [hss] at hoff ⊢
      simp only [chain_sectors] at hoff
      omega
    have hcnt1 : ¬ (cnt + 1 ≥ VIOBLK_QUEUE_SIZE) := by omega
    unfold vioblk_notifyq_in_loop
    simp only [hw0, if_false, vioblk_start_read, hc0, hoff0, vioblk_finish_read,
      virtio_backing.pread, hio0, if_true, write_mem_pread g dev.file.disk _ _ _ hm0, hcnt1]
    rcases Nat.eq_zero_or_pos r with hr | hr
    · subst hr
      have hl : ((g.vring vr).desc (((g.vring vr).desc x).next &&& VIOBLK_QUEUE_MASK)).flags
          &&& VRING_DESC_F_NEXT = 0 := hlast
      simp only [hl, ne_eq, not_true_eq_false, if_false]
      rfl
    · have hn : ((g.vring vr).desc (((g.vring vr).desc x).next &&& VIOBLK_QUEUE_MASK)).flags
          &&& VRING_DESC_F_NEXT ≠ 0 := hnext 1 (le_refl 1) (by omega)
      simp only [hn, ne_eq, not_false_eq_true, if_true]
      rw [ih fuel _ _ (cnt + 1) _ hr (by omega) (by omega)
        (fun i hi => by have := hwr (i + 1) (by omega); rwa [chain_at_succ_start] at this)
        (fun i h1 h2 => by
          have := hnext (i + 1) (by omega) (by omega); rwa [chain_at_succ_start] at this)
        (by rwa [chain_at_succ_start] at hlast)
        (fun i hi => by have := hcap (i + 1) (by omega); rwa [chain_at_succ_start] at this)
        (fun i hi => by have := hmap (i + 1) (by omega); rwa [chain_at_succ_start] at this)
        (fun i hi => by
          have := hio (i + 1) (by omega)
          rw [chain_at_succ_start] at this
          simp only [chain_sectors] at this
          rw [← Nat.add_assoc secbias] at this
          exact this)
        (by
          simp only [chain_sectors] at hoff
          rw [← Nat.add_assoc secbias] at hoff
          exact hoff)]
      rw [chain_at_succ_start]
      rfl

/-- A successful `pwrite` of guest bytes is a `copy_range`. -/
theorem pwrite_read_mem (f : virtio_backing) (bytes : Nat → Nat) (addr off len : Nat)
    (hok : f.pwrite_ok len off = true) :
    f.pwrite ((List.range len).map (fun i => bytes (addr + i))) len off
      = some { f with disk := copy_range bytes addr off len f.disk } := by
  unfold virtio_backing.pwrite
  rw [if_pos hok]
  congr 2
  funext a
  unfold copy_range
  by_cases h : off ≤ a ∧ a < off + len
  · rw [if_pos h, if_pos h, getD_map_range _ _ _ (by omega)]
  · rw [if_neg h, if_neg h]

/-- The write loop on `r` readable, mapped data descriptors of at most 64 MiB
whose `pwrite` calls succeed: it performs the transfer the specification
describes and stops at the descriptor after them. -/
theorem vioblk_notifyq_out_loop_chain (g : GuestMem) (vr sector : Nat) :
    ∀ (r fuel : Nat) (dev : vioblk_dev) (x cnt secbias : Nat), 1 ≤ r → r ≤ fuel →
      cnt + r < VIOBLK_QUEUE_SIZE →
      (∀ i, i < r → ((g.vring vr).desc (chain_at (g.vring vr).desc VIOBLK_QUEUE_MASK x i)).flags
        &&& VRING_DESC_F_WRITE = 0) →
      (∀ i, 1 ≤ i → i < r →
        ((g.vring vr).desc (chain_at (g.vring vr).desc VIOBLK_QUEUE_MASK x i)).flags
          &&& VRING_DESC_F_NEXT ≠ 0) →
      ((g.vring vr).desc (chain_at (g.vring vr).desc VIOBLK_QUEUE_MASK x r)).flags
        &&& VRING_DESC_F_NEXT = 0 →
      (∀ i, i < r →
        ((g.vring vr).desc (chain_at (g.vring vr).desc VIOBLK_QUEUE_MASK x i)).len ≤ 2 ^ 26) →
      (∀ i, i < r → g.mapped
        ((g.vring vr).desc (chain_at (g.vring vr).desc VIOBLK_QUEUE_MASK x i)).addr
        ((g.vring vr).desc (chain_at (g.vring vr).desc VIOBLK_QUEUE_MASK x i)).len = true) →
      (∀ i, i < r → dev.file.pwrite_ok
        ((g.vring vr).desc (chain_at (g.vring vr).desc VIOBLK_QUEUE_MASK x i)).len
        ((sector + (secbias + chain_sectors (g.vring vr).desc VIOBLK_QUEUE_MASK x i))
          * VIRTIO_BLK_SECTOR_SIZE) = true) →
      (sector + (secbias + chain_sectors (g.vring vr).desc VIOBLK_QUEUE_MASK x r))
        * VIRTIO_BLK_SECTOR_SIZE < 2 ^ 64 →
      vioblk_notifyq_out_loop g vr sector fuel dev x cnt secbias =
        .ret (some (chain_at (g.vring vr).desc VIOBLK_QUEUE_MASK x r),
          { dev with file := { dev.file with disk :=
              (blk_out_transfer g.bytes (g.vring vr).desc sector r x secbias dev.file.disk) } }) := by
  intro r
  induction r with
  | zero => intro fuel dev x cnt secbias h; omega
  | succ r ih =>
    intro fuel dev x cnt secbias _ hfuel hcnt hwr hnext hlast hcap hmap hio hoff
    obtain ⟨fuel, rfl⟩ : ∃ f, fuel = f + 1 := ⟨fuel - 1, by omega⟩
    have hq : VIOBLK_QUEUE_SIZE = 128 := rfl
    have hss : VIRTIO_BLK_SECTOR_SIZE = 512 := rfl
    have hw0 : ((g.vring vr).desc x).flags &&& VRING_DESC_F_WRITE = 0 := hwr 0 (by omega)
    have hc0 : ¬ (((g.vring vr).desc x).len > 2 ^ 26) := by
      have := hcap 0 (by omega)
      simp only [chain_at] at this
      omega
    have hm0 : g.mapped ((g.vring vr).desc x).addr ((g.vring vr).desc x).len = true :=
      hmap 0 (by omega)
    have hio0 := hio 0 (by omega)
    simp only [chain_at, chain_sectors, Nat.add_zero] at hio0
    have hmono := chain_sectors_mono (g.vring vr).desc VIOBLK_QUEUE_MASK x 0 (r + 1) (by omega)
    simp only [chain_sectors] at hmono
    have hoff0 : ((sector + secbias) % 2 ^ 64 * VIRTIO_BLK_SECTOR_SIZE) % 2 ^ 64
        = (sector + secbias) * VIRTIO_BLK_SECTOR_SIZE := by
      rw [hss] at hoff ⊢
      simp only [chain_sectors] at hoff
      omega
    have hcnt1 : ¬ (cnt + 1 ≥ VIOBLK_QUEUE_SIZE) := by omega
    unfold vioblk_notifyq_out_loop
    simp only [hw0, ne_eq, not_true_eq_false, if_false, vioblk_start_write, hc0, read_mem, hm0,
      if_true, hoff0, vioblk_finish_write, pwrite_read_mem dev.file g.bytes _ _ _ hio0, hcnt1]
    rcases Nat.eq_zero_or_pos r with hr | hr
    · subst hr
      have hl : ((g.vring vr).desc (((g.vring vr).desc x).next &&& VIOBLK_QUEUE_MASK)).flags
          &&& VRING_DESC_F_NEXT = 0 := hlast
      simp only [hl, not_true_eq_false, if_false]
      rfl
    · have hn : ((g.vring vr).desc (((g.vring vr).desc x).next &&& VIOBLK_QUEUE_MASK)).flags
          &&& VRING_DESC_F_NEXT ≠ 0 := hnext 1 (le_refl 1) (by omega)
      simp only [hn, not_false_eq_true, if_true]
      rw [ih fuel _ _ (cnt + 1) _ hr (by omega) (by omega)
        (fun i hi => by have := hwr (i + 1) (by omega); rwa [chain_at_succ_start] at this)
        (fun i h1 h2 => by
          have := hnext (i + 1) (by omega) (by omega); rwa [chain_at_succ_start] at this)
        (by rwa [chain_at_succ_start] at hlast)
        (fun i hi => by have := hcap (i + 1) (by omega); rwa [chain_at_succ_start] at this)
        (fun i hi => by have := hmap (i + 1) (by omega); rwa [chain_at_succ_start] at this)
        (fun i hi => by
          have := hio (i + 1) (by omega)
          rw [chain_at_succ_start] at this
          simp only [chain_sectors] at this
          rw [← Nat.add_assoc secbias] at this
          exact this)
        (by
          simp only [chain_sectors] at hoff
          rw [← Nat.add_assoc secbias] at hoff
          exact hoff)]
      rw [chain_at_succ_start]
      rfl

/-- A successful `write_mem` of the status byte is a `set_byte`. -/
theorem write_mem_status (g : GuestMem) (addr ds : Nat) (hm : g.mapped addr 1 = true) :
    write_mem g addr [ds] 1 = some { g with bytes := set_byte g.bytes addr ds } := by
  unfold write_mem
  rw [if_pos hm]
  congr 2
  funext a
  unfold set_byte
  by_cases h : a = addr
  · subst h
    simp
  · have : ¬ (addr ≤ a ∧ a < addr + 1) := by omega
    rw [if_neg this, if_neg h]

theorem read_mem_hdr (g : GuestMem) (addr : Nat) (hm : g.mapped addr 16 = true) :
    (read_mem g addr 16).map decode_blk_req_hdr = some (blk_hdr_at g addr) := by
  simp [read_mem, hm, blk_hdr_at]

/-- A block notify with exactly one pending request whose pass through the
loop body runs to its end returns 1 with the state that pass produced. -/
theorem vioblk_notifyq_single (fuel : Nat) (dev dev1 : vioblk_dev) (g g1 : GuestMem)
    (hfuel : 2 ≤ fuel) (hq : dev.cfg.queue_notify = 0)
    (hvr0 : (dev.vq 0).q_hva ≠ 0)
    (hav : (g.vring (dev.vq 0).q_hva).avail.idx &&& VIOBLK_QUEUE_MASK
      = ((dev.vq 0).last_avail &&& VIOBLK_QUEUE_MASK) + 1 &&& VIOBLK_QUEUE_MASK)
    (hbody : vioblk_notifyq_body fuel dev g (dev.vq 0).q_hva
      ((dev.vq 0).last_avail &&& VIOBLK_QUEUE_MASK) = .ret (true, dev1, g1))
    (hsame : (g1.vring (dev.vq 0).q_hva).avail.idx = (g.vring (dev.vq 0).q_hva).avail.idx) :
    vioblk_notifyq fuel dev g = .ret (1, dev1, g1) := by
  obtain ⟨fuel1, rfl⟩ : ∃ f, fuel = f + 2 := ⟨fuel - 2, by omega⟩
  have hne : ¬ ((g.vring (dev.vq 0).q_hva).avail.idx &&& VIOBLK_QUEUE_MASK
      = (dev.vq 0).last_avail &&& VIOBLK_QUEUE_MASK) := by
    rw [hav, and_vioblk_mask, and_vioblk_mask]
    omega
  have hne2 : (dev.vq 0).last_avail &&& VIOBLK_QUEUE_MASK
      ≠ (g.vring (dev.vq 0).q_hva).avail.idx &&& VIOBLK_QUEUE_MASK := fun h => hne h.symm
  have hloop : vioblk_notifyq_loop (fuel1 + 2) (dev.vq 0).q_hva (fuel1 + 2) dev g
      ((dev.vq 0).last_avail &&& VIOBLK_QUEUE_MASK) = .ret (1, dev1, g1) := by
    rw [vioblk_notifyq_loop.eq_def]
    simp only [hne2, ne_eq, not_false_eq_true, if_true, hbody]
    rw [vioblk_notifyq_loop.eq_def]
    simp only [hsame, hav, ne_eq, not_true_eq_false, if_false]
  unfold vioblk_notifyq
  simp only [hq, gt_iff_lt, lt_self_iff_false, if_false, hvr0, hne, hloop]

/-- One pass of the block loop over a well-formed `VIRTIO_BLK_T_IN` request
with `k ≥ 1` data descriptors. -/
theorem vioblk_notifyq_body_in (fuel : Nat) (dev : vioblk_dev) (g : GuestMem) (vr idx k : Nat)
    (hfuel : VIOBLK_QUEUE_SIZE ≤ fuel) (hk : 1 ≤ k)
    (hnext : ∀ j, j ≤ k → ((g.vring vr).desc (chain_at (g.vring vr).desc VIOBLK_QUEUE_MASK
      ((g.vring vr).avail.ring idx &&& VIOBLK_QUEUE_MASK) j)).flags &&& VRING_DESC_F_NEXT ≠ 0)
    (hlast : ((g.vring vr).desc (chain_at (g.vring vr).desc VIOBLK_QUEUE_MASK
      ((g.vring vr).avail.ring idx &&& VIOBLK_QUEUE_MASK) (k + 1))).flags &&& VRING_DESC_F_NEXT = 0)
    (hro : ((g.vring vr).desc ((g.vring vr).avail.ring idx &&& VIOBLK_QUEUE_MASK)).flags
      &&& VRING_DESC_F_WRITE = 0)
    (hmaph : g.mapped ((g.vring vr).desc ((g.vring vr).avail.ring idx &&& VIOBLK_QUEUE_MASK)).addr 16
      = true)
    (htype : (blk_hdr_at g
      ((g.vring vr).desc ((g.vring vr).avail.ring idx &&& VIOBLK_QUEUE_MASK)).addr).type
        = VIRTIO_BLK_T_IN)
    (hdw : ∀ j, 1 ≤ j → j ≤ k → ((g.vring vr).desc (chain_at (g.vring vr).desc VIOBLK_QUEUE_MASK
      ((g.vring vr).avail.ring idx &&& VIOBLK_QUEUE_MASK) j)).flags &&& VRING_DESC_F_WRITE ≠ 0)
    (hcap : ∀ j, 1 ≤ j → j ≤ k → ((g.vring vr).desc (chain_at (g.vring vr).desc VIOBLK_QUEUE_MASK
      ((g.vring vr).avail.ring idx &&& VIOBLK_QUEUE_MASK) j)).len ≤ 2 ^ 26)
    (hmap : ∀ j, 1 ≤ j → j ≤ k → g.mapped
      ((g.vring vr).desc (chain_at (g.vring vr).desc VIOBLK_QUEUE_MASK
        ((g.vring vr).avail.ring idx &&& VIOBLK_QUEUE_MASK) j)).addr
      ((g.vring vr).desc (chain_at (g.vring vr).desc VIOBLK_QUEUE_MASK
        ((g.vring vr).avail.ring idx &&& VIOBLK_QUEUE_MASK) j)).len = true)
    (hio : ∀ j, j < k → dev.file.pread_ok
      ((g.vring vr).desc (chain_at (g.vring vr).desc VIOBLK_QUEUE_MASK
        ((g.vring vr).avail.ring idx &&& VIOBLK_QUEUE_MASK) (j + 1))).len
      (((blk_hdr_at g
          ((g.vring vr).desc ((g.vring vr).avail.ring idx &&& VIOBLK_QUEUE_MASK)).addr).sector
        + chain_sectors (g.vring vr).desc VIOBLK_QUEUE_MASK
            (chain_at (g.vring vr).desc VIOBLK_QUEUE_MASK
              ((g.vring vr).avail.ring idx &&& VIOBLK_QUEUE_MASK) 1) j)
        * VIRTIO_BLK_SECTOR_SIZE) = true)
    (hoff : ((blk_hdr_at g
          ((g.vring vr).desc ((g.vring vr).avail.ring idx &&& VIOBLK_QUEUE_MASK)).addr).sector
        + chain_sectors (g.vring vr).desc VIOBLK_QUEUE_MASK
            (chain_at (g.vring vr).desc VIOBLK_QUEUE_MASK
              ((g.vring vr).avail.ring idx &&& VIOBLK_QUEUE_MASK) 1) k)
        * VIRTIO_BLK_SECTOR_SIZE < 2 ^ 63)
    (hstw : ((g.vring vr).desc (chain_at (g.vring vr).desc VIOBLK_QUEUE_MASK
      ((g.vring vr).avail.ring idx &&& VIOBLK_QUEUE_MASK) (k + 1))).flags &&& VRING_DESC_F_WRITE ≠ 0)
    (hstm : g.mapped ((g.vring vr).desc (chain_at (g.vring vr).desc VIOBLK_QUEUE_MASK
      ((g.vring vr).avail.ring idx &&& VIOBLK_QUEUE_MASK) (k + 1))).addr 1 = true) :
    ∃ dev1 g1, vioblk_notifyq_body fuel dev g vr idx = .ret (true, dev1, g1) ∧
      g1.bytes = set_byte
        (blk_in_transfer dev.file.disk (g.vring vr).desc
          (blk_hdr_at g
            ((g.vring vr).desc ((g.vring vr).avail.ring idx &&& VIOBLK_QUEUE_MASK)).addr).sector
          k (chain_at (g.vring vr).desc VIOBLK_QUEUE_MASK
            ((g.vring vr).avail.ring idx &&& VIOBLK_QUEUE_MASK) 1) 0 g.bytes)
        ((g.vring vr).desc (chain_at (g.vring vr).desc VIOBLK_QUEUE_MASK
          ((g.vring vr).avail.ring idx &&& VIOBLK_QUEUE_MASK) (k + 1))).addr VIRTIO_BLK_S_OK ∧
      dev1.file = dev.file ∧
      ((g1.vring vr).used.ring ((g.vring vr).used.idx &&& VIOBLK_QUEUE_MASK)).id
        = (g.vring vr).avail.ring idx &&& VIOBLK_QUEUE_MASK ∧
      (g1.vring vr).used.idx = ((g.vring vr).used.idx + 1) % 2 ^ 16 ∧
      (g1.vring vr).avail = (g.vring vr).avail ∧
      dev1.cfg.isr_status = 1 ∧
      (dev1.vq dev.cfg.queue_notify).last_avail = (g.vring vr).avail.idx &&& VIOBLK_QUEUE_MASK := by
  generalize hdesc : (g.vring vr).desc = desc at *
  generalize hh : (g.vring vr).avail.ring idx &&& VIOBLK_QUEUE_MASK = h at *
  generalize hsec : (blk_hdr_at g (desc h).addr).sector = sector at *
  have hq : VIOBLK_QUEUE_SIZE = 128 := rfl
  have hmask : VIOBLK_QUEUE_MASK = 127 := rfl
  have hh127 : h ≤ VIOBLK_QUEUE_MASK := by rw [← hh]; exact Nat.and_le_right
  have hk127 : k + 1 ≤ VIOBLK_QUEUE_MASK :=
    chain_length_le desc VIOBLK_QUEUE_MASK h (k + 1) hh127 (fun j hj => hnext j (by omega)) hlast
  have hc1 : chain_at desc VIOBLK_QUEUE_MASK h 1 = (desc h).next &&& VIOBLK_QUEUE_MASK := rfl
  have hn0 : (desc h).flags &&& VRING_DESC_F_NEXT ≠ 0 := hnext 0 (by omega)
  have hn1 : (desc ((desc h).next &&& VIOBLK_QUEUE_MASK)).flags &&& VRING_DESC_F_NEXT ≠ 0 :=
    hnext 1 hk
  have hlastidx : chain_at desc VIOBLK_QUEUE_MASK (chain_at desc VIOBLK_QUEUE_MASK h 1) k
      = chain_at desc VIOBLK_QUEUE_MASK h (k + 1) := by
    rw [← chain_at_add, Nat.add_comm]
  have hloop := vioblk_notifyq_in_loop_chain dev vr sector k fuel g
    (chain_at desc VIOBLK_QUEUE_MASK h 1) 0 0 hk (by rw [hq] at hfuel; rw [hmask] at hk127; omega)
    (by rw [hq]; rw [hmask] at hk127; omega)
    (fun i hi => by rw [hdesc, ← chain_at_add]; exact hdw (1 + i) (by omega) (by omega))
    (fun i _ hi => by rw [hdesc, ← chain_at_add]; exact hnext (1 + i) (by omega))
    (by rw [hdesc, hlastidx]; exact hlast)
    (fun i hi => by rw [hdesc, ← chain_at_add]; exact hcap (1 + i) (by omega) (by omega))
    (fun i hi => by rw [hdesc, ← chain_at_add]; exact hmap (1 + i) (by omega) (by omega))
    (fun i hi => by
      rw [hdesc, ← chain_at_add, Nat.zero_add, Nat.add_comm 1 i]
      exact hio i hi)
    (by rw [hdesc, Nat.zero_add]; omega)
  rw [hdesc, hlastidx] at hloop
  have hhdr := read_mem_hdr g (desc h).addr hmaph
  unfold vioblk_notifyq_body
  simp only [hdesc, hh, hn0, hro, ne_eq, not_true_eq_false, if_false]
  cases hr : read_mem g (desc h).addr 16 with
  | none => rw [hr] at hhdr; simp at hhdr
  | some bs =>
    rw [hr] at hhdr
    simp only [Option.map_some', Option.some.injEq] at hhdr
    simp only [hhdr, vioblk_notifyq_switch, htype, if_true, hdesc, ← hc1, hsec]
    rw [hc1] at hloop ⊢
    have hws := write_mem_status
      { g with bytes := (blk_in_transfer dev.file.disk desc sector k
          ((desc h).next &&& VIOBLK_QUEUE_MASK) 0 g.bytes) }
      (desc (chain_at desc VIOBLK_QUEUE_MASK h (k + 1))).addr VIRTIO_BLK_S_OK hstm
    simp only [hn1, if_false, hloop, hdesc, hstw, not_false_eq_true, hws]
    refine ⟨_, _, rfl, ?_, ?_, ?_, ?_, ?_, ?_, ?_⟩
    · rfl
    · rfl
    · simp [GuestMem.setVring, Vring.pushUsed, hh]
    · simp [GuestMem.setVring, Vring.pushUsed]
    · simp [GuestMem.setVring, Vring.pushUsed]
    · rfl
    · simp [GuestMem.setVring, Vring.pushUsed]

/-- One pass of the block loop over a well-formed `VIRTIO_BLK_T_OUT` request
with `k ≥ 1` data descriptors. -/
theorem vioblk_notifyq_body_out (fuel : Nat) (dev : vioblk_dev) (g : GuestMem) (vr idx k : Nat)
    (hfuel : VIOBLK_QUEUE_SIZE ≤ fuel) (hk : 1 ≤ k)
    (hnext : ∀ j, j ≤ k → ((g.vring vr).desc (chain_at (g.vring vr).desc VIOBLK_QUEUE_MASK
      ((g.vring vr).avail.ring idx &&& VIOBLK_QUEUE_MASK) j)).flags &&& VRING_DESC_F_NEXT ≠ 0)
    (hlast : ((g.vring vr).desc (chain_at (g.vring vr).desc VIOBLK_QUEUE_MASK
      ((g.vring vr).avail.ring idx &&& VIOBLK_QUEUE_MASK) (k + 1))).flags &&& VRING_DESC_F_NEXT = 0)
    (hro : ((g.vring vr).desc ((g.vring vr).avail.ring idx &&& VIOBLK_QUEUE_MASK)).flags
      &&& VRING_DESC_F_WRITE = 0)
    (hmaph : g.mapped ((g.vring vr).desc ((g.vring vr).avail.ring idx &&& VIOBLK_QUEUE_MASK)).addr 16
      = true)
    (htype : (blk_hdr_at g
      ((g.vring vr).desc ((g.vring vr).avail.ring idx &&& VIOBLK_QUEUE_MASK)).addr).type
        = VIRTIO_BLK_T_OUT)
    (hdw : ∀ j, 1 ≤ j → j ≤ k → ((g.vring vr).desc (chain_at (g.vring vr).desc VIOBLK_QUEUE_MASK
      ((g.vring vr).avail.ring idx &&& VIOBLK_QUEUE_MASK) j)).flags &&& VRING_DESC_F_WRITE = 0)
    (hxfer : ((g.vring vr).desc (chain_at (g.vring vr).desc VIOBLK_QUEUE_MASK
      ((g.vring vr).avail.ring idx &&& VIOBLK_QUEUE_MASK) 1)).len ≤ dev.max_xfer)
    (hcap : ∀ j, 1 ≤ j → j ≤ k → ((g.vring vr).desc (chain_at (g.vring vr).desc VIOBLK_QUEUE_MASK
      ((g.vring vr).avail.ring idx &&& VIOBLK_QUEUE_MASK) j)).len ≤ 2 ^ 26)
    (hmap : ∀ j, 1 ≤ j → j ≤ k → g.mapped
      ((g.vring vr).desc (chain_at (g.vring vr).desc VIOBLK_QUEUE_MASK
        ((g.vring vr).avail.ring idx &&& VIOBLK_QUEUE_MASK) j)).addr
      ((g.vring vr).desc (chain_at (g.vring vr).desc VIOBLK_QUEUE_MASK
        ((g.vring vr).avail.ring idx &&& VIOBLK_QUEUE_MASK) j)).len = true)
    (hio : ∀ j, j < k → dev.file.pwrite_ok
      ((g.vring vr).desc (chain_at (g.vring vr).desc VIOBLK_QUEUE_MASK
        ((g.vring vr).avail.ring idx &&& VIOBLK_QUEUE_MASK) (j + 1))).len
      (((blk_hdr_at g
          ((g.vring vr).desc ((g.vring vr).avail.ring idx &&& VIOBLK_QUEUE_MASK)).addr).sector
        + chain_sectors (g.vring vr).desc VIOBLK_QUEUE_MASK
            (chain_at (g.vring vr).desc VIOBLK_QUEUE_MASK
              ((g.vring vr).avail.ring idx &&& VIOBLK_QUEUE_MASK) 1) j)
        * VIRTIO_BLK_SECTOR_SIZE) = true)
    (hoff : ((blk_hdr_at g
          ((g.vring vr).desc ((g.vring vr).avail.ring idx &&& VIOBLK_QUEUE_MASK)).addr).sector
        + chain_sectors (g.vring vr).desc VIOBLK_QUEUE_MASK
            (chain_at (g.vring vr).desc VIOBLK_QUEUE_MASK
              ((g.vring vr).avail.ring idx &&& VIOBLK_QUEUE_MASK) 1) k)
        * VIRTIO_BLK_SECTOR_SIZE < 2 ^ 63)
    (hstw : ((g.vring vr).desc (chain_at (g.vring vr).desc VIOBLK_QUEUE_MASK
      ((g.vring vr).avail.ring idx &&& VIOBLK_QUEUE_MASK) (k + 1))).flags &&& VRING_DESC_F_WRITE ≠ 0)
    (hstm : g.mapped ((g.vring vr).desc (chain_at (g.vring vr).desc VIOBLK_QUEUE_MASK
      ((g.vring vr).avail.ring idx &&& VIOBLK_QUEUE_MASK) (k + 1))).addr 1 = true) :
    ∃ dev1 g1, vioblk_notifyq_body fuel dev g vr idx = .ret (true, dev1, g1) ∧
      g1.bytes = set_byte g.bytes
        ((g.vring vr).desc (chain_at (g.vring vr).desc VIOBLK_QUEUE_MASK
          ((g.vring vr).avail.ring idx &&& VIOBLK_QUEUE_MASK) (k + 1))).addr VIRTIO_BLK_S_OK ∧
      dev1.file.disk = blk_out_transfer g.bytes (g.vring vr).desc
        (blk_hdr_at g
          ((g.vring vr).desc ((g.vring vr).avail.ring idx &&& VIOBLK_QUEUE_MASK)).addr).sector
        k (chain_at (g.vring vr).desc VIOBLK_QUEUE_MASK
          ((g.vring vr).avail.ring idx &&& VIOBLK_QUEUE_MASK) 1) 0 dev.file.disk ∧
      ((g1.vring vr).used.ring ((g.vring vr).used.idx &&& VIOBLK_QUEUE_MASK)).id
        = (g.vring vr).avail.ring idx &&& VIOBLK_QUEUE_MASK ∧
      (g1.vring vr).used.idx = ((g.vring vr).used.idx + 1) % 2 ^ 16 ∧
      (g1.vring vr).avail = (g.vring vr).avail ∧
      dev1.cfg.isr_status = 1 ∧
      (dev1.vq dev.cfg.queue_notify).last_avail = (g.vring vr).avail.idx &&& VIOBLK_QUEUE_MASK := by
  generalize hdesc : (g.vring vr).desc = desc at *
  generalize hh : (g.vring vr).avail.ring idx &&& VIOBLK_QUEUE_MASK = h at *
  generalize hsec : (blk_hdr_at g (desc h).addr).sector = sector at *
  have hq : VIOBLK_QUEUE_SIZE = 128 := rfl
  have hmask : VIOBLK_QUEUE_MASK = 127 := rfl
  have hh127 : h ≤ VIOBLK_QUEUE_MASK := by rw [← hh]; exact Nat.and_le_right
  have hk127 : k + 1 ≤ VIOBLK_QUEUE_MASK :=
    chain_length_le desc VIOBLK_QUEUE_MASK h (k + 1) hh127 (fun j hj => hnext j (by omega)) hlast
  have hc1 : chain_at desc VIOBLK_QUEUE_MASK h 1 = (desc h).next &&& VIOBLK_QUEUE_MASK := rfl
  have hn0 : (desc h).flags &&& VRING_DESC_F_NEXT ≠ 0 := hnext 0 (by omega)
  have hn1 : (desc ((desc h).next &&& VIOBLK_QUEUE_MASK)).flags &&& VRING_DESC_F_NEXT ≠ 0 :=
    hnext 1 hk
  have hlastidx : chain_at desc VIOBLK_QUEUE_MASK (chain_at desc VIOBLK_QUEUE_MASK h 1) k
      = chain_at desc VIOBLK_QUEUE_MASK h (k + 1) := by
    rw [← chain_at_add, Nat.add_comm]
  have hloop := vioblk_notifyq_out_loop_chain g vr sector k fuel dev
    (chain_at desc VIOBLK_QUEUE_MASK h 1) 0 0 hk (by rw [hq] at hfuel; rw [hmask] at hk127; omega)
    (by rw [hq]; rw [hmask] at hk127; omega)
    (fun i hi => by rw [hdesc, ← chain_at_add]; exact hdw (1 + i) (by omega) (by omega))
    (fun i _ hi => by rw [hdesc, ← chain_at_add]; exact hnext (1 + i) (by omega))
    (by rw [hdesc, hlastidx]; exact hlast)
    (fun i hi => by rw [hdesc, ← chain_at_add]; exact hcap (1 + i) (by omega) (by omega))
    (fun i hi => by rw [hdesc, ← chain_at_add]; exact hmap (1 + i) (by omega) (by omega))
    (fun i hi => by
      rw [hdesc, ← chain_at_add, Nat.zero_add, Nat.add_comm 1 i]
      exact hio i hi)
    (by rw [hdesc, Nat.zero_add]; omega)
  rw [hdesc, hlastidx] at hloop
  have hhdr := read_mem_hdr g (desc h).addr hmaph
  unfold vioblk_notifyq_body
  simp only [hdesc, hh, hn0, hro, ne_eq, not_true_eq_false, if_false]
  cases hr : read_mem g (desc h).addr 16 with
  | none => rw [hr] at hhdr; simp at hhdr
  | some bs =>
    rw [hr] at hhdr
    simp only [Option.map_some', Option.some.injEq] at hhdr
    have hty : ¬ (VIRTIO_BLK_T_OUT = VIRTIO_BLK_T_IN) := by decide
    have hx : ¬ ((desc ((desc h).next &&& VIOBLK_QUEUE_MASK)).len > dev.max_xfer) := by
      rw [hc1] at hxfer
      omega
    simp only [hhdr, vioblk_notifyq_switch, htype, hty, if_true, if_false, hdesc, ← hc1, hsec]
    rw [hc1] at hloop ⊢
    have hws := write_mem_status g
      (desc (chain_at desc VIOBLK_QUEUE_MASK h (k + 1))).addr VIRTIO_BLK_S_OK hstm
    simp only [hn1, hx, if_false, hloop, hdesc, hstw, not_false_eq_true, hws]
    refine ⟨_, _, rfl, ?_, ?_, ?_, ?_, ?_, ?_, ?_⟩
    · rfl
    · rfl
    · simp [GuestMem.setVring, Vring.pushUsed, hh]
    · simp [GuestMem.setVring, Vring.pushUsed]
    · simp [GuestMem.setVring, Vring.pushUsed]
    · rfl
    · simp [GuestMem.setVring, Vring.pushUsed]

/-! ## Lemmas on termination -/

theorem write_mem_frame (g g1 : GuestMem) (dst : Nat) (buf : List Nat) (len : Nat)
    (h : write_mem g dst buf len = some g1) : g1.vring = g.vring ∧ g1.mapped = g.mapped := by
  unfold write_mem at h
  split at h
  · simp only [Option.some.injEq] at h
    subst h
    exact ⟨rfl, rfl⟩
  · simp at h

/-- The read loop returns within `VIOBLK_QUEUE_SIZE - cnt` passes and leaves
the rings as they were. -/
theorem vioblk_notifyq_in_loop_returns (dev : vioblk_dev) (vr sector : Nat) :
    ∀ (fuel : Nat) (g : GuestMem) (x cnt secbias : Nat), cnt < VIOBLK_QUEUE_SIZE →
      VIOBLK_QUEUE_SIZE ≤ fuel + cnt →
      ∃ r g1, vioblk_notifyq_in_loop dev vr sector fuel g x cnt secbias = .ret (r, g1) ∧
        g1.vring = g.vring ∧ g1.mapped = g.mapped := by
  intro fuel
  induction fuel with
  | zero => intro g x cnt secbias h1 h2; omega
  | succ fuel ih =>
    intro g x cnt secbias h1 h2
    rw [vioblk_notifyq_in_loop]
    dsimp only
    have stop : ∀ r : Option Nat, ∃ r1 g1, (Outcome.ret (r, g) : Outcome (Option Nat × GuestMem))
        = .ret (r1, g1) ∧ g1.vring = g.vring ∧ g1.mapped = g.mapped :=
      fun r => ⟨r, g, rfl, rfl, rfl⟩
    iterate 4
      split
      · exact stop _
    rename_i g1 hw
    have hf := write_mem_frame _ _ _ _ _ hw
    split
    · exact ⟨_, _, rfl, hf.1, hf.2⟩
    split
    · rename_i hc _
      obtain ⟨r, g2, e, v, m⟩ := ih g1 (((g.vring vr).desc x).next &&& VIOBLK_QUEUE_MASK)
        (cnt + 1) (secbias + ((g.vring vr).desc x).len / VIRTIO_BLK_SECTOR_SIZE)
        (by omega) (by omega)
      exact ⟨r, g2, e, v.trans hf.1, m.trans hf.2⟩
    · exact ⟨_, _, rfl, hf.1, hf.2⟩


/-- The write loop returns within `VIOBLK_QUEUE_SIZE - cnt` passes and
changes nothing of the device but its back-end. -/
theorem vioblk_notifyq_out_loop_returns (g : GuestMem) (vr sector : Nat) :
    ∀ (fuel : Nat) (dev : vioblk_dev) (x cnt secbias : Nat), cnt < VIOBLK_QUEUE_SIZE →
      VIOBLK_QUEUE_SIZE ≤ fuel + cnt →
      ∃ r dev1, vioblk_notifyq_out_loop g vr sector fuel dev x cnt secbias = .ret (r, dev1) ∧
        dev1.cfg = dev.cfg ∧ dev1.vq = dev.vq := by
  intro fuel
  induction fuel with
  | zero => intro dev x cnt secbias h1 h2; omega
  | succ fuel ih =>
    intro dev x cnt secbias h1 h2
    rw [vioblk_notifyq_out_loop]
    dsimp only
    iterate 4
      split
      · exact ⟨_, _, rfl, rfl, rfl⟩
    split
    · rename_i file1 _ hc _
      obtain ⟨r, dev2, e, v, m⟩ := ih { dev with file := file1 }
        (((g.vring vr).desc x).next &&& VIOBLK_QUEUE_MASK)
        (cnt + 1) (secbias + ((g.vring vr).desc x).len / VIRTIO_BLK_SECTOR_SIZE)
        (by omega) (by omega)
      exact ⟨r, dev2, e, v, m⟩
    · exact ⟨_, _, rfl, rfl, rfl⟩

/-- The `switch` of a block request returns; it changes no ring and nothing
of the device but its back-end. -/
theorem vioblk_notifyq_switch_returns (fuel : Nat) (dev : vioblk_dev) (g : GuestMem) (vr : Nat)
    (cmd_desc : vring_desc) (cmd : virtio_blk_req_hdr) (hfuel : VIOBLK_QUEUE_SIZE ≤ fuel) :
    ∃ r dev1 g1, vioblk_notifyq_switch fuel dev g vr cmd_desc cmd = .ret (r, dev1, g1) ∧
      g1.vring = g.vring ∧ g1.mapped = g.mapped ∧ dev1.cfg = dev.cfg ∧ dev1.vq = dev.vq := by
  have hq : (0 : Nat) < VIOBLK_QUEUE_SIZE := by decide
  unfold vioblk_notifyq_switch
  dsimp only
  split
  · split
    · exact ⟨_, _, _, rfl, rfl, rfl, rfl, rfl⟩
    · obtain ⟨r, g1, e, v, m⟩ := vioblk_notifyq_in_loop_returns dev vr cmd.sector fuel g
        (cmd_desc.next &&& VIOBLK_QUEUE_MASK) 0 0 hq (by omega)
      rw [e]
      cases r with
      | none => exact ⟨_, _, _, rfl, v, m, rfl, rfl⟩
      | some i => exact ⟨_, _, _, rfl, v, m, rfl, rfl⟩
  · split
    · split
      · exact ⟨_, _, _, rfl, rfl, rfl, rfl, rfl⟩
      · split
        · exact ⟨_, _, _, rfl, rfl, rfl, rfl, rfl⟩
        · obtain ⟨r, dev1, e, v, m⟩ := vioblk_notifyq_out_loop_returns g vr cmd.sector fuel dev
            (cmd_desc.next &&& VIOBLK_QUEUE_MASK) 0 0 hq (by omega)
          rw [e]
          cases r with
          | none => exact ⟨_, _, _, rfl, rfl, rfl, v, m⟩
          | some i => exact ⟨_, _, _, rfl, rfl, rfl, v, m⟩
    · split
      · exact ⟨_, _, _, rfl, rfl, rfl, rfl, rfl⟩
      · split
        · split
          · exact ⟨_, _, _, rfl, rfl, rfl, rfl, rfl⟩
          · exact ⟨_, _, _, rfl, rfl, rfl, rfl, rfl⟩
        · exact ⟨_, _, _, rfl, rfl, rfl, rfl, rfl⟩

/-- One pass of the block loop returns.  It never changes the descriptor
table or the avail ring; a pass that ends in `goto out` leaves every ring and
the device registers and queue bookkeeping as they were, so it publishes no
used element. -/
theorem vioblk_notifyq_body_returns (fuel : Nat) (dev : vioblk_dev) (g : GuestMem) (vr idx : Nat)
    (hfuel : VIOBLK_QUEUE_SIZE ≤ fuel) :
    ∃ b dev1 g1, vioblk_notifyq_body fuel dev g vr idx = .ret (b, dev1, g1) ∧
      (g1.vring vr).avail = (g.vring vr).avail ∧ (g1.vring vr).desc = (g.vring vr).desc ∧
      (b = false → g1.vring = g.vring ∧ dev1.cfg = dev.cfg ∧ dev1.vq = dev.vq) := by
  unfold vioblk_notifyq_body
  dsimp only
  split
  · exact ⟨_, _, _, rfl, rfl, rfl, fun _ => ⟨rfl, rfl, rfl⟩⟩
  · split
    · exact ⟨_, _, _, rfl, rfl, rfl, fun _ => ⟨rfl, rfl, rfl⟩⟩
    · split
      · exact ⟨_, _, _, rfl, rfl, rfl, fun _ => ⟨rfl, rfl, rfl⟩⟩
      · rename_i bs _
        obtain ⟨r, dev1, g1, e, v, m, c, q⟩ := vioblk_notifyq_switch_returns fuel dev g vr
          ((g.vring vr).desc ((g.vring vr).avail.ring idx &&& VIOBLK_QUEUE_MASK))
          (decode_blk_req_hdr bs) hfuel
        rw [e]
        cases r with
        | none => exact ⟨_, _, _, rfl, by rw [v], by rw [v], fun _ => ⟨v, c, q⟩⟩
        | some p =>
          obtain ⟨ds_desc_idx, ds⟩ := p
          dsimp only
          split
          · exact ⟨_, _, _, rfl, by rw [v], by rw [v], fun _ => ⟨v, c, q⟩⟩
          · split
            · exact ⟨_, _, _, rfl, by rw [v], by rw [v], fun _ => ⟨v, c, q⟩⟩
            · rename_i g2 hw
              have hf := write_mem_frame _ _ _ _ _ hw
              refine ⟨_, _, _, rfl, ?_, ?_, fun hb => by simp at hb⟩
              · simp [GuestMem.setVring, Vring.pushUsed, hf.1, v]
              · simp [GuestMem.setVring, Vring.pushUsed, hf.1, v]

/-- The notify loop of the block device returns once the fuel exceeds the
number of avail slots between `idx` and `avail.idx`, counted modulo the queue
size. -/
theorem vioblk_notifyq_loop_returns (bodyFuel vr : Nat) (hb : VIOBLK_QUEUE_SIZE ≤ bodyFuel) :
    ∀ (fuel : Nat) (dev : vioblk_dev) (g : GuestMem) (idx : Nat), idx < 128 →
      ((g.vring vr).avail.idx % 128 + 128 - idx) % 128 < fuel →
      ∃ r dev1 g1, vioblk_notifyq_loop bodyFuel vr fuel dev g idx = .ret (r, dev1, g1) := by
  intro fuel
  induction fuel with
  | zero => intro dev g idx _ h; omega
  | succ fuel ih =>
    intro dev g idx hidx hm
    rw [vioblk_notifyq_loop]
    split
    · rename_i hne
      obtain ⟨b, dev1, g1, e, ha, _, _⟩ := vioblk_notifyq_body_returns bodyFuel dev g vr idx hb
      rw [e]
      cases b with
      | false => exact ⟨_, _, _, rfl⟩
      | true =>
        dsimp only
        rw [and_vioblk_mask] at hne ⊢
        exact ih dev1 g1 ((idx + 1) % 128) (Nat.mod_lt _ (by decide)) (by rw [ha]; omega)
    · exact ⟨_, _, _, rfl⟩

/-- A block notify returns or ends in `fatalx`, whatever the guest memory
holds, with fuel `VIOBLK_QUEUE_SIZE`. -/
theorem vioblk_notifyq_returns (fuel : Nat) (dev : vioblk_dev) (g : GuestMem)
    (hfuel : VIOBLK_QUEUE_SIZE ≤ fuel) : vioblk_notifyq fuel dev g ≠ .diverge := by
  have hq : VIOBLK_QUEUE_SIZE = 128 := rfl
  unfold vioblk_notifyq
  dsimp only
  split
  · simp
  · split
    · simp
    · split
      · simp
      · obtain ⟨r, dev1, g1, e⟩ := vioblk_notifyq_loop_returns fuel
          (dev.vq dev.cfg.queue_notify).q_hva hfuel fuel dev g
          ((dev.vq dev.cfg.queue_notify).last_avail &&& VIOBLK_QUEUE_MASK)
          (by rw [and_vioblk_mask]; omega) (by rw [and_vioblk_mask]; omega)
        rw [e]
        simp

/-- The size-summing loop returns within `VIONET_QUEUE_SIZE - cnt` passes.
When it returns a size, it went through a chain whose descriptors after the
first carry the NEXT flag up to the one it stopped at, which does not. -/
theorem vionet_notify_tx_sum_returns (desc : Nat → vring_desc) :
    ∀ (fuel x pktsz cnt : Nat), cnt < VIONET_QUEUE_SIZE → VIONET_QUEUE_SIZE ≤ fuel + cnt →
      ∃ r, vionet_notify_tx_sum desc fuel x pktsz cnt = .ret r ∧
        ∀ p dxx, r = some (p, dxx) → ∃ n, 1 ≤ n ∧ cnt + n < VIONET_QUEUE_SIZE ∧
          (∀ i, 1 ≤ i → i < n →
            (desc (chain_at desc VIONET_QUEUE_MASK x i)).flags &&& VRING_DESC_F_NEXT ≠ 0) ∧
          (desc (chain_at desc VIONET_QUEUE_MASK x n)).flags &&& VRING_DESC_F_NEXT = 0 ∧
          dxx = chain_at desc VIONET_QUEUE_MASK x n := by
  intro fuel
  induction fuel with
  | zero => intro x pktsz cnt h1 h2; omega
  | succ fuel ih =>
    intro x pktsz cnt h1 h2
    have hq : VIONET_QUEUE_SIZE = 256 := rfl
    have hc2 : (cnt + 1) % 2 ^ 16 = cnt + 1 := by omega
    rw [vionet_notify_tx_sum]
    rw [hc2]
    split
    · exact ⟨none, rfl, fun p dxx h => by simp at h⟩
    · rename_i hc
      split
      · rename_i hn
        obtain ⟨r, e, hr⟩ := ih ((desc x).next &&& VIONET_QUEUE_MASK)
          ((pktsz + (desc x).len) % 2 ^ 64) (cnt + 1) (by omega) (by omega)
        refine ⟨r, e, fun p dxx h => ?_⟩
        obtain ⟨n, hn1, hn2, hn3, hn4, hn5⟩ := hr p dxx h
        refine ⟨n + 1, by omega, by omega, fun i hi1 hi2 => ?_, ?_, ?_⟩
        · rcases Nat.eq_or_lt_of_le hi1 with h1' | h1'
          · subst h1'
            exact hn
          · obtain ⟨i', rfl⟩ : ∃ i', i = i' + 1 := ⟨i - 1, by omega⟩
            rw [chain_at_succ_start]
            exact hn3 i' (by omega) (by omega)
        · rw [chain_at_succ_start]; exact hn4
        · rw [chain_at_succ_start]; exact hn5
      · rename_i hn
        refine ⟨_, rfl, fun p dxx h => ?_⟩
        simp only [Option.some.injEq, Prod.mk.injEq] at h
        refine ⟨1, le_refl 1, by omega, fun i hi1 hi2 => by omega, ?_, h.2.symm⟩
        simpa using hn

/-- The copy loop returns on a chain that reaches a descriptor without the
NEXT flag after `m` links. -/
theorem vionet_notify_tx_copy_returns (g : GuestMem) (desc : Nat → vring_desc) (pktsz : Nat) :
    ∀ (m fuel x ofs : Nat) (pkt : Nat → Nat), m + 1 ≤ fuel →
      (∀ i, i < m →
        (desc (chain_at desc VIONET_QUEUE_MASK x i)).flags &&& VRING_DESC_F_NEXT ≠ 0) →
      (desc (chain_at desc VIONET_QUEUE_MASK x m)).flags &&& VRING_DESC_F_NEXT = 0 →
      ∃ r, vionet_notify_tx_copy g desc pktsz fuel x ofs pkt = .ret r := by
  intro m
  induction m with
  | zero =>
    intro fuel x ofs pkt hfuel _ hlast
    obtain ⟨fuel, rfl⟩ : ∃ f, fuel = f + 1 := ⟨fuel - 1, by omega⟩
    have hl : (desc x).flags &&& VRING_DESC_F_NEXT = 0 := hlast
    rw [vionet_notify_tx_copy]
    simp only [hl, ne_eq, not_true_eq_false, if_false]
    exact ⟨_, rfl⟩
  | succ m ih =>
    intro fuel x ofs pkt hfuel hnext hlast
    obtain ⟨fuel, rfl⟩ : ∃ f, fuel = f + 1 := ⟨fuel - 1, by omega⟩
    have hn : (desc x).flags &&& VRING_DESC_F_NEXT ≠ 0 := hnext 0 (by omega)
    rw [vionet_notify_tx_copy]
    simp only [hn, ne_eq, not_false_eq_true, if_true]
    split
    · exact ⟨_, rfl⟩
    · split
      · exact ⟨_, rfl⟩
      · exact ih fuel _ _ _ (by omega)
          (fun i hi => by have := hnext (i + 1) (by omega); rwa [chain_at_succ_start] at this)
          (by rwa [chain_at_succ_start] at hlast)

theorem vionet_notify_tx_drop_packet_frame (s : TxState) (vr hdr_desc_idx : Nat) :
    ((vionet_notify_tx_drop_packet s vr hdr_desc_idx).g.vring vr).avail = (s.g.vring vr).avail ∧
    (vionet_notify_tx_drop_packet s vr hdr_desc_idx).dev.islocal = s.dev.islocal ∧
    (vionet_notify_tx_drop_packet s vr hdr_desc_idx).dhcpsz = s.dhcpsz := by
  simp [vionet_notify_tx_drop_packet, GuestMem.setVring, Vring.pushUsed]

/-- One pass of the transmit loop returns.  It never changes the avail ring;
a pass that ends in `goto out` leaves guest memory, rings included, and the
device as they were, so it publishes no used element.  With the local
responder off the pass leaves `dhcpsz` alone. -/
theorem vionet_notify_tx_body_returns (MIN_TXLEN MAX_TXLEN : Nat)
    (dhcp_request : List Nat → Nat → Int × List Nat) (fuel : Nat) (s : TxState) (vr idx : Nat)
    (hfuel : VIONET_QUEUE_SIZE ≤ fuel) :
    ∃ b s1, vionet_notify_tx_body MIN_TXLEN MAX_TXLEN dhcp_request fuel s vr idx = .ret (b, s1) ∧
      (s1.g.vring vr).avail = (s.g.vring vr).avail ∧
      (b = false → s1.g = s.g ∧ s1.dev = s.dev) ∧
      s1.dev.islocal = s.dev.islocal ∧
      (s.dev.islocal = 0 → s1.dhcpsz = s.dhcpsz) := by
  have hq : VIONET_QUEUE_SIZE = 256 := rfl
  obtain ⟨r, e, hr⟩ := vionet_notify_tx_sum_returns (s.g.vring vr).desc fuel
    ((s.g.vring vr).avail.ring idx &&& VIONET_QUEUE_MASK) 0 0 (by decide) (by omega)
  unfold vionet_notify_tx_body
  dsimp only
  rw [e]
  cases r with
  | none => exact ⟨_, _, rfl, rfl, fun _ => ⟨rfl, rfl⟩, rfl, fun _ => rfl⟩
  | some p =>
    obtain ⟨pktsz0, dxx⟩ := p
    obtain ⟨n, hn1, hn2, hn3, hn4, _⟩ := hr pktsz0 dxx rfl
    dsimp only
    split
    · have hf := vionet_notify_tx_drop_packet_frame s vr
        ((s.g.vring vr).avail.ring idx &&& VIONET_QUEUE_MASK)
      exact ⟨_, _, rfl, hf.1, fun hb => by simp at hb, hf.2.1, fun _ => hf.2.2⟩
    · obtain ⟨rc, ec⟩ := vionet_notify_tx_copy_returns s.g (s.g.vring vr).desc
        (size_sub ((pktsz0 + ((s.g.vring vr).desc dxx).len) % 2 ^ 64)
          ((s.g.vring vr).desc ((s.g.vring vr).avail.ring idx &&& VIONET_QUEUE_MASK)).len)
        (n - 1) fuel
        (((s.g.vring vr).desc ((s.g.vring vr).avail.ring idx &&& VIONET_QUEUE_MASK)).next
          &&& VIONET_QUEUE_MASK) 0 (fun _ => 0) (by omega)
        (fun i hi => by
          have := hn3 (i + 1) (by omega) (by omega)
          rwa [chain_at_succ_start] at this)
        (by
          have h1 : n = (n - 1) + 1 := by omega
          rw [h1, chain_at_succ_start] at hn4
          exact hn4)
      rw [ec]
      cases rc with
      | none => exact ⟨_, _, rfl, rfl, fun _ => ⟨rfl, rfl⟩, rfl, fun _ => rfl⟩
      | some q =>
        obtain ⟨pkt_desc_idx, ofs, pkt0⟩ := q
        dsimp only
        repeat' (first
          | exact ⟨_, _, rfl, rfl, fun _ => ⟨rfl, rfl⟩, rfl, fun h0 => by first | rfl | contradiction⟩
          | exact ⟨_, _, rfl, (vionet_notify_tx_drop_packet_frame _ vr _).1, fun hb => by simp at hb,
              (vionet_notify_tx_drop_packet_frame _ vr _).2.1,
              fun h0 => by first | exact (vionet_notify_tx_drop_packet_frame _ vr _).2.2 | contradiction⟩
          | split)

/-- The transmit loop returns once the fuel exceeds the number of avail slots
between `idx` and `avail.idx`, counted modulo the queue size. -/
theorem vionet_notify_tx_loop_returns (MIN_TXLEN MAX_TXLEN : Nat)
    (dhcp_request : List Nat → Nat → Int × List Nat) (bodyFuel vr : Nat)
    (hb : VIONET_QUEUE_SIZE ≤ bodyFuel) :
    ∀ (fuel : Nat) (s : TxState) (idx : Nat), idx < 256 →
      ((s.g.vring vr).avail.idx % 256 + 256 - idx) % 256 < fuel →
      ∃ b s1, vionet_notify_tx_loop MIN_TXLEN MAX_TXLEN dhcp_request bodyFuel vr fuel s idx
          = .ret (b, s1) ∧
        s1.dev.islocal = s.dev.islocal ∧ (s.dev.islocal = 0 → s1.dhcpsz = s.dhcpsz) := by
  intro fuel
  induction fuel with
  | zero => intro s idx _ h; omega
  | succ fuel ih =>
    intro s idx hidx hm
    rw [vionet_notify_tx_loop]
    split
    · rename_i hne
      obtain ⟨b, s1, e, ha, _, hl, hd⟩ :=
        vionet_notify_tx_body_returns MIN_TXLEN MAX_TXLEN dhcp_request bodyFuel s vr idx hb
      rw [e]
      cases b with
      | false => exact ⟨_, _, rfl, hl, hd⟩
      | true =>
        dsimp only
        rw [and_vionet_mask] at hne ⊢
        obtain ⟨b2, s2, e2, hl2, hd2⟩ := ih s1 ((idx + 1) % 256) (Nat.mod_lt _ (by decide))
          (by rw [ha]; omega)
        exact ⟨b2, s2, e2, hl2.trans hl, fun h0 => (hd2 (hl.trans h0)).trans (hd h0)⟩
    · exact ⟨_, _, rfl, rfl, fun _ => rfl⟩

/-- With the local responder off, a transmit notify returns or ends in
`fatalx`, whatever the guest memory holds, with fuel `VIONET_QUEUE_SIZE`. -/
theorem vionet_notify_tx_returns (MIN_TXLEN MAX_TXLEN : Nat)
    (dhcp_request : List Nat → Nat → Int × List Nat) (fuel : Nat) (dev : vionet_dev)
    (g : GuestMem) (tap : TapDev) (hfuel : VIONET_QUEUE_SIZE ≤ fuel) (hloc : dev.islocal = 0) :
    vionet_notify_tx MIN_TXLEN MAX_TXLEN dhcp_request fuel dev g tap ≠ .diverge := by
  have hq : VIONET_QUEUE_SIZE = 256 := rfl
  unfold vionet_notify_tx
  dsimp only
  split
  · simp
  · split
    · simp
    · obtain ⟨b, s1, e, _, hd⟩ := vionet_notify_tx_loop_returns MIN_TXLEN MAX_TXLEN dhcp_request
        fuel (dev.vq TXQ).q_hva hfuel fuel
        { dev := dev, g := g, tap := tap, dhcpsz := 0, dhcppkt := [] }
        ((dev.vq TXQ).last_avail &&& VIONET_QUEUE_MASK)
        (by rw [and_vionet_mask]; omega) (by rw [and_vionet_mask]; omega)
      rw [e]
      have hz : s1.dhcpsz = 0 := hd hloc
      cases b with
      | false => simp
      | true => simp [hz]

/-- A read loop that meets no descriptor without the NEXT flag before its
counter reaches `VIOBLK_QUEUE_SIZE` ends in `goto out`. -/
theorem vioblk_notifyq_in_loop_bound (dev : vioblk_dev) (vr sector : Nat) :
    ∀ (fuel : Nat) (g : GuestMem) (x cnt secbias : Nat), cnt < VIOBLK_QUEUE_SIZE →
      VIOBLK_QUEUE_SIZE ≤ fuel + cnt →
      (∀ j, 1 ≤ j → j + cnt < VIOBLK_QUEUE_SIZE →
        ((g.vring vr).desc (chain_at (g.vring vr).desc VIOBLK_QUEUE_MASK x j)).flags
          &&& VRING_DESC_F_NEXT ≠ 0) →
      ∃ g1, vioblk_notifyq_in_loop dev vr sector fuel g x cnt secbias = .ret (none, g1) := by
  intro fuel
  induction fuel with
  | zero => intro g x cnt secbias h1 h2; omega
  | succ fuel ih =>
    intro g x cnt secbias h1 h2 hnext
    rw [vioblk_notifyq_in_loop]
    dsimp only
    split
    · exact ⟨_, rfl⟩
    · split
      · exact ⟨_, rfl⟩
      · split
        · exact ⟨_, rfl⟩
        · split
          · exact ⟨_, rfl⟩
          · rename_i g1 hw
            have hf := write_mem_frame _ _ _ _ _ hw
            split
            · exact ⟨_, rfl⟩
            · rename_i hc
              split
              · exact ih g1 _ (cnt + 1) _ (by omega) (by omega) (fun j hj1 hj2 => by
                  have := hnext (j + 1) (by omega) (by omega)
                  rw [chain_at_succ_start] at this
                  rw [hf.1]
                  exact this)
              · rename_i hn
                have := hnext 1 (le_refl 1) (by omega)
                rw [hf.1] at hn
                exact absurd this hn

/-- A write loop that meets no descriptor without the NEXT flag before its
counter reaches `VIOBLK_QUEUE_SIZE` ends in `goto out`. -/
theorem vioblk_notifyq_out_loop_bound (g : GuestMem) (vr sector : Nat) :
    ∀ (fuel : Nat) (dev : vioblk_dev) (x cnt secbias : Nat), cnt < VIOBLK_QUEUE_SIZE →
      VIOBLK_QUEUE_SIZE ≤ fuel + cnt →
      (∀ j, 1 ≤ j → j + cnt < VIOBLK_QUEUE_SIZE →
        ((g.vring vr).desc (chain_at (g.vring vr).desc VIOBLK_QUEUE_MASK x j)).flags
          &&& VRING_DESC_F_NEXT ≠ 0) →
      ∃ dev1, vioblk_notifyq_out_loop g vr sector fuel dev x cnt secbias = .ret (none, dev1) := by
  intro fuel
  induction fuel with
  | zero => intro dev x cnt secbias h1 h2; omega
  | succ fuel ih =>
    intro dev x cnt secbias h1 h2 hnext
    rw [vioblk_notifyq_out_loop]
    dsimp only
    split
    · exact ⟨_, rfl⟩
    · split
      · exact ⟨_, rfl⟩
      · split
        · exact ⟨_, rfl⟩
        · split
          · exact ⟨_, rfl⟩
          · rename_i hc
            split
            · exact ih _ _ (cnt + 1) _ (by omega) (by omega) (fun j hj1 hj2 => by
                have := hnext (j + 1) (by omega) (by omega)
                rw [chain_at_succ_start] at this
                exact this)
            · rename_i hn
              exact absurd (hnext 1 (le_refl 1) (by omega)) hn

/-- A size-summing loop that meets no descriptor without the NEXT flag before
its counter reaches `VIONET_QUEUE_SIZE` ends in `goto out`. -/
theorem vionet_notify_tx_sum_bound (desc : Nat → vring_desc) :
    ∀ (fuel x pktsz cnt : Nat), cnt < VIONET_QUEUE_SIZE → VIONET_QUEUE_SIZE ≤ fuel + cnt →
      (∀ j, 1 ≤ j → j + cnt < VIONET_QUEUE_SIZE →
        (desc (chain_at desc VIONET_QUEUE_MASK x j)).flags &&& VRING_DESC_F_NEXT ≠ 0) →
      vionet_notify_tx_sum desc fuel x pktsz cnt = .ret none := by
  intro fuel
  induction fuel with
  | zero => intro x pktsz cnt h1 h2; omega
  | succ fuel ih =>
    intro x pktsz cnt h1 h2 hnext
    have hq : VIONET_QUEUE_SIZE = 256 := rfl
    have hc2 : (cnt + 1) % 2 ^ 16 = cnt + 1 := by omega
    rw [vionet_notify_tx_sum, hc2]
    split
    · rfl
    · split
      · exact ih _ _ (cnt + 1) (by omega) (by omega) (fun j hj1 hj2 => by
          have := hnext (j + 1) (by omega) (by omega)
          rw [chain_at_succ_start] at this
          exact this)
      · rename_i hn
        exact absurd (hnext 1 (le_refl 1) (by omega)) hn

/-- The `switch` of a read or write request whose data chain reaches the
bound of the walk gives `goto out`. -/
theorem vioblk_notifyq_switch_bound (fuel : Nat) (dev : vioblk_dev) (g : GuestMem) (vr : Nat)
    (cmd_desc : vring_desc) (cmd : virtio_blk_req_hdr) (hfuel : VIOBLK_QUEUE_SIZE ≤ fuel)
    (hwalk : ∀ j, 1 ≤ j → j + 0 < VIOBLK_QUEUE_SIZE →
      ((g.vring vr).desc (chain_at (g.vring vr).desc VIOBLK_QUEUE_MASK
        (cmd_desc.next &&& VIOBLK_QUEUE_MASK) j)).flags &&& VRING_DESC_F_NEXT ≠ 0)
    (htype : cmd.type = VIRTIO_BLK_T_IN ∨ cmd.type = VIRTIO_BLK_T_OUT) :
    ∃ dev1 g1, vioblk_notifyq_switch fuel dev g vr cmd_desc cmd = .ret (none, dev1, g1) := by
  have hq : VIOBLK_QUEUE_SIZE = 128 := rfl
  unfold vioblk_notifyq_switch
  dsimp only
  rcases htype with ht | ht
  · rw [ht]
    simp only [if_true]
    split
    · exact ⟨_, _, rfl⟩
    · obtain ⟨g1, e⟩ := vioblk_notifyq_in_loop_bound dev vr cmd.sector fuel g
        (cmd_desc.next &&& VIOBLK_QUEUE_MASK) 0 0 (by decide) (by omega) hwalk
      rw [e]
      exact ⟨_, _, rfl⟩
  · rw [ht]
    have hty : ¬ (VIRTIO_BLK_T_OUT = VIRTIO_BLK_T_IN) := by decide
    simp only [hty, if_true, if_false]
    split
    · exact ⟨_, _, rfl⟩
    · split
      · exact ⟨_, _, rfl⟩
      · obtain ⟨dev1, e⟩ := vioblk_notifyq_out_loop_bound g vr cmd.sector fuel dev
          (cmd_desc.next &&& VIOBLK_QUEUE_MASK) 0 0 (by decide) (by omega) hwalk
        rw [e]
        exact ⟨_, _, rfl⟩

/-- A read or write request whose data chain reaches the bound of the walk is
abandoned: the pass ends in `goto out`. -/
theorem vioblk_notifyq_body_bound (fuel : Nat) (dev : vioblk_dev) (g : GuestMem) (vr idx : Nat)
    (hfuel : VIOBLK_QUEUE_SIZE ≤ fuel)
    (hnext : ∀ j, 1 ≤ j → j ≤ VIOBLK_QUEUE_SIZE →
      ((g.vring vr).desc (chain_at (g.vring vr).desc VIOBLK_QUEUE_MASK
        ((g.vring vr).avail.ring idx &&& VIOBLK_QUEUE_MASK) j)).flags &&& VRING_DESC_F_NEXT ≠ 0)
    (htype : (blk_hdr_at g
        ((g.vring vr).desc ((g.vring vr).avail.ring idx &&& VIOBLK_QUEUE_MASK)).addr).type
          = VIRTIO_BLK_T_IN ∨
      (blk_hdr_at g
        ((g.vring vr).desc ((g.vring vr).avail.ring idx &&& VIOBLK_QUEUE_MASK)).addr).type
          = VIRTIO_BLK_T_OUT) :
    ∃ dev1 g1, vioblk_notifyq_body fuel dev g vr idx = .ret (false, dev1, g1) := by
  have hq : VIOBLK_QUEUE_SIZE = 128 := rfl
  have hwalk : ∀ j, 1 ≤ j → j + 0 < VIOBLK_QUEUE_SIZE →
      ((g.vring vr).desc (chain_at (g.vring vr).desc VIOBLK_QUEUE_MASK
        (((g.vring vr).desc ((g.vring vr).avail.ring idx &&& VIOBLK_QUEUE_MASK)).next
          &&& VIOBLK_QUEUE_MASK) j)).flags &&& VRING_DESC_F_NEXT ≠ 0 := by
    intro j hj1 hj2
    have := hnext (j + 1) (by omega) (by omega)
    rwa [chain_at_succ_start] at this
  unfold vioblk_notifyq_body
  dsimp only
  split
  · exact ⟨_, _, rfl⟩
  · split
    · exact ⟨_, _, rfl⟩
    · split
      · exact ⟨_, _, rfl⟩
      · rename_i bs hr
        have hdec : decode_blk_req_hdr bs = blk_hdr_at g
            ((g.vring vr).desc ((g.vring vr).avail.ring idx &&& VIOBLK_QUEUE_MASK)).addr := by
          unfold read_mem at hr
          split at hr
          · simp only [Option.some.injEq] at hr
            subst hr
            rfl
          · simp at hr
        obtain ⟨dev1, g1, e⟩ := vioblk_notifyq_switch_bound fuel dev g vr
          ((g.vring vr).desc ((g.vring vr).avail.ring idx &&& VIOBLK_QUEUE_MASK))
          (decode_blk_req_hdr bs) hfuel hwalk (by rw [hdec]; exact htype)
        rw [e]
        exact ⟨_, _, rfl⟩

/-- A transmit chain that reaches the bound of the size-summing walk is
abandoned: the pass ends in `goto out` with the state as it was. -/
theorem vionet_notify_tx_body_bound (MIN_TXLEN MAX_TXLEN : Nat)
    (dhcp_request : List Nat → Nat → Int × List Nat) (fuel : Nat) (s : TxState) (vr idx : Nat)
    (hfuel : VIONET_QUEUE_SIZE ≤ fuel)
    (hnext : ∀ j, 1 ≤ j → j < VIONET_QUEUE_SIZE →
      ((s.g.vring vr).desc (chain_at (s.g.vring vr).desc VIONET_QUEUE_MASK
        ((s.g.vring vr).avail.ring idx &&& VIONET_QUEUE_MASK) j)).flags &&& VRING_DESC_F_NEXT ≠ 0) :
    vionet_notify_tx_body MIN_TXLEN MAX_TXLEN dhcp_request fuel s vr idx = .ret (false, s) := by
  have hq : VIONET_QUEUE_SIZE = 256 := rfl
  have e := vionet_notify_tx_sum_bound (s.g.vring vr).desc fuel
    ((s.g.vring vr).avail.ring idx &&& VIONET_QUEUE_MASK) 0 0 (by decide) (by omega)
    (fun j hj1 hj2 => hnext j hj1 (by omega))
  unfold vionet_notify_tx_body
  dsimp only
  rw [e]


/-- A chain whose first descriptor links to itself stays on that descriptor. -/
theorem chain_at_self_loop (desc : Nat → vring_desc) (mask start : Nat)
    (h : (desc start).next &&& mask = start) : ∀ n, chain_at desc mask start n = start := by
  intro n
  induction n with
  | zero => rfl
  | succ n ih =>
    show (desc (chain_at desc mask start n)).next &&& mask = start
    rw [ih, h]

/-- An abandoned pass ends the avail loop of `vioblk_notifyq`. -/
theorem vioblk_notifyq_loop_abandon (bodyFuel vr fuel : Nat) (dev dev1 : vioblk_dev)
    (g g1 : GuestMem) (idx : Nat)
    (hpend : idx ≠ (g.vring vr).avail.idx &&& VIOBLK_QUEUE_MASK)
    (hbody : vioblk_notifyq_body bodyFuel dev g vr idx = .ret (false, dev1, g1)) :
    vioblk_notifyq_loop bodyFuel vr (fuel + 1) dev g idx = .ret (1, dev1, g1) := by
  rw [vioblk_notifyq_loop, if_pos hpend, hbody]

/-- An abandoned pass ends the avail loop of `vionet_notify_tx`. -/
theorem vionet_notify_tx_loop_abandon (MIN_TXLEN MAX_TXLEN : Nat)
    (dhcp_request : List Nat → Nat → Int × List Nat) (bodyFuel vr fuel : Nat) (s s1 : TxState)
    (idx : Nat) (hpend : (s.g.vring vr).avail.idx &&& VIONET_QUEUE_MASK ≠ idx)
    (hbody : vionet_notify_tx_body MIN_TXLEN MAX_TXLEN dhcp_request bodyFuel s vr idx
      = .ret (false, s1)) :
    vionet_notify_tx_loop MIN_TXLEN MAX_TXLEN dhcp_request bodyFuel vr (fuel + 1) s idx
      = .ret (false, s1) := by
  rw [vionet_notify_tx_loop, if_pos hpend, hbody]

/-- With entries pending, `vioblk_notifyq` is its avail loop. -/
theorem vioblk_notifyq_pending (fuel : Nat) (dev : vioblk_dev) (g : GuestMem)
    (h1 : ¬ dev.cfg.queue_notify > 0) (h2 : (dev.vq dev.cfg.queue_notify).q_hva ≠ 0)
    (h3 : ¬ (g.vring (dev.vq dev.cfg.queue_notify).q_hva).avail.idx &&& VIOBLK_QUEUE_MASK
      = (dev.vq dev.cfg.queue_notify).last_avail &&& VIOBLK_QUEUE_MASK) :
    vioblk_notifyq fuel dev g
      = vioblk_notifyq_loop fuel (dev.vq dev.cfg.queue_notify).q_hva fuel dev g
          ((dev.vq dev.cfg.queue_notify).last_avail &&& VIOBLK_QUEUE_MASK) := by
  unfold vioblk_notifyq
  rw [if_neg h1]
  dsimp only
  rw [if_neg h2, if_neg h3]

/-- With entries pending and the pass abandoned, `vionet_notify_tx` returns 1
with the state the pass left. -/
theorem vionet_notify_tx_abandon (MIN_TXLEN MAX_TXLEN : Nat)
    (dhcp_request : List Nat → Nat → Int × List Nat) (fuel : Nat) (dev : vionet_dev)
    (g : GuestMem) (tap : TapDev) (s1 : TxState)
    (h2 : (dev.vq TXQ).q_hva ≠ 0)
    (h3 : ¬ (g.vring (dev.vq TXQ).q_hva).avail.idx &&& VIONET_QUEUE_MASK
      = (dev.vq TXQ).last_avail &&& VIONET_QUEUE_MASK)
    (hloop : vionet_notify_tx_loop MIN_TXLEN MAX_TXLEN dhcp_request fuel (dev.vq TXQ).q_hva fuel
      { dev := dev, g := g, tap := tap, dhcpsz := 0, dhcppkt := [] }
      ((dev.vq TXQ).last_avail &&& VIONET_QUEUE_MASK) = .ret (false, s1)) :
    vionet_notify_tx MIN_TXLEN MAX_TXLEN dhcp_request fuel dev g tap
      = .ret (1, s1.dev, s1.g, s1.tap) := by
  unfold vionet_notify_tx
  dsimp only
  rw [if_neg h2, if_neg h3, hloop]

/-! ## The 64 MiB cap of the block path -/

/-- The read loop on `m` well-formed data descriptors followed by a descriptor
of more than 64 MiB: the `m` transfers are made and the loop leaves through
`goto out` at the oversize descriptor. -/
theorem vioblk_notifyq_in_loop_oversize (dev : vioblk_dev) (vr sector : Nat) :
    ∀ (m fuel : Nat) (g : GuestMem) (x cnt secbias : Nat), m < fuel →
      cnt + m < VIOBLK_QUEUE_SIZE →
      (∀ i, i < m → ((g.vring vr).desc (chain_at (g.vring vr).desc VIOBLK_QUEUE_MASK x i)).flags
        &&& VRING_DESC_F_WRITE ≠ 0) →
      (∀ i, 1 ≤ i → i ≤ m →
        ((g.vring vr).desc (chain_at (g.vring vr).desc VIOBLK_QUEUE_MASK x i)).flags
          &&& VRING_DESC_F_NEXT ≠ 0) →
      (∀ i, i < m →
        ((g.vring vr).desc (chain_at (g.vring vr).desc VIOBLK_QUEUE_MASK x i)).len ≤ 2 ^ 26) →
      (∀ i, i < m → g.mapped
        ((g.vring vr).desc (chain_at (g.vring vr).desc VIOBLK_QUEUE_MASK x i)).addr
        ((g.vring vr).desc (chain_at (g.vring vr).desc VIOBLK_QUEUE_MASK x i)).len = true) →
      (∀ i, i < m → dev.file.pread_ok
        ((g.vring vr).desc (chain_at (g.vring vr).desc VIOBLK_QUEUE_MASK x i)).len
        ((sector + (secbias + chain_sectors (g.vring vr).desc VIOBLK_QUEUE_MASK x i))
          * VIRTIO_BLK_SECTOR_SIZE) = true) →
      (sector + (secbias + chain_sectors (g.vring vr).desc VIOBLK_QUEUE_MASK x m))
        * VIRTIO_BLK_SECTOR_SIZE < 2 ^ 64 →
      ((g.vring vr).desc (chain_at (g.vring vr).desc VIOBLK_QUEUE_MASK x m)).len > 2 ^ 26 →
      vioblk_notifyq_in_loop dev vr sector fuel g x cnt secbias =
        .ret (none,
          { g with bytes :=
              blk_in_transfer dev.file.disk (g.vring vr).desc sector m x secbias g.bytes }) := by
  intro m
  induction m with
  | zero =>
    intro fuel g x cnt secbias hfuel _ _ _ _ _ _ _ hbig
    obtain ⟨fuel, rfl⟩ : ∃ f, fuel = f + 1 := ⟨fuel - 1, by omega⟩
    have hb : ((g.vring vr).desc x).len > 2 ^ 26 := hbig
    unfold vioblk_notifyq_in_loop
    simp only [vioblk_start_read, hb, if_true]
    split <;> rfl
  | succ m ih =>
    intro fuel g x cnt secbias hfuel hcnt hwr hnext hcap hmap hio hoff hbig
    obtain ⟨fuel, rfl⟩ : ∃ f, fuel = f + 1 := ⟨fuel - 1, by omega⟩
    have hq : VIOBLK_QUEUE_SIZE = 128 := rfl
    have hss : VIRTIO_BLK_SECTOR_SIZE = 512 := rfl
    have hw0 : ((g.vring vr).desc x).flags &&& VRING_DESC_F_WRITE ≠ 0 := hwr 0 (by omega)
    have hc0 : ¬ (((g.vring vr).desc x).len > 2 ^ 26) := by
      have := hcap 0 (by omega)
      simp only [chain_at] at this
      omega
    have hm0 : g.mapped ((g.vring vr).desc x).addr ((g.vring vr).desc x).len = true :=
      hmap 0 (by omega)
    have hio0 := hio 0 (by omega)
    simp only [chain_at, chain_sectors, Nat.add_zero] at hio0
    have hmono := chain_sectors_mono (g.vring vr).desc VIOBLK_QUEUE_MASK x 0 (m + 1) (by omega)
    simp only [chain_sectors] at hmono
    have hoff0 : ((sector + secbias) % 2 ^ 64 * VIRTIO_BLK_SECTOR_SIZE) % 2 ^ 64
        = (sector + secbias) * VIRTIO_BLK_SECTOR_SIZE := by
      rw [hss] at hoff ⊢
      simp only [chain_sectors] at hoff
      omega
    have hcnt1 : ¬ (cnt + 1 ≥ VIOBLK_QUEUE_SIZE) := by omega
    have hn : ((g.vring vr).desc (((g.vring vr).desc x).next &&& VIOBLK_QUEUE_MASK)).flags
        &&& VRING_DESC_F_NEXT ≠ 0 := hnext 1 (le_refl 1) (by omega)
    unfold vioblk_notifyq_in_loop
    simp only [hw0, if_false, vioblk_start_read, hc0, hoff0, vioblk_finish_read,
      virtio_backing.pread, hio0, if_true, write_mem_pread g dev.file.disk _ _ _ hm0, hcnt1,
      hn, ne_eq, not_false_eq_true]
    rw [ih fuel _ _ (cnt + 1) _ (by omega) (by omega)
      (fun i hi => by have := hwr (i + 1) (by omega); rwa [chain_at_succ_start] at this)
      (fun i h1 h2 => by
        have := hnext (i + 1) (by omega) (by omega); rwa [chain_at_succ_start] at this)
      (fun i hi => by have := hcap (i + 1) (by omega); rwa [chain_at_succ_start] at this)
      (fun i hi => by have := hmap (i + 1) (by omega); rwa [chain_at_succ_start] at this)
      (fun i hi => by
        have := hio (i + 1) (by omega)
        rw [chain_at_succ_start] at this
        simp only [chain_sectors] at this
        rw [← Nat.add_assoc secbias] at this
        exact this)
      (by
        simp only [chain_sectors] at hoff
        rw [← Nat.add_assoc secbias] at hoff
        exact hoff)
      (by rwa [chain_at_succ_start] at hbig)]
    rfl

/-- The write loop on `m` well-formed data descriptors followed by a
descriptor of more than 64 MiB: the `m` transfers are made and the loop leaves
through `goto out` at the oversize descriptor. -/
theorem vioblk_notifyq_out_loop_oversize (g : GuestMem) (vr sector : Nat) :
    ∀ (m fuel : Nat) (dev : vioblk_dev) (x cnt secbias : Nat), m < fuel →
      cnt + m < VIOBLK_QUEUE_SIZE →
      (∀ i, i < m → ((g.vring vr).desc (chain_at (g.vring vr).desc VIOBLK_QUEUE_MASK x i)).flags
        &&& VRING_DESC_F_WRITE = 0) →
      (∀ i, 1 ≤ i → i ≤ m →
        ((g.vring vr).desc (chain_at (g.vring vr).desc VIOBLK_QUEUE_MASK x i)).flags
          &&& VRING_DESC_F_NEXT ≠ 0) →
      (∀ i, i < m →
        ((g.vring vr).desc (chain_at (g.vring vr).desc VIOBLK_QUEUE_MASK x i)).len ≤ 2 ^ 26) →
      (∀ i, i < m → g.mapped
        ((g.vring vr).desc (chain_at (g.vring vr).desc VIOBLK_QUEUE_MASK x i)).addr
        ((g.vring vr).desc (chain_at (g.vring vr).desc VIOBLK_QUEUE_MASK x i)).len = true) →
      (∀ i, i < m → dev.file.pwrite_ok
        ((g.vring vr).desc (chain_at (g.vring vr).desc VIOBLK_QUEUE_MASK x i)).len
        ((sector + (secbias + chain_sectors (g.vring vr).desc VIOBLK_QUEUE_MASK x i))
          * VIRTIO_BLK_SECTOR_SIZE) = true) →
      (sector + (secbias + chain_sectors (g.vring vr).desc VIOBLK_QUEUE_MASK x m))
        * VIRTIO_BLK_SECTOR_SIZE < 2 ^ 64 →
      ((g.vring vr).desc (chain_at (g.vring vr).desc VIOBLK_QUEUE_MASK x m)).len > 2 ^ 26 →
      vioblk_notifyq_out_loop g vr sector fuel dev x cnt secbias =
        .ret (none,
          { dev with file := { dev.file with disk :=
              (blk_out_transfer g.bytes (g.vring vr).desc sector m x secbias dev.file.disk) } }) := by
  intro m
  induction m with
  | zero =>
    intro fuel dev x cnt secbias hfuel _ _ _ _ _ _ _ hbig
    obtain ⟨fuel, rfl⟩ : ∃ f, fuel = f + 1 := ⟨fuel - 1, by omega⟩
    have hb : ((g.vring vr).desc x).len > 2 ^ 26 := hbig
    unfold vioblk_notifyq_out_loop
    simp only [vioblk_start_write, hb, if_true]
    split <;> rfl
  | succ m ih =>
    intro fuel dev x cnt secbias hfuel hcnt hwr hnext hcap hmap hio hoff hbig
    obtain ⟨fuel, rfl⟩ : ∃ f, fuel = f + 1 := ⟨fuel - 1, by omega⟩
    have hq : VIOBLK_QUEUE_SIZE = 128 := rfl
    have hss : VIRTIO_BLK_SECTOR_SIZE = 512 := rfl
    have hw0 : ((g.vring vr).desc x).flags &&& VRING_DESC_F_WRITE = 0 := hwr 0 (by omega)
    have hc0 : ¬ (((g.vring vr).desc x).len > 2 ^ 26) := by
      have := hcap 0 (by omega)
      simp only [chain_at] at this
      omega
    have hm0 : g.mapped ((g.vring vr).desc x).addr ((g.vring vr).desc x).len = true :=
      hmap 0 (by omega)
    have hio0 := hio 0 (by omega)
    simp only [chain_at, chain_sectors, Nat.add_zero] at hio0
    have hmono := chain_sectors_mono (g.vring vr).desc VIOBLK_QUEUE_MASK x 0 (m + 1) (by omega)
    simp only [chain_sectors] at hmono
    have hoff0 : ((sector + secbias) % 2 ^ 64 * VIRTIO_BLK_SECTOR_SIZE) % 2 ^ 64
        = (sector + secbias) * VIRTIO_BLK_SECTOR_SIZE := by
      rw [hss] at hoff ⊢
      simp only [chain_sectors] at hoff
      omega
    have hcnt1 : ¬ (cnt + 1 ≥ VIOBLK_QUEUE_SIZE) := by omega
    have hn : ((g.vring vr).desc (((g.vring vr).desc x).next &&& VIOBLK_QUEUE_MASK)).flags
        &&& VRING_DESC_F_NEXT ≠ 0 := hnext 1 (le_refl 1) (by omega)
    unfold vioblk_notifyq_out_loop
    simp only [hw0, ne_eq, not_true_eq_false, if_false, vioblk_start_write, hc0, read_mem, hm0,
      if_true, hoff0, vioblk_finish_write, pwrite_read_mem dev.file g.bytes _ _ _ hio0, hcnt1,
      hn, not_false_eq_true]
    rw [ih fuel _ _ (cnt + 1) _ (by omega) (by omega)
      (fun i hi => by have := hwr (i + 1) (by omega); rwa [chain_at_succ_start] at this)
      (fun i h1 h2 => by
        have := hnext (i + 1) (by omega) (by omega); rwa [chain_at_succ_start] at this)
      (fun i hi => by have := hcap (i + 1) (by omega); rwa [chain_at_succ_start] at this)
      (fun i hi => by have := hmap (i + 1) (by omega); rwa [chain_at_succ_start] at this)
      (fun i hi => by
        have := hio (i + 1) (by omega)
        rw [chain_at_succ_start] at this
        simp only [chain_sectors] at this
        rw [← Nat.add_assoc secbias] at this
        exact this)
      (by
        simp only [chain_sectors] at hoff
        rw [← Nat.add_assoc secbias] at hoff
        exact hoff)
      (by rwa [chain_at_succ_start] at hbig)]
    rfl

/-- One pass of the block loop over a `VIRTIO_BLK_T_IN` request whose data
descriptor number `m + 1` is longer than 64 MiB, the `m` before it being well
formed. -/
theorem vioblk_notifyq_body_in_oversize (fuel : Nat) (dev : vioblk_dev) (g : GuestMem)
    (vr idx m : Nat)
    (hfuel : VIOBLK_QUEUE_SIZE ≤ fuel) (hm : m < VIOBLK_QUEUE_SIZE)
    (hnext : ∀ j, j ≤ m + 1 → ((g.vring vr).desc (chain_at (g.vring vr).desc VIOBLK_QUEUE_MASK
      ((g.vring vr).avail.ring idx &&& VIOBLK_QUEUE_MASK) j)).flags &&& VRING_DESC_F_NEXT ≠ 0)
    (hro : ((g.vring vr).desc ((g.vring vr).avail.ring idx &&& VIOBLK_QUEUE_MASK)).flags
      &&& VRING_DESC_F_WRITE = 0)
    (hmaph : g.mapped ((g.vring vr).desc ((g.vring vr).avail.ring idx &&& VIOBLK_QUEUE_MASK)).addr 16
      = true)
    (htype : (blk_hdr_at g
      ((g.vring vr).desc ((g.vring vr).avail.ring idx &&& VIOBLK_QUEUE_MASK)).addr).type
        = VIRTIO_BLK_T_IN)
    (hdw : ∀ j, 1 ≤ j → j ≤ m → ((g.vring vr).desc (chain_at (g.vring vr).desc VIOBLK_QUEUE_MASK
      ((g.vring vr).avail.ring idx &&& VIOBLK_QUEUE_MASK) j)).flags &&& VRING_DESC_F_WRITE ≠ 0)
    (hcap : ∀ j, 1 ≤ j → j ≤ m → ((g.vring vr).desc (chain_at (g.vring vr).desc VIOBLK_QUEUE_MASK
      ((g.vring vr).avail.ring idx &&& VIOBLK_QUEUE_MASK) j)).len ≤ 2 ^ 26)
    (hmap : ∀ j, 1 ≤ j → j ≤ m → g.mapped
      ((g.vring vr).desc (chain_at (g.vring vr).desc VIOBLK_QUEUE_MASK
        ((g.vring vr).avail.ring idx &&& VIOBLK_QUEUE_MASK) j)).addr
      ((g.vring vr).desc (chain_at (g.vring vr).desc VIOBLK_QUEUE_MASK
        ((g.vring vr).avail.ring idx &&& VIOBLK_QUEUE_MASK) j)).len = true)
    (hio : ∀ j, j < m → dev.file.pread_ok
      ((g.vring vr).desc (chain_at (g.vring vr).desc VIOBLK_QUEUE_MASK
        ((g.vring vr).avail.ring idx &&& VIOBLK_QUEUE_MASK) (j + 1))).len
      (((blk_hdr_at g
          ((g.vring vr).desc ((g.vring vr).avail.ring idx &&& VIOBLK_QUEUE_MASK)).addr).sector
        + chain_sectors (g.vring vr).desc VIOBLK_QUEUE_MASK
            (chain_at (g.vring vr).desc VIOBLK_QUEUE_MASK
              ((g.vring vr).avail.ring idx &&& VIOBLK_QUEUE_MASK) 1) j)
        * VIRTIO_BLK_SECTOR_SIZE) = true)
    (hoff : ((blk_hdr_at g
          ((g.vring vr).desc ((g.vring vr).avail.ring idx &&& VIOBLK_QUEUE_MASK)).addr).sector
        + chain_sectors (g.vring vr).desc VIOBLK_QUEUE_MASK
            (chain_at (g.vring vr).desc VIOBLK_QUEUE_MASK
              ((g.vring vr).avail.ring idx &&& VIOBLK_QUEUE_MASK) 1) m)
        * VIRTIO_BLK_SECTOR_SIZE < 2 ^ 63)
    (hbig : ((g.vring vr).desc (chain_at (g.vring vr).desc VIOBLK_QUEUE_MASK
      ((g.vring vr).avail.ring idx &&& VIOBLK_QUEUE_MASK) (m + 1))).len > 2 ^ 26) :
    vioblk_notifyq_body fuel dev g vr idx = .ret (false, dev,
      { g with bytes :=
          (blk_in_transfer dev.file.disk (g.vring vr).desc
            (blk_hdr_at g
              ((g.vring vr).desc ((g.vring vr).avail.ring idx &&& VIOBLK_QUEUE_MASK)).addr).sector
            m (chain_at (g.vring vr).desc VIOBLK_QUEUE_MASK
              ((g.vring vr).avail.ring idx &&& VIOBLK_QUEUE_MASK) 1) 0 g.bytes) }) := by
  generalize hdesc : (g.vring vr).desc = desc at *
  generalize hh : (g.vring vr).avail.ring idx &&& VIOBLK_QUEUE_MASK = h at *
  generalize hsec : (blk_hdr_at g (desc h).addr).sector = sector at *
  have hq : VIOBLK_QUEUE_SIZE = 128 := rfl
  have hc1 : chain_at desc VIOBLK_QUEUE_MASK h 1 = (desc h).next &&& VIOBLK_QUEUE_MASK := rfl
  have hn0 : (desc h).flags &&& VRING_DESC_F_NEXT ≠ 0 := hnext 0 (by omega)
  have hn1 : (desc ((desc h).next &&& VIOBLK_QUEUE_MASK)).flags &&& VRING_DESC_F_NEXT ≠ 0 :=
    hnext 1 (by omega)
  have hloop := vioblk_notifyq_in_loop_oversize dev vr sector m fuel g
    (chain_at desc VIOBLK_QUEUE_MASK h 1) 0 0 (by rw [hq] at hfuel hm; omega)
    (by rw [hq] at hm ⊢; omega)
    (fun i hi => by rw [hdesc, ← chain_at_add]; exact hdw (1 + i) (by omega) (by omega))
    (fun i _ hi => by rw [hdesc, ← chain_at_add]; exact hnext (1 + i) (by omega))
    (fun i hi => by rw [hdesc, ← chain_at_add]; exact hcap (1 + i) (by omega) (by omega))
    (fun i hi => by rw [hdesc, ← chain_at_add]; exact hmap (1 + i) (by omega) (by omega))
    (fun i hi => by
      rw [hdesc, ← chain_at_add, Nat.zero_add, Nat.add_comm 1 i]
      exact hio i hi)
    (by rw [hdesc, Nat.zero_add]; omega)
    (by rw [hdesc, ← chain_at_add, Nat.add_comm 1 m]; exact hbig)
  rw [hdesc] at hloop
  have hhdr := read_mem_hdr g (desc h).addr hmaph
  unfold vioblk_notifyq_body
  simp only [hdesc, hh, hn0, hro, ne_eq, not_true_eq_false, if_false]
  cases hr : read_mem g (desc h).addr 16 with
  | none => rw [hr] at hhdr; simp at hhdr
  | some bs =>
    rw [hr] at hhdr
    simp only [Option.map_some', Option.some.injEq] at hhdr
    simp only [hhdr, vioblk_notifyq_switch, htype, if_true, hdesc, ← hc1, hsec]
    rw [hc1] at hloop ⊢
    simp only [hn1, if_false, hloop]

/-- One pass of the block loop over a `VIRTIO_BLK_T_OUT` request whose data
descriptor number `m + 1` is longer than 64 MiB, the `m` before it being well
formed. -/
theorem vioblk_notifyq_body_out_oversize (fuel : Nat) (dev : vioblk_dev) (g : GuestMem)
    (vr idx m : Nat)
    (hfuel : VIOBLK_QUEUE_SIZE ≤ fuel) (hm : m < VIOBLK_QUEUE_SIZE)
    (hnext : ∀ j, j ≤ m + 1 → ((g.vring vr).desc (chain_at (g.vring vr).desc VIOBLK_QUEUE_MASK
      ((g.vring vr).avail.ring idx &&& VIOBLK_QUEUE_MASK) j)).flags &&& VRING_DESC_F_NEXT ≠ 0)
    (hro : ((g.vring vr).desc ((g.vring vr).avail.ring idx &&& VIOBLK_QUEUE_MASK)).flags
      &&& VRING_DESC_F_WRITE = 0)
    (hmaph : g.mapped ((g.vring vr).desc ((g.vring vr).avail.ring idx &&& VIOBLK_QUEUE_MASK)).addr 16
      = true)
    (htype : (blk_hdr_at g
      ((g.vring vr).desc ((g.vring vr).avail.ring idx &&& VIOBLK_QUEUE_MASK)).addr).type
        = VIRTIO_BLK_T_OUT)
    (hdw : ∀ j, 1 ≤ j → j ≤ m → ((g.vring vr).desc (chain_at (g.vring vr).desc VIOBLK_QUEUE_MASK
      ((g.vring vr).avail.ring idx &&& VIOBLK_QUEUE_MASK) j)).flags &&& VRING_DESC_F_WRITE = 0)
    (hxfer : 1 ≤ m → ((g.vring vr).desc (chain_at (g.vring vr).desc VIOBLK_QUEUE_MASK
      ((g.vring vr).avail.ring idx &&& VIOBLK_QUEUE_MASK) 1)).len ≤ dev.max_xfer)
    (hcap : ∀ j, 1 ≤ j → j ≤ m → ((g.vring vr).desc (chain_at (g.vring vr).desc VIOBLK_QUEUE_MASK
      ((g.vring vr).avail.ring idx &&& VIOBLK_QUEUE_MASK) j)).len ≤ 2 ^ 26)
    (hmap : ∀ j, 1 ≤ j → j ≤ m → g.mapped
      ((g.vring vr).desc (chain_at (g.vring vr).desc VIOBLK_QUEUE_MASK
        ((g.vring vr).avail.ring idx &&& VIOBLK_QUEUE_MASK) j)).addr
      ((g.vring vr).desc (chain_at (g.vring vr).desc VIOBLK_QUEUE_MASK
        ((g.vring vr).avail.ring idx &&& VIOBLK_QUEUE_MASK) j)).len = true)
    (hio : ∀ j, j < m → dev.file.pwrite_ok
      ((g.vring vr).desc (chain_at (g.vring vr).desc VIOBLK_QUEUE_MASK
        ((g.vring vr).avail.ring idx &&& VIOBLK_QUEUE_MASK) (j + 1))).len
      (((blk_hdr_at g
          ((g.vring vr).desc ((g.vring vr).avail.ring idx &&& VIOBLK_QUEUE_MASK)).addr).sector
        + chain_sectors (g.vring vr).desc VIOBLK_QUEUE_MASK
            (chain_at (g.vring vr).desc VIOBLK_QUEUE_MASK
              ((g.vring vr).avail.ring idx &&& VIOBLK_QUEUE_MASK) 1) j)
        * VIRTIO_BLK_SECTOR_SIZE) = true)
    (hoff : ((blk_hdr_at g
          ((g.vring vr).desc ((g.vring vr).avail.ring idx &&& VIOBLK_QUEUE_MASK)).addr).sector
        + chain_sectors (g.vring vr).desc VIOBLK_QUEUE_MASK
            (chain_at (g.vring vr).desc VIOBLK_QUEUE_MASK
              ((g.vring vr).avail.ring idx &&& VIOBLK_QUEUE_MASK) 1) m)
        * VIRTIO_BLK_SECTOR_SIZE < 2 ^ 63)
    (hbig : ((g.vring vr).desc (chain_at (g.vring vr).desc VIOBLK_QUEUE_MASK
      ((g.vring vr).avail.ring idx &&& VIOBLK_QUEUE_MASK) (m + 1))).len > 2 ^ 26) :
    vioblk_notifyq_body fuel dev g vr idx = .ret (false,
      { dev with file := { dev.file with disk :=
          (blk_out_transfer g.bytes (g.vring vr).desc
            (blk_hdr_at g
              ((g.vring vr).desc ((g.vring vr).avail.ring idx &&& VIOBLK_QUEUE_MASK)).addr).sector
            m (chain_at (g.vring vr).desc VIOBLK_QUEUE_MASK
              ((g.vring vr).avail.ring idx &&& VIOBLK_QUEUE_MASK) 1) 0 dev.file.disk) } }, g) := by
  generalize hdesc : (g.vring vr).desc = desc at *
  generalize hh : (g.vring vr).avail.ring idx &&& VIOBLK_QUEUE_MASK = h at *
  generalize hsec : (blk_hdr_at g (desc h).addr).sector = sector at *
  have hq : VIOBLK_QUEUE_SIZE = 128 := rfl
  have hc1 : chain_at desc VIOBLK_QUEUE_MASK h 1 = (desc h).next &&& VIOBLK_QUEUE_MASK := rfl
  have hn0 : (desc h).flags &&& VRING_DESC_F_NEXT ≠ 0 := hnext 0 (by omega)
  have hn1 : (desc ((desc h).next &&& VIOBLK_QUEUE_MASK)).flags &&& VRING_DESC_F_NEXT ≠ 0 :=
    hnext 1 (by omega)
  have hloop := vioblk_notifyq_out_loop_oversize g vr sector m fuel dev
    (chain_at desc VIOBLK_QUEUE_MASK h 1) 0 0 (by rw [hq] at hfuel hm; omega)
    (by rw [hq] at hm ⊢; omega)
    (fun i hi => by rw [hdesc, ← chain_at_add]; exact hdw (1 + i) (by omega) (by omega))
    (fun i _ hi => by rw [hdesc, ← chain_at_add]; exact hnext (1 + i) (by omega))
    (fun i hi => by rw [hdesc, ← chain_at_add]; exact hcap (1 + i) (by omega) (by omega))
    (fun i hi => by rw [hdesc, ← chain_at_add]; exact hmap (1 + i) (by omega) (by omega))
    (fun i hi => by
      rw [hdesc, ← chain_at_add, Nat.zero_add, Nat.add_comm 1 i]
      exact hio i hi)
    (by rw [hdesc, Nat.zero_add]; omega)
    (by rw [hdesc, ← chain_at_add, Nat.add_comm 1 m]; exact hbig)
  rw [hdesc] at hloop
  have hhdr := read_mem_hdr g (desc h).addr hmaph
  have hne : ¬ (VIRTIO_BLK_T_OUT = VIRTIO_BLK_T_IN) := by decide
  unfold vioblk_notifyq_body
  simp only [hdesc, hh, hn0, hro, ne_eq, not_true_eq_false, if_false]
  cases hr : read_mem g (desc h).addr 16 with
  | none => rw [hr] at hhdr; simp at hhdr
  | some bs =>
    rw [hr] at hhdr
    simp only [Option.map_some', Option.some.injEq] at hhdr
    simp only [hhdr, vioblk_notifyq_switch, htype, hne, if_true, if_false, hdesc, ← hc1, hsec]
    rw [hc1] at hloop hxfer ⊢
    simp only [hn1, if_false]
    by_cases hx : (desc ((desc h).next &&& VIOBLK_QUEUE_MASK)).len > dev.max_xfer
    · have hm0 : m = 0 := by
        by_contra hc
        have := hxfer (by omega)
        omega
      subst hm0
      rw [if_pos hx]
      rfl
    · rw [if_neg hx, hloop]

/-! ## Queue bookkeeping under the block notify and the register handlers -/

/-- One pass of the block loop changes the queue bookkeeping only in
`last_avail` of the notified queue. -/
theorem vioblk_notifyq_body_vq (fuel : Nat) (dev : vioblk_dev) (g : GuestMem) (vr idx : Nat)
    (hfuel : VIOBLK_QUEUE_SIZE ≤ fuel) :
    ∃ b dev1 g1, vioblk_notifyq_body fuel dev g vr idx = .ret (b, dev1, g1) ∧
      (g1.vring vr).avail = (g.vring vr).avail ∧
      dev1.cfg.queue_notify = dev.cfg.queue_notify ∧
      (∀ i, (dev1.vq i).notified_avail = (dev.vq i).notified_avail) ∧
      (∀ i, i ≠ dev.cfg.queue_notify → dev1.vq i = dev.vq i) := by
  unfold vioblk_notifyq_body
  dsimp only
  split
  · exact ⟨_, _, _, rfl, rfl, rfl, fun _ => rfl, fun _ _ => rfl⟩
  split
  · exact ⟨_, _, _, rfl, rfl, rfl, fun _ => rfl, fun _ _ => rfl⟩
  split
  · exact ⟨_, _, _, rfl, rfl, rfl, fun _ => rfl, fun _ _ => rfl⟩
  rename_i bs _
  obtain ⟨r, dev1, g1, e, v, m, c, q⟩ := vioblk_notifyq_switch_returns fuel dev g vr
    ((g.vring vr).desc ((g.vring vr).avail.ring idx &&& VIOBLK_QUEUE_MASK))
    (decode_blk_req_hdr bs) hfuel
  rw [e]
  cases r with
  | none => exact ⟨_, _, _, rfl, by rw [v], by rw [c], fun _ => by rw [q], fun _ _ => by rw [q]⟩
  | some p =>
    obtain ⟨ds_desc_idx, ds⟩ := p
    dsimp only
    split
    · exact ⟨_, _, _, rfl, by rw [v], by rw [c], fun _ => by rw [q], fun _ _ => by rw [q]⟩
    split
    · exact ⟨_, _, _, rfl, by rw [v], by rw [c], fun _ => by rw [q], fun _ _ => by rw [q]⟩
    rename_i g2 hw
    have hf := write_mem_frame _ _ _ _ _ hw
    refine ⟨_, _, _, rfl, ?_, ?_, ?_, ?_⟩
    · simp [GuestMem.setVring, Vring.pushUsed, hf.1, v]
    · show dev1.cfg.queue_notify = dev.cfg.queue_notify
      rw [c]
    · intro i
      show (if i = dev1.cfg.queue_notify then _ else dev1.vq i).notified_avail = _
      by_cases hi : i = dev1.cfg.queue_notify
      · rw [if_pos hi, ← hi, q]
      · rw [if_neg hi, q]
    · intro i hi
      show (if i = dev1.cfg.queue_notify then _ else dev1.vq i) = _
      rw [c, if_neg hi, q]

/-- The notify loop of the block device changes the queue bookkeeping only in
`last_avail` of the notified queue. -/
theorem vioblk_notifyq_loop_vq (bodyFuel vr : Nat) (hb : VIOBLK_QUEUE_SIZE ≤ bodyFuel) :
    ∀ (fuel : Nat) (dev : vioblk_dev) (g : GuestMem) (idx : Nat), idx < 128 →
      ((g.vring vr).avail.idx % 128 + 128 - idx) % 128 < fuel →
      ∃ r dev1 g1, vioblk_notifyq_loop bodyFuel vr fuel dev g idx = .ret (r, dev1, g1) ∧
        dev1.cfg.queue_notify = dev.cfg.queue_notify ∧
        (∀ i, (dev1.vq i).notified_avail = (dev.vq i).notified_avail) ∧
        (∀ i, i ≠ dev.cfg.queue_notify → dev1.vq i = dev.vq i) := by
  intro fuel
  induction fuel with
  | zero => intro dev g idx _ h; omega
  | succ fuel ih =>
    intro dev g idx hidx hm
    rw [vioblk_notifyq_loop]
    split
    · rename_i hne
      obtain ⟨b, dev1, g1, e, ha, hq, hn, ho⟩ := vioblk_notifyq_body_vq bodyFuel dev g vr idx hb
      rw [e]
      cases b with
      | false => exact ⟨_, _, _, rfl, hq, hn, ho⟩
      | true =>
        dsimp only
        rw [and_vioblk_mask] at hne ⊢
        obtain ⟨r, dev2, g2, e2, hq2, hn2, ho2⟩ :=
          ih dev1 g1 ((idx + 1) % 128) (Nat.mod_lt _ (by decide)) (by rw [ha]; omega)
        exact ⟨r, dev2, g2, e2, hq2.trans hq, fun i => (hn2 i).trans (hn i),
          fun i hi => (ho2 i (by rw [hq]; exact hi)).trans (ho i hi)⟩
    · exact ⟨_, _, _, rfl, rfl, fun _ => rfl, fun _ _ => rfl⟩

/-- A block notify that returns changes the queue bookkeeping only in
`last_avail` of queue 0. -/
theorem vioblk_notifyq_vq (fuel : Nat) (dev dev1 : vioblk_dev) (g g1 : GuestMem) (x : Nat)
    (hfuel : VIOBLK_QUEUE_SIZE ≤ fuel) (h : vioblk_notifyq fuel dev g = .ret (x, dev1, g1)) :
    (∀ i, (dev1.vq i).notified_avail = (dev.vq i).notified_avail) ∧
    (∀ i, i ≠ 0 → dev1.vq i = dev.vq i) := by
  have hq : VIOBLK_QUEUE_SIZE = 128 := rfl
  unfold vioblk_notifyq at h
  dsimp only at h
  split at h
  · cases h
    exact ⟨fun _ => rfl, fun _ _ => rfl⟩
  rename_i hn
  have hn0 : dev.cfg.queue_notify = 0 := by omega
  split at h
  · cases h
  split at h
  · cases h
    exact ⟨fun _ => rfl, fun _ _ => rfl⟩
  obtain ⟨r, dev2, g2, e, _, hnot, ho⟩ := vioblk_notifyq_loop_vq fuel
    (dev.vq dev.cfg.queue_notify).q_hva hfuel fuel dev g
    ((dev.vq dev.cfg.queue_notify).last_avail &&& VIOBLK_QUEUE_MASK)
    (by rw [and_vioblk_mask]; omega) (by rw [and_vioblk_mask]; omega)
  rw [e] at h
  cases h
  exact ⟨hnot, fun i hi => ho i (by rw [hn0]; exact hi)⟩

/-- Updating the queue address touches `q_gpa` and `q_hva` only. -/
theorem vioblk_update_qa_vq (hv : Nat → Nat → Nat) (d d1 : vioblk_dev)
    (h : vioblk_update_qa hv d = some d1) :
    d1.cfg = d.cfg ∧ d1.irq = d.irq ∧
    (∀ i, (d1.vq i).notified_avail = (d.vq i).notified_avail) ∧
    (∀ i, (d1.vq i).last_avail = (d.vq i).last_avail) := by
  unfold vioblk_update_qa at h
  dsimp only at h
  split at h
  · cases h
    exact ⟨rfl, rfl, fun _ => rfl, fun _ => rfl⟩
  split at h
  · cases h
  cases h
  refine ⟨rfl, rfl, fun i => ?_, fun i => ?_⟩
  · show (if i = d.cfg.queue_select then _ else d.vq i).notified_avail = _
    by_cases hi : i = d.cfg.queue_select
    · rw [if_pos hi, hi]
    · rw [if_neg hi]
  · show (if i = d.cfg.queue_select then _ else d.vq i).last_avail = _
    by_cases hi : i = d.cfg.queue_select
    · rw [if_pos hi, hi]
    · rw [if_neg hi]

/-- Updating the queue select touches the registers only. -/
theorem vioblk_update_qs_vq (d : vioblk_dev) :
    (vioblk_update_qs d).vq = d.vq ∧ (vioblk_update_qs d).irq = d.irq ∧
    (vioblk_update_qs d).cfg.guest_feature = d.cfg.guest_feature ∧
    (vioblk_update_qs d).cfg.queue_select = d.cfg.queue_select := by
  unfold vioblk_update_qs
  split <;> exact ⟨rfl, rfl, rfl, rfl⟩

/-- For a valid queue select, updating the queue address records
`queue_pfn * VIRTIO_PAGE_SIZE` for queue 0. -/
theorem vioblk_update_qa_gpa (hv : Nat → Nat → Nat) (d d1 : vioblk_dev)
    (h : vioblk_update_qa hv d = some d1) (hq : d.cfg.queue_select = 0) :
    (d1.vq 0).q_gpa = d.cfg.queue_pfn * VIRTIO_PAGE_SIZE := by
  unfold vioblk_update_qa at h
  dsimp only at h
  rw [if_neg (by omega)] at h
  split at h
  · cases h
  cases h
  show (if 0 = d.cfg.queue_select then _ else d.vq 0 : virtio_vq_info).q_gpa = _
  rw [if_pos hq.symm]

/-- Updating the queue address of a block device whose `queue_pfn` is 0
succeeds when guest address 0 resolves. -/
theorem vioblk_update_qa_zero (hv : Nat → Nat → Nat) (d : vioblk_dev)
    (hhv : hv 0 (vring_size VIOBLK_QUEUE_SIZE) ≠ 0) (hp : d.cfg.queue_pfn = 0) :
    ∃ d1, vioblk_update_qa hv d = some d1 := by
  unfold vioblk_update_qa
  dsimp only
  split
  · exact ⟨_, rfl⟩
  rw [hp, Nat.zero_mul, if_neg hhv]
  exact ⟨_, rfl⟩

/-- What the reset of a block device leaves behind. -/
theorem vioblk_reset_vq (hv : Nat → Nat → Nat) (d d5 : vioblk_dev)
    (h : vioblk_reset hv d = some d5) :
    d5.cfg.guest_feature = 0 ∧ d5.cfg.queue_select = 0 ∧ d5.cfg.queue_notify = 0 ∧
    d5.cfg.isr_status = 0 ∧ (d5.vq 0).last_avail = 0 ∧ d5.irq = d.irq ∧
    (∀ i, (d5.vq i).notified_avail = (d.vq i).notified_avail) ∧
    (∀ i, i ≠ 0 → (d5.vq i).last_avail = (d.vq i).last_avail) ∧
    (d.cfg.queue_select = 0 → (d5.vq 0).q_gpa = 0) := by
  unfold vioblk_reset at h
  dsimp only at h
  split at h
  · cases h
  rename_i d3 hqa
  cases h
  obtain ⟨hc, hi, hn, hl⟩ := vioblk_update_qa_vq hv _ _ hqa
  refine ⟨?_, rfl, rfl, rfl, rfl, ?_, fun i => ?_, fun i hi => ?_, fun hq => ?_⟩
  · show (vioblk_update_qs _).cfg.guest_feature = 0
    rw [(vioblk_update_qs_vq _).2.2.1]
    show d3.cfg.guest_feature = 0
    rw [hc]
  · show (vioblk_update_qs _).irq = _
    rw [(vioblk_update_qs_vq _).2.1]
    exact hi
  · show (if i = 0 then _ else (vioblk_update_qs _).vq i).notified_avail = _
    by_cases hi : i = 0
    · rw [if_pos hi, (vioblk_update_qs_vq _).1, hi]
      exact hn 0
    · rw [if_neg hi, (vioblk_update_qs_vq _).1]
      exact hn i
  · show (if i = 0 then _ else (vioblk_update_qs _).vq i).last_avail = _
    rw [if_neg hi, (vioblk_update_qs_vq _).1]
    exact hl i
  · show ((vioblk_update_qs _).vq 0).q_gpa = 0
    rw [(vioblk_update_qs_vq _).1]
    show (d3.vq 0).q_gpa = 0
    rw [vioblk_update_qa_gpa hv _ d3 hqa hq]
    exact Nat.zero_mul _

/-- The reset of a block device succeeds when guest address 0 resolves. -/
theorem vioblk_reset_some (hv : Nat → Nat → Nat) (d : vioblk_dev)
    (hhv : hv 0 (vring_size VIOBLK_QUEUE_SIZE) ≠ 0) : ∃ d5, vioblk_reset hv d = some d5 := by
  obtain ⟨d3, hqa⟩ := vioblk_update_qa_zero hv
    { d with cfg := { d.cfg with guest_feature := 0, queue_pfn := 0 } } hhv rfl
  unfold vioblk_reset
  dsimp only
  rw [hqa]
  exact ⟨_, rfl⟩

/-- A call of the block register handler that returns leaves `notified_avail`
of every queue, and `last_avail` of every queue but queue 0, as they were. -/
theorem virtio_blk_io_vq (hv : Nat → Nat → Nat) (fuel dir reg data sz : Nat) (dev : vioblk_dev)
    (g : GuestMem) (pic : Nat → Bool) (r : io_result vioblk_dev)
    (hfuel : VIOBLK_QUEUE_SIZE ≤ fuel)
    (h : virtio_blk_io hv fuel dir reg data sz dev g pic = .ret r) :
    (∀ i, (r.dev.vq i).notified_avail = (dev.vq i).notified_avail) ∧
    (∀ i, i ≠ 0 → (r.dev.vq i).last_avail = (dev.vq i).last_avail) := by
  unfold virtio_blk_io at h
  dsimp only at h
  by_cases hd : dir = 0
  · rw [if_pos hd] at h
    by_cases h1 : reg = VIRTIO_CONFIG_DEVICE_FEATURES ∨ reg = VIRTIO_CONFIG_QUEUE_SIZE
        ∨ reg = VIRTIO_CONFIG_ISR_STATUS
    · rw [if_pos h1] at h
      cases h
      exact ⟨fun _ => rfl, fun _ _ => rfl⟩
    rw [if_neg h1] at h
    by_cases h2 : reg = VIRTIO_CONFIG_GUEST_FEATURES
    · rw [if_pos h2] at h
      cases h
      exact ⟨fun _ => rfl, fun _ _ => rfl⟩
    rw [if_neg h2] at h
    by_cases h3 : reg = VIRTIO_CONFIG_QUEUE_PFN
    · rw [if_pos h3] at h
      split at h
      · cases h
      · rename_i dev1 hqa
        cases h
        obtain ⟨_, _, hn, hl⟩ := vioblk_update_qa_vq hv _ _ hqa
        exact ⟨hn, fun i _ => hl i⟩
    rw [if_neg h3] at h
    by_cases h4 : reg = VIRTIO_CONFIG_QUEUE_SELECT
    · rw [if_pos h4] at h
      cases h
      exact ⟨fun i => by rw [(vioblk_update_qs_vq _).1],
        fun i _ => by rw [(vioblk_update_qs_vq _).1]⟩
    rw [if_neg h4] at h
    by_cases h5 : reg = VIRTIO_CONFIG_QUEUE_NOTIFY
    · rw [if_pos h5] at h
      split at h
      · cases h
      · cases h
      · rename_i x dev1 g1 hnq
        cases h
        obtain ⟨hn, ho⟩ := vioblk_notifyq_vq fuel _ dev1 g g1 x hfuel hnq
        exact ⟨hn, fun i hi => by rw [ho i hi]⟩
    rw [if_neg h5] at h
    by_cases h6 : reg = VIRTIO_CONFIG_DEVICE_STATUS
    · rw [if_pos h6] at h
      by_cases h7 : data % 2 ^ 32 = 0
      · rw [if_pos h7] at h
        split at h
        · cases h
        · rename_i dev5 hrs
          cases h
          obtain ⟨_, _, _, _, _, _, hn, hl, _⟩ := vioblk_reset_vq hv _ _ hrs
          exact ⟨hn, hl⟩
      · rw [if_neg h7] at h
        cases h
        exact ⟨fun _ => rfl, fun _ _ => rfl⟩
    rw [if_neg h6] at h
    cases h
    exact ⟨fun _ => rfl, fun _ _ => rfl⟩
  · rw [if_neg hd] at h
    split at h <;> cases h <;> exact ⟨fun _ => rfl, fun _ _ => rfl⟩

/-- In every state of a block device reachable from `virtio_init`,
`notified_avail` of every queue is 0 and so is `last_avail` of every queue but
queue 0. -/
theorem vioblk_reachable_vq (hv : Nat → Nat → Nat) (dev : vioblk_dev)
    (h : vioblk_reachable hv dev) :
    (∀ i, (dev.vq i).notified_avail = 0) ∧ (∀ i, i ≠ 0 → (dev.vq i).last_avail = 0) := by
  induction h with
  | init file sz irq vm_id =>
    refine ⟨fun i => ?_, fun i hi => ?_⟩
    · show (if i = 0 then _ else _ : virtio_vq_info).notified_avail = 0
      split <;> rfl
    · show (if i = 0 then _ else _ : virtio_vq_info).last_avail = 0
      split <;> rfl
  | io fuel dir reg data sz dev g pic r _ hfuel hio ih =>
    obtain ⟨hn, hl⟩ := virtio_blk_io_vq hv fuel dir reg data sz dev g pic r hfuel hio
    exact ⟨fun i => (hn i).trans (ih.1 i), fun i hi => (hl i hi).trans (ih.2 i hi)⟩


/-! ## The reset of a network device -/

/-- Updating the queue address of a network device touches `q_gpa` and `q_hva`
of the selected queue only. -/
theorem vionet_update_qa_vq (hv : Nat → Nat → Nat) (d d1 : vionet_dev)
    (h : vionet_update_qa hv d = some d1) :
    d1.cfg = d.cfg ∧ d1.irq = d.irq ∧
    (∀ i, i ≠ d.cfg.queue_select → d1.vq i = d.vq i) ∧
    (d.cfg.queue_select ≤ 1 →
      (d1.vq d.cfg.queue_select).q_gpa = d.cfg.queue_pfn * VIRTIO_PAGE_SIZE) := by
  unfold vionet_update_qa at h
  dsimp only at h
  split at h
  · cases h
    exact ⟨rfl, rfl, fun _ _ => rfl, fun hq => by omega⟩
  split at h
  · cases h
  cases h
  refine ⟨rfl, rfl, fun i hi => ?_, fun _ => ?_⟩
  · show (if i = d.cfg.queue_select then _ else d.vq i) = _
    rw [if_neg hi]
  · show (if d.cfg.queue_select = d.cfg.queue_select then _ else _ : virtio_vq_info).q_gpa = _
    rw [if_pos rfl]

/-- Updating the queue address of a network device whose `queue_pfn` is 0
succeeds when guest address 0 resolves. -/
theorem vionet_update_qa_zero (hv : Nat → Nat → Nat) (d : vionet_dev)
    (hhv : hv 0 (vring_size VIONET_QUEUE_SIZE) ≠ 0) (hp : d.cfg.queue_pfn = 0) :
    ∃ d1, vionet_update_qa hv d = some d1 := by
  unfold vionet_update_qa
  dsimp only
  split
  · exact ⟨_, rfl⟩
  rw [hp, Nat.zero_mul, if_neg hhv]
  exact ⟨_, rfl⟩

/-- Updating the queue select of a network device touches the registers
only. -/
theorem vionet_update_qs_vq (d : vionet_dev) :
    (vionet_update_qs d).vq = d.vq ∧ (vionet_update_qs d).irq = d.irq ∧
    (vionet_update_qs d).cfg.guest_feature = d.cfg.guest_feature := by
  unfold vionet_update_qs
  split <;> exact ⟨rfl, rfl, rfl⟩

/-- What the reset of a network device leaves behind. -/
theorem vionet_reset_vq (hv : Nat → Nat → Nat) (d d5 : vionet_dev)
    (h : vionet_reset hv d = some d5) :
    d5.cfg.guest_feature = 0 ∧ d5.cfg.queue_select = 0 ∧ d5.cfg.queue_notify = 0 ∧
    d5.cfg.isr_status = 0 ∧ d5.irq = d.irq ∧
    (d5.vq RXQ).last_avail = 0 ∧ (d5.vq RXQ).notified_avail = 0 ∧
    (d5.vq TXQ).last_avail = 0 ∧ (d5.vq TXQ).notified_avail = 0 ∧
    (d.cfg.queue_select ≤ 1 → (d5.vq d.cfg.queue_select).q_gpa = 0) ∧
    (∀ i, i ≠ d.cfg.queue_select → (d5.vq i).q_gpa = (d.vq i).q_gpa) := by
  unfold vionet_reset at h
  dsimp only at h
  split at h
  · cases h
  rename_i d3 hqa
  cases h
  obtain ⟨hc, hi, ho, hg⟩ := vionet_update_qa_vq hv _ _ hqa
  have hgpa : ∀ i, ((if i = RXQ ∨ i = TXQ then
        { (vionet_update_qs { d3 with cfg := { d3.cfg with queue_size := 0 } }).vq i with
          last_avail := 0, notified_avail := 0 }
      else (vionet_update_qs { d3 with cfg := { d3.cfg with queue_size := 0 } }).vq i)
      : virtio_vq_info).q_gpa = (d3.vq i).q_gpa := by
    intro i
    rw [(vionet_update_qs_vq _).1]
    split <;> rfl
  refine ⟨?_, rfl, rfl, rfl, ?_, rfl, rfl, rfl, rfl, fun hq => ?_, fun i hi => ?_⟩
  · show (vionet_update_qs _).cfg.guest_feature = 0
    rw [(vionet_update_qs_vq _).2.2]
    show d3.cfg.guest_feature = 0
    rw [hc]
  · show (vionet_update_qs _).irq = _
    rw [(vionet_update_qs_vq _).2.1]
    exact hi
  · refine (hgpa _).trans ?_
    rw [hg hq]
    exact Nat.zero_mul _
  · refine (hgpa _).trans ?_
    rw [ho i hi]

/-- The reset of a network device succeeds when guest address 0 resolves. -/
theorem vionet_reset_some (hv : Nat → Nat → Nat) (d : vionet_dev)
    (hhv : hv 0 (vring_size VIONET_QUEUE_SIZE) ≠ 0) : ∃ d5, vionet_reset hv d = some d5 := by
  obtain ⟨d3, hqa⟩ := vionet_update_qa_zero hv
    { d with cfg := { d.cfg with guest_feature := 0, queue_pfn := 0 } } hhv rfl
  unfold vionet_reset
  dsimp only
  rw [hqa]
  exact ⟨_, rfl⟩

/-- A write of 0 to the status register of a block device is its reset. -/
theorem virtio_blk_io_status_zero (hv : Nat → Nat → Nat) (fuel sz : Nat) (dev : vioblk_dev)
    (g : GuestMem) (pic : Nat → Bool) :
    virtio_blk_io hv fuel 0 VIRTIO_CONFIG_DEVICE_STATUS 0 sz dev g pic =
      (match vioblk_reset hv { dev with cfg := { dev.cfg with device_status := 0 } } with
        | none => .fatal
        | some dev5 =>
          .ret { data := 0, intr := 0xFF, dev := dev5, g := g
                 pic := vcpu_deassert_pic_irq pic dev.irq }) := rfl

/-- A write of 0 to the status register of a network device is its reset. -/
theorem virtio_net_io_status_zero (MIN_TXLEN MAX_TXLEN : Nat)
    (dhcp_request : List Nat → Nat → Int × List Nat) (hv : Nat → Nat → Nat) (fuel : Nat)
    (dev : vionet_dev) (g : GuestMem) (pic : Nat → Bool) (tap : TapDev) :
    virtio_net_io MIN_TXLEN MAX_TXLEN dhcp_request hv fuel 0 VIRTIO_CONFIG_DEVICE_STATUS 0
        dev g pic tap =
      (match vionet_reset hv { dev with cfg := { dev.cfg with device_status := 0 } } with
        | none => .fatal
        | some dev5 =>
          .ret { data := 0, intr := 0xFF, dev := dev5, g := g
                 pic := vcpu_deassert_pic_irq pic dev.irq, tap := tap }) := rfl

/-! ## Selecting a queue and reading its address -/

theorem virtio_blk_io_select (hv : Nat → Nat → Nat) (fuel q sz : Nat) (dev : vioblk_dev)
    (g : GuestMem) (pic : Nat → Bool) :
    virtio_blk_io hv fuel 0 VIRTIO_CONFIG_QUEUE_SELECT q sz dev g pic =
      .ret { data := q, intr := 0xFF, g := g, pic := pic
             dev := vioblk_update_qs
               { dev with cfg := { dev.cfg with queue_select := q % 2 ^ 32 } } } := rfl

theorem virtio_blk_io_read_pfn (hv : Nat → Nat → Nat) (fuel data sz : Nat) (dev : vioblk_dev)
    (g : GuestMem) (pic : Nat → Bool) :
    virtio_blk_io hv fuel 1 VIRTIO_CONFIG_QUEUE_PFN data sz dev g pic =
      .ret { data := dev.cfg.queue_pfn, intr := 0xFF, dev := dev, g := g, pic := pic } := rfl

theorem virtio_net_io_select (MIN_TXLEN MAX_TXLEN : Nat)
    (dhcp_request : List Nat → Nat → Int × List Nat) (hv : Nat → Nat → Nat) (fuel q : Nat)
    (dev : vionet_dev) (g : GuestMem) (pic : Nat → Bool) (tap : TapDev) :
    virtio_net_io MIN_TXLEN MAX_TXLEN dhcp_request hv fuel 0 VIRTIO_CONFIG_QUEUE_SELECT q
        dev g pic tap =
      .ret { data := q, intr := 0xFF, g := g, pic := pic, tap := tap
             dev := vionet_update_qs
               { dev with cfg := { dev.cfg with queue_select := q % 2 ^ 32 } } } := rfl

theorem virtio_net_io_read_pfn (MIN_TXLEN MAX_TXLEN : Nat)
    (dhcp_request : List Nat → Nat → Int × List Nat) (hv : Nat → Nat → Nat) (fuel data : Nat)
    (dev : vionet_dev) (g : GuestMem) (pic : Nat → Bool) (tap : TapDev) :
    virtio_net_io MIN_TXLEN MAX_TXLEN dhcp_request hv fuel 1 VIRTIO_CONFIG_QUEUE_PFN data
        dev g pic tap =
      .ret { data := dev.cfg.queue_pfn, intr := 0xFF, dev := dev, g := g, pic := pic
             tap := tap } := rfl

/-- After a queue select of a valid queue, `queue_pfn` is the page number of
the recorded ring address. -/
theorem vioblk_update_qs_pfn (d : vioblk_dev) (h : d.cfg.queue_select = 0) :
    (vioblk_update_qs d).cfg.queue_pfn = ((d.vq 0).q_gpa / 2 ^ 12) % 2 ^ 32 := by
  unfold vioblk_update_qs
  rw [if_neg (by omega)]
  dsimp only
  rw [h]

theorem vionet_update_qs_pfn (d : vionet_dev) (h : d.cfg.queue_select ≤ 1) :
    (vionet_update_qs d).cfg.queue_pfn
      = ((d.vq d.cfg.queue_select).q_gpa / 2 ^ 12) % 2 ^ 32 := by
  unfold vionet_update_qs
  rw [if_neg (by omega)]

/-! ## Writing a page number and reading it back -/

/-- The page number of `p * VIRTIO_PAGE_SIZE` is `p`, and the product fits 64
bits, for a 32-bit `p`. -/
theorem pfn_of_gpa (p : Nat) (hp : p < 2 ^ 32) :
    (p * VIRTIO_PAGE_SIZE / 2 ^ 12) % 2 ^ 32 = p ∧ p * VIRTIO_PAGE_SIZE < 2 ^ 64 := by
  have e : VIRTIO_PAGE_SIZE = 4096 := rfl
  rw [e]
  omega

/-- After a queue select of the queue of the entropy device, `queue_pfn` is the
page number of the recorded ring address. -/
theorem viornd_update_qs_pfn (d : viornd_dev) (h : d.cfg.queue_select = 0) :
    (viornd_update_qs d).cfg.queue_pfn = ((d.vq 0).q_gpa / 2 ^ 12) % 2 ^ 32 := by
  unfold viornd_update_qs
  rw [if_neg (by omega)]
  dsimp only
  rw [h]

/-- A write of the page number `p` with the queue of the entropy device
selected records `p * VIRTIO_PAGE_SIZE`, when that address resolves. -/
theorem virtio_rnd_io_write_pfn (rnd : Nat → List Nat) (hv : Nat → Nat → Nat)
    (p : Nat) (dev : viornd_dev) (g : GuestMem) (pic : Nat → Bool)
    (hp : p < 2 ^ 32) (hq : dev.cfg.queue_select = 0)
    (hhv : hv (p * VIRTIO_PAGE_SIZE) (vring_size VIORND_QUEUE_SIZE) ≠ 0) :
    ∃ d1, virtio_rnd_io rnd hv 0 VIRTIO_CONFIG_QUEUE_PFN p dev g pic =
        .ret { data := p, intr := 0xFF, dev := d1, g := g, pic := pic } ∧
      (d1.vq 0).q_gpa = p * VIRTIO_PAGE_SIZE := by
  have hw : virtio_rnd_io rnd hv 0 VIRTIO_CONFIG_QUEUE_PFN p dev g pic =
      (match viornd_update_qa hv { dev with cfg := { dev.cfg with queue_pfn := p % 2 ^ 32 } } with
        | none => .fatal
        | some dev1 => .ret { data := p, intr := 0xFF, dev := dev1, g := g, pic := pic }) := rfl
  have hqa : viornd_update_qa hv { dev with cfg := { dev.cfg with queue_pfn := p % 2 ^ 32 } } =
      some { dev with
        cfg := { dev.cfg with queue_pfn := p % 2 ^ 32 }
        vq := fun i => if i = dev.cfg.queue_select then
            { dev.vq dev.cfg.queue_select with
              q_gpa := p * VIRTIO_PAGE_SIZE
              q_hva := hv (p * VIRTIO_PAGE_SIZE) (vring_size VIORND_QUEUE_SIZE) }
          else dev.vq i } := by
    unfold viornd_update_qa
    dsimp only
    rw [if_neg (by omega), Nat.mod_eq_of_lt hp, if_neg hhv]
  rw [hw, hqa]
  refine ⟨_, rfl, ?_⟩
  show (if 0 = dev.cfg.queue_select then _ else dev.vq 0 : virtio_vq_info).q_gpa = _
  rw [if_pos hq.symm]

/-- Round trip on the entropy device. -/
theorem virtio_rnd_io_pfn_round_trip (rnd : Nat → List Nat) (hv : Nat → Nat → Nat)
    (p data0 : Nat) (dev : viornd_dev) (g : GuestMem) (pic : Nat → Bool)
    (hp : p < 2 ^ 32) (hq : dev.cfg.queue_select = 0)
    (hhv : hv (p * VIRTIO_PAGE_SIZE) (vring_size VIORND_QUEUE_SIZE) ≠ 0) :
    ∃ r1 r2 r3,
      virtio_rnd_io rnd hv 0 VIRTIO_CONFIG_QUEUE_PFN p dev g pic = .ret r1 ∧
      (r1.dev.vq 0).q_gpa = p * VIRTIO_PAGE_SIZE ∧
      virtio_rnd_io rnd hv 0 VIRTIO_CONFIG_QUEUE_SELECT 0 r1.dev r1.g r1.pic = .ret r2 ∧
      virtio_rnd_io rnd hv 1 VIRTIO_CONFIG_QUEUE_PFN data0 r2.dev r2.g r2.pic = .ret r3 ∧
      r3.data = p := by
  obtain ⟨d1, hw, hg⟩ := virtio_rnd_io_write_pfn rnd hv p dev g pic hp hq hhv
  refine ⟨_, _, _, hw, hg, rfl, rfl, ?_⟩
  refine (viornd_update_qs_pfn { d1 with cfg := { d1.cfg with queue_select := 0 % 2 ^ 32 } }
    rfl).trans ?_
  show ((d1.vq 0).q_gpa / 2 ^ 12) % 2 ^ 32 = p
  rw [hg]
  exact (pfn_of_gpa p hp).1

/-- A write of the page number `p` with the queue of a block device selected
records `p * VIRTIO_PAGE_SIZE`, when that address resolves. -/
theorem virtio_blk_io_write_pfn (hv : Nat → Nat → Nat) (fuel p sz : Nat) (dev : vioblk_dev)
    (g : GuestMem) (pic : Nat → Bool)
    (hp : p < 2 ^ 32) (hq : dev.cfg.queue_select = 0)
    (hhv : hv (p * VIRTIO_PAGE_SIZE) (vring_size VIOBLK_QUEUE_SIZE) ≠ 0) :
    ∃ d1, virtio_blk_io hv fuel 0 VIRTIO_CONFIG_QUEUE_PFN p sz dev g pic =
        .ret { data := p, intr := 0xFF, dev := d1, g := g, pic := pic } ∧
      (d1.vq 0).q_gpa = p * VIRTIO_PAGE_SIZE := by
  have hw : virtio_blk_io hv fuel 0 VIRTIO_CONFIG_QUEUE_PFN p sz dev g pic =
      (match vioblk_update_qa hv { dev with cfg := { dev.cfg with queue_pfn := p % 2 ^ 32 } } with
        | none => .fatal
        | some dev1 => .ret { data := p, intr := 0xFF, dev := dev1, g := g, pic := pic }) := rfl
  have hqa : vioblk_update_qa hv { dev with cfg := { dev.cfg with queue_pfn := p % 2 ^ 32 } } =
      some { dev with
        cfg := { dev.cfg with queue_pfn := p % 2 ^ 32 }
        vq := fun i => if i = dev.cfg.queue_select then
            { dev.vq dev.cfg.queue_select with
              q_gpa := p * VIRTIO_PAGE_SIZE
              q_hva := hv (p * VIRTIO_PAGE_SIZE) (vring_size VIOBLK_QUEUE_SIZE) }
          else dev.vq i } := by
    unfold vioblk_update_qa
    dsimp only
    rw [if_neg (by omega), Nat.mod_eq_of_lt hp, if_neg hhv]
  rw [hw, hqa]
  refine ⟨_, rfl, ?_⟩
  show (if 0 = dev.cfg.queue_select then _ else dev.vq 0 : virtio_vq_info).q_gpa = _
  rw [if_pos hq.symm]

/-- Round trip on a block device. -/
theorem virtio_blk_io_pfn_round_trip (hv : Nat → Nat → Nat) (fuel p data0 sz : Nat)
    (dev : vioblk_dev) (g : GuestMem) (pic : Nat → Bool)
    (hp : p < 2 ^ 32) (hq : dev.cfg.queue_select = 0)
    (hhv : hv (p * VIRTIO_PAGE_SIZE) (vring_size VIOBLK_QUEUE_SIZE) ≠ 0) :
    ∃ r1 r2 r3,
      virtio_blk_io hv fuel 0 VIRTIO_CONFIG_QUEUE_PFN p sz dev g pic = .ret r1 ∧
      (r1.dev.vq 0).q_gpa = p * VIRTIO_PAGE_SIZE ∧
      virtio_blk_io hv fuel 0 VIRTIO_CONFIG_QUEUE_SELECT 0 sz r1.dev r1.g r1.pic = .ret r2 ∧
      virtio_blk_io hv fuel 1 VIRTIO_CONFIG_QUEUE_PFN data0 sz r2.dev r2.g r2.pic = .ret r3 ∧
      r3.data = p := by
  obtain ⟨d1, hw, hg⟩ := virtio_blk_io_write_pfn hv fuel p sz dev g pic hp hq hhv
  refine ⟨_, _, _, hw, hg, rfl, rfl, ?_⟩
  refine (vioblk_update_qs_pfn { d1 with cfg := { d1.cfg with queue_select := 0 % 2 ^ 32 } }
    rfl).trans ?_
  show ((d1.vq 0).q_gpa / 2 ^ 12) % 2 ^ 32 = p
  rw [hg]
  exact (pfn_of_gpa p hp).1

/-- A write of the page number `p` with a queue of a network device selected
records `p * VIRTIO_PAGE_SIZE` for that queue, when that address resolves. -/
theorem virtio_net_io_write_pfn (MIN_TXLEN MAX_TXLEN : Nat)
    (dhcp_request : List Nat → Nat → Int × List Nat) (hv : Nat → Nat → Nat) (fuel p : Nat)
    (dev : vionet_dev) (g : GuestMem) (pic : Nat → Bool) (tap : TapDev)
    (hp : p < 2 ^ 32) (hq : dev.cfg.queue_select ≤ 1)
    (hhv : hv (p * VIRTIO_PAGE_SIZE) (vring_size VIONET_QUEUE_SIZE) ≠ 0) :
    ∃ d1, virtio_net_io MIN_TXLEN MAX_TXLEN dhcp_request hv fuel 0 VIRTIO_CONFIG_QUEUE_PFN p
          dev g pic tap =
        .ret { data := p, intr := 0xFF, dev := d1, g := g, pic := pic, tap := tap } ∧
      (d1.vq dev.cfg.queue_select).q_gpa = p * VIRTIO_PAGE_SIZE := by
  have hw : virtio_net_io MIN_TXLEN MAX_TXLEN dhcp_request hv fuel 0 VIRTIO_CONFIG_QUEUE_PFN p
        dev g pic tap =
      (match vionet_update_qa hv { dev with cfg := { dev.cfg with queue_pfn := p % 2 ^ 32 } } with
        | none => .fatal
        | some dev1 =>
          .ret { data := p, intr := 0xFF, dev := dev1, g := g, pic := pic, tap := tap }) := rfl
  have hqa : vionet_update_qa hv { dev with cfg := { dev.cfg with queue_pfn := p % 2 ^ 32 } } =
      some { dev with
        cfg := { dev.cfg with queue_pfn := p % 2 ^ 32 }
        vq := fun i => if i = dev.cfg.queue_select then
            { dev.vq dev.cfg.queue_select with
              q_gpa := p * VIRTIO_PAGE_SIZE
              q_hva := hv (p * VIRTIO_PAGE_SIZE) (vring_size VIONET_QUEUE_SIZE) }
          else dev.vq i } := by
    unfold vionet_update_qa
    dsimp only
    rw [if_neg (by omega), Nat.mod_eq_of_lt hp, if_neg hhv]
  rw [hw, hqa]
  refine ⟨_, rfl, ?_⟩
  show (if dev.cfg.queue_select = dev.cfg.queue_select then _ else dev.vq _
    : virtio_vq_info).q_gpa = _
  rw [if_pos rfl]

/-- Round trip on a network device, for the queue `queue_select` names. -/
theorem virtio_net_io_pfn_round_trip (MIN_TXLEN MAX_TXLEN : Nat)
    (dhcp_request : List Nat → Nat → Int × List Nat) (hv : Nat → Nat → Nat) (fuel p data0 : Nat)
    (dev : vionet_dev) (g : GuestMem) (pic : Nat → Bool) (tap : TapDev)
    (hp : p < 2 ^ 32) (hq : dev.cfg.queue_select ≤ 1)
    (hhv : hv (p * VIRTIO_PAGE_SIZE) (vring_size VIONET_QUEUE_SIZE) ≠ 0) :
    ∃ r1 r2 r3,
      virtio_net_io MIN_TXLEN MAX_TXLEN dhcp_request hv fuel 0 VIRTIO_CONFIG_QUEUE_PFN p
        dev g pic tap = .ret r1 ∧
      (r1.dev.vq dev.cfg.queue_select).q_gpa = p * VIRTIO_PAGE_SIZE ∧
      virtio_net_io MIN_TXLEN MAX_TXLEN dhcp_request hv fuel 0 VIRTIO_CONFIG_QUEUE_SELECT
        dev.cfg.queue_select r1.dev r1.g r1.pic r1.tap = .ret r2 ∧
      virtio_net_io MIN_TXLEN MAX_TXLEN dhcp_request hv fuel 1 VIRTIO_CONFIG_QUEUE_PFN data0
        r2.dev r2.g r2.pic r2.tap = .ret r3 ∧
      r3.data = p := by
  obtain ⟨d1, hw, hg⟩ :=
    virtio_net_io_write_pfn MIN_TXLEN MAX_TXLEN dhcp_request hv fuel p dev g pic tap hp hq hhv
  have hm : dev.cfg.queue_select % 2 ^ 32 = dev.cfg.queue_select :=
    Nat.mod_eq_of_lt (by omega)
  refine ⟨_, _, _, hw, hg, rfl, rfl, ?_⟩
  refine (vionet_update_qs_pfn
    { d1 with cfg := { d1.cfg with queue_select := dev.cfg.queue_select % 2 ^ 32 } }
    (by show dev.cfg.queue_select % 2 ^ 32 ≤ 1; rw [hm]; exact hq)).trans ?_
  show ((d1.vq (dev.cfg.queue_select % 2 ^ 32)).q_gpa / 2 ^ 12) % 2 ^ 32 = p
  rw [hm, hg]
  exact (pfn_of_gpa p hp).1
/-! ## The code at concrete inputs -/

/-- C3. The entropy scenario of the specification on the code: with
`avail.ring[0] = 5`, `avail.idx = 1`, `desc[5] = {0x1000, 16, WRITE}` and
`used.idx = 0`, `viornd_notifyq` reads the avail slot at index `avail.idx`
(slot 1, which holds 0), not the slot the driver filled.  It returns 1 with
`used.ring[0] = {0, 0}` and `used.idx = 1`, and the 16 bytes at `0x1000` are
left as they were. -/
theorem viornd_notifyq_scenario_reads_slot_at_avail_idx :
    ∃ d g1, viornd_notifyq rnd_sevens rng_dev rng_mem_scenario = .ret (1, d, g1) ∧
      ((g1.vring 1).used.ring 0).id = 0 ∧ ((g1.vring 1).used.ring 0).len = 0 ∧
      (g1.vring 1).used.idx = 1 ∧ d.cfg.isr_status = 1 ∧
      ∀ i < 16, g1.bytes (0x1000 + i) = 0 := by
  refine ⟨_, _, rfl, ?_, ?_, ?_, ?_, ?_⟩ <;> decide

/-- C9. The entropy device does not look at the WRITE flag: for a descriptor
with `flags = 0` (read-only for the device) `viornd_notifyq` writes the 16
random bytes into its buffer and publishes the used element `{5, 16}`. -/
theorem viornd_notifyq_writes_readonly_descriptor :
    ((rng_mem_readonly.vring 1).desc 5).flags &&& VRING_DESC_F_WRITE = 0 ∧
    ∃ d g1, viornd_notifyq rnd_sevens rng_dev rng_mem_readonly = .ret (1, d, g1) ∧
      (∀ i < 16, g1.bytes (0x1000 + i) = 7) ∧
      ((g1.vring 1).used.ring 0).id = 5 ∧ ((g1.vring 1).used.ring 0).len = 16 ∧
      (g1.vring 1).used.idx = 1 := by
  refine ⟨by decide, _, _, rfl, ?_, ?_, ?_, ?_⟩ <;> decide

/-- C2. A request that breaks the protocol gets no status and no used element:
for a `VIRTIO_BLK_T_IN` request whose data descriptor lacks the WRITE flag, and
for a well-formed one whose back-end `pread` fails, `vioblk_notifyq` leaves
through `goto out`.  The writable, mapped status byte keeps its old value
`0xFF` (no `VIRTIO_BLK_S_IOERR` is written), `used.idx` stays 0 and
`last_avail` stays 0, so the same request is still pending afterwards. -/
theorem vioblk_notifyq_error_leaves_request_pending :
    (∃ d g1, vioblk_notifyq 128 (blk_dev disk_pattern) (blk_mem_request 0 512 1) = .ret (1, d, g1) ∧
      g1.bytes 0x2000 = 0xFF ∧ (g1.vring 1).used.idx = 0 ∧ (d.vq 0).last_avail = 0 ∧
      d.cfg.isr_status = 0) ∧
    (∃ d g1, vioblk_notifyq 128 (blk_dev { disk_pattern with pread_ok := fun _ _ => false })
        (blk_mem_request 0 512 3) = .ret (1, d, g1) ∧
      g1.bytes 0x2000 = 0xFF ∧ (g1.vring 1).used.idx = 0 ∧ (d.vq 0).last_avail = 0 ∧
      d.cfg.isr_status = 0) := by
  refine ⟨⟨_, _, rfl, ?_, ?_, ?_, ?_⟩, ⟨_, _, rfl, ?_, ?_, ?_, ?_⟩⟩ <;> decide

/-- C10. With two pending requests, the first a flush request and the second
one with an unchained header, `vioblk_notifyq` publishes one used element
(`used.idx` goes from 0 to 1) while `last_avail` goes from 0 to 2. -/
theorem vioblk_notifyq_last_avail_skips_unprocessed :
    ((blk_dev disk_pattern).vq 0).last_avail = 0 ∧ (blk_mem_two_requests.vring 1).used.idx = 0 ∧
    ∃ d g1, vioblk_notifyq 128 (blk_dev disk_pattern) blk_mem_two_requests = .ret (1, d, g1) ∧
      (g1.vring 1).used.idx = 1 ∧ (d.vq 0).last_avail = 2 ∧ g1.bytes 0x2000 = VIRTIO_BLK_S_UNSUPP := by
  refine ⟨by decide, by decide, _, _, rfl, ?_, ?_, ?_⟩ <;> decide

/-- C6. A 60-byte frame received into a single writable 64-byte descriptor at
`0x1000`: `vionet_enq_rx` copies the frame to `0x1000 + 12` without taking the
12-byte header into account, so the bytes at `0x1040 .. 0x1047`, past the end
of the descriptor's buffer, are overwritten. -/
theorem vionet_enq_rx_writes_past_descriptor :
    (rx_ring_one_buf.desc 0).addr + (rx_ring_one_buf.desc 0).len = 0x1040 ∧
    (rx_ring_one_buf.desc 0).flags &&& VRING_DESC_F_NEXT = 0 ∧
    ∃ spc d g1, vionet_enq_rx 14 16398 256 (net_dev 0) (mem_with_ring rx_ring_one_buf) frame60 60 0
        = .ret (1, spc, d, g1) ∧
      (∀ i < 8, (mem_with_ring rx_ring_one_buf).bytes (0x1040 + i) = 0 ∧ g1.bytes (0x1040 + i) = 0xAA) := by
  refine ⟨by decide, by decide, _, _, _, rfl, ?_⟩
  decide

/-- C5. A 60-byte frame received into a chain of two writable 64-byte
descriptors (128 bytes, enough for 12 + 60): `vionet_enq_rx` returns 1 and
publishes `{0, 72}`, but the second buffer is untouched, so the 72 bytes that
the chain's buffers start with are not the header followed by the frame. -/
theorem vionet_enq_rx_frame_not_in_chain :
    ∃ spc d g1, vionet_enq_rx 14 16398 256 (net_dev 0) (mem_with_ring rx_ring_two_bufs) frame60 60 0
        = .ret (1, spc, d, g1) ∧
      ((g1.vring 1).used.ring 0).id = 0 ∧ ((g1.vring 1).used.ring 0).len = 72 ∧
      (∀ i < 64, g1.bytes (0x3000 + i) = 0) ∧
      ((List.range 64).map (fun i => g1.bytes (0x1000 + i)) ++
        (List.range 64).map (fun i => g1.bytes (0x3000 + i))).take 72
        ≠ virtio_net_hdr_bytes 12 ++ frame60 := by
  refine ⟨_, _, _, rfl, ?_, ?_, ?_, ?_⟩ <;> decide

/-- When the entry checks of `vionet_enq_rx` pass, a walk that is still
running leaves the whole call still running. -/
theorem vionet_enq_rx_of_walk_diverge (MIN_TXLEN MAX_TXLEN fuel : Nat) (dev : vionet_dev)
    (g : GuestMem) (pkt : List Nat) (sz spc : Nat)
    (hsz : ¬ (sz < MIN_TXLEN ∨ sz > MAX_TXLEN))
    (hok : dev.cfg.device_status &&& VIRTIO_CONFIG_DEVICE_STATUS_DRIVER_OK ≠ 0)
    (hvr : (dev.vq RXQ).q_hva ≠ 0)
    (hav : (dev.vq RXQ).notified_avail &&& VIONET_QUEUE_MASK ≠
      (dev.vq RXQ).last_avail &&& VIONET_QUEUE_MASK)
    (hw : vionet_enq_rx_walk (dev.vq RXQ).q_hva pkt sz sizeof_virtio_net_hdr fuel g
      ((g.vring (dev.vq RXQ).q_hva).avail.ring ((dev.vq RXQ).last_avail &&& VIONET_QUEUE_MASK)
        &&& VIONET_QUEUE_MASK) 0 0 0 = .diverge) :
    vionet_enq_rx MIN_TXLEN MAX_TXLEN fuel dev g pkt sz spc = .diverge := by
  unfold vionet_enq_rx
  simp only [hsz, hok, hvr, hav, hw, if_false]

/-- The walk of `vionet_enq_rx` never leaves the zero-length descriptor
`desc[1]` of `rx_ring_zero_len_cycle`. -/
theorem vionet_enq_rx_walk_stuck (pkt : List Nat) (fuel : Nat) :
    vionet_enq_rx_walk 1 pkt 60 12 fuel (mem_with_ring rx_ring_zero_len_cycle) 1 0 0 12
      = .diverge := by
  induction fuel with
  | zero => rfl
  | succ n ih =>
    have step : vionet_enq_rx_walk 1 pkt 60 12 (n + 1) (mem_with_ring rx_ring_zero_len_cycle) 1 0 0 12
        = vionet_enq_rx_walk 1 pkt 60 12 n (mem_with_ring rx_ring_zero_len_cycle) 1 0 0 12 := rfl
    rw [step, ih]

/-- From the head of `rx_ring_zero_len_cycle` the walk is still running
after any number of steps. -/
theorem vionet_enq_rx_walk_cycle (pkt : List Nat) (fuel : Nat) :
    vionet_enq_rx_walk 1 pkt 60 12 fuel (mem_with_ring rx_ring_zero_len_cycle) 0 0 0 0
      = .diverge := by
  cases fuel with
  | zero => rfl
  | succ n =>
    have step : vionet_enq_rx_walk 1 pkt 60 12 (n + 1) (mem_with_ring rx_ring_zero_len_cycle) 0 0 0 0
        = vionet_enq_rx_walk 1 pkt 60 12 n (mem_with_ring rx_ring_zero_len_cycle) 1 0 0 12 := rfl
    rw [step, vionet_enq_rx_walk_stuck]

/-- C8. The chain walk of `vionet_enq_rx` has no bound: on a chain made of a
writable 12-byte descriptor followed by a writable zero-length descriptor whose
`next` is itself, a 60-byte frame makes no progress and the walk is still
running after any number of steps. -/
theorem vionet_enq_rx_zero_len_cycle_diverges (fuel : Nat) :
    vionet_enq_rx 14 16398 fuel (net_dev 0) (mem_with_ring rx_ring_zero_len_cycle) frame60 60 0
      = .diverge :=
  vionet_enq_rx_of_walk_diverge 14 16398 fuel (net_dev 0) (mem_with_ring rx_ring_zero_len_cycle)
    frame60 60 0 (by decide) (by decide) (by decide) (by decide)
    (vionet_enq_rx_walk_cycle frame60 fuel)

/-! ## Transmit: a well-formed chain reaches the tap -/

/-- A transmit notify with exactly one pending chain whose pass through the
loop body runs to its end returns 1 with the state that pass produced. -/
theorem vionet_notify_tx_single (MIN_TXLEN MAX_TXLEN : Nat)
    (dhcp_request : List Nat → Nat → Int × List Nat) (fuel : Nat) (s s1 : TxState)
    (hfuel : 2 ≤ fuel) (hz : s.dhcpsz = 0) (hp : s.dhcppkt = [])
    (hvr0 : (s.dev.vq TXQ).q_hva ≠ 0)
    (hav : (s.g.vring (s.dev.vq TXQ).q_hva).avail.idx &&& VIONET_QUEUE_MASK
      = ((s.dev.vq TXQ).last_avail &&& VIONET_QUEUE_MASK) + 1 &&& VIONET_QUEUE_MASK)
    (hbody : vionet_notify_tx_body MIN_TXLEN MAX_TXLEN dhcp_request fuel s (s.dev.vq TXQ).q_hva
      ((s.dev.vq TXQ).last_avail &&& VIONET_QUEUE_MASK) = .ret (true, s1))
    (hsame : (s1.g.vring (s.dev.vq TXQ).q_hva).avail.idx
      = (s.g.vring (s.dev.vq TXQ).q_hva).avail.idx)
    (hd1 : ¬ s1.dhcpsz > 0) :
    vionet_notify_tx MIN_TXLEN MAX_TXLEN dhcp_request fuel s.dev s.g s.tap
      = .ret (1, s1.dev, s1.g, s1.tap) := by
  obtain ⟨dev, g, tap, dz, dp⟩ := s
  simp only at hz hp hvr0 hav hbody hsame
  subst hz
  subst hp
  obtain ⟨fuel1, rfl⟩ : ∃ f, fuel = f + 2 := ⟨fuel - 2, by omega⟩
  have hne : (g.vring (dev.vq TXQ).q_hva).avail.idx &&& VIONET_QUEUE_MASK
      ≠ (dev.vq TXQ).last_avail &&& VIONET_QUEUE_MASK := by
    rw [hav, and_vionet_mask, and_vionet_mask]
    omega
  have hloop : vionet_notify_tx_loop MIN_TXLEN MAX_TXLEN dhcp_request (fuel1 + 2)
      (dev.vq TXQ).q_hva (fuel1 + 2) { dev := dev, g := g, tap := tap, dhcpsz := 0, dhcppkt := [] }
      ((dev.vq TXQ).last_avail &&& VIONET_QUEUE_MASK) = .ret (true, s1) := by
    rw [vionet_notify_tx_loop.eq_def]
    simp only [hne, ne_eq, not_false_eq_true, if_true, hbody]
    rw [vionet_notify_tx_loop.eq_def]
    simp only [hsame, hav, ne_eq, not_true_eq_false, if_false]
  unfold vionet_notify_tx
  simp only [hvr0, if_false, hne, hloop, hd1]

/-- C4. Let the avail slot `idx` of the transmit queue hold the head `h` of a
chain made of a header descriptor and `k ≥ 1` data descriptors: the first `k`
descriptors of the chain carry the NEXT flag, descriptor number `k` does not,
the data descriptors are readable and mapped, and their buffers concatenate to
the frame `B` with `MIN_TXLEN ≤ |B| ≤ MAX_TXLEN`.  With `lockedmac` and `local`
off and a tap that takes `B` whole, the pass of the loop of `vionet_notify_tx`
over this slot hands exactly `B` to the tap in one `write`, stores a used
element with id `h` at the slot `used.idx mod 256`, increments `used.idx` and
sets `last_avail` to `avail.idx mod 256`, leaving guest payload bytes as they
were.  When the chain is the only pending one, the whole call
`vionet_notify_tx` returns 1 with these effects and `last_avail` has moved by
one, past the chain. -/
theorem vionet_notify_tx_sends_frame (MIN_TXLEN MAX_TXLEN : Nat)
    (dhcp_request : List Nat → Nat → Int × List Nat) (fuel : Nat) (s : TxState) (vr idx k : Nat)
    (B : List Nat)
    (hfuel : VIONET_QUEUE_SIZE ≤ fuel) (hk : 1 ≤ k)
    (hnext : ∀ j, j < k → ((s.g.vring vr).desc (chain_at (s.g.vring vr).desc VIONET_QUEUE_MASK
      ((s.g.vring vr).avail.ring idx &&& VIONET_QUEUE_MASK) j)).flags &&& VRING_DESC_F_NEXT ≠ 0)
    (hlast : ((s.g.vring vr).desc (chain_at (s.g.vring vr).desc VIONET_QUEUE_MASK
      ((s.g.vring vr).avail.ring idx &&& VIONET_QUEUE_MASK) k)).flags &&& VRING_DESC_F_NEXT = 0)
    (hwr : ∀ j, 1 ≤ j → j ≤ k → ((s.g.vring vr).desc (chain_at (s.g.vring vr).desc
      VIONET_QUEUE_MASK ((s.g.vring vr).avail.ring idx &&& VIONET_QUEUE_MASK) j)).flags
        &&& VRING_DESC_F_WRITE = 0)
    (hmap : ∀ j, 1 ≤ j → j ≤ k → s.g.mapped
      ((s.g.vring vr).desc (chain_at (s.g.vring vr).desc VIONET_QUEUE_MASK
        ((s.g.vring vr).avail.ring idx &&& VIONET_QUEUE_MASK) j)).addr
      ((s.g.vring vr).desc (chain_at (s.g.vring vr).desc VIONET_QUEUE_MASK
        ((s.g.vring vr).avail.ring idx &&& VIONET_QUEUE_MASK) j)).len = true)
    (hB : B = chain_payload s.g (s.g.vring vr).desc VIONET_QUEUE_MASK
      (chain_at (s.g.vring vr).desc VIONET_QUEUE_MASK
        ((s.g.vring vr).avail.ring idx &&& VIONET_QUEUE_MASK) 1) k)
    (hmin : MIN_TXLEN ≤ B.length) (hmax : B.length ≤ MAX_TXLEN) (hint : MAX_TXLEN < 2 ^ 31)
    (hlock : s.dev.lockedmac = 0) (hloc : s.dev.islocal = 0)
    (htap : s.tap.write_ret B = (B.length : Int)) :
    (∃ s1, vionet_notify_tx_body MIN_TXLEN MAX_TXLEN dhcp_request fuel s vr idx = .ret (true, s1) ∧
      s1.tap.sent = s.tap.sent ++ [B] ∧
      ((s1.g.vring vr).used.ring ((s.g.vring vr).used.idx &&& VIONET_QUEUE_MASK)).id
        = (s.g.vring vr).avail.ring idx &&& VIONET_QUEUE_MASK ∧
      (s1.g.vring vr).used.idx = ((s.g.vring vr).used.idx + 1) % 2 ^ 16 ∧
      (s1.dev.vq TXQ).last_avail = (s.g.vring vr).avail.idx &&& VIONET_QUEUE_MASK ∧
      s1.g.bytes = s.g.bytes) ∧
    (s.dhcpsz = 0 → s.dhcppkt = [] → vr = (s.dev.vq TXQ).q_hva → vr ≠ 0 →
      idx = (s.dev.vq TXQ).last_avail &&& VIONET_QUEUE_MASK →
      (s.g.vring vr).avail.idx &&& VIONET_QUEUE_MASK = (idx + 1) &&& VIONET_QUEUE_MASK →
      ∃ dev1 g1 tap1, vionet_notify_tx MIN_TXLEN MAX_TXLEN dhcp_request fuel s.dev s.g s.tap
          = .ret (1, dev1, g1, tap1) ∧
        tap1.sent = s.tap.sent ++ [B] ∧
        ((g1.vring vr).used.ring ((s.g.vring vr).used.idx &&& VIONET_QUEUE_MASK)).id
          = (s.g.vring vr).avail.ring idx &&& VIONET_QUEUE_MASK ∧
        (g1.vring vr).used.idx = ((s.g.vring vr).used.idx + 1) % 2 ^ 16 ∧
        (dev1.vq TXQ).last_avail = ((s.dev.vq TXQ).last_avail + 1) &&& VIONET_QUEUE_MASK ∧
        g1.bytes = s.g.bytes) := by
  have hbody := vionet_notify_tx_body_chain MIN_TXLEN MAX_TXLEN dhcp_request fuel s vr idx k B
    hfuel hk hnext hlast hwr hmap hB hmin hmax hint hlock hloc htap
  refine ⟨⟨_, hbody, ?_, ?_, ?_, ?_, ?_⟩, ?_⟩
  · rfl
  · simp [vionet_notify_tx_drop_packet, GuestMem.setVring, Vring.pushUsed]
  · simp [vionet_notify_tx_drop_packet, GuestMem.setVring, Vring.pushUsed]
  · simp [vionet_notify_tx_drop_packet, GuestMem.setVring, Vring.pushUsed]
  · rfl
  · intro hz hp hvr hvr0 hidx hav
    subst hvr
    subst hidx
    have hcall := vionet_notify_tx_single MIN_TXLEN MAX_TXLEN dhcp_request fuel s _
      (by have : VIONET_QUEUE_SIZE = 256 := rfl
          omega) hz hp hvr0 hav hbody
      (by simp [vionet_notify_tx_drop_packet, GuestMem.setVring, Vring.pushUsed])
      (by simp [vionet_notify_tx_drop_packet, hz])
    refine ⟨_, _, _, hcall, ?_, ?_, ?_, ?_, ?_⟩
    · rfl
    · simp [vionet_notify_tx_drop_packet, GuestMem.setVring, Vring.pushUsed]
    · simp [vionet_notify_tx_drop_packet, GuestMem.setVring, Vring.pushUsed]
    · simp only [vionet_notify_tx_drop_packet, GuestMem.setVring, Vring.pushUsed, if_true]
      rw [hav]
      simp only [and_vionet_mask]
      omega
    · rfl

/-- C4 at a concrete input: a 12-byte header descriptor followed by data
descriptors of 10 and 6 bytes; the 16-byte frame is written to the tap. -/
theorem vionet_notify_tx_sends_frame_witness :
    ∃ dev1 g1 tap1, vionet_notify_tx 14 16398 dhcp_none 256 (net_dev 0) tx_mem_frame tap_accepting
        = .ret (1, dev1, g1, tap1) ∧
      tap1.sent = [] ++ [[0, 1, 2, 3, 4, 5, 6, 7, 8, 9, 0, 1, 2, 3, 4, 5]] ∧
      ((g1.vring 2).used.ring ((tx_mem_frame.vring 2).used.idx &&& VIONET_QUEUE_MASK)).id
        = (tx_mem_frame.vring 2).avail.ring 0 &&& VIONET_QUEUE_MASK ∧
      (g1.vring 2).used.idx = ((tx_mem_frame.vring 2).used.idx + 1) % 2 ^ 16 ∧
      (dev1.vq TXQ).last_avail = (((net_dev 0).vq TXQ).last_avail + 1) &&& VIONET_QUEUE_MASK ∧
      g1.bytes = tx_mem_frame.bytes :=
  (vionet_notify_tx_sends_frame 14 16398 dhcp_none 256 (tx_start (net_dev 0) tx_mem_frame tap_accepting)
    2 0 2 [0, 1, 2, 3, 4, 5, 6, 7, 8, 9, 0, 1, 2, 3, 4, 5]
    (by decide) (by decide) (by decide) (by decide) (by decide) (by decide) (by decide)
    (by decide) (by decide) (by decide) (by decide) (by decide) (by decide)).2
    rfl rfl rfl (by decide) (by decide) (by decide)

/-! ## Block requests: transfers of a well-formed request -/

/-- C1, the claim as stated fails on the code.  A `VIRTIO_BLK_T_OUT` request of
the stated shape (read-only header, one read-only data descriptor, writable
status descriptor) whose data descriptor is 2 MiB long, above
`max_xfer = 1 MiB`, and a `VIRTIO_BLK_T_IN` request of the stated shape whose
data descriptor is one byte longer than 64 MiB: the back-end accepts every
call, yet `vioblk_notifyq` leaves through `goto out`; nothing is transferred
(the back-end bytes still differ from the guest buffer), the status byte keeps
its old value `0xFF` and no used element is published. -/
theorem vioblk_notifyq_oversize_not_transferred :
    (∃ d g1, vioblk_notifyq 128 (blk_dev disk_pattern)
        (blk_mem_request VIRTIO_BLK_T_OUT 2097152 1) = .ret (1, d, g1) ∧
      d.file.disk 1 = 1 ∧ g1.bytes (0x100000 + 1) = 0xAB ∧
      g1.bytes 0x2000 = 0xFF ∧ (g1.vring 1).used.idx = 0) ∧
    (∃ d g1, vioblk_notifyq 128 (blk_dev disk_pattern)
        (blk_mem_request VIRTIO_BLK_T_IN (2 ^ 26 + 1) 3) = .ret (1, d, g1) ∧
      d.file.disk 1 = 1 ∧ g1.bytes (0x100000 + 1) = 0xAB ∧
      g1.bytes 0x2000 = 0xFF ∧ (g1.vring 1).used.idx = 0) := by
  refine ⟨⟨_, _, rfl, ?_, ?_, ?_, ?_⟩, ⟨_, _, rfl, ?_, ?_, ?_, ?_⟩⟩ <;> decide

/-- C1, amended.  Let the avail slot `idx` hold the head of a chain made of a
read-only header descriptor of type `VIRTIO_BLK_T_IN` (`rd = true`) or
`VIRTIO_BLK_T_OUT` (`rd = false`), `k ≥ 1` data descriptors that are all
writable (read) or all read-only (write), and a writable status descriptor.
Let the buffers be mapped, every data descriptor be at most 64 MiB long, the
first data descriptor of a write be at most `max_xfer` long, the byte offsets
fit an `off_t`, and the back-end calls succeed.  Let `vr` be the ring of the
notified queue and let what the device writes, the data buffers of a read and
the status byte, lie outside that ring in guest memory (`off_ring`).  Then the
pass of the loop of `vioblk_notifyq` over this slot makes, in chain order, the
`k` transfers of exactly `len_i` bytes between the guest buffer at `d_i.addr`
and the back-end at byte offset `(sector + sum over j < i of len_j / 512) * 512`,
writes the status byte 0 (OK) and publishes the used element
(`blk_request_done`).  When the request is the only pending one, the whole call
`vioblk_notifyq` returns 1 with these effects. -/
theorem vioblk_notifyq_transfers (fuel : Nat) (dev : vioblk_dev) (g : GuestMem) (vr idx k : Nat)
    (rd : Bool)
    (hfuel : VIOBLK_QUEUE_SIZE ≤ fuel) (hk : 1 ≤ k)
    (hnext : ∀ j, j ≤ k → ((g.vring vr).desc (chain_at (g.vring vr).desc VIOBLK_QUEUE_MASK
      ((g.vring vr).avail.ring idx &&& VIOBLK_QUEUE_MASK) j)).flags &&& VRING_DESC_F_NEXT ≠ 0)
    (hlast : ((g.vring vr).desc (chain_at (g.vring vr).desc VIOBLK_QUEUE_MASK
      ((g.vring vr).avail.ring idx &&& VIOBLK_QUEUE_MASK) (k + 1))).flags &&& VRING_DESC_F_NEXT = 0)
    (hro : ((g.vring vr).desc ((g.vring vr).avail.ring idx &&& VIOBLK_QUEUE_MASK)).flags
      &&& VRING_DESC_F_WRITE = 0)
    (hmaph : g.mapped ((g.vring vr).desc ((g.vring vr).avail.ring idx &&& VIOBLK_QUEUE_MASK)).addr 16
      = true)
    (htype : (blk_hdr_at g
      ((g.vring vr).desc ((g.vring vr).avail.ring idx &&& VIOBLK_QUEUE_MASK)).addr).type
        = if rd then VIRTIO_BLK_T_IN else VIRTIO_BLK_T_OUT)
    (hdw : ∀ j, 1 ≤ j → j ≤ k → (((g.vring vr).desc (chain_at (g.vring vr).desc VIOBLK_QUEUE_MASK
      ((g.vring vr).avail.ring idx &&& VIOBLK_QUEUE_MASK) j)).flags &&& VRING_DESC_F_WRITE ≠ 0
        ↔ rd = true))
    (hxfer : rd = false → ((g.vring vr).desc (chain_at (g.vring vr).desc VIOBLK_QUEUE_MASK
      ((g.vring vr).avail.ring idx &&& VIOBLK_QUEUE_MASK) 1)).len ≤ dev.max_xfer)
    (hcap : ∀ j, 1 ≤ j → j ≤ k → ((g.vring vr).desc (chain_at (g.vring vr).desc VIOBLK_QUEUE_MASK
      ((g.vring vr).avail.ring idx &&& VIOBLK_QUEUE_MASK) j)).len ≤ 2 ^ 26)
    (hmap : ∀ j, 1 ≤ j → j ≤ k → g.mapped
      ((g.vring vr).desc (chain_at (g.vring vr).desc VIOBLK_QUEUE_MASK
        ((g.vring vr).avail.ring idx &&& VIOBLK_QUEUE_MASK) j)).addr
      ((g.vring vr).desc (chain_at (g.vring vr).desc VIOBLK_QUEUE_MASK
        ((g.vring vr).avail.ring idx &&& VIOBLK_QUEUE_MASK) j)).len = true)
    (hio : ∀ j, j < k → (if rd then dev.file.pread_ok else dev.file.pwrite_ok)
      ((g.vring vr).desc (chain_at (g.vring vr).desc VIOBLK_QUEUE_MASK
        ((g.vring vr).avail.ring idx &&& VIOBLK_QUEUE_MASK) (j + 1))).len
      (((blk_hdr_at g
          ((g.vring vr).desc ((g.vring vr).avail.ring idx &&& VIOBLK_QUEUE_MASK)).addr).sector
        + chain_sectors (g.vring vr).desc VIOBLK_QUEUE_MASK
            (chain_at (g.vring vr).desc VIOBLK_QUEUE_MASK
              ((g.vring vr).avail.ring idx &&& VIOBLK_QUEUE_MASK) 1) j)
        * VIRTIO_BLK_SECTOR_SIZE) = true)
    (hoff : ((blk_hdr_at g
          ((g.vring vr).desc ((g.vring vr).avail.ring idx &&& VIOBLK_QUEUE_MASK)).addr).sector
        + chain_sectors (g.vring vr).desc VIOBLK_QUEUE_MASK
            (chain_at (g.vring vr).desc VIOBLK_QUEUE_MASK
              ((g.vring vr).avail.ring idx &&& VIOBLK_QUEUE_MASK) 1) k)
        * VIRTIO_BLK_SECTOR_SIZE < 2 ^ 63)
    (hstw : ((g.vring vr).desc (chain_at (g.vring vr).desc VIOBLK_QUEUE_MASK
      ((g.vring vr).avail.ring idx &&& VIOBLK_QUEUE_MASK) (k + 1))).flags &&& VRING_DESC_F_WRITE ≠ 0)
    (hstm : g.mapped ((g.vring vr).desc (chain_at (g.vring vr).desc VIOBLK_QUEUE_MASK
      ((g.vring vr).avail.ring idx &&& VIOBLK_QUEUE_MASK) (k + 1))).addr 1 = true)
    (hvr : vr = (dev.vq dev.cfg.queue_notify).q_hva)
    (hoffd : rd = true → ∀ j, 1 ≤ j → j ≤ k →
      off_ring (dev.vq dev.cfg.queue_notify).q_gpa VIOBLK_QUEUE_SIZE
        ((g.vring vr).desc (chain_at (g.vring vr).desc VIOBLK_QUEUE_MASK
          ((g.vring vr).avail.ring idx &&& VIOBLK_QUEUE_MASK) j)).addr
        ((g.vring vr).desc (chain_at (g.vring vr).desc VIOBLK_QUEUE_MASK
          ((g.vring vr).avail.ring idx &&& VIOBLK_QUEUE_MASK) j)).len)
    (hoffs : off_ring (dev.vq dev.cfg.queue_notify).q_gpa VIOBLK_QUEUE_SIZE
      ((g.vring vr).desc (chain_at (g.vring vr).desc VIOBLK_QUEUE_MASK
        ((g.vring vr).avail.ring idx &&& VIOBLK_QUEUE_MASK) (k + 1))).addr 1) :
    (∃ dev1 g1, vioblk_notifyq_body fuel dev g vr idx = .ret (true, dev1, g1) ∧
      blk_request_done rd dev g vr idx k dev1 g1) ∧
    (dev.cfg.queue_notify = 0 → vr = (dev.vq 0).q_hva → vr ≠ 0 →
      idx = (dev.vq 0).last_avail &&& VIOBLK_QUEUE_MASK →
      (g.vring vr).avail.idx &&& VIOBLK_QUEUE_MASK = (idx + 1) &&& VIOBLK_QUEUE_MASK →
      ∃ dev1 g1, vioblk_notifyq fuel dev g = .ret (1, dev1, g1) ∧
        blk_request_done rd dev g vr idx k dev1 g1 ∧
        (dev1.vq 0).last_avail = ((dev.vq 0).last_avail + 1) &&& VIOBLK_QUEUE_MASK) := by
  have hbody : ∃ dev1 g1, vioblk_notifyq_body fuel dev g vr idx = .ret (true, dev1, g1) ∧
      blk_request_done rd dev g vr idx k dev1 g1 ∧
      (g1.vring vr).avail = (g.vring vr).avail ∧
      (dev1.vq dev.cfg.queue_notify).last_avail
        = (g.vring vr).avail.idx &&& VIOBLK_QUEUE_MASK := by
    cases rd with
    | true =>
      obtain ⟨dev1, g1, h1, h2, h3, h4, h5, h6, h7, h8⟩ :=
        vioblk_notifyq_body_in fuel dev g vr idx k hfuel hk hnext hlast hro hmaph
          (by simpa using htype) (fun j a b => (hdw j a b).2 rfl) hcap hmap
          (fun j hj => by simpa using hio j hj) hoff hstw hstm
      refine ⟨dev1, g1, h1, ⟨?_, ?_, h4, h5, h7⟩, h6, h8⟩
      · simpa using h2
      · simp [h3]
    | false =>
      obtain ⟨dev1, g1, h1, h2, h3, h4, h5, h6, h7, h8⟩ :=
        vioblk_notifyq_body_out fuel dev g vr idx k hfuel hk hnext hlast hro hmaph
          (by simpa using htype)
          (fun j a b => by
            have := hdw j a b
            by_contra hc
            exact absurd (this.1 hc) (by decide))
          (hxfer rfl) hcap hmap
          (fun j hj => by simpa using hio j hj) hoff hstw hstm
      refine ⟨dev1, g1, h1, ⟨?_, ?_, h4, h5, h7⟩, h6, h8⟩
      · simpa using h2
      · simpa using h3
  obtain ⟨dev1, g1, h1, h2, h3, h4⟩ := hbody
  refine ⟨⟨dev1, g1, h1, h2⟩, ?_⟩
  intro hq hvr hvr0 hidx hav
  subst hvr
  subst hidx
  refine ⟨dev1, g1, ?_, h2, ?_⟩
  · exact vioblk_notifyq_single fuel dev dev1 g g1
      (by have : VIOBLK_QUEUE_SIZE = 128 := rfl
          omega) hq hvr0 hav h1 (by rw [h3])
  · rw [hq] at h4
    rw [h4, hav]
    simp only [and_vioblk_mask]
    omega

/-- C1 at concrete inputs; the ring is recorded at guest address `0x10000`,
the data buffer is at `0x100000`, the status byte at `0x2000`.  A read of 4096
bytes at sector 0 from a back-end whose bytes are `0x00 .. 0x0F` repeated: the
4096 bytes at the data descriptor's address match the back-end and the status
byte is 0.  A write of 512 bytes `0xAB` at sector 0: the first 512 back-end
bytes are `0xAB` and the status byte is 0. -/
theorem vioblk_notifyq_transfers_witness :
    (∃ dev1 g1, vioblk_notifyq 128 (blk_dev disk_pattern) (blk_mem_request VIRTIO_BLK_T_IN 4096 3)
        = .ret (1, dev1, g1) ∧
      (∀ i, i < 4096 → g1.bytes (0x100000 + i) = disk_pattern.disk i) ∧
      g1.bytes 0x2000 = 0 ∧ (g1.vring 1).used.idx = 1 ∧ (dev1.vq 0).last_avail = 1) ∧
    (∃ dev1 g1, vioblk_notifyq 128 (blk_dev disk_pattern) (blk_mem_request VIRTIO_BLK_T_OUT 512 1)
        = .ret (1, dev1, g1) ∧
      (∀ i, i < 512 → dev1.file.disk i = 0xAB) ∧
      g1.bytes 0x2000 = 0 ∧ (g1.vring 1).used.idx = 1 ∧ (dev1.vq 0).last_avail = 1) := by
  constructor
  · obtain ⟨dev1, g1, h1, ⟨hb, _, _, hu, _⟩, hl⟩ :=
      (vioblk_notifyq_transfers 128 (blk_dev disk_pattern) (blk_mem_request VIRTIO_BLK_T_IN 4096 3)
        1 0 1 true (by decide) (by decide) (by decide) (by decide) (by decide) (by decide)
        (by decide) (by decide) (by decide) (by decide) (by decide) (by decide) (by decide)
        (by decide) (by decide) rfl (by decide) (by decide)).2 rfl rfl (by decide) rfl
        (by decide)
    refine ⟨dev1, g1, h1, ?_, ?_, hu, hl⟩
    · intro i hi
      rw [hb]
      have e1 : chain_at ((blk_mem_request VIRTIO_BLK_T_IN 4096 3).vring 1).desc VIOBLK_QUEUE_MASK
          (((blk_mem_request VIRTIO_BLK_T_IN 4096 3).vring 1).avail.ring 0 &&& VIOBLK_QUEUE_MASK) 1
          = 1 := by decide
      have e2 : chain_at ((blk_mem_request VIRTIO_BLK_T_IN 4096 3).vring 1).desc VIOBLK_QUEUE_MASK
          (((blk_mem_request VIRTIO_BLK_T_IN 4096 3).vring 1).avail.ring 0 &&& VIOBLK_QUEUE_MASK)
          (1 + 1) = 2 := by decide
      have e3 : (blk_hdr_at (blk_mem_request VIRTIO_BLK_T_IN 4096 3)
          (((blk_mem_request VIRTIO_BLK_T_IN 4096 3).vring 1).desc
            (((blk_mem_request VIRTIO_BLK_T_IN 4096 3).vring 1).avail.ring 0
              &&& VIOBLK_QUEUE_MASK)).addr).sector = 0 := by decide
      simp only [e1, e2, e3, if_true, blk_in_transfer, set_byte, copy_range]
      have d1 : (((blk_mem_request VIRTIO_BLK_T_IN 4096 3).vring 1).desc 1).addr = 0x100000 := rfl
      have d2 : (((blk_mem_request VIRTIO_BLK_T_IN 4096 3).vring 1).desc 1).len = 4096 := rfl
      have d3 : (((blk_mem_request VIRTIO_BLK_T_IN 4096 3).vring 1).desc 2).addr = 0x2000 := rfl
      rw [d1, d2, d3]
      have c1 : ¬ (0x100000 + i = 0x2000) := by omega
      have c2 : 0x100000 ≤ 0x100000 + i ∧ 0x100000 + i < 0x100000 + 4096 := by omega
      rw [if_neg c1, if_pos c2]
      have hs : VIRTIO_BLK_SECTOR_SIZE = 512 := rfl
      have e : (0 + 0) * VIRTIO_BLK_SECTOR_SIZE + (0x100000 + i - 0x100000) = i := by
        rw [hs]; omega
      rw [e]
      rfl
    · rw [hb]
      decide
  · obtain ⟨dev1, g1, h1, ⟨hb, hd, _, hu, _⟩, hl⟩ :=
      (vioblk_notifyq_transfers 128 (blk_dev disk_pattern) (blk_mem_request VIRTIO_BLK_T_OUT 512 1)
        1 0 1 false (by decide) (by decide) (by decide) (by decide) (by decide) (by decide)
        (by decide) (by decide) (by decide) (by decide) (by decide) (by decide) (by decide)
        (by decide) (by decide) rfl (by decide) (by decide)).2 rfl rfl (by decide) rfl
        (by decide)
    refine ⟨dev1, g1, h1, ?_, ?_, hu, hl⟩
    · intro i hi
      rw [hd]
      have e1 : chain_at ((blk_mem_request VIRTIO_BLK_T_OUT 512 1).vring 1).desc VIOBLK_QUEUE_MASK
          (((blk_mem_request VIRTIO_BLK_T_OUT 512 1).vring 1).avail.ring 0 &&& VIOBLK_QUEUE_MASK) 1
          = 1 := by decide
      have e3 : (blk_hdr_at (blk_mem_request VIRTIO_BLK_T_OUT 512 1)
          (((blk_mem_request VIRTIO_BLK_T_OUT 512 1).vring 1).desc
            (((blk_mem_request VIRTIO_BLK_T_OUT 512 1).vring 1).avail.ring 0
              &&& VIOBLK_QUEUE_MASK)).addr).sector = 0 := by decide
      simp only [e1, e3, blk_out_transfer, copy_range]
      have d1 : (((blk_mem_request VIRTIO_BLK_T_OUT 512 1).vring 1).desc 1).addr = 0x100000 := rfl
      have d2 : (((blk_mem_request VIRTIO_BLK_T_OUT 512 1).vring 1).desc 1).len = 512 := rfl
      rw [d1, d2]
      have hs : VIRTIO_BLK_SECTOR_SIZE = 512 := rfl
      have c2 : (0 + 0) * VIRTIO_BLK_SECTOR_SIZE ≤ i ∧ i < (0 + 0) * VIRTIO_BLK_SECTOR_SIZE + 512 := by
        rw [hs]; omega
      simp only [Bool.false_eq_true, if_false]
      unfold copy_range
      rw [if_pos c2]
      show (if 0x100000 + (i - (0 + 0) * VIRTIO_BLK_SECTOR_SIZE) = 0x100 then _ else _) = _
      have c3 : ¬ (0x100000 + (i - (0 + 0) * VIRTIO_BLK_SECTOR_SIZE) = 0x100) := by omega
      have c4 : ¬ (0x100000 + (i - (0 + 0) * VIRTIO_BLK_SECTOR_SIZE) = 0x2000) := by omega
      have c5 : 0x100000 ≤ 0x100000 + (i - (0 + 0) * VIRTIO_BLK_SECTOR_SIZE) := by omega
      rw [if_neg c3, if_neg c4, if_pos c5]
    · rw [hb]
      decide

/-! ## Termination of the block and transmit notifies -/

/-- After the transmit pass the walk of `vionet_enq_rx` never leaves the
zero-length descriptor `desc[1]` of the receive ring. -/
theorem vionet_enq_rx_walk_stuck_reply (fuel : Nat) :
    vionet_enq_rx_walk 1 frame60 60 12 fuel tx_state_reply_pending.g 1 0 0 12 = .diverge := by
  induction fuel with
  | zero => rfl
  | succ n ih =>
    have step : vionet_enq_rx_walk 1 frame60 60 12 (n + 1) tx_state_reply_pending.g 1 0 0 12
        = vionet_enq_rx_walk 1 frame60 60 12 n tx_state_reply_pending.g 1 0 0 12 := rfl
    rw [step, ih]

theorem vionet_enq_rx_walk_cycle_reply (fuel : Nat) :
    vionet_enq_rx_walk 1 frame60 60 12 fuel tx_state_reply_pending.g 0 0 0 0 = .diverge := by
  cases fuel with
  | zero => rfl
  | succ n =>
    have step : vionet_enq_rx_walk 1 frame60 60 12 (n + 1) tx_state_reply_pending.g 0 0 0 0
        = vionet_enq_rx_walk 1 frame60 60 12 n tx_state_reply_pending.g 1 0 0 12 := rfl
    rw [step, vionet_enq_rx_walk_stuck_reply]

/-- On a local interface whose responder answers the transmitted frame,
`vionet_notify_tx` ends by handing the reply to `vionet_enq_rx`; with a receive
chain made of a 12-byte descriptor followed by a zero-length descriptor linked
to itself, that call exhausts every fuel, and so does `vionet_notify_tx`. -/
theorem vionet_notify_tx_local_reply_diverges :
    ∀ fuel : Nat, vionet_notify_tx 14 16398 dhcp_reply fuel (net_dev 1) mem_local_reply
      tap_accepting = .diverge := by
  intro fuel
  match fuel with
  | 0 => rfl
  | 1 => rfl
  | n + 2 =>
    have hrx : vionet_enq_rx 14 16398 (n + 2) tx_state_reply_pending.dev tx_state_reply_pending.g
        frame60 60 0 = .diverge :=
      vionet_enq_rx_of_walk_diverge 14 16398 (n + 2) tx_state_reply_pending.dev
        tx_state_reply_pending.g frame60 60 0 (by decide) (by decide) (by decide) (by decide)
        (vionet_enq_rx_walk_cycle_reply (n + 2))
    have hcall : vionet_notify_tx 14 16398 dhcp_reply (n + 2) (net_dev 1) mem_local_reply
        tap_accepting =
        (match vionet_enq_rx 14 16398 (n + 2) tx_state_reply_pending.dev tx_state_reply_pending.g
            frame60 60 0 with
          | .fatal => .fatal
          | .diverge => .diverge
          | .ret (_, _, dev2, g2) => .ret (1, dev2, g2, tx_state_reply_pending.tap)) := rfl
    rw [hcall, hrx]

/-- C7 on the code: the guarded walks abandon a cyclic chain, the hand-off to
`vionet_enq_rx` does not.  (1) A block notify over `blk_ring_cycle`, whose data
descriptor links to itself, returns 1 with the rings and the queue state as
they were: no used element is published.  (2) A transmit notify over
`tx_ring_cycle` returns 1 with device, guest memory and tap unchanged.  (3) On
a local interface whose responder answers the frame, `vionet_notify_tx` over
`mem_local_reply` is still running after any number of steps: the claimed
termination of `vionet_notify_tx` fails there. -/
theorem vionet_notify_tx_diverges_in_reply_hand_off :
    (∃ dev1 g1, vioblk_notifyq 128 (blk_dev disk_pattern) (mem_with_ring blk_ring_cycle)
        = .ret (1, dev1, g1) ∧
      g1.vring = (mem_with_ring blk_ring_cycle).vring ∧
      dev1.vq = (blk_dev disk_pattern).vq ∧ dev1.cfg = (blk_dev disk_pattern).cfg) ∧
    vionet_notify_tx 14 16398 dhcp_none 256 (net_dev 0) (mem_with_ring tx_ring_cycle)
        tap_accepting
      = .ret (1, net_dev 0, mem_with_ring tx_ring_cycle, tap_accepting) ∧
    (∀ fuel : Nat, vionet_notify_tx 14 16398 dhcp_reply fuel (net_dev 1) mem_local_reply
      tap_accepting = .diverge) := by
  refine ⟨?_, ?_, vionet_notify_tx_local_reply_diverges⟩
  · have hch : ∀ j, chain_at blk_ring_cycle.desc VIOBLK_QUEUE_MASK 1 j = 1 :=
      chain_at_self_loop _ _ _ (by decide)
    have hnext : ∀ j, 1 ≤ j → j ≤ VIOBLK_QUEUE_SIZE →
        (((mem_with_ring blk_ring_cycle).vring 1).desc
          (chain_at ((mem_with_ring blk_ring_cycle).vring 1).desc VIOBLK_QUEUE_MASK
            ((((mem_with_ring blk_ring_cycle).vring 1).avail.ring 0) &&& VIOBLK_QUEUE_MASK)
            j)).flags &&& VRING_DESC_F_NEXT ≠ 0 := by
      intro j hj _
      obtain ⟨k, rfl⟩ : ∃ k, j = k + 1 := ⟨j - 1, by omega⟩
      rw [chain_at_succ_start]
      have e : (((mem_with_ring blk_ring_cycle).vring 1).desc
          ((((mem_with_ring blk_ring_cycle).vring 1).avail.ring 0) &&& VIOBLK_QUEUE_MASK)).next
          &&& VIOBLK_QUEUE_MASK = 1 := by decide
      rw [e]
      show (blk_ring_cycle.desc (chain_at blk_ring_cycle.desc VIOBLK_QUEUE_MASK 1 k)).flags
        &&& VRING_DESC_F_NEXT ≠ 0
      rw [hch]
      decide
    obtain ⟨dev1, g1, hb⟩ := vioblk_notifyq_body_bound 128 (blk_dev disk_pattern)
      (mem_with_ring blk_ring_cycle) 1 0 (by decide) hnext (Or.inl (by decide))
    obtain ⟨b, dev2, g2, hr, _, _, hfalse⟩ := vioblk_notifyq_body_returns 128
      (blk_dev disk_pattern) (mem_with_ring blk_ring_cycle) 1 0 (by decide)
    rw [hb] at hr
    cases hr
    obtain ⟨hv, hc, hq⟩ := hfalse rfl
    refine ⟨dev1, g1, ?_, hv, hq, hc⟩
    exact (vioblk_notifyq_pending 128 (blk_dev disk_pattern) (mem_with_ring blk_ring_cycle)
      (by decide) (by decide) (by decide)).trans
      (vioblk_notifyq_loop_abandon 128 1 127 _ _ _ _ 0 (by decide) hb)
  · have hch : ∀ j, chain_at tx_ring_cycle.desc VIONET_QUEUE_MASK 0 j = 0 :=
      chain_at_self_loop _ _ _ (by decide)
    have hnext : ∀ j, 1 ≤ j → j < VIONET_QUEUE_SIZE →
        (((tx_start (net_dev 0) (mem_with_ring tx_ring_cycle) tap_accepting).g.vring 2).desc
          (chain_at ((tx_start (net_dev 0) (mem_with_ring tx_ring_cycle)
              tap_accepting).g.vring 2).desc VIONET_QUEUE_MASK
            ((((tx_start (net_dev 0) (mem_with_ring tx_ring_cycle)
              tap_accepting).g.vring 2).avail.ring 0) &&& VIONET_QUEUE_MASK)
            j)).flags &&& VRING_DESC_F_NEXT ≠ 0 := by
      intro j _ _
      show (tx_ring_cycle.desc (chain_at tx_ring_cycle.desc VIONET_QUEUE_MASK 0 j)).flags
        &&& VRING_DESC_F_NEXT ≠ 0
      rw [hch]
      decide
    have hb := vionet_notify_tx_body_bound 14 16398 dhcp_none 256
      (tx_start (net_dev 0) (mem_with_ring tx_ring_cycle) tap_accepting) 2 0 (by decide) hnext
    exact vionet_notify_tx_abandon 14 16398 dhcp_none 256 (net_dev 0)
      (mem_with_ring tx_ring_cycle) tap_accepting _ (by decide) (by decide)
      (vionet_notify_tx_loop_abandon 14 16398 dhcp_none 256 2 255 _ _ 0 (by decide) hb)

/-! ## Block requests: where the 64 MiB cap applies -/

/-- C11, the claim as stated fails on the code.  (1) A `VIRTIO_BLK_T_IN`
request with two writable data descriptors of 64 MiB each, 128 MiB in all: no
single descriptor is over the cap, so `vioblk_notifyq` reads both ranges from
the back-end into the guest buffers (bytes that held `0xAB` now hold the
back-end pattern), writes the status byte 0 and publishes the used element.
(2) A `VIRTIO_BLK_T_IN` request with a data descriptor of 512 bytes followed by
one of 64 MiB + 1 bytes: the 512 bytes of the first descriptor are read from
the back-end into the guest buffer, the buffer of the second keeps `0xAB`. -/
theorem vioblk_notifyq_sum_over_cap_is_served :
    (chain_len_sum (blk_ring_two_data (2 ^ 26) (2 ^ 26)).desc VIOBLK_QUEUE_MASK 1 2
      = 128 * 1024 * 1024 ∧
    ∃ dev1 g1, vioblk_notifyq 128 (blk_dev disk_pattern) (blk_mem_two_data (2 ^ 26) (2 ^ 26))
        = .ret (1, dev1, g1) ∧
      (blk_mem_two_data (2 ^ 26) (2 ^ 26)).bytes (0x100000 + 1) = 0xAB ∧
      g1.bytes (0x100000 + 1) = 1 ∧
      g1.bytes (0x4100000 + 2) = 2 ∧
      g1.bytes 0x2000 = 0 ∧ (g1.vring 1).used.idx = 1 ∧
      ((g1.vring 1).used.ring 0).id = 0) ∧
    (chain_len_sum (blk_ring_two_data 512 (2 ^ 26 + 1)).desc VIOBLK_QUEUE_MASK 1 2
      > 64 * 1024 * 1024 ∧
    ∃ r dev1 g1, vioblk_notifyq 128 (blk_dev disk_pattern) (blk_mem_two_data 512 (2 ^ 26 + 1))
        = .ret (r, dev1, g1) ∧
      (blk_mem_two_data 512 (2 ^ 26 + 1)).bytes (0x100000 + 3) = 0xAB ∧
      g1.bytes (0x100000 + 3) = 3 ∧ g1.bytes 0x4100000 = 0xAB) := by
  refine ⟨⟨by decide, ?_⟩, by decide, ?_⟩
  swap
  · have h1 := vioblk_notifyq_body_in_oversize 128 (blk_dev disk_pattern)
      (blk_mem_two_data 512 (2 ^ 26 + 1)) 1 0 1 (by decide) (by decide) (by decide) (by decide)
      (by decide) (by decide) (by decide) (by decide) (by decide) (by decide) (by decide)
      (by decide)
    refine ⟨1, _, _,
      (vioblk_notifyq_pending 128 (blk_dev disk_pattern) (blk_mem_two_data 512 (2 ^ 26 + 1))
        (by decide) (by decide) (by decide)).trans
        (vioblk_notifyq_loop_abandon 128 1 127 (blk_dev disk_pattern) _
          (blk_mem_two_data 512 (2 ^ 26 + 1)) _ 0 (by decide) h1),
      by decide, ?_, ?_⟩
    · decide
    · decide
  obtain ⟨dev1, g1, h1, hb, _, hid, hu, hav, _, _⟩ :=
    vioblk_notifyq_body_in 128 (blk_dev disk_pattern) (blk_mem_two_data (2 ^ 26) (2 ^ 26))
      1 0 2 (by decide) (by decide) (by decide) (by decide) (by decide) (by decide)
      (by decide) (by decide) (by decide) (by decide) (by decide) (by decide) (by decide)
      (by decide)
  refine ⟨dev1, g1, ?_, by decide, ?_, ?_, ?_, hu, hid⟩
  · exact vioblk_notifyq_single 128 (blk_dev disk_pattern) dev1
      (blk_mem_two_data (2 ^ 26) (2 ^ 26)) g1 (by decide) rfl (by decide) (by decide) h1
      (by show (g1.vring 1).avail.idx = _; rw [hav]; rfl)
  · rw [hb]; decide
  · rw [hb]; decide
  · rw [hb]; decide

/-- C11, amended: the cap applies to each data descriptor.  Let the avail slot
`idx` hold a `VIRTIO_BLK_T_IN` (`rd = true`) or `VIRTIO_BLK_T_OUT`
(`rd = false`) request made of a header, `k` data descriptors and a status
descriptor, whose data descriptor number `m + 1` is longer than 64 MiB, the `m`
data descriptors before it being well formed (right direction, at most 64 MiB,
mapped, accepted by the back-end, the first one of a write at most
`max_xfer`).  Let `vr` be the ring of the notified queue and let the data
buffers a read writes lie outside that ring in guest memory (`off_ring`).  Then
the pass of the loop of `vioblk_notifyq` over this slot returns, whatever the
back-end would answer for the oversize descriptor or a later one, and no byte
of these descriptors is transferred: the back-end holds exactly what the `m`
writes before the oversize descriptor leave, and every guest byte other than
the status byte of the request is as the `m` reads before the oversize
descriptor leave it.  When the request is the only pending one, the whole call
returns with this state. -/
theorem vioblk_notifyq_oversize_descriptor_abandons (fuel : Nat) (dev : vioblk_dev)
    (g : GuestMem) (vr idx m k : Nat) (rd : Bool)
    (hfuel : VIOBLK_QUEUE_SIZE ≤ fuel) (hm : m < VIOBLK_QUEUE_SIZE) (hk : m + 1 ≤ k)
    (hnext : ∀ j, j ≤ k → ((g.vring vr).desc (chain_at (g.vring vr).desc VIOBLK_QUEUE_MASK
      ((g.vring vr).avail.ring idx &&& VIOBLK_QUEUE_MASK) j)).flags &&& VRING_DESC_F_NEXT ≠ 0)
    (hlast : ((g.vring vr).desc (chain_at (g.vring vr).desc VIOBLK_QUEUE_MASK
      ((g.vring vr).avail.ring idx &&& VIOBLK_QUEUE_MASK) (k + 1))).flags &&& VRING_DESC_F_NEXT = 0)
    (hro : ((g.vring vr).desc ((g.vring vr).avail.ring idx &&& VIOBLK_QUEUE_MASK)).flags
      &&& VRING_DESC_F_WRITE = 0)
    (hmaph : g.mapped ((g.vring vr).desc ((g.vring vr).avail.ring idx &&& VIOBLK_QUEUE_MASK)).addr 16
      = true)
    (htype : (blk_hdr_at g
      ((g.vring vr).desc ((g.vring vr).avail.ring idx &&& VIOBLK_QUEUE_MASK)).addr).type
        = if rd then VIRTIO_BLK_T_IN else VIRTIO_BLK_T_OUT)
    (hdw : ∀ j, 1 ≤ j → j ≤ m → (((g.vring vr).desc (chain_at (g.vring vr).desc VIOBLK_QUEUE_MASK
      ((g.vring vr).avail.ring idx &&& VIOBLK_QUEUE_MASK) j)).flags &&& VRING_DESC_F_WRITE ≠ 0
        ↔ rd = true))
    (hxfer : rd = false → 1 ≤ m →
      ((g.vring vr).desc (chain_at (g.vring vr).desc VIOBLK_QUEUE_MASK
        ((g.vring vr).avail.ring idx &&& VIOBLK_QUEUE_MASK) 1)).len ≤ dev.max_xfer)
    (hcap : ∀ j, 1 ≤ j → j ≤ m → ((g.vring vr).desc (chain_at (g.vring vr).desc VIOBLK_QUEUE_MASK
      ((g.vring vr).avail.ring idx &&& VIOBLK_QUEUE_MASK) j)).len ≤ 2 ^ 26)
    (hmap : ∀ j, 1 ≤ j → j ≤ m → g.mapped
      ((g.vring vr).desc (chain_at (g.vring vr).desc VIOBLK_QUEUE_MASK
        ((g.vring vr).avail.ring idx &&& VIOBLK_QUEUE_MASK) j)).addr
      ((g.vring vr).desc (chain_at (g.vring vr).desc VIOBLK_QUEUE_MASK
        ((g.vring vr).avail.ring idx &&& VIOBLK_QUEUE_MASK) j)).len = true)
    (hio : ∀ j, j < m → (if rd then dev.file.pread_ok else dev.file.pwrite_ok)
      ((g.vring vr).desc (chain_at (g.vring vr).desc VIOBLK_QUEUE_MASK
        ((g.vring vr).avail.ring idx &&& VIOBLK_QUEUE_MASK) (j + 1))).len
      (((blk_hdr_at g
          ((g.vring vr).desc ((g.vring vr).avail.ring idx &&& VIOBLK_QUEUE_MASK)).addr).sector
        + chain_sectors (g.vring vr).desc VIOBLK_QUEUE_MASK
            (chain_at (g.vring vr).desc VIOBLK_QUEUE_MASK
              ((g.vring vr).avail.ring idx &&& VIOBLK_QUEUE_MASK) 1) j)
        * VIRTIO_BLK_SECTOR_SIZE) = true)
    (hoff : ((blk_hdr_at g
          ((g.vring vr).desc ((g.vring vr).avail.ring idx &&& VIOBLK_QUEUE_MASK)).addr).sector
        + chain_sectors (g.vring vr).desc VIOBLK_QUEUE_MASK
            (chain_at (g.vring vr).desc VIOBLK_QUEUE_MASK
              ((g.vring vr).avail.ring idx &&& VIOBLK_QUEUE_MASK) 1) m)
        * VIRTIO_BLK_SECTOR_SIZE < 2 ^ 63)
    (hbig : ((g.vring vr).desc (chain_at (g.vring vr).desc VIOBLK_QUEUE_MASK
      ((g.vring vr).avail.ring idx &&& VIOBLK_QUEUE_MASK) (m + 1))).len > 2 ^ 26)
    (hvr : vr = (dev.vq dev.cfg.queue_notify).q_hva)
    (hoffd : rd = true → ∀ j, 1 ≤ j → j ≤ m →
      off_ring (dev.vq dev.cfg.queue_notify).q_gpa VIOBLK_QUEUE_SIZE
        ((g.vring vr).desc (chain_at (g.vring vr).desc VIOBLK_QUEUE_MASK
          ((g.vring vr).avail.ring idx &&& VIOBLK_QUEUE_MASK) j)).addr
        ((g.vring vr).desc (chain_at (g.vring vr).desc VIOBLK_QUEUE_MASK
          ((g.vring vr).avail.ring idx &&& VIOBLK_QUEUE_MASK) j)).len) :
    ∃ b dev1 g1,
      vioblk_notifyq_body fuel dev g vr idx = .ret (b, dev1, g1) ∧
      dev1.file.disk = (if rd then dev.file.disk else
          blk_out_transfer g.bytes (g.vring vr).desc
            (blk_hdr_at g
              ((g.vring vr).desc ((g.vring vr).avail.ring idx &&& VIOBLK_QUEUE_MASK)).addr).sector
            m (chain_at (g.vring vr).desc VIOBLK_QUEUE_MASK
              ((g.vring vr).avail.ring idx &&& VIOBLK_QUEUE_MASK) 1) 0 dev.file.disk) ∧
      (∀ a,
        a ≠ ((g.vring vr).desc (chain_at (g.vring vr).desc VIOBLK_QUEUE_MASK
          ((g.vring vr).avail.ring idx &&& VIOBLK_QUEUE_MASK) (k + 1))).addr →
        g1.bytes a = (if rd then
          blk_in_transfer dev.file.disk (g.vring vr).desc
            (blk_hdr_at g
              ((g.vring vr).desc ((g.vring vr).avail.ring idx &&& VIOBLK_QUEUE_MASK)).addr).sector
            m (chain_at (g.vring vr).desc VIOBLK_QUEUE_MASK
              ((g.vring vr).avail.ring idx &&& VIOBLK_QUEUE_MASK) 1) 0 g.bytes
        else g.bytes) a) ∧
      (dev.cfg.queue_notify = 0 → vr ≠ 0 →
        idx = (dev.vq 0).last_avail &&& VIOBLK_QUEUE_MASK →
        (g.vring vr).avail.idx &&& VIOBLK_QUEUE_MASK = (idx + 1) &&& VIOBLK_QUEUE_MASK →
        ∃ r, vioblk_notifyq fuel dev g = .ret (r, dev1, g1)) := by
  have hbody : ∃ dev1 g1,
      vioblk_notifyq_body fuel dev g vr idx = .ret (false, dev1, g1) ∧
      g1.bytes = (if rd then
          blk_in_transfer dev.file.disk (g.vring vr).desc
            (blk_hdr_at g
              ((g.vring vr).desc ((g.vring vr).avail.ring idx &&& VIOBLK_QUEUE_MASK)).addr).sector
            m (chain_at (g.vring vr).desc VIOBLK_QUEUE_MASK
              ((g.vring vr).avail.ring idx &&& VIOBLK_QUEUE_MASK) 1) 0 g.bytes
        else g.bytes) ∧
      dev1.file.disk = (if rd then dev.file.disk else
          blk_out_transfer g.bytes (g.vring vr).desc
            (blk_hdr_at g
              ((g.vring vr).desc ((g.vring vr).avail.ring idx &&& VIOBLK_QUEUE_MASK)).addr).sector
            m (chain_at (g.vring vr).desc VIOBLK_QUEUE_MASK
              ((g.vring vr).avail.ring idx &&& VIOBLK_QUEUE_MASK) 1) 0 dev.file.disk) ∧
      g1.vring = g.vring ∧ dev1.cfg = dev.cfg ∧ dev1.vq = dev.vq := by
    cases rd with
    | true =>
      exact ⟨_, _, vioblk_notifyq_body_in_oversize fuel dev g vr idx m hfuel hm
        (fun j hj => hnext j (by omega)) hro hmaph
        (by simpa using htype) (fun j a b => (hdw j a b).2 rfl) hcap hmap
        (fun j hj => by simpa using hio j hj) hoff hbig, rfl, rfl, rfl, rfl, rfl⟩
    | false =>
      exact ⟨_, _, vioblk_notifyq_body_out_oversize fuel dev g vr idx m hfuel hm
        (fun j hj => hnext j (by omega)) hro hmaph
        (by simpa using htype)
        (fun j a b => by
          have := hdw j a b
          by_contra hc
          exact absurd (this.1 hc) (by decide))
        (hxfer rfl) hcap hmap
        (fun j hj => by simpa using hio j hj) hoff hbig, rfl, rfl, rfl, rfl, rfl⟩
  obtain ⟨dev1, g1, h1, h2, h3, _, _, _⟩ := hbody
  refine ⟨false, dev1, g1, h1, h3, fun a _ => by rw [h2], ?_⟩
  intro hq hvr0 hidx hav
  have hvq : vr = (dev.vq 0).q_hva := by rw [hvr, hq]
  subst hvq
  subst hidx
  have hne : ¬ (g.vring (dev.vq 0).q_hva).avail.idx &&& VIOBLK_QUEUE_MASK
      = (dev.vq 0).last_avail &&& VIOBLK_QUEUE_MASK := by
    rw [hav]
    simp only [and_vioblk_mask]
    omega
  obtain ⟨f, rfl⟩ : ∃ f, fuel = f + 1 := ⟨fuel - 1, by
    have : VIOBLK_QUEUE_SIZE = 128 := rfl
    omega⟩
  refine ⟨1, ?_⟩
  rw [vioblk_notifyq_pending (f + 1) dev g (by rw [hq]; decide) (by rw [hq]; exact hvr0)
    (by rw [hq]; exact hne)]
  rw [hq]
  exact vioblk_notifyq_loop_abandon (f + 1) _ f dev dev1 g g1 _ (fun h => hne h.symm) h1

/-- C11 at a concrete input; the ring is recorded at guest address `0x10000`.
A read request whose first data descriptor is 512 bytes long (buffer at
`0x100000`) and whose second is one byte longer than 64 MiB (buffer at
`0x4100000`): the first 512 bytes are transferred, the byte at the start of the
second buffer keeps its old value `0xAB`, the back-end is as it was. -/
theorem vioblk_notifyq_oversize_descriptor_abandons_witness :
    ∃ r dev1 g1, vioblk_notifyq 128 (blk_dev disk_pattern) (blk_mem_two_data 512 (2 ^ 26 + 1))
        = .ret (r, dev1, g1) ∧
      g1.bytes (0x100000 + 3) = 3 ∧ g1.bytes 0x4100000 = 0xAB ∧
      dev1.file.disk = disk_pattern.disk := by
  obtain ⟨_, dev1, g1, _, hd, hb, hcall⟩ :=
    vioblk_notifyq_oversize_descriptor_abandons 128 (blk_dev disk_pattern)
      (blk_mem_two_data 512 (2 ^ 26 + 1)) 1 0 1 2 true (by decide) (by decide) (by decide)
      (by decide) (by decide) (by decide) (by decide) (by decide) (by decide) (by decide)
      (by decide) (by decide) (by decide) (by decide) (by decide) rfl (by decide)
  obtain ⟨r, hr⟩ := hcall rfl (by decide) rfl (by decide)
  refine ⟨r, dev1, g1, hr, ?_, ?_, hd⟩
  · rw [hb _ (by decide)]; decide
  · rw [hb _ (by decide)]; decide
/-! ## Block requests: types other than IN and OUT -/

/-- C13 on the code.  The driver has published one receive chain
(`avail.idx = 1`) and the device has consumed none (`last_avail = 0`).  The
receive notify stores `avail.idx - 1 = 0` in `notified_avail`, which equals
`last_avail`, so `vionet_enq_rx` of a 60-byte frame on the device in DRIVER_OK
returns 0 and touches nothing: the frame is dropped for lack of buffers while
a buffer is available. -/
theorem vionet_notify_rx_holds_back_last_chain :
    ((mem_with_ring rx_ring_one_buf).vring 1).avail.idx = 1 ∧
    ((net_dev_fresh 0).vq RXQ).last_avail = 0 ∧
    (net_dev_fresh 0).cfg.device_status &&& VIRTIO_CONFIG_DEVICE_STATUS_DRIVER_OK ≠ 0 ∧
    ∃ dev1, vionet_notify_rx (net_dev_fresh 0) (mem_with_ring rx_ring_one_buf) = some dev1 ∧
      (dev1.vq RXQ).notified_avail = 0 ∧
      vionet_enq_rx 14 16398 256 dev1 (mem_with_ring rx_ring_one_buf) frame60 60 0
        = .ret (0, 0, dev1, mem_with_ring rx_ring_one_buf) := by
  refine ⟨rfl, rfl, by decide, _, rfl, rfl, rfl⟩

/-- C14 on the code.  The only receive chain is one writable 32-byte buffer,
too small for the 12-byte header and a 60-byte frame.  `vionet_enq_rx` does not
drop the frame: it returns 1, stores the first 20 frame bytes behind the
header, advances `last_avail` and publishes the used element `{0, 32}`. -/
theorem vionet_enq_rx_delivers_truncated_frame :
    (rx_ring_small_buf.desc 0).len < 60 + sizeof_virtio_net_hdr ∧
    ∃ spc dev1 g1, vionet_enq_rx 14 16398 256 (net_dev 0) (mem_with_ring rx_ring_small_buf)
        frame60 60 0 = .ret (1, spc, dev1, g1) ∧
      (dev1.vq RXQ).last_avail = 1 ∧ dev1.cfg.isr_status = 1 ∧
      (g1.vring 1).used.idx = 1 ∧
      ((g1.vring 1).used.ring 0).id = 0 ∧ ((g1.vring 1).used.ring 0).len = 32 ∧
      g1.bytes (0x1000 + 2) = 12 ∧
      (∀ i, i < 20 → g1.bytes (0x1000 + 12 + i) = 0xAA) ∧
      g1.bytes (0x1000 + 32) = 0 := by
  refine ⟨by decide, _, _, _, rfl, ?_, ?_, ?_, ?_, ?_, ?_, ?_, ?_⟩ <;> decide

/-! ## Transmit side: chains outside the size limits -/

/-- C16 on the code.  The pending chain is a single descriptor of 17 bytes
without the NEXT flag, so its length minus the header descriptor's length is 0,
below the minimum of 14.  The size loop of `vionet_notify_tx` follows the
`next` field of the head all the same and adds the 60 bytes of `desc[1]`: the
size check passes and the 60 bytes at `0x1000` are written to the tap.  A chain
made of a 12-byte header and 5 data bytes, 17 bytes in all, is dropped as the
claim says: no tap write, one used element, `last_avail` advanced. -/
theorem vionet_notify_tx_single_descriptor_is_sent :
    (tx_ring_single.desc 0).flags &&& VRING_DESC_F_NEXT = 0 ∧
    (∃ dev1 g1 tap1, vionet_notify_tx 14 16398 dhcp_none 256 (net_dev 0)
        (mem_pattern_with_ring tx_ring_single) tap_accepting = .ret (1, dev1, g1, tap1) ∧
      tap1.sent = [(List.range 60).map (fun i => (0x1000 + i) % 256)] ∧
      (g1.vring 2).used.idx = 1) ∧
    (∃ dev1 g1 tap1, vionet_notify_tx 14 16398 dhcp_none 256 (net_dev 0)
        (mem_pattern_with_ring tx_ring_short) tap_accepting = .ret (1, dev1, g1, tap1) ∧
      tap1.sent = [] ∧ (g1.vring 2).used.idx = 1 ∧
      ((g1.vring 2).used.ring 0).id = 0 ∧ ((g1.vring 2).used.ring 0).len = 12 ∧
      (dev1.vq TXQ).last_avail = 1) := by
  refine ⟨by decide, ⟨_, _, _, rfl, ?_, ?_⟩, ⟨_, _, _, rfl, ?_, ?_, ?_, ?_, ?_⟩⟩ <;> decide

/-! ## Receive side: the MAC filter -/

/-- C15.  Let `read` deliver the frame `frame`, of at least 6 and at most
`PAGE_SIZE` bytes, at any pass of the loop of `vionet_rx`.  The frame is
accepted when `lockedmac` is 0, or the low bit of its first byte is set, or its
first six bytes are the device MAC.  An accepted frame is handed to
`vionet_enq_rx` together with its length, and the loop goes on from what
`vionet_enq_rx` returns.  A frame that is not accepted reaches no other code:
the device, guest memory (so `last_avail`, the used ring, `used.idx` and
`isr_status`), `num_enq` and `spc` go unchanged to the next pass or to the
return.  In particular, when such a frame is the first of an event,
`vionet_rx` returns 0 with device and memory unchanged and `vionet_rx_event`
leaves the interrupt lines as they were. -/
theorem vionet_rx_mac_filter (MIN_TXLEN MAX_TXLEN fuel : Nat) (dev : vionet_dev) (g : GuestMem)
    (buf frame : List Nat) (rest : List (Option (List Nat))) (num_enq spc : Nat)
    (pic : Nat → Bool)
    (hlen : 6 ≤ frame.length) (hmax : frame.length ≤ PAGE_SIZE) :
    ((dev.lockedmac = 0 ∨ frame.getD 0 0 &&& 1 ≠ 0 ∨ frame.take 6 = dev.mac) →
      vionet_rx_loop MIN_TXLEN MAX_TXLEN fuel (some frame :: rest) dev g buf num_enq spc =
        match vionet_enq_rx MIN_TXLEN MAX_TXLEN fuel dev g (frame ++ buf.drop frame.length)
            frame.length spc with
        | .fatal => .fatal
        | .diverge => .diverge
        | .ret (r, spc1, dev1, g1) =>
          if spc1 > 0 then
            vionet_rx_loop MIN_TXLEN MAX_TXLEN fuel rest dev1 g1
              (frame ++ buf.drop frame.length) (num_enq + r) spc1
          else .ret (num_enq + r, dev1, g1, rest)) ∧
    (¬ (dev.lockedmac = 0 ∨ frame.getD 0 0 &&& 1 ≠ 0 ∨ frame.take 6 = dev.mac) →
      vionet_rx_loop MIN_TXLEN MAX_TXLEN fuel (some frame :: rest) dev g buf num_enq spc =
        (if spc > 0 then
          vionet_rx_loop MIN_TXLEN MAX_TXLEN fuel rest dev g (frame ++ buf.drop frame.length)
            num_enq spc
        else .ret (num_enq, dev, g, rest)) ∧
      vionet_rx MIN_TXLEN MAX_TXLEN fuel (some frame :: rest) buf dev g = .ret (0, dev, g, rest) ∧
      vionet_rx_event MIN_TXLEN MAX_TXLEN fuel (some frame :: rest) buf dev g pic
        = .ret (dev, g, pic, rest)) := by
  have htake : frame.take PAGE_SIZE = frame := List.take_of_length_le hmax
  have hpos : frame.length > 0 := by omega
  have h6 : (frame ++ buf.drop frame.length).take 6 = frame.take 6 :=
    List.take_append_of_le_length hlen
  have hmc : ETHER_IS_MULTICAST (frame ++ buf.drop frame.length) = true
      ↔ frame.getD 0 0 &&& 1 ≠ 0 := by
    unfold ETHER_IS_MULTICAST
    rw [List.getD_append _ _ _ _ hpos]
    simp
  have hacc : (dev.lockedmac = 0 ∨ ETHER_IS_MULTICAST (frame ++ buf.drop frame.length) = true
      ∨ (frame ++ buf.drop frame.length).take 6 = dev.mac)
      ↔ (dev.lockedmac = 0 ∨ frame.getD 0 0 &&& 1 ≠ 0 ∨ frame.take 6 = dev.mac) := by
    rw [hmc, h6]
  have hloop : ∀ n s, ¬ (dev.lockedmac = 0 ∨ frame.getD 0 0 &&& 1 ≠ 0 ∨ frame.take 6 = dev.mac) →
      vionet_rx_loop MIN_TXLEN MAX_TXLEN fuel (some frame :: rest) dev g buf n s =
        (if s > 0 then
          vionet_rx_loop MIN_TXLEN MAX_TXLEN fuel rest dev g (frame ++ buf.drop frame.length) n s
        else .ret (n, dev, g, rest)) := by
    intro n s h
    rw [vionet_rx_loop]
    simp only [htake, hpos, if_true]
    rw [if_neg (fun hc => h (hacc.1 hc))]
  constructor
  · intro h
    rw [vionet_rx_loop]
    simp only [htake, hpos, if_true]
    rw [if_pos (hacc.2 h)]
  · intro h
    have h0 : vionet_rx MIN_TXLEN MAX_TXLEN fuel (some frame :: rest) buf dev g
        = .ret (0, dev, g, rest) := by
      unfold vionet_rx
      rw [hloop 0 0 h]
      rfl
    refine ⟨hloop num_enq spc h, h0, ?_⟩
    unfold vionet_rx_event
    rw [h0]
    rfl

/-- C15 at the specification's input: device MAC `02:00:00:00:00:01`,
`lockedmac = 1`, one notified receive chain.  A frame destined to
`02:00:00:00:00:02` leaves device, memory and interrupt lines unchanged; a
frame destined to the device MAC is enqueued (`used.idx` becomes 1 and
`isr_status` is set). -/
theorem vionet_rx_mac_filter_witness :
    6 ≤ frame_to_other.length ∧ frame_to_other.length ≤ PAGE_SIZE ∧
    ¬ (net_dev_locked.lockedmac = 0 ∨ frame_to_other.getD 0 0 &&& 1 ≠ 0
      ∨ frame_to_other.take 6 = net_dev_locked.mac) ∧
    vionet_rx 14 16398 256 [some frame_to_other] buf_zero net_dev_locked
      (mem_with_ring rx_ring_one_buf) = .ret (0, net_dev_locked, mem_with_ring rx_ring_one_buf, []) ∧
    vionet_rx_event 14 16398 256 [some frame_to_other] buf_zero net_dev_locked
      (mem_with_ring rx_ring_one_buf) pic_idle
      = .ret (net_dev_locked, mem_with_ring rx_ring_one_buf, pic_idle, []) ∧
    (∃ dev1 g1 rest, vionet_rx 14 16398 256 [some frame_to_self] buf_zero net_dev_locked
        (mem_with_ring rx_ring_one_buf) = .ret (1, dev1, g1, rest) ∧
      (g1.vring 1).used.idx = 1 ∧ dev1.cfg.isr_status = 1) :=
  have hw := (vionet_rx_mac_filter 14 16398 256 net_dev_locked (mem_with_ring rx_ring_one_buf)
    buf_zero frame_to_other [] 0 0 pic_idle (by decide) (by decide)).2 (by decide)
  ⟨by decide, by decide, by decide, hw.2.1, hw.2.2, by
    have ha := (vionet_rx_mac_filter 14 16398 256 net_dev_locked (mem_with_ring rx_ring_one_buf)
      buf_zero frame_to_self [] 0 0 pic_idle (by decide) (by decide)).1 (by decide)
    unfold vionet_rx
    rw [ha]
    refine ⟨_, _, _, rfl, ?_, ?_⟩ <;> decide⟩

/-! ## Registers: interrupt status -/

/-- C17.  For each of the four register handlers and every device state, a
read (`dir ≠ 0`) of `VIRTIO_CONFIG_ISR_STATUS` returns in `*data` the value
`isr_status` held, leaves the device with `isr_status = 0` and everything else
as it was, and lowers the device's interrupt line; a read of the same register
right after it returns 0. -/
theorem isr_status_read_clears (dir data data2 sz : Nat) (hdir : dir ≠ 0) :
    (∀ (rnd : Nat → List Nat) (hv : Nat → Nat → Nat) (dev : viornd_dev) (g : GuestMem)
        (pic : Nat → Bool),
      virtio_rnd_io rnd hv dir VIRTIO_CONFIG_ISR_STATUS data dev g pic
        = .ret { data := dev.cfg.isr_status, intr := 0xFF, g := g
                 dev := { dev with cfg := { dev.cfg with isr_status := 0 } }
                 pic := vcpu_deassert_pic_irq pic dev.irq } ∧
      vcpu_deassert_pic_irq pic dev.irq dev.irq = false ∧
      ∃ r2, virtio_rnd_io rnd hv dir VIRTIO_CONFIG_ISR_STATUS data2
          { dev with cfg := { dev.cfg with isr_status := 0 } } g
          (vcpu_deassert_pic_irq pic dev.irq) = .ret r2 ∧ r2.data = 0) ∧
    (∀ (hv : Nat → Nat → Nat) (fuel : Nat) (dev : vioblk_dev) (g : GuestMem) (pic : Nat → Bool),
      virtio_blk_io hv fuel dir VIRTIO_CONFIG_ISR_STATUS data sz dev g pic
        = .ret { data := dev.cfg.isr_status, intr := 0xFF, g := g
                 dev := { dev with cfg := { dev.cfg with isr_status := 0 } }
                 pic := vcpu_deassert_pic_irq pic dev.irq } ∧
      vcpu_deassert_pic_irq pic dev.irq dev.irq = false ∧
      ∃ r2, virtio_blk_io hv fuel dir VIRTIO_CONFIG_ISR_STATUS data2 sz
          { dev with cfg := { dev.cfg with isr_status := 0 } } g
          (vcpu_deassert_pic_irq pic dev.irq) = .ret r2 ∧ r2.data = 0) ∧
    (∀ (MIN_TXLEN MAX_TXLEN : Nat) (dhcp_request : List Nat → Nat → Int × List Nat)
        (hv : Nat → Nat → Nat) (fuel : Nat) (dev : vionet_dev) (g : GuestMem)
        (pic : Nat → Bool) (tap : TapDev),
      virtio_net_io MIN_TXLEN MAX_TXLEN dhcp_request hv fuel dir VIRTIO_CONFIG_ISR_STATUS data
          dev g pic tap
        = .ret { data := dev.cfg.isr_status, intr := 0xFF, g := g, tap := tap
                 dev := { dev with cfg := { dev.cfg with isr_status := 0 } }
                 pic := vcpu_deassert_pic_irq pic dev.irq } ∧
      vcpu_deassert_pic_irq pic dev.irq dev.irq = false ∧
      ∃ r2, virtio_net_io MIN_TXLEN MAX_TXLEN dhcp_request hv fuel dir
          VIRTIO_CONFIG_ISR_STATUS data2
          { dev with cfg := { dev.cfg with isr_status := 0 } } g
          (vcpu_deassert_pic_irq pic dev.irq) tap = .ret r2 ∧ r2.data = 0) ∧
    (∀ (TIMEOUT SHUTDOWN_TIMEOUT : Nat) (now : Nat × Nat) (dev : vmmci_dev) (pic : Nat → Bool),
      vmmci_io TIMEOUT SHUTDOWN_TIMEOUT now dir VIRTIO_CONFIG_ISR_STATUS data dev pic
        = (dev.cfg.isr_status, 0xFF, { dev with cfg := { dev.cfg with isr_status := 0 } },
            vcpu_deassert_pic_irq pic dev.irq) ∧
      vcpu_deassert_pic_irq pic dev.irq dev.irq = false ∧
      (vmmci_io TIMEOUT SHUTDOWN_TIMEOUT now dir VIRTIO_CONFIG_ISR_STATUS data2
          { dev with cfg := { dev.cfg with isr_status := 0 } }
          (vcpu_deassert_pic_irq pic dev.irq)).1 = 0) := by
  have hline : ∀ (pic : Nat → Bool) (irq : Nat), vcpu_deassert_pic_irq pic irq irq = false := by
    intro pic irq
    simp [vcpu_deassert_pic_irq]
  refine ⟨?_, ?_, ?_, ?_⟩
  · intro rnd hv dev g pic
    have e : ∀ (d : Nat) (dv : viornd_dev) (p : Nat → Bool),
        virtio_rnd_io rnd hv dir VIRTIO_CONFIG_ISR_STATUS d dv g p
          = .ret { data := dv.cfg.isr_status, intr := 0xFF, g := g
                   dev := { dv with cfg := { dv.cfg with isr_status := 0 } }
                   pic := vcpu_deassert_pic_irq p dv.irq } := by
      intro d dv p
      simp [virtio_rnd_io, hdir, VIRTIO_CONFIG_ISR_STATUS, VIRTIO_CONFIG_DEVICE_FEATURES,
        VIRTIO_CONFIG_GUEST_FEATURES, VIRTIO_CONFIG_QUEUE_PFN, VIRTIO_CONFIG_QUEUE_SIZE,
        VIRTIO_CONFIG_QUEUE_SELECT, VIRTIO_CONFIG_QUEUE_NOTIFY, VIRTIO_CONFIG_DEVICE_STATUS]
    exact ⟨e _ _ _, hline _ _, _, e _ _ _, rfl⟩
  · intro hv fuel dev g pic
    have e : ∀ (d : Nat) (dv : vioblk_dev) (p : Nat → Bool),
        virtio_blk_io hv fuel dir VIRTIO_CONFIG_ISR_STATUS d sz dv g p
          = .ret { data := dv.cfg.isr_status, intr := 0xFF, g := g
                   dev := { dv with cfg := { dv.cfg with isr_status := 0 } }
                   pic := vcpu_deassert_pic_irq p dv.irq } := by
      intro d dv p
      simp [virtio_blk_io, virtio_blk_io_read, hdir, VIRTIO_CONFIG_ISR_STATUS,
        VIRTIO_CONFIG_DEVICE_FEATURES, VIRTIO_CONFIG_GUEST_FEATURES, VIRTIO_CONFIG_QUEUE_PFN,
        VIRTIO_CONFIG_QUEUE_SIZE, VIRTIO_CONFIG_QUEUE_SELECT, VIRTIO_CONFIG_QUEUE_NOTIFY,
        VIRTIO_CONFIG_DEVICE_STATUS, VIRTIO_CONFIG_DEVICE_CONFIG_NOMSI]
    exact ⟨e _ _ _, hline _ _, _, e _ _ _, rfl⟩
  · intro MIN_TXLEN MAX_TXLEN dhcp_request hv fuel dev g pic tap
    have e : ∀ (d : Nat) (dv : vionet_dev) (p : Nat → Bool),
        virtio_net_io MIN_TXLEN MAX_TXLEN dhcp_request hv fuel dir VIRTIO_CONFIG_ISR_STATUS d
            dv g p tap
          = .ret { data := dv.cfg.isr_status, intr := 0xFF, g := g, tap := tap
                   dev := { dv with cfg := { dv.cfg with isr_status := 0 } }
                   pic := vcpu_deassert_pic_irq p dv.irq } := by
      intro d dv p
      simp [virtio_net_io, hdir, VIRTIO_CONFIG_ISR_STATUS,
        VIRTIO_CONFIG_DEVICE_FEATURES, VIRTIO_CONFIG_GUEST_FEATURES, VIRTIO_CONFIG_QUEUE_PFN,
        VIRTIO_CONFIG_QUEUE_SIZE, VIRTIO_CONFIG_QUEUE_SELECT, VIRTIO_CONFIG_QUEUE_NOTIFY,
        VIRTIO_CONFIG_DEVICE_STATUS, VIRTIO_CONFIG_DEVICE_CONFIG_NOMSI]
    exact ⟨e _ _ _, hline _ _, _, e _ _ _, rfl⟩
  · intro TIMEOUT SHUTDOWN_TIMEOUT now dev pic
    have e : ∀ (d : Nat) (dv : vmmci_dev) (p : Nat → Bool),
        vmmci_io TIMEOUT SHUTDOWN_TIMEOUT now dir VIRTIO_CONFIG_ISR_STATUS d dv p
          = (dv.cfg.isr_status, 0xFF, { dv with cfg := { dv.cfg with isr_status := 0 } },
              vcpu_deassert_pic_irq p dv.irq) := by
      intro d dv p
      simp [vmmci_io, hdir, VIRTIO_CONFIG_ISR_STATUS,
        VIRTIO_CONFIG_DEVICE_FEATURES, VIRTIO_CONFIG_GUEST_FEATURES, VIRTIO_CONFIG_QUEUE_PFN,
        VIRTIO_CONFIG_QUEUE_SIZE, VIRTIO_CONFIG_QUEUE_SELECT, VIRTIO_CONFIG_QUEUE_NOTIFY,
        VIRTIO_CONFIG_DEVICE_STATUS, VIRTIO_CONFIG_DEVICE_CONFIG_NOMSI]
    refine ⟨e _ _ _, hline _ _, ?_⟩
    rw [e]

/-- C17 at a concrete input: a block device with `isr_status = 1` whose
interrupt line 5 is asserted.  The read returns 1, the line is lowered, and the
next read returns 0. -/
theorem isr_status_read_clears_witness :
    (1 : Nat) ≠ 0 ∧
    ∃ r, virtio_blk_io hvaddr_flat 128 1 VIRTIO_CONFIG_ISR_STATUS 0 1 blk_dev_isr
        (mem_with_ring blk_ring_flush) pic_line5 = .ret r ∧
      r.data = 1 ∧ r.dev.cfg.isr_status = 0 ∧ pic_line5 5 = true ∧ r.pic 5 = false ∧
      ∃ r2, virtio_blk_io hvaddr_flat 128 1 VIRTIO_CONFIG_ISR_STATUS 0 1 r.dev r.g r.pic
        = .ret r2 ∧ r2.data = 0 :=
  ⟨by decide, _,
    ((isr_status_read_clears 1 0 0 1 (by decide)).2.1 hvaddr_flat 128 blk_dev_isr
      (mem_with_ring blk_ring_flush) pic_line5).1,
    rfl, rfl, rfl, rfl, _, rfl, rfl⟩

/-! ## Registers: interrupt request and interrupt status -/

/-- C18 on the code.  A block device with `isr_status = 0` and one pending read
request whose data descriptor is read-only.  The write of 0 to
`VIRTIO_CONFIG_QUEUE_NOTIFY` leaves the request through `goto out`, which
returns 1: the handler requests an interrupt (`*intr = 1`) while `isr_status`
is still 0 and no used element has been published.  The entropy device pairs
the two on its scenario: `*intr = 1` and `isr_status = 1`. -/
theorem virtio_blk_io_interrupt_without_isr :
    (blk_dev disk_pattern).cfg.isr_status = 0 ∧
    (∃ r, virtio_blk_io hvaddr_flat 128 0 VIRTIO_CONFIG_QUEUE_NOTIFY 0 2 (blk_dev disk_pattern)
        (blk_mem_request VIRTIO_BLK_T_IN 512 1) pic_idle = .ret r ∧
      r.intr = 1 ∧ r.dev.cfg.isr_status = 0 ∧ (r.g.vring 1).used.idx = 0) ∧
    (∃ r, virtio_rnd_io rnd_sevens hvaddr_flat 0 VIRTIO_CONFIG_QUEUE_NOTIFY 0 rng_dev
        rng_mem_scenario pic_idle = .ret r ∧
      r.intr = 1 ∧ r.dev.cfg.isr_status = 1 ∧ (r.g.vring 1).used.idx = 1) := by
  refine ⟨rfl, ⟨_, rfl, ?_, ?_, ?_⟩, ⟨_, rfl, ?_, ?_, ?_⟩⟩ <;> decide

/-! ## Registers: reset -/

/-- C19.  Let guest address 0 resolve to a host pointer for the ring sizes of
the two devices.  For every block device in a state reachable from
`virtio_init`, and for every network device in any state, the write of 0 to
`VIRTIO_CONFIG_DEVICE_STATUS` returns and leaves `last_avail` and
`notified_avail` of every queue of the device at 0 (for the block device every
entry of `vq`, for the network device the receive and the transmit queue),
`guest_feature`, `queue_select`, `queue_notify` and `isr_status` at 0, and the
device's interrupt line lowered. -/
theorem device_status_zero_resets (hv : Nat → Nat → Nat)
    (hblk : hv 0 (vring_size VIOBLK_QUEUE_SIZE) ≠ 0)
    (hnet : hv 0 (vring_size VIONET_QUEUE_SIZE) ≠ 0) :
    (∀ (fuel sz : Nat) (dev : vioblk_dev) (g : GuestMem) (pic : Nat → Bool),
      vioblk_reachable hv dev →
      ∃ r, virtio_blk_io hv fuel 0 VIRTIO_CONFIG_DEVICE_STATUS 0 sz dev g pic = .ret r ∧
        (∀ i, (r.dev.vq i).last_avail = 0 ∧ (r.dev.vq i).notified_avail = 0) ∧
        r.dev.cfg.guest_feature = 0 ∧ r.dev.cfg.queue_select = 0 ∧
        r.dev.cfg.queue_notify = 0 ∧ r.dev.cfg.isr_status = 0 ∧
        r.pic = vcpu_deassert_pic_irq pic dev.irq ∧ r.pic dev.irq = false) ∧
    (∀ (MIN_TXLEN MAX_TXLEN : Nat) (dhcp_request : List Nat → Nat → Int × List Nat)
        (fuel : Nat) (dev : vionet_dev) (g : GuestMem) (pic : Nat → Bool) (tap : TapDev),
      ∃ r, virtio_net_io MIN_TXLEN MAX_TXLEN dhcp_request hv fuel 0
          VIRTIO_CONFIG_DEVICE_STATUS 0 dev g pic tap = .ret r ∧
        (r.dev.vq RXQ).last_avail = 0 ∧ (r.dev.vq RXQ).notified_avail = 0 ∧
        (r.dev.vq TXQ).last_avail = 0 ∧ (r.dev.vq TXQ).notified_avail = 0 ∧
        r.dev.cfg.guest_feature = 0 ∧ r.dev.cfg.queue_select = 0 ∧
        r.dev.cfg.queue_notify = 0 ∧ r.dev.cfg.isr_status = 0 ∧
        r.pic = vcpu_deassert_pic_irq pic dev.irq ∧ r.pic dev.irq = false) := by
  have hline : ∀ (pic : Nat → Bool) (irq : Nat), vcpu_deassert_pic_irq pic irq irq = false := by
    intro pic irq
    simp [vcpu_deassert_pic_irq]
  constructor
  · intro fuel sz dev g pic hreach
    obtain ⟨hn0, hl0⟩ := vioblk_reachable_vq hv dev hreach
    obtain ⟨d5, hrs⟩ := vioblk_reset_some hv
      { dev with cfg := { dev.cfg with device_status := 0 } } hblk
    obtain ⟨h1, h2, h3, h4, h5, _, hn, hl, _⟩ := vioblk_reset_vq hv _ _ hrs
    rw [virtio_blk_io_status_zero, hrs]
    refine ⟨_, rfl, fun i => ⟨?_, ?_⟩, h1, h2, h3, h4, rfl, hline _ _⟩
    · by_cases hi : i = 0
      · rw [hi]; exact h5
      · exact (hl i hi).trans (hl0 i hi)
    · exact (hn i).trans (hn0 i)
  · intro MIN_TXLEN MAX_TXLEN dhcp_request fuel dev g pic tap
    obtain ⟨d5, hrs⟩ := vionet_reset_some hv
      { dev with cfg := { dev.cfg with device_status := 0 } } hnet
    obtain ⟨h1, h2, h3, h4, _, h5, h6, h7, h8, _⟩ := vionet_reset_vq hv _ _ hrs
    rw [virtio_net_io_status_zero, hrs]
    exact ⟨_, rfl, h5, h6, h7, h8, h1, h2, h3, h4, rfl, hline _ _⟩

/-- C19 at concrete inputs: the block device as `virtio_init` leaves it, after
the driver has set the ring address, and a network device with pending
bookkeeping (`notified_avail = 1`), both with their interrupt line 5
asserted. -/
theorem device_status_zero_resets_witness :
    hvaddr_flat 0 (vring_size VIOBLK_QUEUE_SIZE) ≠ 0 ∧
    hvaddr_flat 0 (vring_size VIONET_QUEUE_SIZE) ≠ 0 ∧
    (∃ r0, virtio_blk_io hvaddr_flat 128 0 VIRTIO_CONFIG_QUEUE_PFN 16 4
        (vioblk_init disk_pattern 1048576 5 0) (mem_with_ring blk_ring_flush) pic_idle = .ret r0 ∧
      (r0.dev.vq 0).q_gpa = 65536 ∧
      ∃ r, virtio_blk_io hvaddr_flat 128 0 VIRTIO_CONFIG_DEVICE_STATUS 0 4 r0.dev
          (mem_with_ring blk_ring_flush) pic_line5 = .ret r ∧
        (r.dev.vq 0).last_avail = 0 ∧ (r.dev.vq 0).notified_avail = 0 ∧
        r.dev.cfg.isr_status = 0 ∧ pic_line5 5 = true ∧ r.pic 5 = false) ∧
    ((net_dev 0).vq RXQ).notified_avail = 1 ∧
    (∃ r, virtio_net_io 14 16398 dhcp_none hvaddr_flat 256 0 VIRTIO_CONFIG_DEVICE_STATUS 0
        { net_dev 0 with irq := 5 } (mem_with_ring rx_ring_one_buf) pic_line5 tap_accepting
          = .ret r ∧
      (r.dev.vq RXQ).notified_avail = 0 ∧ (r.dev.vq TXQ).last_avail = 0 ∧ r.pic 5 = false) := by
  have hw := device_status_zero_resets hvaddr_flat (by decide) (by decide)
  refine ⟨by decide, by decide, ⟨_, rfl, rfl, ?_⟩, rfl, ?_⟩
  · obtain ⟨r, hr, hq, _, _, _, hisr, _, hp⟩ := hw.1 128 4 _ (mem_with_ring blk_ring_flush)
      pic_line5 (vioblk_reachable.io 128 0 VIRTIO_CONFIG_QUEUE_PFN 16 4
        (vioblk_init disk_pattern 1048576 5 0) (mem_with_ring blk_ring_flush) pic_idle _
        (vioblk_reachable.init disk_pattern 1048576 5 0) (by decide) rfl)
    exact ⟨r, hr, (hq 0).1, (hq 0).2, hisr, rfl, hp⟩
  · obtain ⟨r, hr, _, h2, h3, _, _, _, _, _, _, hp⟩ := hw.2 14 16398 dhcp_none 256
      { net_dev 0 with irq := 5 } (mem_with_ring rx_ring_one_buf) pic_line5 tap_accepting
    exact ⟨r, hr, h2, h3, hp⟩

/-- C20, the code at the failing inputs.  (1) After the write of 0 to
`VIRTIO_CONFIG_DEVICE_STATUS` of the entropy device its queue is still recorded
at `0x10000`, `isr_status` is still 1, and selecting queue 0 and reading
`VIRTIO_CONFIG_QUEUE_PFN` returns `0x10`.  (2) A network device reset
while `queue_select` is 0 keeps the ring address of the transmit queue:
selecting queue 1 and reading the register returns `0x10`.  (3) A block device
reset while `queue_select` holds 1 keeps the ring address of its queue. -/
theorem device_status_zero_keeps_ring_address :
    (∃ r r2 r3, virtio_rnd_io rnd_sevens hvaddr_flat 0 VIRTIO_CONFIG_DEVICE_STATUS 0
        rng_dev_isr rng_mem_scenario pic_idle = .ret r ∧
      (r.dev.vq 0).q_gpa = 0x10000 ∧ r.dev.cfg.isr_status = 1 ∧
      virtio_rnd_io rnd_sevens hvaddr_flat 0 VIRTIO_CONFIG_QUEUE_SELECT 0 r.dev r.g r.pic
        = .ret r2 ∧
      virtio_rnd_io rnd_sevens hvaddr_flat 1 VIRTIO_CONFIG_QUEUE_PFN 0 r2.dev r2.g r2.pic
        = .ret r3 ∧ r3.data = 0x10) ∧
    (∃ r r2 r3, virtio_net_io 14 16398 dhcp_none hvaddr_flat 256 0 VIRTIO_CONFIG_DEVICE_STATUS 0
        (net_dev_fresh 0) (mem_with_ring rx_ring_one_buf) pic_idle tap_accepting = .ret r ∧
      (net_dev_fresh 0).cfg.queue_select = 0 ∧
      (r.dev.vq RXQ).q_gpa = 0 ∧ (r.dev.vq TXQ).q_gpa = 0x10000 ∧
      virtio_net_io 14 16398 dhcp_none hvaddr_flat 256 0 VIRTIO_CONFIG_QUEUE_SELECT 1
        r.dev r.g r.pic r.tap = .ret r2 ∧
      virtio_net_io 14 16398 dhcp_none hvaddr_flat 256 1 VIRTIO_CONFIG_QUEUE_PFN 0
        r2.dev r2.g r2.pic r2.tap = .ret r3 ∧ r3.data = 0x10) ∧
    (∃ r r2 r3, virtio_blk_io hvaddr_flat 128 0 VIRTIO_CONFIG_DEVICE_STATUS 0 4
        blk_dev_select1 (mem_with_ring blk_ring_flush) pic_idle = .ret r ∧
      (r.dev.vq 0).q_gpa = 0x10000 ∧
      virtio_blk_io hvaddr_flat 128 0 VIRTIO_CONFIG_QUEUE_SELECT 0 4 r.dev r.g r.pic
        = .ret r2 ∧
      virtio_blk_io hvaddr_flat 128 1 VIRTIO_CONFIG_QUEUE_PFN 0 4 r2.dev r2.g r2.pic
        = .ret r3 ∧ r3.data = 0x10) := by
  refine ⟨⟨_, _, _, rfl, ?_, ?_, rfl, rfl, ?_⟩, ⟨_, _, _, rfl, ?_, ?_, ?_, rfl, rfl, ?_⟩,
    ⟨_, _, _, rfl, ?_, rfl, rfl, ?_⟩⟩ <;> decide

/-! ## C21: queue address = page number times page size -/

/-- C21: for every 32-bit value `p` and every queue `q` of an entropy, block or
network device that `queue_select` names (0 for rng and blk, 0 or 1 for net),
the write of `p` to `VIRTIO_CONFIG_QUEUE_PFN` records the ring address
`q_gpa = p * VIRTIO_PAGE_SIZE` for `q`, a product below `2 ^ 64` and so not
truncated; the write of `q` to `VIRTIO_CONFIG_QUEUE_SELECT` followed by a read
of `VIRTIO_CONFIG_QUEUE_PFN` then returns `p`.  The guest address
`p * VIRTIO_PAGE_SIZE` is taken to resolve to a host pointer for the ring size
of the device (otherwise the write ends in `fatal`). -/
theorem queue_pfn_round_trip (hv : Nat → Nat → Nat) (p q : Nat) (hp : p < 2 ^ 32) :
    p * VIRTIO_PAGE_SIZE < 2 ^ 64 ∧
    (∀ (rnd : Nat → List Nat) (data0 : Nat) (dev : viornd_dev) (g : GuestMem)
        (pic : Nat → Bool),
      q = 0 → dev.cfg.queue_select = q →
      hv (p * VIRTIO_PAGE_SIZE) (vring_size VIORND_QUEUE_SIZE) ≠ 0 →
      ∃ r1 r2 r3,
        virtio_rnd_io rnd hv 0 VIRTIO_CONFIG_QUEUE_PFN p dev g pic = .ret r1 ∧
        (r1.dev.vq q).q_gpa = p * VIRTIO_PAGE_SIZE ∧
        virtio_rnd_io rnd hv 0 VIRTIO_CONFIG_QUEUE_SELECT q r1.dev r1.g r1.pic = .ret r2 ∧
        virtio_rnd_io rnd hv 1 VIRTIO_CONFIG_QUEUE_PFN data0 r2.dev r2.g r2.pic = .ret r3 ∧
        r3.data = p) ∧
    (∀ (fuel data0 sz : Nat) (dev : vioblk_dev) (g : GuestMem) (pic : Nat → Bool),
      q = 0 → dev.cfg.queue_select = q →
      hv (p * VIRTIO_PAGE_SIZE) (vring_size VIOBLK_QUEUE_SIZE) ≠ 0 →
      ∃ r1 r2 r3,
        virtio_blk_io hv fuel 0 VIRTIO_CONFIG_QUEUE_PFN p sz dev g pic = .ret r1 ∧
        (r1.dev.vq q).q_gpa = p * VIRTIO_PAGE_SIZE ∧
        virtio_blk_io hv fuel 0 VIRTIO_CONFIG_QUEUE_SELECT q sz r1.dev r1.g r1.pic = .ret r2 ∧
        virtio_blk_io hv fuel 1 VIRTIO_CONFIG_QUEUE_PFN data0 sz r2.dev r2.g r2.pic = .ret r3 ∧
        r3.data = p) ∧
    (∀ (MIN_TXLEN MAX_TXLEN : Nat) (dhcp_request : List Nat → Nat → Int × List Nat)
        (fuel data0 : Nat) (dev : vionet_dev) (g : GuestMem) (pic : Nat → Bool) (tap : TapDev),
      q ≤ 1 → dev.cfg.queue_select = q →
      hv (p * VIRTIO_PAGE_SIZE) (vring_size VIONET_QUEUE_SIZE) ≠ 0 →
      ∃ r1 r2 r3,
        virtio_net_io MIN_TXLEN MAX_TXLEN dhcp_request hv fuel 0 VIRTIO_CONFIG_QUEUE_PFN p
          dev g pic tap = .ret r1 ∧
        (r1.dev.vq q).q_gpa = p * VIRTIO_PAGE_SIZE ∧
        virtio_net_io MIN_TXLEN MAX_TXLEN dhcp_request hv fuel 0 VIRTIO_CONFIG_QUEUE_SELECT q
          r1.dev r1.g r1.pic r1.tap = .ret r2 ∧
        virtio_net_io MIN_TXLEN MAX_TXLEN dhcp_request hv fuel 1 VIRTIO_CONFIG_QUEUE_PFN data0
          r2.dev r2.g r2.pic r2.tap = .ret r3 ∧
        r3.data = p) := by
  refine ⟨(pfn_of_gpa p hp).2, ?_, ?_, ?_⟩
  · intro rnd data0 dev g pic hq0 hq hhv
    subst hq0
    exact virtio_rnd_io_pfn_round_trip rnd hv p data0 dev g pic hp hq hhv
  · intro fuel data0 sz dev g pic hq0 hq hhv
    subst hq0
    exact virtio_blk_io_pfn_round_trip hv fuel p data0 sz dev g pic hp hq hhv
  · intro MIN_TXLEN MAX_TXLEN dhcp_request fuel data0 dev g pic tap hq1 hq hhv
    subst hq
    exact virtio_net_io_pfn_round_trip MIN_TXLEN MAX_TXLEN dhcp_request hv fuel p data0 dev g
      pic tap hp hq1 hhv

/-- C21 at concrete inputs: the page number `0xABCDE123` written to the queue
of the entropy device, of a block device and to the receive queue of a network
device, whose rings were recorded at `0x10000` before. -/
theorem queue_pfn_round_trip_witness :
    0xABCDE123 < 2 ^ 32 ∧
    (∃ r1 r2 r3,
      virtio_rnd_io rnd_sevens hvaddr_flat 0 VIRTIO_CONFIG_QUEUE_PFN 0xABCDE123 rng_dev
        rng_mem_scenario pic_idle = .ret r1 ∧
      (r1.dev.vq 0).q_gpa = 0xABCDE123 * VIRTIO_PAGE_SIZE ∧
      virtio_rnd_io rnd_sevens hvaddr_flat 0 VIRTIO_CONFIG_QUEUE_SELECT 0 r1.dev r1.g r1.pic
        = .ret r2 ∧
      virtio_rnd_io rnd_sevens hvaddr_flat 1 VIRTIO_CONFIG_QUEUE_PFN 7 r2.dev r2.g r2.pic
        = .ret r3 ∧ r3.data = 0xABCDE123) ∧
    (∃ r1 r2 r3,
      virtio_blk_io hvaddr_flat 128 0 VIRTIO_CONFIG_QUEUE_PFN 0xABCDE123 4
        (blk_dev disk_pattern) (mem_with_ring blk_ring_flush) pic_idle = .ret r1 ∧
      (r1.dev.vq 0).q_gpa = 0xABCDE123 * VIRTIO_PAGE_SIZE ∧
      virtio_blk_io hvaddr_flat 128 0 VIRTIO_CONFIG_QUEUE_SELECT 0 4 r1.dev r1.g r1.pic
        = .ret r2 ∧
      virtio_blk_io hvaddr_flat 128 1 VIRTIO_CONFIG_QUEUE_PFN 7 4 r2.dev r2.g r2.pic
        = .ret r3 ∧ r3.data = 0xABCDE123) ∧
    (∃ r1 r2 r3,
      virtio_net_io 14 16398 dhcp_none hvaddr_flat 256 0 VIRTIO_CONFIG_QUEUE_PFN 0xABCDE123
        (net_dev_fresh 0) (mem_with_ring rx_ring_one_buf) pic_idle tap_accepting = .ret r1 ∧
      (r1.dev.vq 0).q_gpa = 0xABCDE123 * VIRTIO_PAGE_SIZE ∧
      virtio_net_io 14 16398 dhcp_none hvaddr_flat 256 0 VIRTIO_CONFIG_QUEUE_SELECT 0
        r1.dev r1.g r1.pic r1.tap = .ret r2 ∧
      virtio_net_io 14 16398 dhcp_none hvaddr_flat 256 1 VIRTIO_CONFIG_QUEUE_PFN 7
        r2.dev r2.g r2.pic r2.tap = .ret r3 ∧ r3.data = 0xABCDE123) := by
  have hw := queue_pfn_round_trip hvaddr_flat 0xABCDE123 0 (by decide)
  exact ⟨by decide,
    hw.2.1 rnd_sevens 7 rng_dev rng_mem_scenario pic_idle rfl rfl (by decide),
    hw.2.2.1 128 7 4 (blk_dev disk_pattern) (mem_with_ring blk_ring_flush) pic_idle rfl rfl
      (by decide),
    hw.2.2.2 14 16398 dhcp_none 256 7 (net_dev_fresh 0) (mem_with_ring rx_ring_one_buf)
      pic_idle tap_accepting (by decide) rfl (by decide)⟩

/-! ## C22: the queue size register -/

/-- C22, the code at the failing inputs.  (1) Right after `virtio_init` the
register `queue_select` of an entropy, a block and a network device is 0, which
names a queue of 64, 128 and 256 entries, and a read of
`VIRTIO_CONFIG_QUEUE_SIZE` returns 0.  (2) A block device whose `queue_select`
holds 1 is reset by the write of 0 to `VIRTIO_CONFIG_DEVICE_STATUS`: afterwards
`queue_select` is 0 and the read returns 0.  (3) After a write of 0 to
`VIRTIO_CONFIG_QUEUE_SELECT` the read returns the size of the queue. -/
theorem queue_size_read_is_zero_after_init :
    ((viornd_init 5 1).cfg.queue_select = 0 ∧ ((viornd_init 5 1).vq 0).qs = 64 ∧
      ∃ r, virtio_rnd_io rnd_sevens hvaddr_flat 1 VIRTIO_CONFIG_QUEUE_SIZE 0 (viornd_init 5 1)
        rng_mem_scenario pic_idle = .ret r ∧ r.data = 0) ∧
    ((vioblk_init disk_pattern 1048576 5 1).cfg.queue_select = 0 ∧
      ((vioblk_init disk_pattern 1048576 5 1).vq 0).qs = 128 ∧
      ∃ r, virtio_blk_io hvaddr_flat 128 1 VIRTIO_CONFIG_QUEUE_SIZE 0 4
        (vioblk_init disk_pattern 1048576 5 1) (mem_with_ring blk_ring_flush) pic_idle = .ret r ∧
        r.data = 0) ∧
    ((vionet_init 3 [2, 0, 0, 0, 0, 1] 0 0 5 1).cfg.queue_select = 0 ∧
      ((vionet_init 3 [2, 0, 0, 0, 0, 1] 0 0 5 1).vq 0).qs = 256 ∧
      ∃ r, virtio_net_io 14 16398 dhcp_none hvaddr_flat 256 1 VIRTIO_CONFIG_QUEUE_SIZE 0
        (vionet_init 3 [2, 0, 0, 0, 0, 1] 0 0 5 1) (mem_with_ring rx_ring_one_buf) pic_idle
        tap_accepting = .ret r ∧ r.data = 0) ∧
    (∃ r r2, virtio_blk_io hvaddr_flat 128 0 VIRTIO_CONFIG_DEVICE_STATUS 0 4 blk_dev_select1
        (mem_with_ring blk_ring_flush) pic_idle = .ret r ∧
      r.dev.cfg.queue_select = 0 ∧ (r.dev.vq 0).qs = 128 ∧
      virtio_blk_io hvaddr_flat 128 1 VIRTIO_CONFIG_QUEUE_SIZE 0 4 r.dev r.g r.pic = .ret r2 ∧
      r2.data = 0) ∧
    (∃ r r2, virtio_rnd_io rnd_sevens hvaddr_flat 0 VIRTIO_CONFIG_QUEUE_SELECT 0
        (viornd_init 5 1) rng_mem_scenario pic_idle = .ret r ∧
      virtio_rnd_io rnd_sevens hvaddr_flat 1 VIRTIO_CONFIG_QUEUE_SIZE 0 r.dev r.g r.pic
        = .ret r2 ∧ r2.data = 64) := by
  refine ⟨⟨rfl, rfl, _, rfl, rfl⟩, ⟨rfl, rfl, _, rfl, rfl⟩, ⟨rfl, rfl, _, rfl, rfl⟩,
    ⟨_, _, rfl, ?_, ?_, rfl, ?_⟩, ⟨_, _, rfl, rfl, ?_⟩⟩ <;> decide

/-! ## C23: reads of one and two bytes -/

/-- C23, the code at the failing inputs.  The caller's data word holds
`0xAABBCCDD` and `device_status` holds `0x0F`.  The source of `virtio_rnd_io`,
`virtio_net_io` and `vmmci_io` never uses the parameter `sz` (the models have
none): a read of `VIRTIO_CONFIG_DEVICE_STATUS` of any width leaves `0x0F` in
the data word, the upper bytes are gone; so does the read of the first address
byte of a network device (`0x02`).  In `virtio_blk_io` the one-byte read of
`VIRTIO_CONFIG_QUEUE_PFN` (which holds `0x10`) leaves `0x10`, while the
one-byte read of `VIRTIO_CONFIG_DEVICE_STATUS` in the same handler leaves
`0xAABBCC0F`. -/
theorem register_read_overwrites_upper_bytes :
    (∃ r, virtio_rnd_io rnd_sevens hvaddr_flat 1 VIRTIO_CONFIG_DEVICE_STATUS 0xAABBCCDD
        { rng_dev with cfg := { zero_cfg with device_status := 0x0F } } rng_mem_scenario
        pic_idle = .ret r ∧ r.data = 0x0F) ∧
    (∃ r, virtio_net_io 14 16398 dhcp_none hvaddr_flat 256 1 VIRTIO_CONFIG_DEVICE_STATUS
        0xAABBCCDD { net_dev_fresh 0 with cfg := { zero_cfg with device_status := 0x0F } }
        (mem_with_ring rx_ring_one_buf) pic_idle tap_accepting = .ret r ∧ r.data = 0x0F) ∧
    (∃ r, virtio_net_io 14 16398 dhcp_none hvaddr_flat 256 1 VIRTIO_CONFIG_DEVICE_CONFIG_NOMSI
        0xAABBCCDD (net_dev_fresh 0) (mem_with_ring rx_ring_one_buf) pic_idle tap_accepting
        = .ret r ∧ r.data = 0x02) ∧
    (vmmci_io 3 120 (0, 0) 1 VIRTIO_CONFIG_DEVICE_STATUS 0xAABBCCDD
        { cfg := { zero_cfg with device_status := 0x0F }, cmd := 0, vm_id := 0, irq := 0,
          timeout := none, time := (0, 0) } pic_idle).1 = 0x0F ∧
    (∃ r, virtio_blk_io hvaddr_flat 128 1 VIRTIO_CONFIG_QUEUE_PFN 0xAABBCCDD 1
        { blk_dev disk_pattern with
          cfg := { zero_cfg with queue_pfn := 0x10, device_status := 0x0F } }
        (mem_with_ring blk_ring_flush) pic_idle = .ret r ∧ r.data = 0x10) ∧
    (∃ r, virtio_blk_io hvaddr_flat 128 1 VIRTIO_CONFIG_DEVICE_STATUS 0xAABBCCDD 1
        { blk_dev disk_pattern with
          cfg := { zero_cfg with queue_pfn := 0x10, device_status := 0x0F } }
        (mem_with_ring blk_ring_flush) pic_idle = .ret r ∧ r.data = 0xAABBCC0F) := by
  refine ⟨⟨_, rfl, ?_⟩, ⟨_, rfl, ?_⟩, ⟨_, rfl, ?_⟩, ?_, ⟨_, rfl, ?_⟩, ⟨_, rfl, ?_⟩⟩ <;> decide

/-! ## C24: the capacity and `max_xfer` in the config area of a block device -/

/-- Masking a 32-bit word with the upper `32 - k` bits set clears its low `k`
bits. -/
theorem and_high_mask (data k : Nat) (hk : k ≤ 32) (hd : data < 2 ^ 32) :
    data &&& (2 ^ k * (2 ^ (32 - k) - 1)) = 2 ^ k * (data / 2 ^ k) := by
  apply Nat.eq_of_testBit_eq
  intro i
  rw [Nat.testBit_and, Nat.testBit_mul_pow_two, Nat.testBit_two_pow_sub_one,
    Nat.testBit_mul_pow_two, ← Nat.shiftRight_eq_div_pow, Nat.testBit_shiftRight]
  by_cases h : k ≤ i
  · have e : k + (i - k) = i := by omega
    rw [e]
    by_cases h2 : i - k < 32 - k
    · simp [h, h2]
    · have hi : data.testBit i = false :=
        Nat.testBit_lt_two_pow (lt_of_lt_of_le hd (Nat.pow_le_pow_right (by norm_num) (by omega)))
      simp [hi]
  · simp [h]

/-- The statements of a one-byte read keep the upper three bytes of the data
word and put the low byte of `v` below them. -/
theorem store_low8_eq (data v : Nat) (hd : data < 2 ^ 32) :
    store_low8 data v = 2 ^ 8 * (data / 2 ^ 8) + v % 2 ^ 8 := by
  have e1 : (0xFFFFFF00 : Nat) = 2 ^ 8 * (2 ^ (32 - 8) - 1) := by norm_num
  have e2 : (0xFF : Nat) = 2 ^ 8 - 1 := by norm_num
  unfold store_low8
  rw [e1, e2, and_high_mask data 8 (by norm_num) hd, Nat.and_pow_two_sub_one_eq_mod,
    ← Nat.mul_add_lt_is_or (Nat.mod_lt _ (by norm_num)) _]
  omega

/-- The statements of a two-byte read keep the upper half of the data word and
put the low half of `v` below it. -/
theorem store_low16_eq (data v : Nat) (hd : data < 2 ^ 32) :
    store_low16 data v = 2 ^ 16 * (data / 2 ^ 16) + v % 2 ^ 16 := by
  have e1 : (0xFFFF0000 : Nat) = 2 ^ 16 * (2 ^ (32 - 16) - 1) := by norm_num
  have e2 : (0xFFFF : Nat) = 2 ^ 16 - 1 := by norm_num
  unfold store_low16
  rw [e1, e2, and_high_mask data 16 (by norm_num) hd, Nat.and_pow_two_sub_one_eq_mod,
    ← Nat.mul_add_lt_is_or (Nat.mod_lt _ (by norm_num)) _]
  omega

/-- A register read of a block device returns, with `virtio_blk_io_read` in the
data word. -/
theorem virtio_blk_io_read_ret (hv : Nat → Nat → Nat) (fuel reg data sz : Nat) (dev : vioblk_dev)
    (g : GuestMem) (pic : Nat → Bool) :
    ∃ r, virtio_blk_io hv fuel 1 reg data sz dev g pic = .ret r ∧
      r.data = virtio_blk_io_read reg data sz dev := by
  unfold virtio_blk_io
  dsimp only
  rw [if_neg (by decide)]
  split
  · exact ⟨_, rfl, rfl⟩
  · exact ⟨_, rfl, rfl⟩

/-- The one-byte reads of the capacity. -/
theorem virtio_blk_io_read_byte (data : Nat) (dev : vioblk_dev) (hd : data < 2 ^ 32)
    (k : Nat) (hk : k < 8) :
    virtio_blk_io_read (VIRTIO_CONFIG_DEVICE_CONFIG_NOMSI + k) data 1 dev
      = 2 ^ 8 * (data / 2 ^ 8) + dev.sz / 2 ^ (8 * k) % 2 ^ 8 := by
  interval_cases k
  · exact (store_low8_eq data dev.sz hd).trans (by norm_num)
  · exact store_low8_eq data (dev.sz / 2 ^ 8) hd
  · exact store_low8_eq data (dev.sz / 2 ^ 16) hd
  · exact store_low8_eq data (dev.sz / 2 ^ 24) hd
  · exact store_low8_eq data (dev.sz / 2 ^ 32) hd
  · exact store_low8_eq data (dev.sz / 2 ^ 40) hd
  · exact store_low8_eq data (dev.sz / 2 ^ 48) hd
  · exact store_low8_eq data (dev.sz / 2 ^ 56) hd

/-- The two-byte reads of the capacity. -/
theorem virtio_blk_io_read_half (data : Nat) (dev : vioblk_dev) (hd : data < 2 ^ 32)
    (j : Nat) (hj : j < 4) :
    virtio_blk_io_read (VIRTIO_CONFIG_DEVICE_CONFIG_NOMSI + 2 * j) data 2 dev
      = 2 ^ 16 * (data / 2 ^ 16) + dev.sz / 2 ^ (16 * j) % 2 ^ 16 := by
  interval_cases j
  · exact (store_low16_eq data dev.sz hd).trans (by norm_num)
  · exact store_low16_eq data (dev.sz / 2 ^ 16) hd
  · exact store_low16_eq data (dev.sz / 2 ^ 32) hd
  · exact store_low16_eq data (dev.sz / 2 ^ 48) hd

/-- C24: for every block device whose capacity `dev.sz` is a 64-bit value and
whose `max_xfer` is a 32-bit value, and every 32-bit data word of the caller:
every register read returns, with `virtio_blk_io_read` in the data word; the
4-byte reads at config offsets 0, 4 and 8 return the low 32 bits of the
capacity, its high 32 bits and `max_xfer`; the 1-byte read at offset `k < 8`
puts byte `k` of the capacity in the low byte of the data word and keeps the
upper three bytes; the 2-byte read at offset `2 * j`, `j < 4`, puts the 16 bits
`j` of the capacity in the low half and keeps the upper half; the reads of any
one width reassemble the capacity. -/
theorem vioblk_config_reads_capacity (hv : Nat → Nat → Nat) (fuel data : Nat) (dev : vioblk_dev)
    (g : GuestMem) (pic : Nat → Bool)
    (hC : dev.sz < 2 ^ 64) (hM : dev.max_xfer < 2 ^ 32) (hd : data < 2 ^ 32) :
    (∀ reg sz, ∃ r, virtio_blk_io hv fuel 1 reg data sz dev g pic = .ret r ∧
      r.data = virtio_blk_io_read reg data sz dev) ∧
    virtio_blk_io_read VIRTIO_CONFIG_DEVICE_CONFIG_NOMSI data 4 dev = dev.sz % 2 ^ 32 ∧
    virtio_blk_io_read (VIRTIO_CONFIG_DEVICE_CONFIG_NOMSI + 4) data 4 dev = dev.sz / 2 ^ 32 ∧
    virtio_blk_io_read (VIRTIO_CONFIG_DEVICE_CONFIG_NOMSI + 8) data 4 dev = dev.max_xfer ∧
    (∀ k, k < 8 →
      virtio_blk_io_read (VIRTIO_CONFIG_DEVICE_CONFIG_NOMSI + k) data 1 dev % 2 ^ 8
        = dev.sz / 2 ^ (8 * k) % 2 ^ 8 ∧
      virtio_blk_io_read (VIRTIO_CONFIG_DEVICE_CONFIG_NOMSI + k) data 1 dev / 2 ^ 8
        = data / 2 ^ 8) ∧
    (∀ j, j < 4 →
      virtio_blk_io_read (VIRTIO_CONFIG_DEVICE_CONFIG_NOMSI + 2 * j) data 2 dev % 2 ^ 16
        = dev.sz / 2 ^ (16 * j) % 2 ^ 16 ∧
      virtio_blk_io_read (VIRTIO_CONFIG_DEVICE_CONFIG_NOMSI + 2 * j) data 2 dev / 2 ^ 16
        = data / 2 ^ 16) ∧
    virtio_blk_io_read VIRTIO_CONFIG_DEVICE_CONFIG_NOMSI data 4 dev
      + 2 ^ 32 * virtio_blk_io_read (VIRTIO_CONFIG_DEVICE_CONFIG_NOMSI + 4) data 4 dev = dev.sz ∧
    (Finset.sum (Finset.range 4) fun j =>
      virtio_blk_io_read (VIRTIO_CONFIG_DEVICE_CONFIG_NOMSI + 2 * j) data 2 dev % 2 ^ 16
        * 2 ^ (16 * j)) = dev.sz ∧
    (Finset.sum (Finset.range 8) fun k =>
      virtio_blk_io_read (VIRTIO_CONFIG_DEVICE_CONFIG_NOMSI + k) data 1 dev % 2 ^ 8
        * 2 ^ (8 * k)) = dev.sz := by
  have h0 : virtio_blk_io_read VIRTIO_CONFIG_DEVICE_CONFIG_NOMSI data 4 dev = dev.sz % 2 ^ 32 :=
    rfl
  have h4 : virtio_blk_io_read (VIRTIO_CONFIG_DEVICE_CONFIG_NOMSI + 4) data 4 dev
      = dev.sz / 2 ^ 32 :=
    (rfl : _ = (dev.sz / 2 ^ 32) % 2 ^ 32).trans (Nat.mod_eq_of_lt (by omega))
  have h8 : virtio_blk_io_read (VIRTIO_CONFIG_DEVICE_CONFIG_NOMSI + 8) data 4 dev
      = dev.max_xfer :=
    (rfl : _ = dev.max_xfer % 2 ^ 32).trans (Nat.mod_eq_of_lt hM)
  have hb : ∀ k, k < 8 →
      virtio_blk_io_read (VIRTIO_CONFIG_DEVICE_CONFIG_NOMSI + k) data 1 dev % 2 ^ 8
        = dev.sz / 2 ^ (8 * k) % 2 ^ 8 ∧
      virtio_blk_io_read (VIRTIO_CONFIG_DEVICE_CONFIG_NOMSI + k) data 1 dev / 2 ^ 8
        = data / 2 ^ 8 := by
    intro k hk
    rw [virtio_blk_io_read_byte data dev hd k hk]
    generalize dev.sz / 2 ^ (8 * k) = c
    omega
  have hh : ∀ j, j < 4 →
      virtio_blk_io_read (VIRTIO_CONFIG_DEVICE_CONFIG_NOMSI + 2 * j) data 2 dev % 2 ^ 16
        = dev.sz / 2 ^ (16 * j) % 2 ^ 16 ∧
      virtio_blk_io_read (VIRTIO_CONFIG_DEVICE_CONFIG_NOMSI + 2 * j) data 2 dev / 2 ^ 16
        = data / 2 ^ 16 := by
    intro j hj
    rw [virtio_blk_io_read_half data dev hd j hj]
    generalize dev.sz / 2 ^ (16 * j) = c
    omega
  refine ⟨fun reg sz => virtio_blk_io_read_ret hv fuel reg data sz dev g pic, h0, h4, h8, hb, hh,
    ?_, ?_, ?_⟩
  · rw [h0, h4]
    omega
  · rw [Finset.sum_congr rfl (fun j hj => by rw [(hh j (Finset.mem_range.mp hj)).1])]
    simp only [Finset.sum_range_succ, Finset.sum_range_zero]
    norm_num
    omega
  · rw [Finset.sum_congr rfl (fun k hk => by rw [(hb k (Finset.mem_range.mp hk)).1])]
    simp only [Finset.sum_range_succ, Finset.sum_range_zero]
    norm_num
    omega

/-- C24 at concrete inputs: a capacity of `0x0123456789ABCDEF` sectors, a
`max_xfer` of 1048576 and the data word `0xAABBCCDD`.  The 4-byte reads return
`0x89ABCDEF`, `0x01234567` and 1048576, the 1-byte read at offset 3 leaves
`0xAABBCC89`, the 2-byte read at offset 6 leaves `0xAABB0123`. -/
theorem vioblk_config_reads_capacity_witness :
    blk_dev_capacity.sz < 2 ^ 64 ∧ blk_dev_capacity.max_xfer < 2 ^ 32 ∧
    0xAABBCCDD < 2 ^ 32 ∧
    (∃ r, virtio_blk_io hvaddr_flat 128 1 (VIRTIO_CONFIG_DEVICE_CONFIG_NOMSI + 3) 0xAABBCCDD 1
        blk_dev_capacity (mem_with_ring blk_ring_flush) pic_idle = .ret r ∧
      r.data = 0xAABBCC89) ∧
    (∃ r, virtio_blk_io hvaddr_flat 128 1 (VIRTIO_CONFIG_DEVICE_CONFIG_NOMSI + 6) 0xAABBCCDD 2
        blk_dev_capacity (mem_with_ring blk_ring_flush) pic_idle = .ret r ∧
      r.data = 0xAABB0123) ∧
    virtio_blk_io_read VIRTIO_CONFIG_DEVICE_CONFIG_NOMSI 0xAABBCCDD 4 blk_dev_capacity
      = 0x89ABCDEF ∧
    virtio_blk_io_read (VIRTIO_CONFIG_DEVICE_CONFIG_NOMSI + 4) 0xAABBCCDD 4 blk_dev_capacity
      = 0x01234567 ∧
    virtio_blk_io_read (VIRTIO_CONFIG_DEVICE_CONFIG_NOMSI + 8) 0xAABBCCDD 4 blk_dev_capacity
      = 1048576 ∧
    virtio_blk_io_read VIRTIO_CONFIG_DEVICE_CONFIG_NOMSI 0xAABBCCDD 4 blk_dev_capacity
      + 2 ^ 32 * virtio_blk_io_read (VIRTIO_CONFIG_DEVICE_CONFIG_NOMSI + 4) 0xAABBCCDD 4
          blk_dev_capacity = 0x0123456789ABCDEF := by
  have hw := vioblk_config_reads_capacity hvaddr_flat 128 0xAABBCCDD blk_dev_capacity
    (mem_with_ring blk_ring_flush) pic_idle (by decide) (by decide) (by decide)
  obtain ⟨r3, hr3, hd3⟩ := hw.1 (VIRTIO_CONFIG_DEVICE_CONFIG_NOMSI + 3) 1
  obtain ⟨r6, hr6, hd6⟩ := hw.1 (VIRTIO_CONFIG_DEVICE_CONFIG_NOMSI + 6) 2
  exact ⟨by decide, by decide, by decide, ⟨r3, hr3, hd3.trans (by decide)⟩,
    ⟨r6, hr6, hd6.trans (by decide)⟩, hw.2.1.trans (by decide), hw.2.2.1.trans (by decide),
    hw.2.2.2.1, hw.2.2.2.2.2.2.1⟩

/-! ## C25, C26: a shutdown request of the host -/

/-- C25, the code at the failing input: the control device is in DRIVER_OK with
no command recorded, `VMMCI_TIMEOUT` is 3.  `vmmci_ctl(VMMCI_SHUTDOWN)` returns
0; afterwards the recorded command is `VMMCI_SHUTDOWN`, `isr_status` is the
config-change bit, line 5 is asserted and the timer is armed with 3 seconds.
The local variable `cmd` holds `VMMCI_REBOOT` at the return, but the read of
the command register at config offset 0 returns the recorded command,
`VMMCI_SHUTDOWN`. -/
theorem vmmci_ctl_shutdown_is_read_as_shutdown :
    vmmci_dev_ok.cfg.device_status &&& VIRTIO_CONFIG_DEVICE_STATUS_DRIVER_OK ≠ 0 ∧
    ∃ r, vmmci_ctl 3 VMMCI_SHUTDOWN vmmci_dev_ok pic_idle = some r ∧
      r.ret = 0 ∧ r.dev.cmd = VMMCI_SHUTDOWN ∧
      r.dev.cfg.isr_status = VIRTIO_CONFIG_ISR_CONFIG_CHANGE ∧ r.pic 5 = true ∧
      r.dev.timeout = some 3 ∧ r.cmd = VMMCI_REBOOT ∧
      (vmmci_io 3 120 (0, 0) 1 VIRTIO_CONFIG_DEVICE_CONFIG_NOMSI 0 r.dev r.pic).1
        = VMMCI_SHUTDOWN ∧
      VMMCI_SHUTDOWN ≠ VMMCI_REBOOT := by
  refine ⟨by decide, _, rfl, ?_⟩
  decide

/-- C26, the code at the failing input: after `vmmci_ctl(VMMCI_SHUTDOWN)` on
the device in DRIVER_OK (`VMMCI_TIMEOUT` 3, `VMMCI_SHUTDOWN_TIMEOUT` 120) the
timer is armed with 3 seconds.  The guest write of `VMMCI_REBOOT` to the
command register leaves it at 3 seconds; the guest write of `VMMCI_SHUTDOWN`,
the recorded command, replaces it by 120 seconds. -/
theorem vmmci_ack_reboot_keeps_short_timer :
    ∃ r, vmmci_ctl 3 VMMCI_SHUTDOWN vmmci_dev_ok pic_idle = some r ∧
      r.dev.timeout = some 3 ∧
      (vmmci_io 3 120 (0, 0) 0 VIRTIO_CONFIG_DEVICE_CONFIG_NOMSI VMMCI_REBOOT r.dev
        r.pic).2.2.1.timeout = some 3 ∧
      (vmmci_io 3 120 (0, 0) 0 VIRTIO_CONFIG_DEVICE_CONFIG_NOMSI VMMCI_SHUTDOWN r.dev
        r.pic).2.2.1.timeout = some 120 := by
  refine ⟨_, rfl, ?_⟩
  decide

/-! ## C27: the wall-clock registers of the control device -/

/-- C27, the code at the failing input: `gettimeofday` delivers
`tv_sec = 0x100000005`, `tv_usec = 999999` at the read of config offset 4.  The
read returns 5 and records the snapshot; the reads at offsets 8, 12 and 16,
made while the clock shows another time, leave the snapshot as it is and
return 0, 999999 and 0.  The high 32 bits of `tv_sec` are 1: the two halves
read for the seconds do not reassemble `tv_sec`. -/
theorem vmmci_io_sec_hi_reads_zero :
    ∃ d1, (vmmci_io 3 120 (0x100000005, 999999) 1 (VIRTIO_CONFIG_DEVICE_CONFIG_NOMSI + 4) 0
        vmmci_dev_ok pic_idle) = (5, 0xFF, d1, pic_idle) ∧
      d1.time = (0x100000005, 999999) ∧
      vmmci_io 3 120 (0x100000777, 1) 1 (VIRTIO_CONFIG_DEVICE_CONFIG_NOMSI + 8) 0 d1 pic_idle
        = (0, 0xFF, d1, pic_idle) ∧
      vmmci_io 3 120 (0x100000777, 1) 1 (VIRTIO_CONFIG_DEVICE_CONFIG_NOMSI + 12) 0 d1 pic_idle
        = (999999, 0xFF, d1, pic_idle) ∧
      vmmci_io 3 120 (0x100000777, 1) 1 (VIRTIO_CONFIG_DEVICE_CONFIG_NOMSI + 16) 0 d1 pic_idle
        = (0, 0xFF, d1, pic_idle) ∧
      0x100000005 / 2 ^ 32 = 1 ∧ 5 + 2 ^ 32 * 0 ≠ 0x100000005 := by
  refine ⟨_, rfl, rfl, rfl, rfl, rfl, ?_, ?_⟩ <;> decide

/-! ## C28: host pointers in the restore stream -/

/-- C28, the code at the failing input: two streams carry the same devices,
rings recorded at guest address `0x10000`, and differ in the bytes of `q_hva`
only (`0xDEAD0000` in one, `0xBEEF0000` in the other).  The three restore
functions return, the identifiers are set afresh, and `q_hva` of queue 0 of the
restored devices is the value of the stream: `0xDEAD0000` after one restore,
`0xBEEF0000` after the other, while the guest address resolves to `0x10001`. -/
theorem restore_keeps_streamed_host_pointer :
    hvaddr_flat 0x10000 (vring_size VIORND_QUEUE_SIZE) = 0x10001 ∧
    (∃ d1 d2, viornd_restore (some (rng_blob 0xDEAD0000)) true 5 1 = some d1 ∧
      viornd_restore (some (rng_blob 0xBEEF0000)) true 5 1 = some d2 ∧
      d1.irq = 5 ∧ d1.vm_id = 1 ∧ (d1.vq 0).q_gpa = 0x10000 ∧ (d2.vq 0).q_gpa = 0x10000 ∧
      (d1.vq 0).q_hva = 0xDEAD0000 ∧ (d2.vq 0).q_hva = 0xBEEF0000) ∧
    (∃ d1 d2, vioblk_restore (some [blk_blob 0xDEAD0000]) (fun _ => true)
        (fun _ => some (disk_pattern, 1048576)) (fun _ => 5) 1 = some [d1] ∧
      vioblk_restore (some [blk_blob 0xBEEF0000]) (fun _ => true)
        (fun _ => some (disk_pattern, 1048576)) (fun _ => 5) 1 = some [d2] ∧
      d1.irq = 5 ∧ d1.vm_id = 1 ∧ (d1.vq 0).q_gpa = 0x10000 ∧ (d2.vq 0).q_gpa = 0x10000 ∧
      (d1.vq 0).q_hva = 0xDEAD0000 ∧ (d2.vq 0).q_hva = 0xBEEF0000) ∧
    (∃ d1 d2, vionet_restore (some [net_blob 0xDEAD0000]) (fun _ => true) (fun _ => true)
        (fun _ => 4) (fun _ => 5) 1 = some [d1] ∧
      vionet_restore (some [net_blob 0xBEEF0000]) (fun _ => true) (fun _ => true)
        (fun _ => 4) (fun _ => 5) 1 = some [d2] ∧
      d1.irq = 5 ∧ d1.vm_id = 1 ∧ d1.fd = 4 ∧
      (d1.vq RXQ).q_gpa = 0x10000 ∧ (d2.vq RXQ).q_gpa = 0x10000 ∧
      (d1.vq RXQ).q_hva = 0xDEAD0000 ∧ (d2.vq RXQ).q_hva = 0xBEEF0000 ∧
      (d1.vq TXQ).q_hva = 0xDEAD0000 ∧ (d2.vq TXQ).q_hva = 0xBEEF0000) := by
  refine ⟨by decide, ⟨_, _, rfl, rfl, ?_⟩, ⟨_, _, rfl, rfl, ?_⟩, ⟨_, _, rfl, rfl, ?_⟩⟩ <;> decide

/-! ## C29: size and layout of a ring -/

/-- The macro `VIRTQUEUE_ALIGN` rounds up to the next multiple of 4096. -/
theorem VIRTQUEUE_ALIGN_spec (n : Nat) :
    n ≤ VIRTQUEUE_ALIGN n ∧ VIRTQUEUE_ALIGN n < n + 4096 ∧ VIRTQUEUE_ALIGN n % 4096 = 0 := by
  simp only [VIRTQUEUE_ALIGN, VIRTIO_PAGE_SIZE]
  omega

/-- C29: for every queue size `qs` for which the two aligned sizes add up to
less than `2 ^ 32`, `vring_size qs` is
`VIRTQUEUE_ALIGN (16 * qs + 2 * (2 + qs)) + VIRTQUEUE_ALIGN (2 * 2 + 8 * qs)`,
where `VIRTQUEUE_ALIGN` rounds up to a multiple of 4096.  For queue bookkeeping
with the offsets `virtio_init` computes (avail offset `16 * qs`, used offset
`VIRTQUEUE_ALIGN (16 * qs + 2 * (2 + qs))`) the descriptor table `[0, 16 * qs)`,
the avail ring and the used ring follow each other without overlap, the used
ring ends inside the first `vring_size qs` bytes, and the used offset is a
multiple of 4096.  The queues of the entropy, block and network device as
`virtio_init` leaves them have these offsets, with `qs` 64, 128 and 256. -/
theorem vring_size_layout (qs : Nat)
    (h : VIRTQUEUE_ALIGN (16 * qs + 2 * (2 + qs)) + VIRTQUEUE_ALIGN (2 * 2 + 8 * qs) < 2 ^ 32) :
    vring_size qs
      = VIRTQUEUE_ALIGN (16 * qs + 2 * (2 + qs)) + VIRTQUEUE_ALIGN (2 * 2 + 8 * qs) ∧
    (∀ n, n ≤ VIRTQUEUE_ALIGN n ∧ VIRTQUEUE_ALIGN n < n + 4096 ∧ VIRTQUEUE_ALIGN n % 4096 = 0) ∧
    (∀ vq : virtio_vq_info, vq.qs = qs → vq.vq_availoffset = 16 * qs →
      vq.vq_usedoffset = VIRTQUEUE_ALIGN (16 * qs + 2 * (2 + qs)) →
      vring_desc_end vq ≤ vq.vq_availoffset ∧ vring_avail_end vq ≤ vq.vq_usedoffset ∧
      vring_desc_end vq ≤ vq.vq_usedoffset ∧ vring_used_end vq ≤ vring_size qs ∧
      vq.vq_usedoffset % 4096 = 0) ∧
    (∀ irq vm_id file sz fd mac lockedmac islocal,
      (qs = VIORND_QUEUE_SIZE → ((viornd_init irq vm_id).vq 0).qs = qs ∧
        ((viornd_init irq vm_id).vq 0).vq_availoffset = 16 * qs ∧
        ((viornd_init irq vm_id).vq 0).vq_usedoffset
          = VIRTQUEUE_ALIGN (16 * qs + 2 * (2 + qs))) ∧
      (qs = VIOBLK_QUEUE_SIZE → ((vioblk_init file sz irq vm_id).vq 0).qs = qs ∧
        ((vioblk_init file sz irq vm_id).vq 0).vq_availoffset = 16 * qs ∧
        ((vioblk_init file sz irq vm_id).vq 0).vq_usedoffset
          = VIRTQUEUE_ALIGN (16 * qs + 2 * (2 + qs))) ∧
      (qs = VIONET_QUEUE_SIZE → ∀ q, q = RXQ ∨ q = TXQ →
        ((vionet_init fd mac lockedmac islocal irq vm_id).vq q).qs = qs ∧
        ((vionet_init fd mac lockedmac islocal irq vm_id).vq q).vq_availoffset = 16 * qs ∧
        ((vionet_init fd mac lockedmac islocal irq vm_id).vq q).vq_usedoffset
          = VIRTQUEUE_ALIGN (16 * qs + 2 * (2 + qs)))) := by
  have hsz : vring_size qs
      = VIRTQUEUE_ALIGN (16 * qs + 2 * (2 + qs)) + VIRTQUEUE_ALIGN (2 * 2 + 8 * qs) := by
    unfold vring_size
    dsimp only
    rw [Nat.mod_eq_of_lt (a := VIRTQUEUE_ALIGN (16 * qs + 2 * (2 + qs))) (by omega),
      Nat.mod_eq_of_lt (a := VIRTQUEUE_ALIGN (2 * 2 + 8 * qs)) (by omega), Nat.mod_eq_of_lt h]
  refine ⟨hsz, VIRTQUEUE_ALIGN_spec, ?_, ?_⟩
  · intro vq hqs hav hus
    have h1 := VIRTQUEUE_ALIGN_spec (16 * qs + 2 * (2 + qs))
    have h2 := VIRTQUEUE_ALIGN_spec (2 * 2 + 8 * qs)
    unfold vring_desc_end vring_avail_end vring_used_end
    rw [hsz, hqs, hav, hus]
    omega
  · intro irq vm_id file sz fd mac lockedmac islocal
    refine ⟨fun e => ?_, fun e => ?_, fun e q hq => ?_⟩
    · subst e
      exact ⟨rfl, rfl, rfl⟩
    · subst e
      exact ⟨rfl, rfl, rfl⟩
    · subst e
      rcases hq with hq | hq <;> subst hq <;> exact ⟨rfl, rfl, rfl⟩

/-- C29 at concrete inputs: the queue of the entropy device, 64 entries.  The
ring is 8192 bytes: descriptors in `[0, 1024)`, the avail ring in
`[1024, 1156)`, the used ring in `[4096, 4612)`. -/
theorem vring_size_layout_witness :
    VIRTQUEUE_ALIGN (16 * 64 + 2 * (2 + 64)) + VIRTQUEUE_ALIGN (2 * 2 + 8 * 64) < 2 ^ 32 ∧
    vring_size 64 = 8192 ∧
    vring_desc_end ((viornd_init 5 1).vq 0) = 1024 ∧
    ((viornd_init 5 1).vq 0).vq_availoffset = 1024 ∧
    vring_avail_end ((viornd_init 5 1).vq 0) = 1156 ∧
    ((viornd_init 5 1).vq 0).vq_usedoffset = 4096 ∧
    vring_used_end ((viornd_init 5 1).vq 0) = 4612 ∧
    vring_used_end ((viornd_init 5 1).vq 0) ≤ vring_size 64 := by
  have hw := vring_size_layout 64 (by decide)
  have hq := (hw.2.2.2 5 1 disk_pattern 0 0 [] 0 0).1 rfl
  have hl := hw.2.2.1 ((viornd_init 5 1).vq 0) hq.1 hq.2.1 hq.2.2
  exact ⟨by decide, hw.1.trans (by decide), by decide, by decide, by decide, by decide,
    by decide, hl.2.2.2.1⟩

/-! ## C30: the copy of a transmit chain stays inside the packet buffer -/

/-- What the size-summing loop went through when it returns a size: `r ≥ 1`
links from `x`, all descriptors between carrying the NEXT flag, the one it
stops at not. -/
theorem vionet_notify_tx_sum_inv (desc : Nat → vring_desc) :
    ∀ (fuel x pktsz cnt pktsz0 dxx : Nat), cnt < VIONET_QUEUE_SIZE →
      vionet_notify_tx_sum desc fuel x pktsz cnt = .ret (some (pktsz0, dxx)) →
      ∃ r, 1 ≤ r ∧ cnt + r < VIONET_QUEUE_SIZE ∧
        (∀ i, 1 ≤ i → i < r →
          (desc (chain_at desc VIONET_QUEUE_MASK x i)).flags &&& VRING_DESC_F_NEXT ≠ 0) ∧
        (desc (chain_at desc VIONET_QUEUE_MASK x r)).flags &&& VRING_DESC_F_NEXT = 0 ∧
        dxx = chain_at desc VIONET_QUEUE_MASK x r ∧
        pktsz0 = (pktsz + chain_len_sum desc VIONET_QUEUE_MASK x r) % 2 ^ 64 := by
  intro fuel
  induction fuel with
  | zero =>
    intro x pktsz cnt pktsz0 dxx _ h
    cases h
  | succ fuel ih =>
    intro x pktsz cnt pktsz0 dxx hcnt h
    have hq : VIONET_QUEUE_SIZE = 256 := rfl
    unfold vionet_notify_tx_sum at h
    dsimp only at h
    by_cases hc : (cnt + 1) % 2 ^ 16 ≥ VIONET_QUEUE_SIZE
    · rw [if_pos hc] at h
      cases h
    rw [if_neg hc] at h
    have hc2 : (cnt + 1) % 2 ^ 16 = cnt + 1 := by rw [hq] at hcnt; omega
    rw [hc2] at h hc
    by_cases hn : (desc ((desc x).next &&& VIONET_QUEUE_MASK)).flags &&& VRING_DESC_F_NEXT ≠ 0
    · rw [if_pos hn] at h
      obtain ⟨r, hr1, hr2, hnext, hlast, hdxx, hsz⟩ := ih _ _ _ _ _ (by omega) h
      refine ⟨r + 1, by omega, by omega, fun i hi1 hi2 => ?_, ?_, ?_, ?_⟩
      · obtain ⟨j, rfl⟩ : ∃ j, i = j + 1 := ⟨i - 1, by omega⟩
        rw [chain_at_succ_start]
        rcases Nat.eq_zero_or_pos j with hj | hj
        · subst hj
          exact hn
        · exact hnext j hj (by omega)
      · rw [chain_at_succ_start]
        exact hlast
      · rw [chain_at_succ_start]
        exact hdxx
      · rw [hsz]
        show _ = (pktsz + ((desc x).len
          + chain_len_sum desc VIONET_QUEUE_MASK ((desc x).next &&& VIONET_QUEUE_MASK) r)) % 2 ^ 64
        omega
    · rw [if_neg hn] at h
      have hn0 : (desc ((desc x).next &&& VIONET_QUEUE_MASK)).flags &&& VRING_DESC_F_NEXT = 0 :=
        not_not.mp hn
      injection h with h
      injection h with h
      injection h with h1 h2
      refine ⟨1, le_refl 1, by omega, fun i hi1 hi2 => by omega, hn0, h2.symm, ?_⟩
      rw [← h1]
      show _ = (pktsz + ((desc x).len + 0)) % 2 ^ 64
      rfl

/-- The sum of the lengths of the first `i` descriptors of a chain grows with
`i`. -/
theorem chain_len_sum_mono (desc : Nat → vring_desc) (mask start : Nat) :
    ∀ (j i : Nat), i ≤ j → chain_len_sum desc mask start i ≤ chain_len_sum desc mask start j := by
  intro j
  induction j with
  | zero =>
    intro i hi
    have : i = 0 := by omega
    subst this
    exact le_refl _
  | succ j ih =>
    intro i hi
    rcases Nat.eq_or_lt_of_le hi with h | h
    · subst h
      exact le_refl _
    · have := ih i (by omega)
      rw [chain_len_sum_succ]
      omega

/-- The lengths of `k` descriptors of 32 bits add up to less than
`k * 2 ^ 32 + 1`. -/
theorem chain_len_sum_le (desc : Nat → vring_desc) (mask : Nat)
    (hlen : ∀ i, (desc i).len < 2 ^ 32) :
    ∀ (k start : Nat), chain_len_sum desc mask start k ≤ k * 2 ^ 32 := by
  intro k
  induction k with
  | zero => intro start; exact le_refl _
  | succ k ih =>
    intro start
    have h1 := ih ((desc start).next &&& mask)
    have h2 := hlen start
    simp only [chain_len_sum]
    rw [Nat.succ_mul]
    omega

/-- The copy loop after `i` descriptors that carry the NEXT flag, are not
writable, are mapped and fit the room left in the packet: it is at descriptor
number `i` of the chain, `ofs` has advanced by the sum of their lengths and the
buffer holds their guest buffers one after the other from the old `ofs` on. -/
theorem vionet_notify_tx_copy_prefix (g : GuestMem) (desc : Nat → vring_desc) (pktsz : Nat)
    (hsz : pktsz < 2 ^ 31) :
    ∀ (i fuel x ofs : Nat) (pkt : Nat → Nat), i + 1 ≤ fuel →
      ofs + chain_len_sum desc VIONET_QUEUE_MASK x i ≤ pktsz →
      (∀ j, j < i →
        (desc (chain_at desc VIONET_QUEUE_MASK x j)).flags &&& VRING_DESC_F_NEXT ≠ 0) →
      (∀ j, j < i → tx_desc_ok g (desc (chain_at desc VIONET_QUEUE_MASK x j))) →
      vionet_notify_tx_copy g desc pktsz fuel x ofs pkt =
        vionet_notify_tx_copy g desc pktsz (fuel - i) (chain_at desc VIONET_QUEUE_MASK x i)
          (ofs + chain_len_sum desc VIONET_QUEUE_MASK x i)
          (host_store pkt ofs (chain_payload g desc VIONET_QUEUE_MASK x i)
            (chain_len_sum desc VIONET_QUEUE_MASK x i)) := by
  intro i
  induction i with
  | zero =>
    intro fuel x ofs pkt _ _ _ _
    simp [chain_at, chain_len_sum, chain_payload, host_store_nil]
  | succ i ih =>
    intro fuel x ofs pkt hfuel hroom hnext hok
    obtain ⟨fuel, rfl⟩ : ∃ f, fuel = f + 1 := ⟨fuel - 1, by omega⟩
    have hn : (desc x).flags &&& VRING_DESC_F_NEXT ≠ 0 := hnext 0 (by omega)
    obtain ⟨hw, hm⟩ : tx_desc_ok g (desc x) := hok 0 (by omega)
    simp only [chain_len_sum] at hroom
    have hofs : int_to_size ofs = ofs := int_to_size_of_lt ofs (by omega)
    have hsub : size_sub pktsz ofs = pktsz - ofs := size_sub_of_le pktsz ofs (by omega) (by omega)
    have hlen : ¬ ((desc x).len > pktsz - ofs) := by omega
    have hmod : (ofs + (desc x).len) % 2 ^ 32 = ofs + (desc x).len := by omega
    have hstep : vionet_notify_tx_copy g desc pktsz (fuel + 1) x ofs pkt =
        vionet_notify_tx_copy g desc pktsz fuel ((desc x).next &&& VIONET_QUEUE_MASK)
          (ofs + (desc x).len) (host_store pkt ofs (desc_buf g (desc x)) (desc x).len) := by
      rw [vionet_notify_tx_copy]
      simp only [hn, hw, ne_eq, not_false_eq_true, not_true_eq_false, if_true, if_false, hofs,
        hsub, hlen, read_mem_mapped g (desc x) hm, hmod]
    rw [hstep, ih fuel _ _ _ (by omega) (by omega)
      (fun j hj => by have := hnext (j + 1) (by omega); rwa [chain_at_succ_start] at this)
      (fun j hj => by have := hok (j + 1) (by omega); rwa [chain_at_succ_start] at this)]
    rw [chain_at_succ_start]
    simp only [chain_len_sum, chain_payload]
    have hbl : (desc_buf g (desc x)).length = (desc x).len := by simp [desc_buf]
    have := host_store_append pkt ofs (desc_buf g (desc x))
      (chain_payload g desc VIONET_QUEUE_MASK ((desc x).next &&& VIONET_QUEUE_MASK) i)
      (chain_len_sum desc VIONET_QUEUE_MASK ((desc x).next &&& VIONET_QUEUE_MASK) i)
    rw [hbl] at this
    rw [this, Nat.add_assoc, Nat.succ_sub_succ]

/-- The copy loop at a descriptor that carries the NEXT flag and fits the room
left, but is writable or not mapped: it leaves through `goto out`. -/
theorem vionet_notify_tx_copy_stops (g : GuestMem) (desc : Nat → vring_desc) (pktsz : Nat)
    (hsz : pktsz < 2 ^ 31) (fuel x ofs : Nat) (pkt : Nat → Nat)
    (hroom : ofs + (desc x).len ≤ pktsz)
    (hn : (desc x).flags &&& VRING_DESC_F_NEXT ≠ 0) (hbad : ¬ tx_desc_ok g (desc x)) :
    vionet_notify_tx_copy g desc pktsz (fuel + 1) x ofs pkt = .ret none := by
  have hofs : int_to_size ofs = ofs := int_to_size_of_lt ofs (by omega)
  have hsub : size_sub pktsz ofs = pktsz - ofs := size_sub_of_le pktsz ofs (by omega) (by omega)
  have hlen : ¬ ((desc x).len > pktsz - ofs) := by omega
  rw [vionet_notify_tx_copy]
  dsimp only
  rw [if_pos hn]
  by_cases hw : (desc x).flags &&& VRING_DESC_F_WRITE ≠ 0
  · rw [if_pos hw]
  rw [if_neg hw, hofs, hsub, if_neg hlen]
  have hm : g.mapped (desc x).addr (desc x).len ≠ true := fun hm => hbad ⟨not_not.mp hw, hm⟩
  have hrd : read_mem g (desc x).addr (desc x).len = none := by
    unfold read_mem
    rw [if_neg hm]
  rw [hrd]

/-- The packet buffer after the tail descriptor has been stored behind the
buffers of the descriptors before it holds the buffers of all of them. -/
theorem map_host_store_payload (g : GuestMem) (desc : Nat → vring_desc) (x n : Nat)
    (pkt : Nat → Nat) :
    (List.range (chain_len_sum desc VIONET_QUEUE_MASK x (n + 1))).map
      (host_store (host_store pkt 0 (chain_payload g desc VIONET_QUEUE_MASK x n)
          (chain_len_sum desc VIONET_QUEUE_MASK x n))
        (chain_len_sum desc VIONET_QUEUE_MASK x n)
        (desc_buf g (desc (chain_at desc VIONET_QUEUE_MASK x n)))
        (desc (chain_at desc VIONET_QUEUE_MASK x n)).len)
      = chain_payload g desc VIONET_QUEUE_MASK x (n + 1) := by
  have h2 := host_store_append pkt 0 (chain_payload g desc VIONET_QUEUE_MASK x n)
    (desc_buf g (desc (chain_at desc VIONET_QUEUE_MASK x n)))
    (desc (chain_at desc VIONET_QUEUE_MASK x n)).len
  rw [chain_payload_length, Nat.zero_add] at h2
  rw [h2, ← chain_payload_succ, ← chain_len_sum_succ, ← chain_payload_length g]
  exact map_host_store_zero _ _

/-- C30, the claim as stated fails on the code.  The chain is a 12-byte
header, a 10-byte data descriptor and a 6-byte tail descriptor that is
writable.  The size loop returns 22 at `desc[2]`, the packet size 16 passes the
size check, the copy loop stores the 10 bytes of `desc[1]` and stops at the
tail with `ofs = 10`; the tail is writable, so the call ends there: 10 bytes of
the 16 have been copied and nothing is handed to the tap. -/
theorem vionet_notify_tx_writable_tail_cuts_copy :
    vionet_notify_tx_sum tx_ring_writable_tail.desc 256 0 0 0 = .ret (some (22, 2)) ∧
    size_sub ((22 + (tx_ring_writable_tail.desc 2).len) % 2 ^ 64)
      (tx_ring_writable_tail.desc 0).len = 16 ∧
    ¬ (16 < 14 ∨ 16 > 16398) ∧
    (∃ pkt1, vionet_notify_tx_copy (mem_pattern_with_ring tx_ring_writable_tail)
        tx_ring_writable_tail.desc 16 256 1 0 (fun _ => 0) = .ret (some (2, 10, pkt1)) ∧
      pkt1 9 = (0x1000 + 9) % 256 ∧ pkt1 10 = 0) ∧
    (tx_ring_writable_tail.desc 2).flags &&& VRING_DESC_F_WRITE ≠ 0 ∧
    (∃ r dev1 g1 tap1, vionet_notify_tx 14 16398 dhcp_none 256 (net_dev 0)
        (mem_pattern_with_ring tx_ring_writable_tail) tap_accepting = .ret (r, dev1, g1, tap1) ∧
      tap1.sent = []) := by
  refine ⟨rfl, by decide, by decide, ⟨_, rfl, ?_, ?_⟩, by decide, ⟨_, _, _, _, rfl, ?_⟩⟩ <;>
    decide

/-- C30, amended.  Let the descriptor table `desc` of the transmit ring hold
32-bit lengths and stay as it is during the call, let the size-summing loop of
`vionet_notify_tx` on the chain headed by `h` return, and let the packet size
`pktsz` computed from it pass the size check (`VIONET_MAX_TXLEN` below
`2 ^ 31`).  Then the chain has `n + 1` data descriptors, counted from
`desc[h].next`, the last of them the tail `dxx` the size loop stopped at, and
their lengths add up to `pktsz`.

* At every data descriptor `i` the test `pkt_desc->len > pktsz - ofs` of the
  source fails, with `ofs` the sum of the lengths before it.
* As long as the descriptors before `i` are not writable and are mapped, the
  copy loop reaches descriptor `i` with that `ofs` and with the guest buffers
  of the descriptors before `i` stored one after the other from offset 0 of
  the packet buffer on.
* At the first descriptor before the tail that is writable or not mapped the
  copy loop leaves through `goto out`; when there is none it stops at the tail.
* When a data descriptor, the tail included, is writable or not mapped, the
  pass of the loop of `vionet_notify_tx` over the chain returns without a
  `write` to the tap.  When there is none, the bytes copied are the guest
  buffers of the `n + 1` data descriptors, `pktsz` bytes in all; with
  `lockedmac` and `local` off these bytes are what is handed to the tap. -/
theorem vionet_notify_tx_copy_within_packet (MIN_TXLEN MAX_TXLEN : Nat)
    (dhcp_request : List Nat → Nat → Int × List Nat) (fuel : Nat) (s : TxState) (vr idx : Nat)
    (desc : Nat → vring_desc) (h pktsz0 dxx pktsz : Nat)
    (hdesc : (s.g.vring vr).desc = desc)
    (hh : (s.g.vring vr).avail.ring idx &&& VIONET_QUEUE_MASK = h)
    (hmax : MAX_TXLEN < 2 ^ 31) (hfuel : VIONET_QUEUE_SIZE ≤ fuel)
    (hlen : ∀ i, (desc i).len < 2 ^ 32)
    (hsum : vionet_notify_tx_sum desc fuel h 0 0 = .ret (some (pktsz0, dxx)))
    (hp : size_sub ((pktsz0 + (desc dxx).len) % 2 ^ 64) (desc h).len = pktsz)
    (hchk : ¬ (pktsz < MIN_TXLEN ∨ pktsz > MAX_TXLEN)) :
    ∃ n, n + 1 < VIONET_QUEUE_SIZE ∧ tx_data_idx desc h n = dxx ∧
      (∀ i, i < n → (desc (tx_data_idx desc h i)).flags &&& VRING_DESC_F_NEXT ≠ 0) ∧
      (desc (tx_data_idx desc h n)).flags &&& VRING_DESC_F_NEXT = 0 ∧
      tx_data_ofs desc h (n + 1) = pktsz ∧
      (∀ i, i ≤ n →
        ¬ ((desc (tx_data_idx desc h i)).len
          > size_sub pktsz (int_to_size (tx_data_ofs desc h i))) ∧
        tx_data_ofs desc h i + (desc (tx_data_idx desc h i)).len ≤ pktsz) ∧
      (∀ (pkt : Nat → Nat) (i : Nat), i ≤ n →
        (∀ j, j < i → tx_desc_ok s.g (desc (tx_data_idx desc h j))) →
        vionet_notify_tx_copy s.g desc pktsz fuel (tx_data_idx desc h 0) 0 pkt =
          vionet_notify_tx_copy s.g desc pktsz (fuel - i) (tx_data_idx desc h i)
            (tx_data_ofs desc h i)
            (host_store pkt 0 (tx_data_payload s.g desc h i) (tx_data_ofs desc h i))) ∧
      (∀ (pkt : Nat → Nat) (i : Nat), i < n →
        (∀ j, j < i → tx_desc_ok s.g (desc (tx_data_idx desc h j))) →
        ¬ tx_desc_ok s.g (desc (tx_data_idx desc h i)) →
        vionet_notify_tx_copy s.g desc pktsz fuel (tx_data_idx desc h 0) 0 pkt = .ret none) ∧
      (∀ (pkt : Nat → Nat),
        (∀ j, j < n → tx_desc_ok s.g (desc (tx_data_idx desc h j))) →
        vionet_notify_tx_copy s.g desc pktsz fuel (tx_data_idx desc h 0) 0 pkt =
          .ret (some (dxx, tx_data_ofs desc h n,
            host_store pkt 0 (tx_data_payload s.g desc h n) (tx_data_ofs desc h n)))) ∧
      (∀ i, i ≤ n →
        (∀ j, j < i → tx_desc_ok s.g (desc (tx_data_idx desc h j))) →
        ¬ tx_desc_ok s.g (desc (tx_data_idx desc h i)) →
        ∃ b s1, vionet_notify_tx_body MIN_TXLEN MAX_TXLEN dhcp_request fuel s vr idx
            = .ret (b, s1) ∧
          s1.tap = s.tap) ∧
      ((∀ j, j ≤ n → tx_desc_ok s.g (desc (tx_data_idx desc h j))) →
        (tx_data_payload s.g desc h (n + 1)).length = pktsz ∧
        (s.dev.lockedmac = 0 → s.dev.islocal = 0 →
          ∃ b s1, vionet_notify_tx_body MIN_TXLEN MAX_TXLEN dhcp_request fuel s vr idx
              = .ret (b, s1) ∧
            s1.tap.sent = s.tap.sent ++ [tx_data_payload s.g desc h (n + 1)])) := by
  have hq : VIONET_QUEUE_SIZE = 256 := rfl
  obtain ⟨r, hr1, hr2, hnext, hlast, hdxx, hsz⟩ :=
    vionet_notify_tx_sum_inv desc fuel h 0 0 pktsz0 dxx (by decide) hsum
  obtain ⟨n, rfl⟩ : ∃ n, r = n + 1 := ⟨r - 1, by omega⟩
  unfold tx_data_idx tx_data_ofs tx_data_payload
  generalize hd1 : (desc h).next &&& VIONET_QUEUE_MASK = d1 at *
  have hat : ∀ i, chain_at desc VIONET_QUEUE_MASK h (i + 1)
      = chain_at desc VIONET_QUEUE_MASK d1 i := by
    intro i
    rw [chain_at_succ_start, hd1]
  have hsplit : chain_len_sum desc VIONET_QUEUE_MASK h (n + 1)
      = (desc h).len + chain_len_sum desc VIONET_QUEUE_MASK d1 n := by
    simp only [chain_len_sum, hd1]
  rw [hat] at hlast hdxx
  have hnx : ∀ i, i < n →
      (desc (chain_at desc VIONET_QUEUE_MASK d1 i)).flags &&& VRING_DESC_F_NEXT ≠ 0 := by
    intro i hi
    have := hnext (i + 1) (by omega) (by omega)
    rwa [hat] at this
  have hb := chain_len_sum_le desc VIONET_QUEUE_MASK hlen n d1
  have hhl := hlen h
  have ht := hlen dxx
  have hn256 : n * 2 ^ 32 ≤ 255 * 2 ^ 32 := Nat.mul_le_mul_right _ (by omega)
  have htot : chain_len_sum desc VIONET_QUEUE_MASK d1 (n + 1) = pktsz := by
    rw [chain_len_sum_succ, ← hdxx, ← hp, hsz, hsplit]
    unfold size_sub
    omega
  have hstep : ∀ i, i ≤ n →
      chain_len_sum desc VIONET_QUEUE_MASK d1 i
        + (desc (chain_at desc VIONET_QUEUE_MASK d1 i)).len ≤ pktsz := by
    intro i hi
    rw [← chain_len_sum_succ, ← htot]
    exact chain_len_sum_mono desc VIONET_QUEUE_MASK d1 (n + 1) (i + 1) (by omega)
  have hpk : pktsz < 2 ^ 31 := by omega
  have htest : ∀ i, i ≤ n →
      ¬ ((desc (chain_at desc VIONET_QUEUE_MASK d1 i)).len
        > size_sub pktsz (int_to_size (chain_len_sum desc VIONET_QUEUE_MASK d1 i))) := by
    intro i hi
    have h1 := hstep i hi
    rw [int_to_size_of_lt _ (by omega), size_sub_of_le _ _ (by omega) (by omega)]
    omega
  have hpre : ∀ (pkt : Nat → Nat) (i : Nat), i ≤ n →
      (∀ j, j < i → tx_desc_ok s.g (desc (chain_at desc VIONET_QUEUE_MASK d1 j))) →
      vionet_notify_tx_copy s.g desc pktsz fuel (chain_at desc VIONET_QUEUE_MASK d1 0) 0 pkt =
        vionet_notify_tx_copy s.g desc pktsz (fuel - i) (chain_at desc VIONET_QUEUE_MASK d1 i)
          (chain_len_sum desc VIONET_QUEUE_MASK d1 i)
          (host_store pkt 0 (chain_payload s.g desc VIONET_QUEUE_MASK d1 i)
            (chain_len_sum desc VIONET_QUEUE_MASK d1 i)) := by
    intro pkt i hi hok
    have h1 := hstep i hi
    have := vionet_notify_tx_copy_prefix s.g desc pktsz hpk i fuel d1 0 pkt (by omega) (by omega)
      (fun j hj => hnx j (by omega)) hok
    rw [Nat.zero_add] at this
    exact this
  have hstop : ∀ (pkt : Nat → Nat) (i : Nat), i < n →
      (∀ j, j < i → tx_desc_ok s.g (desc (chain_at desc VIONET_QUEUE_MASK d1 j))) →
      ¬ tx_desc_ok s.g (desc (chain_at desc VIONET_QUEUE_MASK d1 i)) →
      vionet_notify_tx_copy s.g desc pktsz fuel (chain_at desc VIONET_QUEUE_MASK d1 0) 0 pkt
        = .ret none := by
    intro pkt i hi hok hbad
    rw [hpre pkt i (by omega) hok]
    obtain ⟨f, hf⟩ : ∃ f, fuel - i = f + 1 := ⟨fuel - i - 1, by omega⟩
    rw [hf]
    exact vionet_notify_tx_copy_stops s.g desc pktsz hpk f _ _ _ (hstep i (by omega)) (hnx i hi)
      hbad
  have hdone : ∀ (pkt : Nat → Nat),
      (∀ j, j < n → tx_desc_ok s.g (desc (chain_at desc VIONET_QUEUE_MASK d1 j))) →
      vionet_notify_tx_copy s.g desc pktsz fuel (chain_at desc VIONET_QUEUE_MASK d1 0) 0 pkt =
        .ret (some (dxx, chain_len_sum desc VIONET_QUEUE_MASK d1 n,
          host_store pkt 0 (chain_payload s.g desc VIONET_QUEUE_MASK d1 n)
            (chain_len_sum desc VIONET_QUEUE_MASK d1 n))) := by
    intro pkt hok
    rw [hpre pkt n (le_refl n) hok]
    obtain ⟨f, hf⟩ : ∃ f, fuel - n = f + 1 := ⟨fuel - n - 1, by omega⟩
    rw [hf, vionet_notify_tx_copy]
    simp only [hlast, ne_eq, not_true_eq_false, if_false, hdxx]
  have hc0 : chain_at desc VIONET_QUEUE_MASK d1 0 = d1 := rfl
  have hroom : size_sub pktsz (int_to_size (chain_len_sum desc VIONET_QUEUE_MASK d1 n))
      = (desc dxx).len := by
    have h1 := hstep n (le_refl n)
    rw [← hdxx] at h1
    have h2 := htot
    rw [chain_len_sum_succ, ← hdxx] at h2
    rw [int_to_size_of_lt _ (by omega), size_sub_of_le _ _ (by omega) (by omega)]
    omega
  have hbody_none : vionet_notify_tx_copy s.g desc pktsz fuel d1 0 (fun _ => 0) = .ret none →
      vionet_notify_tx_body MIN_TXLEN MAX_TXLEN dhcp_request fuel s vr idx = .ret (false, s) := by
    intro hc
    unfold vionet_notify_tx_body
    simp only [hdesc, hh, hsum, hp, hchk, if_false, hd1, hc]
  refine ⟨n, by omega, hdxx.symm, hnx, hlast, htot, fun i hi => ⟨htest i hi, hstep i hi⟩,
    hpre, hstop, hdone, ?_, ?_⟩
  · intro i hi hok hbad
    refine ⟨false, s, ?_, rfl⟩
    rcases Nat.lt_or_eq_of_le hi with hlt | heq
    · exact hbody_none (hstop (fun _ => 0) i hlt hok hbad)
    · subst heq
      have hcopy := hdone (fun _ => 0) hok
      rw [hc0] at hcopy
      rw [← hdxx] at hbad
      unfold vionet_notify_tx_body
      simp only [hdesc, hh, hsum, hp, hchk, if_false, hd1, hcopy]
      by_cases hw : (desc dxx).flags &&& VRING_DESC_F_WRITE ≠ 0
      · simp only [hw, ne_eq, not_false_eq_true, if_true]
      · have hm : s.g.mapped (desc dxx).addr (desc dxx).len ≠ true :=
          fun hm => hbad ⟨not_not.mp hw, hm⟩
        have hrd : read_mem s.g (desc dxx).addr (desc dxx).len = none := by
          unfold read_mem
          rw [if_neg hm]
        simp only [hw, if_false, hroom, gt_iff_lt, lt_self_iff_false, hrd]
  · intro hok
    have hlenB : (chain_payload s.g desc VIONET_QUEUE_MASK d1 (n + 1)).length = pktsz := by
      rw [chain_payload_length, htot]
    refine ⟨hlenB, fun hlock hloc => ?_⟩
    have hcopy := hdone (fun _ => 0) (fun j hj => hok j (by omega))
    rw [hc0] at hcopy
    obtain ⟨hw, hm⟩ := hok n (le_refl n)
    rw [← hdxx] at hw hm
    have hpkt := map_host_store_payload s.g desc d1 n (fun _ => 0)
    rw [htot, ← hdxx] at hpkt
    have hofs : int_to_size (chain_len_sum desc VIONET_QUEUE_MASK d1 n)
        = chain_len_sum desc VIONET_QUEUE_MASK d1 n :=
      int_to_size_of_lt _ (by have := hstep n (le_refl n); omega)
    rw [hofs] at hroom
    unfold vionet_notify_tx_body
    simp only [hdesc, hh, hsum, hp, hchk, if_false, hd1, hcopy, hw, ne_eq, not_true_eq_false,
      hofs, hroom, gt_iff_lt, lt_self_iff_false, read_mem_mapped s.g _ hm, hpkt, hlock, hloc,
      false_and]
    split
    · exact ⟨_, _, rfl, rfl⟩
    · exact ⟨_, _, rfl, rfl⟩

/-- C30 at a concrete input: a 12-byte header descriptor followed by data
descriptors of 10 and 6 bytes, neither writable, all memory mapped, `lockedmac`
and `local` off.  The size loop returns 22 at `desc[2]`, the packet size is 16;
the copy loop reaches the tail with `ofs = 10` and the 10 bytes of `desc[1]` in
the buffer, and the 16 bytes of the two buffers are handed to the tap. -/
theorem vionet_notify_tx_copy_within_packet_witness :
    vionet_notify_tx_sum tx_ring_frame.desc 256 0 0 0 = .ret (some (22, 2)) ∧
    size_sub ((22 + (tx_ring_frame.desc 2).len) % 2 ^ 64) (tx_ring_frame.desc 0).len = 16 ∧
    ¬ (16 < 14 ∨ 16 > 16398) ∧
    vionet_notify_tx_copy tx_mem_frame tx_ring_frame.desc 16 256 1 0 (fun _ => 0) =
      .ret (some (2, 10, host_store (fun _ => 0) 0 [0, 1, 2, 3, 4, 5, 6, 7, 8, 9] 10)) ∧
    ∃ b s1, vionet_notify_tx_body 14 16398 dhcp_none 256
        (tx_start (net_dev 0) tx_mem_frame tap_accepting) 2 0 = .ret (b, s1) ∧
      s1.tap.sent = [[0, 1, 2, 3, 4, 5, 6, 7, 8, 9, 0, 1, 2, 3, 4, 5]] := by
  obtain ⟨n, _, _, hnext, hlast, _, _, _, _, hdone, _, hsend⟩ :=
    vionet_notify_tx_copy_within_packet 14 16398 dhcp_none 256
      (tx_start (net_dev 0) tx_mem_frame tap_accepting) 2 0 tx_ring_frame.desc 0 22 2 16
      rfl rfl (by decide) (by decide)
      (fun i => by
        show (if i = 0 then _ else if i = 1 then _ else if i = 2 then _ else zero_desc
          : vring_desc).len < 2 ^ 32
        split_ifs <;> decide)
      rfl (by decide) (by decide)
  have hn : n = 1 := by
    rcases n with _ | _ | n
    · exact absurd hlast (by decide)
    · rfl
    · exact absurd (hnext 1 (by omega)) (by decide)
  subst hn
  obtain ⟨_, hs⟩ := hsend (by decide)
  obtain ⟨b, s1, hb, hsent⟩ := hs rfl rfl
  exact ⟨rfl, by decide, by decide, (hdone (fun _ => 0) (by decide)).trans (by
    show _ = Outcome.ret (some (2, 10, host_store (fun _ => 0) 0 [0, 1, 2, 3, 4, 5, 6, 7, 8, 9] 10))
    rfl), b, s1, hb, hsent.trans (by decide)⟩

end Vmd
